import Mathlib

/-!
# Verification of the ABCU advising program's AVL-tree core

Shallow embedding of `Project_Two.cpp`: the `Course` record, the AVL tree
(`avlInsert`, `avlFind`, `avlInOrder`, the two rotation helpers and the
height bookkeeping), the line parser `parseCourseLine` with its string
utilities, and the report function `printCourseInfo`.

C++ raw pointers become an inductive tree; a null-pointer dereference in a
rotation helper is modelled by `Option` (`none` = crash), so totality of
`avlInsert` is a theorem, not an assumption.  `int height` is modelled by
`Nat` (the code only ever stores `1 + max`), and the balance factor by `Int`
exactly as the source computes it.  Strings are Lean `String`s with the
lexicographic order, matching `std::string::operator<` on the ASCII data the
program handles.
-/

namespace Advising

/-- A kernel-reducible decision procedure for `<` on `String`
(Mathlib's iterator-based one does not reduce under `decide`):
decide the lexicographic order on the underlying character lists. -/
instance (priority := 2000) decLtString (a b : String) : Decidable (a < b) :=
  decidable_of_iff (a.data < b.data) String.lt_iff_toList_lt.symm

/-- `struct Course` from the source: number, title, prerequisites. -/
structure Course where
  number : String
  title : String
  prerequisites : List String
deriving DecidableEq, Repr

/-- `struct AVLNode`: key, value, height and the two child pointers;
`nil` is the null pointer. -/
inductive AVLNode where
  | nil : AVLNode
  | node (key : String) (value : Course) (height : Nat)
      (left : AVLNode) (right : AVLNode) : AVLNode
deriving DecidableEq, Repr

open AVLNode

/-- `nodeHeight`: 0 for null, else the stored `height` field. -/
def nodeHeight : AVLNode → Nat
  | .nil => 0
  | .node _ _ h _ _ => h

/-- `balanceFactor`: `height(left) - height(right)` (0 for null). -/
def balanceFactor : AVLNode → Int
  | .nil => 0
  | .node _ _ _ l r => (nodeHeight l : Int) - (nodeHeight r : Int)

/-- `updateHeight`: recompute the stored height as `1 + max` of the
children's stored heights (no-op on null). -/
def updateHeight : AVLNode → AVLNode
  | .nil => .nil
  | .node k v _ l r => .node k v (1 + max (nodeHeight l) (nodeHeight r)) l r

/-- `rotateRight(y)`: requires `y` and `y->left` non-null (`none` models the
null dereference the C++ would perform otherwise). -/
def rotateRight : AVLNode → Option AVLNode
  | .node yk yv yh (.node xk xv xh xl xr) yr =>
      some (updateHeight (.node xk xv xh xl (updateHeight (.node yk yv yh xr yr))))
  | _ => none

/-- `rotateLeft(x)`: requires `x` and `x->right` non-null. -/
def rotateLeft : AVLNode → Option AVLNode
  | .node xk xv xh xl (.node yk yv yh yl yr) =>
      some (updateHeight (.node yk yv yh (updateHeight (.node xk xv xh xl yl)) yr))
  | _ => none

/-- The `bf > 1` branch pair of `avlInsert` (Left-Left at line 168 and
Left-Right at lines 172–175): reading `node->left->key` dereferences the
left child (`none` if it is null); the Left-Right case first left-rotates
the left child, then right-rotates the node.  `key == node->left->key`
matches no case and falls through to `return node`. -/
def rebalanceLeftHeavy (k : String) (v : Course) (h : Nat) (l r : AVLNode)
    (key : String) : Option AVLNode :=
  match l with
  | .nil => none
  | .node lk lv lh ll lr =>
    if key < lk then rotateRight (.node k v h (.node lk lv lh ll lr) r)
    else if lk < key then
      (rotateLeft (.node lk lv lh ll lr)).bind fun l2 =>
        rotateRight (.node k v h l2 r)
    else some (.node k v h (.node lk lv lh ll lr) r)

/-- The `bf < -1` branch pair of `avlInsert` (Right-Right at line 170 and
Right-Left at lines 177–180), mirror image of `rebalanceLeftHeavy`. -/
def rebalanceRightHeavy (k : String) (v : Course) (h : Nat) (l r : AVLNode)
    (key : String) : Option AVLNode :=
  match r with
  | .nil => none
  | .node rk rv rh rl rr =>
    if rk < key then rotateLeft (.node k v h l (.node rk rv rh rl rr))
    else if key < rk then
      (rotateRight (.node rk rv rh rl rr)).bind fun r2 =>
        rotateLeft (.node k v h l r2)
    else some (.node k v h l (.node rk rv rh rl rr))

/-- Lines 164–182 of `avlInsert`: after `updateHeight(node)`, compute the
balance factor and apply the four key-guarded rotation cases, falling
through to `return node`.  The argument is the already re-heighted node.
(The C++ tests the four cases in the order LL, RR, LR, RL; since `bf > 1`
and `bf < -1` are mutually exclusive, grouping by the sign of `bf` is the
same computation, including which pointers get dereferenced.) -/
def rebalanceAfter (m : AVLNode) (key : String) : Option AVLNode :=
  match m with
  | .nil => some .nil
  | .node k v h l r =>
    let bf := balanceFactor (.node k v h l r)
    if 1 < bf then rebalanceLeftHeavy k v h l r key
    else if bf < -1 then rebalanceRightHeavy k v h l r key
    else some (.node k v h l r)

/-- `avlInsert`: BST descent, duplicate keys overwrite the value in place
and return early; otherwise recompute the height on the way up and
rebalance.  `none` propagates a (modelled) null dereference. -/
def avlInsert : AVLNode → String → Course → Option AVLNode
  | .nil, key, value => some (.node key value 1 .nil .nil)
  | .node k v h l r, key, value =>
    if key < k then
      (avlInsert l key value).bind fun l' =>
        rebalanceAfter (updateHeight (.node k v h l' r)) key
    else if k < key then
      (avlInsert r key value).bind fun r' =>
        rebalanceAfter (updateHeight (.node k v h l r')) key
    else
      some (.node k value h l r)

/-- `avlFind`: plain BST descent; `none` is the explicit not-found result
(the C++ returns `nullptr`); on a hit the stored `Course` is returned. -/
def avlFind : AVLNode → String → Option Course
  | .nil, _ => none
  | .node k v _ l r, key =>
    if key < k then avlFind l key
    else if k < key then avlFind r key
    else some v

/-- `avlInOrder`: left subtree, node, right subtree; each visited node
emits the line `key << ": " << value.title`. -/
def avlInOrder : AVLNode → List String
  | .nil => []
  | .node k v _ l r => avlInOrder l ++ (k ++ ": " ++ v.title) :: avlInOrder r

/-- Number of nodes of a tree. -/
def size : AVLNode → Nat
  | .nil => 0
  | .node _ _ _ l r => size l + size r + 1

/-- In-order list of `(key, value)` entries. -/
def entryList : AVLNode → List (String × Course)
  | .nil => []
  | .node k v _ l r => entryList l ++ (k, v) :: entryList r

/-- In-order list of keys. -/
def keyList (t : AVLNode) : List String := (entryList t).map Prod.fst

/-- Key of the root, if any. -/
def rootKey : AVLNode → Option String
  | .nil => none
  | .node k _ _ _ _ => some k

/-- Invariant 1 (BST order): at every node, all keys of the left subtree
are strictly below the node's key and all keys of the right subtree are
strictly above it. -/
def bst : AVLNode → Prop
  | .nil => True
  | .node k _ _ l r =>
      (∀ x ∈ keyList l, x < k) ∧ (∀ y ∈ keyList r, k < y) ∧ bst l ∧ bst r

/-- Invariant 2 (height correctness): every stored `height` field equals
`1 + max` of the children's heights (absent child counting 0). -/
def heightsOk : AVLNode → Prop
  | .nil => True
  | .node _ _ h l r =>
      h = 1 + max (nodeHeight l) (nodeHeight r) ∧ heightsOk l ∧ heightsOk r

/-- Invariant 3 (AVL balance): at every node the children's heights differ
by at most 1. -/
def balanced : AVLNode → Prop
  | .nil => True
  | .node _ _ _ l r =>
      ((nodeHeight l : Int) - (nodeHeight r : Int)).natAbs ≤ 1 ∧ balanced l ∧ balanced r

instance bst.instDecidable : (t : AVLNode) → Decidable (bst t)
  | .nil => .isTrue trivial
  | .node k v h l r =>
      haveI := bst.instDecidable l
      haveI := bst.instDecidable r
      decidable_of_iff
        ((∀ x ∈ keyList l, x < k) ∧ (∀ y ∈ keyList r, k < y) ∧ bst l ∧ bst r)
        (by simp [bst])

instance heightsOk.instDecidable : (t : AVLNode) → Decidable (heightsOk t)
  | .nil => .isTrue trivial
  | .node k v h l r =>
      haveI := heightsOk.instDecidable l
      haveI := heightsOk.instDecidable r
      decidable_of_iff
        (h = 1 + max (nodeHeight l) (nodeHeight r) ∧ heightsOk l ∧ heightsOk r)
        (by simp [heightsOk])

instance balanced.instDecidable : (t : AVLNode) → Decidable (balanced t)
  | .nil => .isTrue trivial
  | .node k v h l r =>
      haveI := balanced.instDecidable l
      haveI := balanced.instDecidable r
      decidable_of_iff
        (((nodeHeight l : Int) - (nodeHeight r : Int)).natAbs ≤ 1 ∧ balanced l ∧ balanced r)
        (by simp [balanced])

/-- `loadCoursesFromFile`'s insertion loop, restricted to the tree: insert a
list of (key, value) pairs in order, starting from a given tree. -/
def insertAllFrom (t : AVLNode) : List (String × Course) → Option AVLNode
  | [] => some t
  | (k, v) :: rest => (avlInsert t k v).bind fun t' => insertAllFrom t' rest

/-- Insert a list of (key, value) pairs in order into the empty tree. -/
def insertAll (ops : List (String × Course)) : Option AVLNode :=
  insertAllFrom .nil ops

/-! ## Association-list model of the tree contents

`insertEntry` inserts (or overwrites) a key in a `<`-sorted association
list; `lookupEntry` is first-match lookup; `lastValue` is the value stored
by the last insert of a key in an operation sequence.  These model the
OBSERVABLE content of the tree; the structural lemmas below show the tree
operations refine them. -/

/-- Insert `(k, v)` into an association list at its sorted position,
overwriting an existing binding of `k`. -/
def insertEntry (k : String) (v : Course) : List (String × Course) → List (String × Course)
  | [] => [(k, v)]
  | (k', v') :: rest =>
    if k < k' then (k, v) :: (k', v') :: rest
    else if k' < k then (k', v') :: insertEntry k v rest
    else (k, v) :: rest

/-- First-match association lookup. -/
def lookupEntry (k : String) : List (String × Course) → Option Course
  | [] => none
  | (k', v) :: rest => if k' = k then some v else lookupEntry k rest

/-- The value written by the most recent insert of `k` in `ops`
(`none` if `k` never occurs). -/
def lastValue : List (String × Course) → String → Option Course
  | [], _ => none
  | (k', v) :: rest, k =>
    match lastValue rest k with
    | some w => some w
    | none => if k' = k then some v else none

@[simp] theorem entryList_nil : entryList .nil = [] := rfl

@[simp] theorem entryList_node (k v h l r) :
    entryList (.node k v h l r) = entryList l ++ (k, v) :: entryList r := rfl

@[simp] theorem keyList_nil : keyList .nil = [] := rfl

@[simp] theorem keyList_node (k v h l r) :
    keyList (.node k v h l r) = keyList l ++ k :: keyList r := by
  simp [keyList]

@[simp] theorem entryList_updateHeight (t : AVLNode) :
    entryList (updateHeight t) = entryList t := by
  cases t <;> rfl

theorem rotateRight_entryList {t t' : AVLNode} (h : rotateRight t = some t') :
    entryList t' = entryList t := by
  match t, h with
  | .node yk yv yh (.node xk xv xh xl xr) yr, h =>
    simp only [rotateRight, Option.some.injEq] at h
    subst h
    simp [List.append_assoc]

theorem rotateLeft_entryList {t t' : AVLNode} (h : rotateLeft t = some t') :
    entryList t' = entryList t := by
  match t, h with
  | .node xk xv xh xl (.node yk yv yh yl yr), h =>
    simp only [rotateLeft, Option.some.injEq] at h
    subst h
    simp [List.append_assoc]

theorem rebalanceLeftHeavy_entryList {k : String} {v : Course} {h : Nat}
    {l r t' : AVLNode} {key : String}
    (hres : rebalanceLeftHeavy k v h l r key = some t') :
    entryList t' = entryList (AVLNode.node k v h l r) := by
  rcases l with _ | ⟨lk, lv, lh, ll, lr⟩
  · exact absurd hres (by simp [rebalanceLeftHeavy])
  · simp only [rebalanceLeftHeavy] at hres
    split_ifs at hres
    · exact rotateRight_entryList hres
    · rcases lr with _ | ⟨mk, mv, mh, ml, mr⟩
      · exact absurd hres (by simp [rotateLeft])
      · simp only [rotateLeft, Option.some_bind] at hres
        have h2 := rotateRight_entryList hres
        simp only [entryList_node, entryList_updateHeight] at h2 ⊢
        rw [h2]; simp [List.append_assoc]
    · simp only [Option.some.injEq] at hres; subst hres; rfl

theorem rebalanceRightHeavy_entryList {k : String} {v : Course} {h : Nat}
    {l r t' : AVLNode} {key : String}
    (hres : rebalanceRightHeavy k v h l r key = some t') :
    entryList t' = entryList (AVLNode.node k v h l r) := by
  rcases r with _ | ⟨rk, rv, rh, rl, rr⟩
  · exact absurd hres (by simp [rebalanceRightHeavy])
  · simp only [rebalanceRightHeavy] at hres
    split_ifs at hres
    · exact rotateLeft_entryList hres
    · rcases rl with _ | ⟨mk, mv, mh, ml, mr⟩
      · exact absurd hres (by simp [rotateRight])
      · simp only [rotateRight, Option.some_bind] at hres
        have h2 := rotateLeft_entryList hres
        simp only [entryList_node, entryList_updateHeight] at h2 ⊢
        rw [h2]; simp [List.append_assoc]
    · simp only [Option.some.injEq] at hres; subst hres; rfl

theorem rebalanceAfter_entryList {m t' : AVLNode} {key : String}
    (h : rebalanceAfter m key = some t') : entryList t' = entryList m := by
  rcases m with _ | ⟨k, v, hh, l, r⟩
  · simp only [rebalanceAfter, Option.some.injEq] at h
    subst h; rfl
  · simp only [rebalanceAfter] at h
    split_ifs at h
    · exact rebalanceLeftHeavy_entryList h
    · exact rebalanceRightHeavy_entryList h
    · simp only [Option.some.injEq] at h; subst h; rfl

/-- `insertEntry` goes inside the left part of an append when the new key
is below the separating key. -/
theorem insertEntry_append_left (k : String) (v : Course) (k0 : String) (v0 : Course)
    (xs ys : List (String × Course)) (hk : k < k0) :
    insertEntry k v (xs ++ (k0, v0) :: ys) = insertEntry k v xs ++ (k0, v0) :: ys := by
  induction xs with
  | nil => simp [insertEntry, hk]
  | cons p rest ih =>
    obtain ⟨k1, v1⟩ := p
    by_cases h1 : k < k1
    · simp [insertEntry, h1]
    · by_cases h2 : k1 < k
      · simp [insertEntry, h1, h2, ih]
      · simp [insertEntry, h1, h2]

/-- `insertEntry` passes over a prefix whose keys are all below the new key. -/
theorem insertEntry_append_right (k : String) (v : Course) (k0 : String) (v0 : Course)
    (xs ys : List (String × Course)) (hk : k0 < k)
    (hxs : ∀ x ∈ xs.map Prod.fst, x < k) :
    insertEntry k v (xs ++ (k0, v0) :: ys) = xs ++ (k0, v0) :: insertEntry k v ys := by
  induction xs with
  | nil =>
    have : ¬ k < k0 := asymm hk
    simp [insertEntry, this, hk]
  | cons p rest ih =>
    obtain ⟨k1, v1⟩ := p
    have h1 : k1 < k := hxs k1 (by simp)
    have h2 : ¬ k < k1 := asymm h1
    simp only [List.map_cons, List.mem_cons] at hxs
    simp [insertEntry, h1, h2, ih (fun x hx => hxs x (Or.inr hx))]

/-- `insertEntry` overwrites in place at the separating key when it is the
inserted key, provided the prefix keys are all below it. -/
theorem insertEntry_append_eq (k : String) (v : Course) (v0 : Course)
    (xs ys : List (String × Course))
    (hxs : ∀ x ∈ xs.map Prod.fst, x < k) :
    insertEntry k v (xs ++ (k, v0) :: ys) = xs ++ (k, v) :: ys := by
  induction xs with
  | nil => simp [insertEntry, lt_irrefl]
  | cons p rest ih =>
    obtain ⟨k1, v1⟩ := p
    have h1 : k1 < k := hxs k1 (by simp)
    have h2 : ¬ k < k1 := asymm h1
    simp only [List.map_cons, List.mem_cons] at hxs
    simp [insertEntry, h1, h2, ih (fun x hx => hxs x (Or.inr hx))]

/-- The structural insert refines `insertEntry` on the in-order contents. -/
theorem avlInsert_entryList (k : String) (v : Course) :
    ∀ t t', bst t → avlInsert t k v = some t' →
      entryList t' = insertEntry k v (entryList t)
  | .nil, t', _, h => by
    simp only [avlInsert, Option.some.injEq] at h
    subst h; rfl
  | .node k0 v0 h0 l r, t', hbst, h => by
    obtain ⟨hl, hr, hbl, hbr⟩ := hbst
    by_cases hk : k < k0
    · simp only [avlInsert, if_pos hk] at h
      cases hins : avlInsert l k v with
      | none => rw [hins] at h; exact absurd h (by simp)
      | some l' =>
        rw [hins] at h
        simp only [Option.some_bind] at h
        have h1 := rebalanceAfter_entryList h
        have h2 := avlInsert_entryList k v l l' hbl hins
        simp only [entryList_updateHeight, entryList_node] at h1
        simp only [entryList_node]
        rw [h1, h2, insertEntry_append_left k v k0 v0 _ _ hk]
    · by_cases hk' : k0 < k
      · simp only [avlInsert, if_neg hk, if_pos hk'] at h
        cases hins : avlInsert r k v with
        | none => rw [hins] at h; exact absurd h (by simp)
        | some r' =>
          rw [hins] at h
          simp only [Option.some_bind] at h
          have h1 := rebalanceAfter_entryList h
          have h2 := avlInsert_entryList k v r r' hbr hins
          simp only [entryList_updateHeight, entryList_node] at h1
          simp only [entryList_node]
          rw [h1, h2, insertEntry_append_right k v k0 v0 _ _ hk'
            (fun x hx => lt_trans (hl x hx) hk')]
      · have heq : k0 = k := le_antisymm (not_lt.mp hk) (not_lt.mp hk')
        subst heq
        simp only [avlInsert, if_neg hk, if_neg hk', Option.some.injEq] at h
        subst h
        simp only [entryList_node]
        rw [insertEntry_append_eq k0 v v0 _ _ hl]

/-! ## BST order: preservation and lookup -/

theorem mem_keys_insertEntry {x k : String} {v : Course} :
    ∀ es : List (String × Course),
      x ∈ (insertEntry k v es).map Prod.fst ↔ x = k ∨ x ∈ es.map Prod.fst
  | [] => by simp [insertEntry]
  | (k', v') :: rest => by
    by_cases h1 : k < k'
    · simp [insertEntry, h1]
    · by_cases h2 : k' < k
      · simp only [insertEntry, if_neg h1, if_pos h2, List.map_cons, List.mem_cons,
          mem_keys_insertEntry rest]
        tauto
      · have : k' = k := le_antisymm (not_lt.mp h1) (not_lt.mp h2)
        subst this
        simp [insertEntry, h1, h2]

theorem pairwise_keys_insertEntry {k : String} {v : Course} :
    ∀ {es : List (String × Course)}, (es.map Prod.fst).Pairwise (· < ·) →
      ((insertEntry k v es).map Prod.fst).Pairwise (· < ·)
  | [], _ => by simp [insertEntry]
  | (k', v') :: rest, hp => by
    simp only [List.map_cons, List.pairwise_cons] at hp
    obtain ⟨hk', hrest⟩ := hp
    by_cases h1 : k < k'
    · simp only [insertEntry, if_pos h1, List.map_cons, List.pairwise_cons]
      refine ⟨?_, hk', hrest⟩
      intro x hx
      rcases List.mem_cons.mp hx with rfl | hx
      · exact h1
      · exact lt_trans h1 (hk' x hx)
    · by_cases h2 : k' < k
      · simp only [insertEntry, if_neg h1, if_pos h2, List.map_cons, List.pairwise_cons]
        refine ⟨?_, pairwise_keys_insertEntry hrest⟩
        intro x hx
        rcases (mem_keys_insertEntry _).mp hx with rfl | hx
        · exact h2
        · exact hk' x hx
      · have : k' = k := le_antisymm (not_lt.mp h1) (not_lt.mp h2)
        subst this
        simp only [insertEntry, if_neg h1, if_neg h2, List.map_cons, List.pairwise_cons]
        exact ⟨hk', hrest⟩

/-- Invariant 1 is equivalent to strict sortedness of the in-order key list. -/
theorem bst_iff_pairwise : ∀ t : AVLNode, bst t ↔ (keyList t).Pairwise (· < ·)
  | .nil => by simp [bst]
  | .node k v h l r => by
    have ihl := bst_iff_pairwise l
    have ihr := bst_iff_pairwise r
    simp only [bst, keyList_node, List.pairwise_append, List.pairwise_cons, ihl, ihr]
    constructor
    · rintro ⟨hl, hr, pl, pr⟩
      refine ⟨pl, ⟨hr, pr⟩, ?_⟩
      intro x hx y hy
      rcases List.mem_cons.mp hy with rfl | hy
      · exact hl x hx
      · exact lt_trans (hl x hx) (hr y hy)
    · rintro ⟨pl, ⟨hr, pr⟩, hcross⟩
      exact ⟨fun x hx => hcross x hx k (by simp), hr, pl, pr⟩

/-- `avlInsert` preserves the BST invariant (for any key, including keys
violating the parser's normalization contract). -/
theorem bst_avlInsert {t t' : AVLNode} {k : String} {v : Course}
    (hb : bst t) (h : avlInsert t k v = some t') : bst t' := by
  rw [bst_iff_pairwise] at hb ⊢
  have he := avlInsert_entryList k v t t' ((bst_iff_pairwise t).mpr hb) h
  unfold keyList at hb ⊢
  rw [he]
  exact pairwise_keys_insertEntry hb

theorem lookupEntry_append (k : String) (xs ys : List (String × Course)) :
    lookupEntry k (xs ++ ys) =
      match lookupEntry k xs with
      | some v => some v
      | none => lookupEntry k ys := by
  induction xs with
  | nil => simp [lookupEntry]
  | cons p rest ih =>
    obtain ⟨k', v'⟩ := p
    by_cases h : k' = k
    · simp [lookupEntry, h]
    · simp [lookupEntry, h, ih]

theorem lookupEntry_eq_none {k : String} {xs : List (String × Course)}
    (h : k ∉ xs.map Prod.fst) : lookupEntry k xs = none := by
  induction xs with
  | nil => rfl
  | cons p rest ih =>
    obtain ⟨k', v'⟩ := p
    simp only [List.map_cons, List.mem_cons] at h
    push_neg at h
    simp [lookupEntry, Ne.symm h.1, ih h.2]

/-- On a BST, `avlFind` computes first-match lookup in the in-order entry
list (hence, key lookup: the entry list of a BST has no duplicate keys). -/
theorem avlFind_eq_lookupEntry {key : String} :
    ∀ t : AVLNode, bst t → avlFind t key = lookupEntry key (entryList t)
  | .nil, _ => rfl
  | .node k v h l r, hb => by
    obtain ⟨hl, hr, hbl, hbr⟩ := hb
    by_cases h1 : key < k
    · have hnr : key ∉ ((k, v) :: entryList r).map Prod.fst := by
        simp only [List.map_cons, List.mem_cons]
        push_neg
        refine ⟨ne_of_lt h1, fun hmem => ?_⟩
        exact absurd (lt_trans h1 (hr key hmem)) (lt_irrefl key)
      simp only [avlFind, if_pos h1, entryList_node, lookupEntry_append]
      rw [avlFind_eq_lookupEntry l hbl]
      cases lookupEntry key (entryList l) with
      | some w => rfl
      | none => simp [lookupEntry_eq_none hnr]
    · by_cases h2 : k < key
      · have hnl : lookupEntry key (entryList l) = none :=
          lookupEntry_eq_none (fun hmem =>
            absurd (lt_trans h2 (hl key hmem)) (lt_irrefl k))
        simp only [avlFind, if_neg h1, if_pos h2, entryList_node, lookupEntry_append, hnl]
        rw [avlFind_eq_lookupEntry r hbr]
        simp [lookupEntry, ne_of_lt h2]
      · have heq : k = key := le_antisymm (not_lt.mp h1) (not_lt.mp h2)
        subst heq
        have hnl : lookupEntry k (entryList l) = none :=
          lookupEntry_eq_none (fun hmem => absurd (hl k hmem) (lt_irrefl k))
        simp [avlFind, h1, h2, entryList_node, lookupEntry_append, hnl, lookupEntry]

theorem lookupEntry_insertEntry (key k : String) (v : Course) :
    ∀ es : List (String × Course),
      lookupEntry key (insertEntry k v es) =
        if k = key then some v else lookupEntry key es
  | [] => by simp only [insertEntry, lookupEntry]
  | (k', v') :: rest => by
    rcases lt_trichotomy k k' with h1 | h1 | h1
    · simp only [insertEntry, if_pos h1, lookupEntry]
    · subst h1
      simp only [insertEntry, if_neg (lt_irrefl k), lookupEntry]
      by_cases hk : k = key
      · simp only [if_pos hk]
      · simp only [if_neg hk]
    · have h2 : ¬ k < k' := asymm h1
      simp only [insertEntry, if_neg h2, if_pos h1, lookupEntry]
      by_cases hk' : k' = key
      · have hkne : k ≠ key := hk' ▸ (ne_of_lt h1).symm
        simp only [if_pos hk', if_neg hkne]
      · simp only [if_neg hk', lookupEntry_insertEntry key k v rest]

/-! ## Height correctness, balance, and totality of `avlInsert`

The induction needs a strengthened statement: an insert grows the height by
at most one, and when it does grow the root's balance factor is non-zero
and leans toward the side holding the inserted key.  `InsGrow key hOld t'`
packages this for a subtree whose height before the insert was `hOld`. -/

@[simp] theorem nodeHeight_nil : nodeHeight .nil = 0 := rfl

@[simp] theorem nodeHeight_node (k v h l r) : nodeHeight (.node k v h l r) = h := rfl

@[simp] theorem balanceFactor_node (k v h l r) :
    balanceFactor (.node k v h l r) = (nodeHeight l : Int) - (nodeHeight r : Int) := rfl

@[simp] theorem rootKey_node (k v h l r) : rootKey (.node k v h l r) = some k := rfl

theorem heightsOk_node {k v h l r} :
    heightsOk (.node k v h l r) ↔
      h = 1 + max (nodeHeight l) (nodeHeight r) ∧ heightsOk l ∧ heightsOk r := Iff.rfl

theorem balanced_node {k v h l r} :
    balanced (.node k v h l r) ↔
      ((nodeHeight l : Int) - (nodeHeight r : Int)).natAbs ≤ 1 ∧ balanced l ∧ balanced r :=
  Iff.rfl

/-- Growth contract of one insert: height grows by at most 1, and a growing
insert leaves a non-zero balance factor (on a previously non-empty subtree)
leaning toward the inserted key. -/
def InsGrow (key : String) (hOld : Nat) (t' : AVLNode) : Prop :=
  hOld ≤ nodeHeight t' ∧ nodeHeight t' ≤ hOld + 1 ∧
  (nodeHeight t' = hOld + 1 →
    (1 ≤ hOld → balanceFactor t' ≠ 0) ∧
    (0 < balanceFactor t' → ∀ s, rootKey t' = some s → key < s) ∧
    (balanceFactor t' < 0 → ∀ s, rootKey t' = some s → s < key))

theorem rebalanceAfter_mid {k : String} {v : Course} {h : Nat} {l r : AVLNode}
    {key : String} (h1 : ¬ 1 < (nodeHeight l : Int) - nodeHeight r)
    (h2 : ¬ (nodeHeight l : Int) - nodeHeight r < -1) :
    rebalanceAfter (.node k v h l r) key = some (.node k v h l r) := by
  simp only [rebalanceAfter, balanceFactor_node]
  rw [if_neg h1, if_neg h2]

theorem rebalanceAfter_pos {k : String} {v : Course} {h : Nat} {l r : AVLNode}
    {key : String} (h1 : 1 < (nodeHeight l : Int) - nodeHeight r) :
    rebalanceAfter (.node k v h l r) key = rebalanceLeftHeavy k v h l r key := by
  simp only [rebalanceAfter, balanceFactor_node]
  rw [if_pos h1]

theorem rebalanceAfter_neg {k : String} {v : Course} {h : Nat} {l r : AVLNode}
    {key : String} (h1 : (nodeHeight l : Int) - nodeHeight r < -1) :
    rebalanceAfter (.node k v h l r) key = rebalanceRightHeavy k v h l r key := by
  simp only [rebalanceAfter, balanceFactor_node]
  rw [if_neg (by omega), if_pos h1]

/-- After a successful insert into the left subtree (`l` became `l'`, key
below the node key), re-heighting and rebalancing the node succeeds and
restores all height/balance invariants, with the `InsGrow` contract
relative to the node's recomputed old height. -/
theorem insert_left_rebalance (k0 : String) (v0 : Course) (h0 : Nat)
    (l l' r : AVLNode) (key : String)
    (hOkl' : heightsOk l') (hBall' : balanced l')
    (hOkr : heightsOk r) (hBalr : balanced r)
    (hlow : nodeHeight l ≤ nodeHeight l')
    (hhigh : nodeHeight l' ≤ nodeHeight l + 1)
    (hgrow : nodeHeight l' = nodeHeight l + 1 →
      (1 ≤ nodeHeight l → balanceFactor l' ≠ 0) ∧
      (0 < balanceFactor l' → ∀ s, rootKey l' = some s → key < s) ∧
      (balanceFactor l' < 0 → ∀ s, rootKey l' = some s → s < key))
    (hb1 : nodeHeight l ≤ nodeHeight r + 1) (hb2 : nodeHeight r ≤ nodeHeight l + 1)
    (hkey : key < k0) :
    ∃ t', rebalanceAfter (updateHeight (.node k0 v0 h0 l' r)) key = some t' ∧
      heightsOk t' ∧ balanced t' ∧
      InsGrow key (1 + max (nodeHeight l) (nodeHeight r)) t' := by
  rw [show updateHeight (.node k0 v0 h0 l' r)
      = .node k0 v0 (1 + max (nodeHeight l') (nodeHeight r)) l' r from rfl]
  by_cases hcase : (nodeHeight l' : Int) - nodeHeight r ≤ 1
  · -- no rotation: the node is already within balance
    refine ⟨.node k0 v0 (1 + max (nodeHeight l') (nodeHeight r)) l' r,
      rebalanceAfter_mid (by omega) (by omega), ⟨rfl, hOkl', hOkr⟩,
      ⟨by omega, hBall', hBalr⟩, ?_, ?_, ?_⟩
    · simp only [nodeHeight_node]; omega
    · simp only [nodeHeight_node]; omega
    · simp only [nodeHeight_node, balanceFactor_node, rootKey_node]
      intro heq
      refine ⟨fun _ => by omega, fun hpos s hs => ?_, fun hneg => by omega⟩
      injection hs with hs
      subst hs
      exact hkey
  · -- bf = 2: the left subtree grew; it is a node with non-zero balance
    have hlh : nodeHeight l' = nodeHeight l + 1 := by omega
    obtain ⟨hbf0, hbfpos, hbfneg⟩ := hgrow hlh
    have hbfne : balanceFactor l' ≠ 0 := hbf0 (by omega)
    rcases l' with _ | ⟨lk, lv, lh, ll, lr⟩
    · simp only [nodeHeight_nil] at hcase; omega
    · simp only [nodeHeight_node] at hlow hhigh hcase hlh
      obtain ⟨hlh1, hOkll, hOklr⟩ := hOkl'
      obtain ⟨hBal1, hBalll, hBallr⟩ := hBall'
      simp only [balanceFactor_node, rootKey_node] at hbfne hbfpos hbfneg
      rcases lt_trichotomy key lk with hklk | hklk | hklk
      · -- Left-Left: single right rotation
        have hsign : 0 < (nodeHeight ll : Int) - nodeHeight lr := by
          rcases lt_or_le 0 ((nodeHeight ll : Int) - nodeHeight lr) with h | h
          · exact h
          · have : lk < key := hbfneg (by omega) lk rfl
            exact absurd this (asymm hklk)
        refine ⟨.node lk lv (1 + max (nodeHeight ll)
            (1 + max (nodeHeight lr) (nodeHeight r))) ll
            (.node k0 v0 (1 + max (nodeHeight lr) (nodeHeight r)) lr r), ?_, ?_, ?_, ?_⟩
        · rw [rebalanceAfter_pos (by simp only [nodeHeight_node]; omega)]
          simp only [rebalanceLeftHeavy, if_pos hklk, rotateRight, updateHeight,
            nodeHeight_node]
        · exact ⟨rfl, hOkll, rfl, hOklr, hOkr⟩
        · refine ⟨?_, hBalll, ?_, hBallr, hBalr⟩ <;> (try simp only [nodeHeight_node]) <;> omega
        · refine ⟨?_, ?_, ?_⟩ <;> (try simp only [nodeHeight_node]) <;> [omega; omega; skip]
          intro heq
          exfalso
          omega
      · -- key = root key of the grown subtree: impossible, bf would be 0
        exfalso
        subst hklk
        rcases lt_or_le 0 ((nodeHeight ll : Int) - nodeHeight lr) with h | h
        · exact absurd (hbfpos h key rfl) (lt_irrefl key)
        · exact absurd (hbfneg (by omega) key rfl) (lt_irrefl key)
      · -- Left-Right: double rotation
        have hsign : (nodeHeight ll : Int) - nodeHeight lr < 0 := by
          rcases lt_or_le ((nodeHeight ll : Int) - nodeHeight lr) 0 with h | h
          · exact h
          · have h0 : 0 < (nodeHeight ll : Int) - nodeHeight lr := by omega
            have : key < lk := hbfpos h0 lk rfl
            exact absurd this (asymm hklk)
        rcases lr with _ | ⟨mk, mv, mh, ml, mr⟩
        · simp only [nodeHeight_nil] at hsign; omega
        · simp only [nodeHeight_node] at hsign hlh1 hcase hBal1
          obtain ⟨hmh1, hOkml, hOkmr⟩ := hOklr
          obtain ⟨hBalm, hBalml, hBalmr⟩ := hBallr
          refine ⟨.node mk mv
              (1 + max (1 + max (nodeHeight ll) (nodeHeight ml))
                (1 + max (nodeHeight mr) (nodeHeight r)))
              (.node lk lv (1 + max (nodeHeight ll) (nodeHeight ml)) ll ml)
              (.node k0 v0 (1 + max (nodeHeight mr) (nodeHeight r)) mr r), ?_, ?_, ?_, ?_⟩
          · rw [rebalanceAfter_pos (by simp only [nodeHeight_node]; omega)]
            simp only [rebalanceLeftHeavy, if_neg (asymm hklk), if_pos hklk, rotateLeft,
              updateHeight, nodeHeight_node, Option.some_bind, rotateRight]
          · exact ⟨rfl, ⟨rfl, hOkll, hOkml⟩, rfl, hOkmr, hOkr⟩
          · refine ⟨?_, ⟨?_, hBalll, hBalml⟩, ?_, hBalmr, hBalr⟩ <;>
              (try simp only [nodeHeight_node]) <;> omega
          · refine ⟨?_, ?_, ?_⟩ <;> (try simp only [nodeHeight_node]) <;> [omega; omega; skip]
            intro heq
            exfalso
            omega

/-- Mirror of `insert_left_rebalance`: a successful insert into the right
subtree, key above the node key. -/
theorem insert_right_rebalance (k0 : String) (v0 : Course) (h0 : Nat)
    (l r r' : AVLNode) (key : String)
    (hOkr' : heightsOk r') (hBalr' : balanced r')
    (hOkl : heightsOk l) (hBall : balanced l)
    (hlow : nodeHeight r ≤ nodeHeight r')
    (hhigh : nodeHeight r' ≤ nodeHeight r + 1)
    (hgrow : nodeHeight r' = nodeHeight r + 1 →
      (1 ≤ nodeHeight r → balanceFactor r' ≠ 0) ∧
      (0 < balanceFactor r' → ∀ s, rootKey r' = some s → key < s) ∧
      (balanceFactor r' < 0 → ∀ s, rootKey r' = some s → s < key))
    (hb1 : nodeHeight l ≤ nodeHeight r + 1) (hb2 : nodeHeight r ≤ nodeHeight l + 1)
    (hkey : k0 < key) :
    ∃ t', rebalanceAfter (updateHeight (.node k0 v0 h0 l r')) key = some t' ∧
      heightsOk t' ∧ balanced t' ∧
      InsGrow key (1 + max (nodeHeight l) (nodeHeight r)) t' := by
  rw [show updateHeight (.node k0 v0 h0 l r')
      = .node k0 v0 (1 + max (nodeHeight l) (nodeHeight r')) l r' from rfl]
  by_cases hcase : -1 ≤ (nodeHeight l : Int) - nodeHeight r'
  · -- no rotation
    refine ⟨.node k0 v0 (1 + max (nodeHeight l) (nodeHeight r')) l r',
      rebalanceAfter_mid (by omega) (by omega), ⟨rfl, hOkl, hOkr'⟩,
      ⟨by omega, hBall, hBalr'⟩, ?_, ?_, ?_⟩
    · simp only [nodeHeight_node]; omega
    · simp only [nodeHeight_node]; omega
    · simp only [nodeHeight_node, balanceFactor_node, rootKey_node]
      intro heq
      refine ⟨fun _ => by omega, fun hpos => by omega, fun hneg s hs => ?_⟩
      injection hs with hs
      subst hs
      exact hkey
  · -- bf = -2: the right subtree grew
    have hrh : nodeHeight r' = nodeHeight r + 1 := by omega
    obtain ⟨hbf0, hbfpos, hbfneg⟩ := hgrow hrh
    have hbfne : balanceFactor r' ≠ 0 := hbf0 (by omega)
    rcases r' with _ | ⟨rk, rv, rh, rl, rr⟩
    · simp only [nodeHeight_nil] at hcase; omega
    · simp only [nodeHeight_node] at hlow hhigh hcase hrh
      obtain ⟨hrh1, hOkrl, hOkrr⟩ := hOkr'
      obtain ⟨hBal1, hBalrl, hBalrr⟩ := hBalr'
      simp only [balanceFactor_node, rootKey_node] at hbfne hbfpos hbfneg
      rcases lt_trichotomy rk key with hklk | hklk | hklk
      · -- Right-Right: single left rotation
        have hsign : (nodeHeight rl : Int) - nodeHeight rr < 0 := by
          rcases lt_or_le ((nodeHeight rl : Int) - nodeHeight rr) 0 with h | h
          · exact h
          · have h0 : 0 < (nodeHeight rl : Int) - nodeHeight rr := by omega
            have : key < rk := hbfpos h0 rk rfl
            exact absurd this (asymm hklk)
        refine ⟨.node rk rv (1 + max (1 + max (nodeHeight l) (nodeHeight rl))
            (nodeHeight rr))
            (.node k0 v0 (1 + max (nodeHeight l) (nodeHeight rl)) l rl) rr, ?_, ?_, ?_, ?_⟩
        · rw [rebalanceAfter_neg (by simp only [nodeHeight_node]; omega)]
          simp only [rebalanceRightHeavy, if_pos hklk, rotateLeft, updateHeight,
            nodeHeight_node]
        · exact ⟨rfl, ⟨rfl, hOkl, hOkrl⟩, hOkrr⟩
        · refine ⟨?_, ⟨?_, hBall, hBalrl⟩, hBalrr⟩ <;>
            (try simp only [nodeHeight_node]) <;> omega
        · refine ⟨?_, ?_, ?_⟩ <;> (try simp only [nodeHeight_node]) <;> [omega; omega; skip]
          intro heq
          exfalso
          omega
      · -- key equals the grown subtree's root key: impossible
        exfalso
        subst hklk
        rcases lt_or_le 0 ((nodeHeight rl : Int) - nodeHeight rr) with h | h
        · exact absurd (hbfpos h rk rfl) (lt_irrefl rk)
        · exact absurd (hbfneg (by omega) rk rfl) (lt_irrefl rk)
      · -- Right-Left: double rotation
        have hsign : 0 < (nodeHeight rl : Int) - nodeHeight rr := by
          rcases lt_or_le 0 ((nodeHeight rl : Int) - nodeHeight rr) with h | h
          · exact h
          · have : rk < key := hbfneg (by omega) rk rfl
            exact absurd this (asymm hklk)
        rcases rl with _ | ⟨mk, mv, mh, ml, mr⟩
        · simp only [nodeHeight_nil] at hsign; omega
        · simp only [nodeHeight_node] at hsign hrh1 hcase hBal1
          obtain ⟨hmh1, hOkml, hOkmr⟩ := hOkrl
          obtain ⟨hBalm, hBalml, hBalmr⟩ := hBalrl
          refine ⟨.node mk mv
              (1 + max (1 + max (nodeHeight l) (nodeHeight ml))
                (1 + max (nodeHeight mr) (nodeHeight rr)))
              (.node k0 v0 (1 + max (nodeHeight l) (nodeHeight ml)) l ml)
              (.node rk rv (1 + max (nodeHeight mr) (nodeHeight rr)) mr rr), ?_, ?_, ?_, ?_⟩
          · rw [rebalanceAfter_neg (by simp only [nodeHeight_node]; omega)]
            simp only [rebalanceRightHeavy, if_neg (asymm hklk), if_pos hklk, rotateRight,
              updateHeight, nodeHeight_node, Option.some_bind, rotateLeft]
          · exact ⟨rfl, ⟨rfl, hOkl, hOkml⟩, rfl, hOkmr, hOkrr⟩
          · refine ⟨?_, ⟨?_, hBall, hBalml⟩, ?_, hBalmr, hBalrr⟩ <;>
              (try simp only [nodeHeight_node]) <;> omega
          · refine ⟨?_, ?_, ?_⟩ <;> (try simp only [nodeHeight_node]) <;> [omega; omega; skip]
            intro heq
            exfalso
            omega

/-- Totality and invariant preservation of one insert: on a tree with
correct heights and AVL balance, `avlInsert` never dereferences a null
pointer, and its result again has correct heights and AVL balance, with the
`InsGrow` growth contract. -/
theorem avlInsert_ok (k : String) (v : Course) :
    ∀ t, heightsOk t → balanced t →
      ∃ t', avlInsert t k v = some t' ∧ heightsOk t' ∧ balanced t' ∧
        InsGrow k (nodeHeight t) t'
  | .nil, _, _ => by
    refine ⟨.node k v 1 .nil .nil, rfl, ⟨by simp, trivial, trivial⟩,
      ⟨by simp, trivial, trivial⟩, ?_, ?_, ?_⟩
    · simp
    · simp
    · intro heq
      refine ⟨fun h1 => absurd h1 (by simp [nodeHeight]),
        fun hpos => absurd hpos (by simp [balanceFactor_node, nodeHeight_nil]),
        fun hneg => absurd hneg (by simp [balanceFactor_node, nodeHeight_nil])⟩
  | .node k0 v0 h0 l r, hOk, hBal => by
    obtain ⟨hh0, hOkl, hOkr⟩ := hOk
    obtain ⟨hbal, hBall, hBalr⟩ := hBal
    rcases lt_trichotomy k k0 with hk | hk | hk
    · obtain ⟨l', hins, hOkl', hBall', hlow, hhigh, hgrow⟩ := avlInsert_ok k v l hOkl hBall
      obtain ⟨t', hreb, hOkt', hBalt', hGt'⟩ :=
        insert_left_rebalance k0 v0 h0 l l' r k hOkl' hBall' hOkr hBalr hlow hhigh hgrow
          (by omega) (by omega) hk
      refine ⟨t', ?_, hOkt', hBalt', ?_⟩
      · simp only [avlInsert, if_pos hk, hins, Option.some_bind]
        exact hreb
      · rw [show nodeHeight (AVLNode.node k0 v0 h0 l r) = h0 from rfl, hh0]
        exact hGt'
    · subst hk
      refine ⟨.node k v h0 l r, ?_, ⟨hh0, hOkl, hOkr⟩, ⟨hbal, hBall, hBalr⟩, ?_, ?_, ?_⟩
      · simp only [avlInsert, if_neg (lt_irrefl k)]
      · simp
      · simp
      · simp only [nodeHeight_node]
        intro heq
        omega
    · obtain ⟨r', hins, hOkr', hBalr', hlow, hhigh, hgrow⟩ := avlInsert_ok k v r hOkr hBalr
      obtain ⟨t', hreb, hOkt', hBalt', hGt'⟩ :=
        insert_right_rebalance k0 v0 h0 l r r' k hOkr' hBalr' hOkl hBall hlow hhigh hgrow
          (by omega) (by omega) hk
      refine ⟨t', ?_, hOkt', hBalt', ?_⟩
      · simp only [avlInsert, if_neg (asymm hk), if_pos hk, hins, Option.some_bind]
        exact hreb
      · rw [show nodeHeight (AVLNode.node k0 v0 h0 l r) = h0 from rfl, hh0]
        exact hGt'

/-- All three structural invariants together. -/
def Inv (t : AVLNode) : Prop := bst t ∧ heightsOk t ∧ balanced t

instance Inv.instDecidable (t : AVLNode) : Decidable (Inv t) := by
  unfold Inv
  infer_instance

/-- One insert preserves all three invariants and succeeds. -/
theorem avlInsert_inv {t : AVLNode} (k : String) (v : Course) (hInv : Inv t) :
    ∃ t', avlInsert t k v = some t' ∧ Inv t' ∧
      entryList t' = insertEntry k v (entryList t) := by
  obtain ⟨hb, hOk, hBal⟩ := hInv
  obtain ⟨t', hins, hOk', hBal', _⟩ := avlInsert_ok k v t hOk hBal
  exact ⟨t', hins, ⟨bst_avlInsert hb hins, hOk', hBal'⟩, avlInsert_entryList k v t t' hb hins⟩

/-- Folding `insertEntry` over an operation list. -/
def insertEntries (es : List (String × Course)) (ops : List (String × Course)) :
    List (String × Course) :=
  ops.foldl (fun acc p => insertEntry p.1 p.2 acc) es

/-- The insertion loop succeeds from any invariant-satisfying start tree,
preserves the invariants, and computes `insertEntries` on the contents. -/
theorem insertAllFrom_inv :
    ∀ (ops : List (String × Course)) (t : AVLNode), Inv t →
      ∃ t', insertAllFrom t ops = some t' ∧ Inv t' ∧
        entryList t' = insertEntries (entryList t) ops
  | [], t, hInv => ⟨t, rfl, hInv, rfl⟩
  | (k, v) :: rest, t, hInv => by
    obtain ⟨t1, hins, hInv1, hent1⟩ := avlInsert_inv k v hInv
    obtain ⟨t', hall, hInv', hent'⟩ := insertAllFrom_inv rest t1 hInv1
    refine ⟨t', ?_, hInv', ?_⟩
    · simp only [insertAllFrom, hins, Option.some_bind]
      exact hall
    · rw [hent', hent1]
      rfl

/-- The empty tree satisfies all invariants. -/
theorem inv_nil : Inv .nil := ⟨trivial, trivial, trivial⟩

/-- Any insert sequence from the empty tree succeeds, with invariants. -/
theorem insertAll_inv (ops : List (String × Course)) :
    ∃ t, insertAll ops = some t ∧ Inv t ∧ entryList t = insertEntries [] ops :=
  insertAllFrom_inv ops .nil inv_nil

/-! ## Lookup against an operation history, traversal, and overwrite -/

theorem lookupEntry_insertEntries (k : String) :
    ∀ (ops : List (String × Course)) (es : List (String × Course)),
      lookupEntry k (insertEntries es ops) =
        match lastValue ops k with
        | some v => some v
        | none => lookupEntry k es
  | [], es => rfl
  | (k1, v1) :: rest, es => by
    show lookupEntry k (insertEntries (insertEntry k1 v1 es) rest) = _
    rw [lookupEntry_insertEntries k rest (insertEntry k1 v1 es)]
    show _ = (match lastValue ((k1, v1) :: rest) k with
        | some v => some v
        | none => lookupEntry k es)
    simp only [lastValue]
    cases lastValue rest k with
    | some w => rfl
    | none =>
      simp only [lookupEntry_insertEntry]
      by_cases h : k1 = k
      · simp only [if_pos h]
      · simp only [if_neg h]

theorem mem_keys_insertEntries {x : String} :
    ∀ (ops : List (String × Course)) (es : List (String × Course)),
      (x ∈ (insertEntries es ops).map Prod.fst ↔
        x ∈ ops.map Prod.fst ∨ x ∈ es.map Prod.fst)
  | [], es => by simp [insertEntries]
  | (k1, v1) :: rest, es => by
    show x ∈ (insertEntries (insertEntry k1 v1 es) rest).map Prod.fst ↔ _
    rw [mem_keys_insertEntries rest (insertEntry k1 v1 es)]
    simp only [mem_keys_insertEntry, List.map_cons, List.mem_cons]
    tauto

@[simp] theorem avlInOrder_nil : avlInOrder .nil = [] := rfl

@[simp] theorem avlInOrder_node (k v h l r) :
    avlInOrder (.node k v h l r)
      = avlInOrder l ++ (k ++ ": " ++ v.title) :: avlInOrder r := rfl

/-- The traversal output is exactly one formatted line per in-order entry. -/
theorem avlInOrder_eq_entryList :
    ∀ t : AVLNode, avlInOrder t = (entryList t).map fun e => e.1 ++ ": " ++ e.2.title
  | .nil => rfl
  | .node k v h l r => by
    simp [avlInOrder_eq_entryList l, avlInOrder_eq_entryList r]

/-- The in-order entry list has one entry per node. -/
theorem entryList_length : ∀ t : AVLNode, (entryList t).length = size t
  | .nil => rfl
  | .node k v h l r => by
    simp [entryList_length l, entryList_length r, size]
    omega

/-- Structural skeleton: tree shape with keys and stored heights, values
erased.  Two trees with equal skeletons have identical node sets,
parent/child links, and height fields. -/
inductive Shape where
  | nil : Shape
  | node (key : String) (height : Nat) (l r : Shape) : Shape
deriving DecidableEq, Repr

def skeleton : AVLNode → Shape
  | .nil => .nil
  | .node k _ h l r => .node k h (skeleton l) (skeleton r)

theorem nodeHeight_of_skeleton_eq :
    ∀ {t1 t2 : AVLNode}, skeleton t1 = skeleton t2 → nodeHeight t1 = nodeHeight t2
  | .nil, .nil, _ => rfl
  | .nil, .node _ _ _ _ _, h => by simp [skeleton] at h
  | .node _ _ _ _ _, .nil, h => by simp [skeleton] at h
  | .node _ _ _ _ _, .node _ _ _ _ _, h => by
    simp only [skeleton, Shape.node.injEq] at h
    simp [nodeHeight, h.2.1]

/-- Inserting a key already present only overwrites that node's value: the
skeleton (shape, keys, heights) is unchanged, no rotation happens, and a
subsequent find returns the new value. -/
theorem avlInsert_overwrite (k : String) (v : Course) :
    ∀ t, Inv t → k ∈ keyList t →
      ∃ t', avlInsert t k v = some t' ∧ skeleton t' = skeleton t ∧
        avlFind t' k = some v
  | .nil, _, hmem => absurd hmem (by simp)
  | .node k0 v0 h0 l r, ⟨⟨hl, hr, hbl, hbr⟩, ⟨hh0, hOkl, hOkr⟩, ⟨hbal, hBall, hBalr⟩⟩,
      hmem => by
    rcases lt_trichotomy k k0 with hk | hk | hk
    · have hmeml : k ∈ keyList l := by
        simp only [keyList_node, List.mem_append, List.mem_cons] at hmem
        rcases hmem with h | h | h
        · exact h
        · exact absurd h (ne_of_lt hk)
        · exact absurd (lt_trans hk (hr k h)) (lt_irrefl k)
      obtain ⟨l', hins, hskel, hfind⟩ :=
        avlInsert_overwrite k v l ⟨hbl, hOkl, hBall⟩ hmeml
      have hhl' : nodeHeight l' = nodeHeight l := nodeHeight_of_skeleton_eq hskel
      have hupd : updateHeight (.node k0 v0 h0 l' r) = .node k0 v0 h0 l' r := by
        show AVLNode.node k0 v0 (1 + max (nodeHeight l') (nodeHeight r)) l' r = _
        rw [hhl', ← hh0]
      refine ⟨.node k0 v0 h0 l' r, ?_, ?_, ?_⟩
      · simp only [avlInsert, if_pos hk, hins, Option.some_bind, hupd]
        exact rebalanceAfter_mid (by rw [hhl']; omega) (by rw [hhl']; omega)
      · simp [skeleton, hskel]
      · simp only [avlFind, if_pos hk]
        exact hfind
    · subst hk
      refine ⟨.node k v h0 l r, ?_, rfl, ?_⟩
      · simp only [avlInsert, if_neg (lt_irrefl k)]
      · simp only [avlFind, if_neg (lt_irrefl k)]
    · have hmemr : k ∈ keyList r := by
        simp only [keyList_node, List.mem_append, List.mem_cons] at hmem
        rcases hmem with h | h | h
        · exact absurd (lt_trans hk (hl k h)) (lt_irrefl k0)
        · exact absurd h.symm (ne_of_lt hk)
        · exact h
      obtain ⟨r', hins, hskel, hfind⟩ :=
        avlInsert_overwrite k v r ⟨hbr, hOkr, hBalr⟩ hmemr
      have hhr' : nodeHeight r' = nodeHeight r := nodeHeight_of_skeleton_eq hskel
      have hupd : updateHeight (.node k0 v0 h0 l r') = .node k0 v0 h0 l r' := by
        show AVLNode.node k0 v0 (1 + max (nodeHeight l) (nodeHeight r')) l r' = _
        rw [hhr', ← hh0]
      refine ⟨.node k0 v0 h0 l r', ?_, ?_, ?_⟩
      · simp only [avlInsert, if_neg (asymm hk), if_pos hk, hins, Option.some_bind, hupd]
        exact rebalanceAfter_mid (by rw [hhr']; omega) (by rw [hhr']; omega)
      · simp [skeleton, hskel]
      · simp only [avlFind, if_neg (asymm hk), if_pos hk]
        exact hfind

/-! ## Rotation-counting instrumentation

`avlInsertCount` is `avlInsert` with two counters threaded through: how many
times `rotateRight` and `rotateLeft` were invoked.  `avlInsertCount_fst`
proves it computes the same tree as `avlInsert`. -/

def rebalanceLeftHeavyC (k : String) (v : Course) (h : Nat) (l r : AVLNode)
    (key : String) : Option (AVLNode × Nat × Nat) :=
  match l with
  | .nil => none
  | .node lk lv lh ll lr =>
    if key < lk then
      (rotateRight (.node k v h (.node lk lv lh ll lr) r)).map fun t => (t, 1, 0)
    else if lk < key then
      (rotateLeft (.node lk lv lh ll lr)).bind fun l2 =>
        (rotateRight (.node k v h l2 r)).map fun t => (t, 1, 1)
    else some (.node k v h (.node lk lv lh ll lr) r, 0, 0)

def rebalanceRightHeavyC (k : String) (v : Course) (h : Nat) (l r : AVLNode)
    (key : String) : Option (AVLNode × Nat × Nat) :=
  match r with
  | .nil => none
  | .node rk rv rh rl rr =>
    if rk < key then
      (rotateLeft (.node k v h l (.node rk rv rh rl rr))).map fun t => (t, 0, 1)
    else if key < rk then
      (rotateRight (.node rk rv rh rl rr)).bind fun r2 =>
        (rotateLeft (.node k v h l r2)).map fun t => (t, 1, 1)
    else some (.node k v h l (.node rk rv rh rl rr), 0, 0)

def rebalanceAfterC (m : AVLNode) (key : String) : Option (AVLNode × Nat × Nat) :=
  match m with
  | .nil => some (.nil, 0, 0)
  | .node k v h l r =>
    let bf := balanceFactor (.node k v h l r)
    if 1 < bf then rebalanceLeftHeavyC k v h l r key
    else if bf < -1 then rebalanceRightHeavyC k v h l r key
    else some (.node k v h l r, 0, 0)

def avlInsertCount : AVLNode → String → Course → Option (AVLNode × Nat × Nat)
  | .nil, key, value => some (.node key value 1 .nil .nil, 0, 0)
  | .node k v h l r, key, value =>
    if key < k then
      (avlInsertCount l key value).bind fun p =>
        (rebalanceAfterC (updateHeight (.node k v h p.1 r)) key).map fun q =>
          (q.1, p.2.1 + q.2.1, p.2.2 + q.2.2)
    else if k < key then
      (avlInsertCount r key value).bind fun p =>
        (rebalanceAfterC (updateHeight (.node k v h l p.1)) key).map fun q =>
          (q.1, p.2.1 + q.2.1, p.2.2 + q.2.2)
    else
      some (.node k value h l r, 0, 0)

theorem rebalanceLeftHeavyC_fst (k : String) (v : Course) (h : Nat) (l r : AVLNode)
    (key : String) :
    (rebalanceLeftHeavyC k v h l r key).map Prod.fst = rebalanceLeftHeavy k v h l r key := by
  rcases l with _ | ⟨lk, lv, lh, ll, lr⟩
  · rfl
  · simp only [rebalanceLeftHeavyC, rebalanceLeftHeavy]
    split_ifs
    · cases rotateRight (.node k v h (.node lk lv lh ll lr) r) <;> rfl
    · cases rotateLeft (.node lk lv lh ll lr) with
      | none => rfl
      | some l2 =>
        simp only [Option.some_bind]
        cases rotateRight (.node k v h l2 r) <;> rfl
    · rfl

theorem rebalanceRightHeavyC_fst (k : String) (v : Course) (h : Nat) (l r : AVLNode)
    (key : String) :
    (rebalanceRightHeavyC k v h l r key).map Prod.fst = rebalanceRightHeavy k v h l r key := by
  rcases r with _ | ⟨rk, rv, rh, rl, rr⟩
  · rfl
  · simp only [rebalanceRightHeavyC, rebalanceRightHeavy]
    split_ifs
    · cases rotateLeft (.node k v h l (.node rk rv rh rl rr)) <;> rfl
    · cases rotateRight (.node rk rv rh rl rr) with
      | none => rfl
      | some r2 =>
        simp only [Option.some_bind]
        cases rotateLeft (.node k v h l r2) <;> rfl
    · rfl

theorem rebalanceAfterC_fst (m : AVLNode) (key : String) :
    (rebalanceAfterC m key).map Prod.fst = rebalanceAfter m key := by
  rcases m with _ | ⟨k, v, h, l, r⟩
  · rfl
  · simp only [rebalanceAfterC, rebalanceAfter]
    split_ifs
    · exact rebalanceLeftHeavyC_fst k v h l r key
    · exact rebalanceRightHeavyC_fst k v h l r key
    · rfl

/-- The instrumented insert computes the same tree as the real one. -/
theorem avlInsertCount_fst :
    ∀ (t : AVLNode) (key : String) (value : Course),
      (avlInsertCount t key value).map Prod.fst = avlInsert t key value
  | .nil, key, value => rfl
  | .node k v h l r, key, value => by
    simp only [avlInsertCount, avlInsert]
    split_ifs
    · have ih := avlInsertCount_fst l key value
      cases hc : avlInsertCount l key value with
      | none =>
        rw [hc] at ih
        rw [← ih]
        rfl
      | some p =>
        rw [hc] at ih
        rw [← ih]
        simp only [Option.map_some', Option.some_bind]
        rw [← rebalanceAfterC_fst (updateHeight (.node k v h p.1 r)) key]
        cases rebalanceAfterC (updateHeight (.node k v h p.1 r)) key <;> rfl
    · have ih := avlInsertCount_fst r key value
      cases hc : avlInsertCount r key value with
      | none =>
        rw [hc] at ih
        rw [← ih]
        rfl
      | some p =>
        rw [hc] at ih
        rw [← ih]
        simp only [Option.map_some', Option.some_bind]
        rw [← rebalanceAfterC_fst (updateHeight (.node k v h l p.1)) key]
        cases rebalanceAfterC (updateHeight (.node k v h l p.1)) key <;> rfl
    · rfl

/-- The insertion loop with accumulated rotation counters. -/
def insertAllCountFrom (t : AVLNode) (nr nl : Nat) :
    List (String × Course) → Option (AVLNode × Nat × Nat)
  | [] => some (t, nr, nl)
  | (k, v) :: rest =>
    (avlInsertCount t k v).bind fun p =>
      insertAllCountFrom p.1 (nr + p.2.1) (nl + p.2.2) rest

/-- Insert a list of pairs into the empty tree, counting (right, left)
rotations performed overall. -/
def insertAllCount (ops : List (String × Course)) : Option (AVLNode × Nat × Nat) :=
  insertAllCountFrom .nil 0 0 ops

example : insertAll [("B", ⟨"B", "b", []⟩), ("A", ⟨"A", "a", []⟩), ("C", ⟨"C", "c", []⟩)]
    = some (.node "B" ⟨"B", "b", []⟩ 2
        (.node "A" ⟨"A", "a", []⟩ 1 .nil .nil)
        (.node "C" ⟨"C", "c", []⟩ 1 .nil .nil)) := by decide

example : insertAllCount [("C", ⟨"C", "c", []⟩), ("B", ⟨"B", "b", []⟩), ("A", ⟨"A", "a", []⟩)]
    = some (.node "B" ⟨"B", "b", []⟩ 2
        (.node "A" ⟨"A", "a", []⟩ 1 .nil .nil)
        (.node "C" ⟨"C", "c", []⟩ 1 .nil .nil), 1, 0) := by decide

/-! ## Claim theorems: tree core -/

/-- C1: for every sequence of insert operations starting from the empty
tree (arbitrary string keys and `Course` values), every `avlInsert`
completes, and the resulting tree satisfies all three structural
invariants at every node: BST order, height correctness, and AVL balance.
(Since every prefix of an operation sequence is itself an operation
sequence, this covers the tree after each individual insert.) -/
theorem c1_invariant_preservation (ops : List (String × Course)) :
    ∃ t, insertAll ops = some t ∧ bst t ∧ heightsOk t ∧ balanced t := by
  obtain ⟨t, hall, ⟨hb, hOk, hBal⟩, _⟩ := insertAll_inv ops
  exact ⟨t, hall, hb, hOk, hBal⟩

/-- C2: after any sequence of inserts, `avlFind` returns the value supplied
by the most recent insert of the key, and the explicit not-found result
`none` (the C++ `nullptr`) for a key never inserted — a miss is an ordinary
return value, not a fault. -/
theorem c2_lookup_correctness (ops : List (String × Course)) (k : String) :
    ∃ t, insertAll ops = some t ∧ avlFind t k = lastValue ops k := by
  obtain ⟨t, hall, ⟨hb, _, _⟩, hent⟩ := insertAll_inv ops
  refine ⟨t, hall, ?_⟩
  rw [avlFind_eq_lookupEntry t hb, hent, lookupEntry_insertEntries]
  cases lastValue ops k <;> rfl

/-- C3: on any tree reachable by inserts, inserting a key that is already
present overwrites only that node's stored value: the skeleton (node set,
links, and every stored height) is unchanged — in particular no rotation
fires — and a subsequent `avlFind` of that key returns the new value. -/
theorem c3_overwrite_in_place (ops : List (String × Course)) (k : String) (v : Course)
    (t : AVLNode) (hall : insertAll ops = some t) (hmem : k ∈ keyList t) :
    ∃ t', avlInsert t k v = some t' ∧ skeleton t' = skeleton t ∧
      avlFind t' k = some v := by
  obtain ⟨t0, hall0, hInv, _⟩ := insertAll_inv ops
  rw [hall0] at hall
  injection hall with hall
  subst hall
  exact avlInsert_overwrite k v t0 hInv hmem

theorem c3_overwrite_in_place_witness :
    insertAll [("B", ⟨"B", "b", []⟩)] = some (.node "B" ⟨"B", "b", []⟩ 1 .nil .nil) ∧
    "B" ∈ keyList (.node "B" ⟨"B", "b", []⟩ 1 .nil .nil) ∧
    ∃ t', avlInsert (.node "B" ⟨"B", "b", []⟩ 1 .nil .nil) "B" ⟨"B", "b2", []⟩ = some t' ∧
      skeleton t' = skeleton (.node "B" ⟨"B", "b", []⟩ 1 .nil .nil) ∧
      avlFind t' "B" = some ⟨"B", "b2", []⟩ :=
  ⟨by decide, by decide,
    c3_overwrite_in_place [("B", ⟨"B", "b", []⟩)] "B" ⟨"B", "b2", []⟩
      (.node "B" ⟨"B", "b", []⟩ 1 .nil .nil) (by decide) (by decide)⟩

/-- C4: on any tree produced by a sequence of inserts, the in-order
traversal emits exactly one line per node (left subtree, node, right
subtree), the keys appear in strictly ascending order, and the keys are
exactly the distinct keys ever inserted (each exactly once, since a
strictly sorted list has no duplicates). -/
theorem c4_inorder_traversal (ops : List (String × Course)) :
    ∃ t, insertAll ops = some t ∧
      avlInOrder t = (entryList t).map (fun e => e.1 ++ ": " ++ e.2.title) ∧
      (avlInOrder t).length = size t ∧
      (keyList t).Pairwise (· < ·) ∧
      (∀ x, x ∈ keyList t ↔ x ∈ ops.map Prod.fst) := by
  obtain ⟨t, hall, ⟨hb, _, _⟩, hent⟩ := insertAll_inv ops
  refine ⟨t, hall, avlInOrder_eq_entryList t, ?_, (bst_iff_pairwise t).mp hb, ?_⟩
  · rw [avlInOrder_eq_entryList t, List.length_map]
    exact entryList_length t
  · intro x
    show x ∈ (entryList t).map Prod.fst ↔ _
    rw [hent, mem_keys_insertEntries]
    simp

def courseA : Course := ⟨"A", "a", []⟩

def courseB : Course := ⟨"B", "b", []⟩

def courseC : Course := ⟨"C", "c", []⟩

/-- The final tree shared by all four three-key rotation scenarios:
`"B"` at the root (height 2), `"A"` its left child, `"C"` its right child
(heights 1). -/
def treeABC : AVLNode :=
  .node "B" courseB 2 (.node "A" courseA 1 .nil .nil) (.node "C" courseC 1 .nil .nil)

/-- C5: inserting `"C","B","A"` performs exactly one right rotation and no
left rotation and yields `"B"` at the root with `"A"`/`"C"` as children and
heights 1/2/1; `"A","B","C"` yields the same shape via exactly one left
rotation; `"A","C","B"` (Left-Right) and `"C","A","B"` (Right-Left) each
yield `"B"` as root via a double rotation (one left and one right).
`avlInsertCount_fst` proves the counting function computes the same trees
as `avlInsert`. -/
theorem c5_rotation_cases :
    insertAllCount [("C", courseC), ("B", courseB), ("A", courseA)] = some (treeABC, 1, 0) ∧
    insertAll [("C", courseC), ("B", courseB), ("A", courseA)] = some treeABC ∧
    insertAllCount [("A", courseA), ("B", courseB), ("C", courseC)] = some (treeABC, 0, 1) ∧
    insertAll [("A", courseA), ("B", courseB), ("C", courseC)] = some treeABC ∧
    insertAllCount [("A", courseA), ("C", courseC), ("B", courseB)] = some (treeABC, 1, 1) ∧
    insertAllCount [("C", courseC), ("A", courseA), ("B", courseB)] = some (treeABC, 1, 1) ∧
    rootKey treeABC = some "B" ∧
    nodeHeight treeABC = 2 ∧ nodeHeight (.node "A" courseA 1 .nil .nil) = 1 := by
  refine ⟨by decide, by decide, by decide, by decide, by decide, by decide, rfl, rfl, rfl⟩

/-- C7: `avlInsert` is total on every tree satisfying the three invariants,
for every key — including the empty string: every child pointer the
rotation helpers dereference is non-null under the branch conditions
(modelled: the `Option`-valued insert returns `some`), and the result again
satisfies invariants 1–3. -/
theorem c7_insert_total_safe (t : AVLNode) (k : String) (v : Course)
    (hb : bst t) (hOk : heightsOk t) (hBal : balanced t) :
    ∃ t', avlInsert t k v = some t' ∧ bst t' ∧ heightsOk t' ∧ balanced t' := by
  obtain ⟨t', hins, ⟨hb', hOk', hBal'⟩, _⟩ := avlInsert_inv k v ⟨hb, hOk, hBal⟩
  exact ⟨t', hins, hb', hOk', hBal'⟩

theorem c7_insert_total_safe_witness :
    bst (.node "B" courseB 1 .nil .nil) ∧ heightsOk (.node "B" courseB 1 .nil .nil) ∧
    balanced (.node "B" courseB 1 .nil .nil) ∧
    ∃ t', avlInsert (.node "B" courseB 1 .nil .nil) "" courseA = some t' ∧
      bst t' ∧ heightsOk t' ∧ balanced t' :=
  ⟨by decide, by decide, by decide,
    c7_insert_total_safe (.node "B" courseB 1 .nil .nil) "" courseA
      (by decide) (by decide) (by decide)⟩

/-- C10: the four rebalancing conditions are exhaustive for insertions into
a valid AVL tree.  If a structural insert into the left (resp. right)
subtree leaves the node with balance factor above 1 (resp. below -1), then
the new subtree root — the taller child whose key line 168/170/172/177
compares against — exists and its key differs from the inserted key, so one
of the key-comparison rotation cases fires: the fall-through `return node`
is never the result, and the returned subtree is balanced. -/
theorem c10_rebalance_cases_exhaustive :
    (∀ (k0 : String) (v0 : Course) (h0 : Nat) (l l' r : AVLNode) (k : String) (v : Course),
      Inv (.node k0 v0 h0 l r) → k < k0 → avlInsert l k v = some l' →
      1 < (nodeHeight l' : Int) - nodeHeight r →
      (∃ lk lv lh ll lr, l' = .node lk lv lh ll lr ∧ k ≠ lk) ∧
      rebalanceAfter (updateHeight (.node k0 v0 h0 l' r)) k
        ≠ some (updateHeight (.node k0 v0 h0 l' r)) ∧
      ∃ t', rebalanceAfter (updateHeight (.node k0 v0 h0 l' r)) k = some t' ∧ balanced t') ∧
    (∀ (k0 : String) (v0 : Course) (h0 : Nat) (l r r' : AVLNode) (k : String) (v : Course),
      Inv (.node k0 v0 h0 l r) → k0 < k → avlInsert r k v = some r' →
      (nodeHeight l : Int) - nodeHeight r' < -1 →
      (∃ rk rv rh rl rr, r' = .node rk rv rh rl rr ∧ k ≠ rk) ∧
      rebalanceAfter (updateHeight (.node k0 v0 h0 l r')) k
        ≠ some (updateHeight (.node k0 v0 h0 l r')) ∧
      ∃ t', rebalanceAfter (updateHeight (.node k0 v0 h0 l r')) k = some t' ∧ balanced t') := by
  constructor
  · intro k0 v0 h0 l l' r k v hInv hk hins hbf
    obtain ⟨⟨hl, hr, hbl, hbr⟩, ⟨hh0, hOkl, hOkr⟩, ⟨hbal, hBall, hBalr⟩⟩ := hInv
    obtain ⟨l'', hins2, hOkl', hBall', hlow, hhigh, hgrow⟩ := avlInsert_ok k v l hOkl hBall
    rw [hins2] at hins
    injection hins with hins
    rw [hins] at hOkl' hBall' hlow hhigh hgrow
    have hgrew : nodeHeight l' = nodeHeight l + 1 := by omega
    obtain ⟨hbf0, hbfpos, hbfneg⟩ := hgrow hgrew
    have hbfne : balanceFactor l' ≠ 0 := hbf0 (by omega)
    obtain ⟨t', hreb, hOkt', hBalt', _⟩ :=
      insert_left_rebalance k0 v0 h0 l l' r k hOkl' hBall' hOkr hBalr hlow hhigh hgrow
        (by omega) (by omega) hk
    refine ⟨?_, ?_, t', hreb, hBalt'⟩
    · rcases l' with _ | ⟨lk, lv, lh, ll, lr⟩
      · simp only [nodeHeight_nil] at hbf; omega
      · refine ⟨lk, lv, lh, ll, lr, rfl, ?_⟩
        intro heq
        subst heq
        simp only [balanceFactor_node, rootKey_node] at hbfne hbfpos hbfneg
        rcases lt_or_le 0 ((nodeHeight ll : Int) - nodeHeight lr) with h | h
        · exact absurd (hbfpos h k rfl) (lt_irrefl k)
        · exact absurd (hbfneg (by omega) k rfl) (lt_irrefl k)
    · intro hEq
      rw [hreb] at hEq
      injection hEq with hEq
      rw [hEq] at hBalt'
      have : ((nodeHeight l' : Int) - nodeHeight r).natAbs ≤ 1 := hBalt'.1
      omega
  · intro k0 v0 h0 l r r' k v hInv hk hins hbf
    obtain ⟨⟨hl, hr, hbl, hbr⟩, ⟨hh0, hOkl, hOkr⟩, ⟨hbal, hBall, hBalr⟩⟩ := hInv
    obtain ⟨r'', hins2, hOkr', hBalr', hlow, hhigh, hgrow⟩ := avlInsert_ok k v r hOkr hBalr
    rw [hins2] at hins
    injection hins with hins
    rw [hins] at hOkr' hBalr' hlow hhigh hgrow
    have hgrew : nodeHeight r' = nodeHeight r + 1 := by omega
    obtain ⟨hbf0, hbfpos, hbfneg⟩ := hgrow hgrew
    have hbfne : balanceFactor r' ≠ 0 := hbf0 (by omega)
    obtain ⟨t', hreb, hOkt', hBalt', _⟩ :=
      insert_right_rebalance k0 v0 h0 l r r' k hOkr' hBalr' hOkl hBall hlow hhigh hgrow
        (by omega) (by omega) hk
    refine ⟨?_, ?_, t', hreb, hBalt'⟩
    · rcases r' with _ | ⟨rk, rv, rh, rl, rr⟩
      · simp only [nodeHeight_nil] at hbf; omega
      · refine ⟨rk, rv, rh, rl, rr, rfl, ?_⟩
        intro heq
        subst heq
        simp only [balanceFactor_node, rootKey_node] at hbfne hbfpos hbfneg
        rcases lt_or_le 0 ((nodeHeight rl : Int) - nodeHeight rr) with h | h
        · exact absurd (hbfpos h k rfl) (lt_irrefl k)
        · exact absurd (hbfneg (by omega) k rfl) (lt_irrefl k)
    · intro hEq
      rw [hreb] at hEq
      injection hEq with hEq
      rw [hEq] at hBalt'
      have : ((nodeHeight l : Int) - nodeHeight r').natAbs ≤ 1 := hBalt'.1
      omega

theorem c10_rebalance_cases_exhaustive_witness :
    Inv (.node "C" courseC 2 (.node "B" courseB 1 .nil .nil) .nil) ∧
    avlInsert (.node "B" courseB 1 .nil .nil) "A" courseA
      = some (.node "B" courseB 2 (.node "A" courseA 1 .nil .nil) .nil) ∧
    ((∃ lk lv lh ll lr,
        (AVLNode.node "B" courseB 2 (.node "A" courseA 1 .nil .nil) .nil)
          = .node lk lv lh ll lr ∧ "A" ≠ lk) ∧
      rebalanceAfter (updateHeight (.node "C" courseC 2
          (.node "B" courseB 2 (.node "A" courseA 1 .nil .nil) .nil) .nil)) "A"
        ≠ some (updateHeight (.node "C" courseC 2
          (.node "B" courseB 2 (.node "A" courseA 1 .nil .nil) .nil) .nil)) ∧
      ∃ t', rebalanceAfter (updateHeight (.node "C" courseC 2
          (.node "B" courseB 2 (.node "A" courseA 1 .nil .nil) .nil) .nil)) "A"
        = some t' ∧ balanced t') :=
  ⟨by decide, by decide,
    c10_rebalance_cases_exhaustive.1 "C" courseC 2 (.node "B" courseB 1 .nil .nil)
      (.node "B" courseB 2 (.node "A" courseA 1 .nil .nil) .nil) .nil "A" courseA
      (by decide) (by decide) (by decide) (by decide)⟩

/-! ## String utilities and the line parser

Characters are compared through `Char.toNat`, i.e. the byte values the C++
code sees for the ASCII data it processes.  `std::isspace` (C locale)
accepts exactly the byte values 32, 9, 10, 11, 12, 13; `std::toupper` (C
locale) maps 97..122 to 65..90 — which is precisely core `Char.toUpper`. -/

/-- `std::isspace` (default C locale) on the ASCII range. -/
def isSpaceC (c : Char) : Bool :=
  c.toNat = 32 || c.toNat = 9 || c.toNat = 10 || c.toNat = 11 || c.toNat = 12 || c.toNat = 13

/-- `trim` from the source on the character list. -/
def trimList (s : List Char) : List Char :=
  ((s.dropWhile isSpaceC).reverse.dropWhile isSpaceC).reverse

/-- `trim`: strip leading and trailing whitespace. -/
def trim (s : String) : String := ⟨trimList s.data⟩

/-- `stripQuotes`: remove one pair of surrounding double quotes. -/
def stripQuotes (s : String) : String :=
  if 2 ≤ s.data.length ∧ s.data.head? = some '"' ∧ s.data.getLast? = some '"' then
    ⟨(s.data.drop 1).dropLast⟩
  else s

/-- `toUpper` from the source: uppercase every character
(`std::toupper` in the C locale = core `Char.toUpper` on ASCII). -/
def toUpper (s : String) : String := ⟨s.data.map Char.toUpper⟩

/-- The loop of `splitCSVLine`: `inQ` is the `inQuotes` flag, `field` the
field accumulator, `fields` the output accumulator.  A quote inside a
quoted field doubled up (`""`) is an escaped quote character. -/
def splitCSVAux (inQ : Bool) (field : List Char) :
    List Char → List (List Char) → List (List Char)
  | [], fields => fields ++ [field]
  | '"' :: '"' :: rest2, fields =>
    if inQ then splitCSVAux inQ (field ++ ['"']) rest2 fields
    else splitCSVAux (!inQ) field ('"' :: rest2) fields
  | '"' :: rest, fields => splitCSVAux (!inQ) field rest fields
  | c :: rest, fields =>
    if c = ',' then
      if inQ then splitCSVAux inQ (field ++ [c]) rest fields
      else splitCSVAux inQ [] rest (fields ++ [field])
    else splitCSVAux inQ (field ++ [c]) rest fields

/-- `splitCSVLine`: split on commas outside quotes, supporting quoted
fields and escaped quotes. -/
def splitCSVLine (line : String) : List String :=
  (splitCSVAux false [] line.data []).map fun l => ⟨l⟩

/-- The delimiters of `splitPrereqTokens`: whitespace, `|`, `;`, `,`. -/
def isDelimC (c : Char) : Bool :=
  isSpaceC c || c.toNat = 124 || c.toNat = 59 || c.toNat = 44

/-- `flush` inside `splitPrereqTokens`: trim the token, keep it if
non-empty. -/
def flushTok (token : List Char) : List (List Char) :=
  let t := trimList token
  if t.isEmpty then [] else [t]

def splitTokAux : List Char → List Char → List (List Char)
  | [], token => flushTok token
  | c :: rest, token =>
    if isDelimC c then flushTok token ++ splitTokAux rest []
    else splitTokAux rest (token ++ [c])

/-- `splitPrereqTokens`: split on whitespace / `|` / `;` / `,`, dropping
empty tokens. -/
def splitPrereqTokens (s : String) : List String :=
  (splitTokAux s.data []).map fun l => ⟨l⟩

/-- Insertion into a sorted list, using only `<` comparisons. -/
def insertSorted (x : String) : List String → List String
  | [] => [x]
  | y :: rest => if y < x then y :: insertSorted x rest else x :: y :: rest

/-- Model of `std::sort` on strings: on a linear order the sorted
rearrangement of a multiset is unique, so insertion sort computes exactly
the list `std::sort` produces (it is also kernel-executable, which
Mathlib's merge sort is not). -/
def sortStrings : List String → List String
  | [] => []
  | x :: rest => insertSorted x (sortStrings rest)

/-- Model of `std::unique` + `erase` on a sorted list: drop adjacent
duplicates, keeping the first of each run. -/
def dedupAdj : List String → List String
  | [] => []
  | [x] => [x]
  | x :: y :: rest => if x = y then dedupAdj (y :: rest) else x :: dedupAdj (y :: rest)

/-- Result of `parseCourseLine`: `skip` is the `errMsg == "skip"` marker
for blank/comment lines, `error` the malformed-line failure, `ok` the
parsed course (the C++ returns `bool` plus two out-parameters). -/
inductive ParseResult where
  | skip : ParseResult
  | error (msg : String) : ParseResult
  | ok (c : Course) : ParseResult
deriving DecidableEq, Repr

/-- Field normalization inside `parseCourseLine`: CSV-split the line, then
trim and strip quotes from every field. -/
def parseFields (line : String) : List String :=
  (splitCSVLine line).map fun f => stripQuotes (trim f)

/-- Prerequisite assembly inside `parseCourseLine`: tokenize each field
from index 2 on, uppercase the non-empty tokens, sort and deduplicate. -/
def buildPrereqs (rest : List String) : List String :=
  dedupAdj (sortStrings (rest.flatMap fun f =>
    if f = "" then []
    else (splitPrereqTokens f).flatMap fun tok =>
      if tok = "" then [] else [toUpper tok]))

/-- The non-skip path of `parseCourseLine` (lines 229–259): normalize the
fields, require a non-empty course number and title, build the course. -/
def parseCourseRecord (line : String) : ParseResult :=
  match parseFields line with
  | f0 :: f1 :: rest =>
    if f0 = "" ∨ f1 = "" then .error "Malformed line: requires course number and title."
    else .ok ⟨toUpper f0, f1, buildPrereqs rest⟩
  | _ => .error "Malformed line: requires course number and title."

/-- `parseCourseLine`: drop a trailing CR, skip blank/comment lines,
require a non-empty course number and title, normalize. -/
def parseCourseLine (rawLine : String) : ParseResult :=
  let line : String :=
    if rawLine.data ≠ [] ∧ rawLine.data.getLast? = some '\r' then ⟨rawLine.data.dropLast⟩
    else rawLine
  let t := trim line
  if t.data = [] ∨ t.data.head? = some '#' then .skip
  else parseCourseRecord line

/-- `printCourseInfo` as its list of output lines: look up the normalized
key; on a hit print the course line and one line per prerequisite,
resolving each prerequisite's title by a further `avlFind` and printing
`(title unknown)` on a miss instead of failing. -/
def printCourseInfo (root : AVLNode) (courseNumberRaw : String) : List String :=
  match root with
  | .nil => ["No courses loaded. Use Option 1 to load data first."]
  | _ =>
    let key := toUpper (trim courseNumberRaw)
    match avlFind root key with
    | none =>
        ["Course '" ++ key ++ "' was not found. Please check the course number and try again."]
    | some c =>
      ("Course: " ++ c.number ++ " - " ++ c.title) ::
      (if c.prerequisites.isEmpty then ["Prerequisites: None"]
       else "Prerequisites:" ::
         c.prerequisites.map fun p =>
           match avlFind root p with
           | some pc => "  - " ++ p ++ " - " ++ pc.title
           | none => "  - " ++ p ++ " - (title unknown)")

example : parseCourseLine "csci200,Data Structures,CSCI100 | math201"
    = .ok ⟨"CSCI200", "Data Structures", ["CSCI100", "MATH201"]⟩ := by decide

example : parseCourseLine "  " = .skip := by decide

example : parseCourseLine "# comment" = .skip := by decide

example : parseCourseLine "onlyone" = .error "Malformed line: requires course number and title." := by decide

example : parseCourseLine "\"\"\" x100 \"\"\",T" = .ok ⟨" X100 ", "T", []⟩ := by decide

/-! ## Normalization properties of the parser output -/

theorem toNat_ofNat_valid {n : Nat} (h : n.isValidChar) : (Char.ofNat n).toNat = n := by
  simp only [Char.ofNat]
  rw [dif_pos h]
  rfl

/-- `std::toupper` is idempotent. -/
theorem charToUpper_idem (c : Char) : Char.toUpper (Char.toUpper c) = Char.toUpper c := by
  by_cases h : c.toNat ≥ 97 ∧ c.toNat ≤ 122
  · have hA : Char.toUpper c = Char.ofNat (c.toNat - 32) := by
      simp only [Char.toUpper]
      rw [if_pos h]
    have hval : (Char.ofNat (c.toNat - 32)).toNat = c.toNat - 32 :=
      toNat_ofNat_valid (Or.inl (by omega))
    rw [hA]
    simp only [Char.toUpper]
    rw [if_neg (by omega)]
  · have hA : Char.toUpper c = c := by
      simp only [Char.toUpper]
      rw [if_neg h]
    rw [hA, hA]

/-- Uppercasing never creates whitespace. -/
theorem isSpaceC_toUpper_eq_false {c : Char} (h : isSpaceC c = false) :
    isSpaceC (Char.toUpper c) = false := by
  by_cases hc : c.toNat ≥ 97 ∧ c.toNat ≤ 122
  · have hA : Char.toUpper c = Char.ofNat (c.toNat - 32) := by
      simp only [Char.toUpper]
      rw [if_pos hc]
    have hval : (Char.ofNat (c.toNat - 32)).toNat = c.toNat - 32 :=
      toNat_ofNat_valid (Or.inl (by omega))
    rw [hA]
    simp only [isSpaceC, hval, Bool.or_eq_false_iff, decide_eq_false_iff_not]
    omega
  · have hA : Char.toUpper c = c := by
      simp only [Char.toUpper]
      rw [if_neg hc]
    rw [hA, h]

theorem dropWhile_eq_self_of_all {l : List Char}
    (h : ∀ c ∈ l, isSpaceC c = false) : l.dropWhile isSpaceC = l := by
  cases l with
  | nil => rfl
  | cons c rest =>
    rw [List.dropWhile_cons, h c (by simp)]
    simp

/-- Trimming a string with no whitespace characters is the identity. -/
theorem trim_eq_self_of_all {l : List Char}
    (h : ∀ c ∈ l, isSpaceC c = false) : trimList l = l := by
  unfold trimList
  rw [dropWhile_eq_self_of_all h,
    dropWhile_eq_self_of_all (fun c hc => h c (List.mem_reverse.mp hc)),
    List.reverse_reverse]

/-- Every token produced by `splitTokAux` is non-empty and contains no
delimiter characters. -/
theorem splitTokAux_spec :
    ∀ (l token : List Char), (∀ c ∈ token, isDelimC c = false) →
      ∀ t ∈ splitTokAux l token, t ≠ [] ∧ ∀ c ∈ t, isDelimC c = false
  | [], token, htok => by
    intro t ht
    simp only [splitTokAux, flushTok] at ht
    rw [trim_eq_self_of_all (fun c hc => by
      have := htok c hc
      simp only [isDelimC, Bool.or_eq_false_iff] at this
      simp [this.1.1.1])] at ht
    split at ht
    · exact absurd ht (by simp)
    · rename_i hne
      simp only [List.mem_singleton] at ht
      subst ht
      exact ⟨by simpa using hne, htok⟩
  | c :: rest, token, htok => by
    intro t ht
    simp only [splitTokAux] at ht
    split at ht
    · rw [List.mem_append] at ht
      rcases ht with ht | ht
      · -- t came from flushing the current token
        have := splitTokAux_spec [] token htok t (by simpa [splitTokAux] using ht)
        exact this
      · exact splitTokAux_spec rest [] (by simp) t ht
    · rename_i hc
      refine splitTokAux_spec rest (token ++ [c]) ?_ t ht
      intro d hd
      rcases List.mem_append.mp hd with hd | hd
      · exact htok d hd
      · simp only [List.mem_singleton] at hd
        subst hd
        simpa using hc

theorem mem_insertSorted {p x : String} :
    ∀ l : List String, p ∈ insertSorted x l ↔ p = x ∨ p ∈ l
  | [] => by simp [insertSorted]
  | y :: rest => by
    simp only [insertSorted]
    split_ifs
    · simp only [List.mem_cons, mem_insertSorted rest]
      tauto
    · simp only [List.mem_cons]

theorem pairwise_insertSorted {x : String} :
    ∀ l : List String, l.Pairwise (· ≤ ·) → (insertSorted x l).Pairwise (· ≤ ·)
  | [], _ => by simp [insertSorted]
  | y :: rest, hp => by
    obtain ⟨hy, hrest⟩ := List.pairwise_cons.mp hp
    simp only [insertSorted]
    split_ifs with hlt
    · rw [List.pairwise_cons]
      refine ⟨?_, pairwise_insertSorted rest hrest⟩
      intro z hz
      rcases (mem_insertSorted rest).mp hz with rfl | hz
      · exact le_of_lt hlt
      · exact hy z hz
    · rw [List.pairwise_cons]
      refine ⟨?_, hp⟩
      intro z hz
      rcases List.mem_cons.mp hz with rfl | hz
      · exact not_lt.mp hlt
      · exact le_trans (not_lt.mp hlt) (hy z hz)

theorem mem_sortStrings {p : String} :
    ∀ l : List String, p ∈ sortStrings l ↔ p ∈ l
  | [] => Iff.rfl
  | x :: rest => by
    simp only [sortStrings, mem_insertSorted, mem_sortStrings rest, List.mem_cons]

theorem pairwise_sortStrings :
    ∀ l : List String, (sortStrings l).Pairwise (· ≤ ·)
  | [] => List.Pairwise.nil
  | _ :: rest => pairwise_insertSorted _ (pairwise_sortStrings rest)

/-- Dropping adjacent duplicates of a `≤`-sorted list yields a strictly
`<`-sorted list whose members come from the original list. -/
theorem dedupAdj_spec :
    ∀ l : List String, l.Pairwise (· ≤ ·) →
      (dedupAdj l).Pairwise (· < ·) ∧ ∀ p ∈ dedupAdj l, p ∈ l
  | [], _ => ⟨List.Pairwise.nil, by simp [dedupAdj]⟩
  | [x], _ => ⟨by simp [dedupAdj], by simp [dedupAdj]⟩
  | x :: y :: rest, hp => by
    obtain ⟨hx, hrest⟩ := List.pairwise_cons.mp hp
    obtain ⟨ih1, ih2⟩ := dedupAdj_spec (y :: rest) hrest
    by_cases hxy : x = y
    · simp only [dedupAdj, if_pos hxy]
      exact ⟨ih1, fun p hp => List.mem_cons_of_mem x (ih2 p hp)⟩
    · simp only [dedupAdj, if_neg hxy]
      constructor
      · rw [List.pairwise_cons]
        refine ⟨?_, ih1⟩
        intro z hz
        have hzmem : z ∈ y :: rest := ih2 z hz
        have hxz : x ≤ z := hx z hzmem
        rcases List.mem_cons.mp hzmem with rfl | hzr
        · exact lt_of_le_of_ne hxz hxy
        · exact lt_of_le_of_ne hxz (by
            intro heq
            subst heq
            obtain ⟨hy2, _⟩ := List.pairwise_cons.mp hrest
            exact hxy (le_antisymm (hx y (by simp)) (hy2 x hzr)))
      · intro p hp
        rcases List.mem_cons.mp hp with rfl | hp
        · exact List.mem_cons_self p _
        · exact List.mem_cons_of_mem x (ih2 p hp)

theorem toUpper_ne_empty {s : String} (h : s ≠ "") : toUpper s ≠ "" := by
  intro heq
  apply h
  have : (toUpper s).data = [] := by rw [heq]
  simp only [toUpper] at this
  rcases hs : s.data with _ | ⟨c, rest⟩
  · cases s; simp_all
  · rw [hs] at this; simp at this

theorem toUpper_idem (s : String) : toUpper (toUpper s) = toUpper s := by
  simp only [toUpper, List.map_map]
  congr 1
  exact List.map_congr_left (fun c _ => charToUpper_idem c)

/-- Every prerequisite assembled by the parser is non-empty, whitespace
free (hence trimmed), and upper-cased; the list is strictly sorted, hence
duplicate-free. -/
theorem buildPrereqs_spec (rest : List String) :
    (∀ p ∈ buildPrereqs rest, p ≠ "" ∧ toUpper p = p ∧ trim p = p) ∧
      (buildPrereqs rest).Pairwise (· < ·) := by
  obtain ⟨hpair, hmem⟩ := dedupAdj_spec _ (pairwise_sortStrings (rest.flatMap fun f =>
    if f = "" then []
    else (splitPrereqTokens f).flatMap fun tok => if tok = "" then [] else [toUpper tok]))
  refine ⟨?_, hpair⟩
  intro p hp
  have hpmem := (mem_sortStrings _).mp (hmem p hp)
  rw [List.mem_flatMap] at hpmem
  obtain ⟨f, _, hpf⟩ := hpmem
  split at hpf
  · exact absurd hpf (by simp)
  · rw [List.mem_flatMap] at hpf
    obtain ⟨tok, htok, hptok⟩ := hpf
    split at hptok
    · exact absurd hptok (by simp)
    · rename_i htokne
      simp only [List.mem_singleton] at hptok
      subst hptok
      -- `tok` is a token of `splitPrereqTokens f`: non-empty, delimiter-free
      simp only [splitPrereqTokens, List.mem_map] at htok
      obtain ⟨t, htl, htok⟩ := htok
      obtain ⟨htne, htchars⟩ := splitTokAux_spec f.data [] (by simp) t htl
      subst htok
      refine ⟨toUpper_ne_empty (by
          intro heq
          apply htne
          have : (String.mk t).data = [] := by rw [heq]
          simpa using this),
        toUpper_idem _, ?_⟩
      -- trimming: all characters of the uppercased token are non-space
      show trim (toUpper ⟨t⟩) = toUpper ⟨t⟩
      simp only [trim, toUpper]
      congr 1
      apply trim_eq_self_of_all
      intro c hc
      simp only [List.mem_map] at hc
      obtain ⟨d, hd, hdc⟩ := hc
      subst hdc
      apply isSpaceC_toUpper_eq_false
      have := htchars d hd
      simp only [isDelimC, Bool.or_eq_false_iff] at this
      exact this.1.1.1

/-! ## Claim theorems: parser and report layer -/

/-- C9 counterexample: the claim promises the parsed course number is
trimmed of surrounding whitespace, but a field written with escaped quote
characters keeps its quotes through the CSV split; `trim` then leaves the
quoted content alone and `stripQuotes` exposes the inner whitespace, which
survives into the accepted course number.  On the line
`\"\"\" x100 \"\"\",T` the parser succeeds with number `\" X100 \"`, which
is not trimmed. -/
theorem c9_parser_normalization_counterexample :
    parseCourseLine "\"\"\" x100 \"\"\",T"
        = .ok ⟨" X100 ", "T", []⟩ ∧
      trim " X100 " ≠ " X100 " ∧
      ¬ (∀ c : Course, parseCourseLine "\"\"\" x100 \"\"\",T" = .ok c →
          trim c.number = c.number) := by
  refine ⟨by decide, by decide, fun h => ?_⟩
  have := h ⟨" X100 ", "T", []⟩ (by decide)
  revert this
  decide

/-- C9 (amended): on every line accepted by `parseCourseLine`, the course
number is non-empty and upper-cased (though NOT necessarily trimmed: quoted
fields can retain surrounding whitespace), and the prerequisites are
non-empty, trimmed (indeed whitespace-free), upper-cased identifiers,
strictly sorted and therefore duplicate-free. -/
theorem parseCourseRecord_ok {line : String} {c : Course}
    (h : parseCourseRecord line = .ok c) :
    c.number ≠ "" ∧ toUpper c.number = c.number ∧
      (∀ p ∈ c.prerequisites, p ≠ "" ∧ toUpper p = p ∧ trim p = p) ∧
      c.prerequisites.Pairwise (· < ·) := by
  simp only [parseCourseRecord] at h
  split at h
  · rename_i f0 f1 rest heq
    split at h
    · exact absurd h (by simp)
    · rename_i hne
      push_neg at hne
      simp only [ParseResult.ok.injEq] at h
      subst h
      obtain ⟨hp, hsorted⟩ := buildPrereqs_spec rest
      exact ⟨toUpper_ne_empty hne.1, toUpper_idem f0, hp, hsorted⟩
  · exact absurd h (by simp)

theorem c9_parser_normalization_amended (line : String) (c : Course)
    (h : parseCourseLine line = .ok c) :
    c.number ≠ "" ∧ toUpper c.number = c.number ∧
      (∀ p ∈ c.prerequisites, p ≠ "" ∧ toUpper p = p ∧ trim p = p) ∧
      c.prerequisites.Pairwise (· < ·) := by
  simp only [parseCourseLine] at h
  split at h
  all_goals split at h
  all_goals first
    | exact absurd h (by simp)
    | exact parseCourseRecord_ok h

theorem c9_parser_normalization_amended_witness :
    parseCourseLine "csci200,Data Structures,CSCI100 | math201"
        = .ok ⟨"CSCI200", "Data Structures", ["CSCI100", "MATH201"]⟩ ∧
      ("CSCI200" : String) ≠ "" ∧
      toUpper "CSCI200" = "CSCI200" ∧
      (∀ p ∈ (["CSCI100", "MATH201"] : List String),
        p ≠ "" ∧ toUpper p = p ∧ trim p = p) ∧
      (["CSCI100", "MATH201"] : List String).Pairwise (· < ·) := by
  have h := c9_parser_normalization_amended "csci200,Data Structures,CSCI100 | math201"
    ⟨"CSCI200", "Data Structures", ["CSCI100", "MATH201"]⟩ (by decide)
  exact ⟨by decide, h.1, h.2.1, h.2.2.1, h.2.2.2⟩

def entX100 : Course := ⟨"X100", "Intro Topics", []⟩

def entX200 : Course := ⟨"X200", "Advanced Topics", ["X100", "X999"]⟩

/-- C8: with exactly `X100` (no cross-references) and `X200`
(cross-references `X100`, `X999`) loaded, resolving `X200` finds its
record; the per-reference lookups report `X100` with its stored title and
`X999` as `(title unknown)` — the miss is an ordinary `none` result, not a
fault. -/
theorem c8_cross_reference_resolution :
    ∃ t, insertAll [("X100", entX100), ("X200", entX200)] = some t ∧
      avlFind t "X200" = some entX200 ∧
      avlFind t "X100" = some entX100 ∧
      avlFind t "X999" = none ∧
      printCourseInfo t "X200" =
        ["Course: X200 - Advanced Topics",
         "Prerequisites:",
         "  - X100 - Intro Topics",
         "  - X999 - (title unknown)"] := by
  refine ⟨.node "X100" entX100 2 .nil (.node "X200" entX200 1 .nil .nil),
    by decide, by decide, by decide, by decide, by decide⟩

/-! ## Height bound (C6)

A tree with correct heights and AVL balance of height `h` has at least
`fib (h+2) - 1` nodes; via Binet's formula this bounds the height
logarithmically in the size.  The bound claimed in the specification,
`1.44 * log2 (N+2) - 0.328`, rounds the theoretical constant
`1/log2 φ = 1.44042...` DOWN to `1.44`, and the resulting bound is in fact
violated by the 609-node Fibonacci tree of height 13 (which is reachable
by inserts): `1.44 * log2 611 - 0.328 = 12.9992... < 13`. -/

/-- A height-correct balanced tree of height `h` has at least
`fib (h+2) - 1` nodes. -/
theorem fib_height_le_size :
    ∀ t : AVLNode, heightsOk t → balanced t →
      Nat.fib (nodeHeight t + 2) ≤ size t + 1
  | .nil, _, _ => by decide
  | .node k v h l r, hOk, hBal => by
    obtain ⟨hh, hOkl, hOkr⟩ := hOk
    obtain ⟨hb, hBl, hBr⟩ := hBal
    have ihl := fib_height_le_size l hOkl hBl
    have ihr := fib_height_le_size r hOkr hBr
    rw [show nodeHeight (AVLNode.node k v h l r) = h from rfl, hh]
    rcases Nat.le_total (nodeHeight l) (nodeHeight r) with hle | hle
    · rw [Nat.max_eq_right hle]
      have hmono : Nat.fib (nodeHeight r + 1) ≤ Nat.fib (nodeHeight l + 2) :=
        Nat.fib_mono (by omega)
      have hsplit : Nat.fib (1 + nodeHeight r + 2)
          = Nat.fib (nodeHeight r + 1) + Nat.fib (nodeHeight r + 2) := by
        rw [show 1 + nodeHeight r + 2 = (nodeHeight r + 1) + 2 from by omega,
          Nat.fib_add_two]
      rw [hsplit]
      simp only [size]
      omega
    · rw [Nat.max_eq_left hle]
      have hmono : Nat.fib (nodeHeight l + 1) ≤ Nat.fib (nodeHeight r + 2) :=
        Nat.fib_mono (by omega)
      have hsplit : Nat.fib (1 + nodeHeight l + 2)
          = Nat.fib (nodeHeight l + 1) + Nat.fib (nodeHeight l + 2) := by
        rw [show 1 + nodeHeight l + 2 = (nodeHeight l + 1) + 2 from by omega,
          Nat.fib_add_two]
      rw [hsplit]
      simp only [size]
      omega

/-- Rational lower bound `1.618` on the golden ratio. -/
theorem gold_lower : (809 / 500 : ℝ) ≤ goldenRatio := by
  have h5 : (559 / 250 : ℝ) ≤ Real.sqrt 5 := by
    rw [Real.le_sqrt (by norm_num) (by norm_num)]
    norm_num
  show (809 / 500 : ℝ) ≤ (1 + Real.sqrt 5) / 2
  linarith

set_option maxRecDepth 10000 in
/-- `log 2 ≤ 1.4405 * log φ`, i.e. `1 / log2 φ ≤ 1.4405`
(the true constant is `1.44042...`), certified by the exact integer
inequality `2 ^ 2000 * 500 ^ 2881 ≤ 809 ^ 2881`. -/
theorem log_two_le : Real.log 2 ≤ 1.4405 * Real.log goldenRatio := by
  have hnat : (2 : ℕ) ^ 2000 * 500 ^ 2881 ≤ 809 ^ 2881 := by decide
  have hreal : ((2 : ℝ)) ^ 2000 ≤ (809 / 500) ^ 2881 := by
    rw [div_pow, le_div_iff (by positivity)]
    have hcast := (Nat.cast_le (α := ℝ)).mpr hnat
    push_cast at hcast
    linarith
  have hpow : ((2 : ℝ)) ^ 2000 ≤ goldenRatio ^ 2881 :=
    le_trans hreal (pow_le_pow_left (by norm_num) gold_lower 2881)
  have hlog := Real.log_le_log (by positivity) hpow
  rw [Real.log_pow, Real.log_pow] at hlog
  push_cast at hlog
  linarith

set_option maxRecDepth 10000 in
/-- `log √5 ≤ 1.673 * log φ` (the true ratio is `1.67227...`), certified by
the exact integer inequality `5 ^ 500 * 500 ^ 1673 ≤ 809 ^ 1673`. -/
theorem log_sqrt_five_le : Real.log (Real.sqrt 5) ≤ 1.673 * Real.log goldenRatio := by
  have hnat : (5 : ℕ) ^ 500 * 500 ^ 1673 ≤ 809 ^ 1673 := by decide
  have hreal : ((5 : ℝ)) ^ 500 ≤ (809 / 500) ^ 1673 := by
    rw [div_pow, le_div_iff (by positivity)]
    have hcast := (Nat.cast_le (α := ℝ)).mpr hnat
    push_cast at hcast
    linarith
  have hpow : ((5 : ℝ)) ^ 500 ≤ goldenRatio ^ 1673 :=
    le_trans hreal (pow_le_pow_left (by norm_num) gold_lower 1673)
  have hlog := Real.log_le_log (by positivity) hpow
  rw [Real.log_pow, Real.log_pow] at hlog
  push_cast at hlog
  rw [Real.log_sqrt (by norm_num)]
  linarith

/-- Binet's formula turns the Fibonacci size bound into a power bound. -/
theorem gold_pow_le_card {h N : ℕ} (hfib : Nat.fib (h + 2) ≤ N + 1) :
    goldenRatio ^ (h + 2) ≤ Real.sqrt 5 * ((N : ℝ) + 2) := by
  have hs5pos : (0 : ℝ) < Real.sqrt 5 := Real.sqrt_pos.mpr (by norm_num)
  have hb := Real.coe_fib_eq (h + 2)
  rw [eq_div_iff (ne_of_gt hs5pos)] at hb
  have hψ : goldenConj ^ (h + 2) ≤ 1 := by
    have h1 : |goldenConj| ≤ 1 :=
      abs_le.mpr ⟨le_of_lt neg_one_lt_goldConj, le_of_lt (lt_trans goldConj_neg one_pos)⟩
    calc goldenConj ^ (h + 2) ≤ |goldenConj ^ (h + 2)| := le_abs_self _
      _ = |goldenConj| ^ (h + 2) := abs_pow _ _
      _ ≤ 1 := pow_le_one₀ (abs_nonneg _) h1
  have hfibR : (Nat.fib (h + 2) : ℝ) ≤ (N : ℝ) + 1 := by exact_mod_cast hfib
  have hs5one : (1 : ℝ) ≤ Real.sqrt 5 := by
    rw [show (1 : ℝ) = Real.sqrt 1 from Real.sqrt_one.symm]
    exact Real.sqrt_le_sqrt (by norm_num)
  have hprod := mul_le_mul_of_nonneg_right hfibR (le_of_lt hs5pos)
  linarith

/-- The analytic height bound: `fib (h+2) ≤ N + 1` forces
`h ≤ 1.4405 * log2 (N+2) - 0.327`. -/
theorem fib_height_bound_real {h N : ℕ} (hfib : Nat.fib (h + 2) ≤ N + 1) :
    (h : ℝ) ≤ 1.4405 * Real.logb 2 ((N : ℝ) + 2) - 0.327 := by
  have hlogφ : 0 < Real.log goldenRatio := Real.log_pos one_lt_gold
  have hlog2 : 0 < Real.log 2 := Real.log_pos (by norm_num)
  have hN2 : (0 : ℝ) < (N : ℝ) + 2 := by positivity
  have hlogN : 0 ≤ Real.log ((N : ℝ) + 2) :=
    Real.log_nonneg (by have : (0:ℝ) ≤ (N : ℝ) := Nat.cast_nonneg N; linarith)
  have hs5pos : (0 : ℝ) < Real.sqrt 5 := Real.sqrt_pos.mpr (by norm_num)
  have hlog := Real.log_le_log (by positivity) (gold_pow_le_card hfib)
  rw [Real.log_pow, Real.log_mul (ne_of_gt hs5pos) (ne_of_gt hN2)] at hlog
  push_cast at hlog
  have hh0 : (0 : ℝ) ≤ (h : ℝ) + 0.327 := by positivity
  have hL : ((h : ℝ) + 0.327) * Real.log goldenRatio ≤ Real.log ((N : ℝ) + 2) := by
    nlinarith [log_sqrt_five_le]
  have key : ((h : ℝ) + 0.327) * Real.log 2 ≤ 1.4405 * Real.log ((N : ℝ) + 2) := by
    nlinarith [mul_le_mul_of_nonneg_left log_two_le hh0]
  rw [le_sub_iff_add_le, show Real.logb 2 ((N : ℝ) + 2)
      = Real.log ((N : ℝ) + 2) / Real.log 2 from rfl, ← mul_div_assoc,
    le_div_iff hlog2]
  linarith

/-- Arbitrary course value used for the worst-case insertion sequence
(the claim quantifies over all values). -/
def cDummy : Course := ⟨"", "", []⟩

/-- Distinct one-character string keys in the same order as the `Nat`
indices (codepoints 256..864, all valid scalar values). -/
def encKey (n : Nat) : String := ⟨[Char.ofNat (256 + n)]⟩

/-- Node builder used by the recorded intermediate-tree literals below. -/
def ndK (n h : Nat) (l r : AVLNode) : AVLNode := .node (encKey n) cDummy h l r

/-- The 609 key indices in breadth-first order of the height-13 Fibonacci tree
(each index `n` becomes the one-character key `encKey n`). -/
def idx609 : List Nat :=
  [ 376, 232, 520, 143, 321, 465, 575, 88, 198, 287, 355, 431, 499, 554, 596, 54, 122, 177, 219,
   266, 308, 342, 368, 410, 452, 486, 512, 541, 567, 588, 604, 33, 75, 109, 135, 164, 190, 211, 227,
   253, 279, 300, 316, 334, 350, 363, 373, 397, 423, 444, 460, 478, 494, 507, 517, 533, 549, 562,
   572, 583, 593, 601, 607, 20, 46, 67, 83, 101, 117, 130, 140, 156, 172, 185, 195, 206, 216, 224,
   230, 245, 261, 274, 284, 295, 305, 313, 319, 329, 339, 347, 353, 360, 366, 371, 375, 389, 405,
   418, 428, 439, 449, 457, 463, 473, 483, 491, 497, 504, 510, 515, 519, 528, 538, 546, 552, 559,
   565, 570, 574, 580, 586, 591, 595, 599, 603, 606, 608, 12, 28, 41, 51, 62, 72, 80, 86, 96, 106,
   114, 120, 127, 133, 138, 142, 151, 161, 169, 175, 182, 188, 193, 197, 203, 209, 214, 218, 222,
   226, 229, 231, 240, 250, 258, 264, 271, 277, 282, 286, 292, 298, 303, 307, 311, 315, 318, 320,
   326, 332, 337, 341, 345, 349, 352, 354, 358, 362, 365, 367, 370, 372, 374, 384, 394, 402, 408,
   415, 421, 426, 430, 436, 442, 447, 451, 455, 459, 462, 464, 470, 476, 481, 485, 489, 493, 496,
   498, 502, 506, 509, 511, 514, 516, 518, 525, 531, 536, 540, 544, 548, 551, 553, 557, 561, 564,
   566, 569, 571, 573, 578, 582, 585, 587, 590, 592, 594, 598, 600, 602, 605, 7, 17, 25, 31, 38, 44,
   49, 53, 59, 65, 70, 74, 78, 82, 85, 87, 93, 99, 104, 108, 112, 116, 119, 121, 125, 129, 132, 134,
   137, 139, 141, 148, 154, 159, 163, 167, 171, 174, 176, 180, 184, 187, 189, 192, 194, 196, 201,
   205, 208, 210, 213, 215, 217, 221, 223, 225, 228, 237, 243, 248, 252, 256, 260, 263, 265, 269,
   273, 276, 278, 281, 283, 285, 290, 294, 297, 299, 302, 304, 306, 310, 312, 314, 317, 324, 328,
   331, 333, 336, 338, 340, 344, 346, 348, 351, 357, 359, 361, 364, 369, 381, 387, 392, 396, 400,
   404, 407, 409, 413, 417, 420, 422, 425, 427, 429, 434, 438, 441, 443, 446, 448, 450, 454, 456,
   458, 461, 468, 472, 475, 477, 480, 482, 484, 488, 490, 492, 495, 501, 503, 505, 508, 513, 523,
   527, 530, 532, 535, 537, 539, 543, 545, 547, 550, 556, 558, 560, 563, 568, 577, 579, 581, 584,
   589, 597, 4, 10, 15, 19, 23, 27, 30, 32, 36, 40, 43, 45, 48, 50, 52, 57, 61, 64, 66, 69, 71, 73,
   77, 79, 81, 84, 91, 95, 98, 100, 103, 105, 107, 111, 113, 115, 118, 124, 126, 128, 131, 136, 146,
   150, 153, 155, 158, 160, 162, 166, 168, 170, 173, 179, 181, 183, 186, 191, 200, 202, 204, 207,
   212, 220, 235, 239, 242, 244, 247, 249, 251, 255, 257, 259, 262, 268, 270, 272, 275, 280, 289,
   291, 293, 296, 301, 309, 323, 325, 327, 330, 335, 343, 356, 379, 383, 386, 388, 391, 393, 395,
   399, 401, 403, 406, 412, 414, 416, 419, 424, 433, 435, 437, 440, 445, 453, 467, 469, 471, 474,
   479, 487, 500, 522, 524, 526, 529, 534, 542, 555, 576, 2, 6, 9, 11, 14, 16, 18, 22, 24, 26, 29,
   35, 37, 39, 42, 47, 56, 58, 60, 63, 68, 76, 90, 92, 94, 97, 102, 110, 123, 145, 147, 149, 152,
   157, 165, 178, 199, 234, 236, 238, 241, 246, 254, 267, 288, 322, 378, 380, 382, 385, 390, 398,
   411, 432, 466, 521, 1, 3, 5, 8, 13, 21, 34, 55, 89, 144, 233, 377, 0]

/-- 609 distinct keys whose insertion order (breadth-first order of the
minimal height-13 AVL tree) builds the worst-case Fibonacci tree. -/
def ops609 : List (String × Course) :=
  idx609.map fun n => (encKey n, cDummy)

/-- The tree after the first 15 inserts of `ops609`. -/
def t609c1 : AVLNode :=
  (ndK 376 4 (ndK 232 3 (ndK 143 2 (ndK 88 1 .nil .nil) (ndK 198 1 .nil .nil)) (ndK 321 2 (ndK 287 1 .nil
    .nil) (ndK 355 1 .nil .nil))) (ndK 520 3 (ndK 465 2 (ndK 431 1 .nil .nil) (ndK 499 1 .nil .nil)) (ndK 575
    2 (ndK 554 1 .nil .nil) (ndK 596 1 .nil .nil))))

/-- The tree after the first 30 inserts of `ops609`. -/
def t609c2 : AVLNode :=
  (ndK 376 5 (ndK 232 4 (ndK 143 3 (ndK 88 2 (ndK 54 1 .nil .nil) (ndK 122 1 .nil .nil)) (ndK 198 2 (ndK 177 1
    .nil .nil) (ndK 219 1 .nil .nil))) (ndK 321 3 (ndK 287 2 (ndK 266 1 .nil .nil) (ndK 308 1 .nil .nil)) (ndK
    355 2 (ndK 342 1 .nil .nil) (ndK 368 1 .nil .nil)))) (ndK 520 4 (ndK 465 3 (ndK 431 2 (ndK 410 1 .nil
    .nil) (ndK 452 1 .nil .nil)) (ndK 499 2 (ndK 486 1 .nil .nil) (ndK 512 1 .nil .nil))) (ndK 575 3 (ndK 554
    2 (ndK 541 1 .nil .nil) (ndK 567 1 .nil .nil)) (ndK 596 2 (ndK 588 1 .nil .nil) .nil))))

/-- The tree after the first 45 inserts of `ops609`. -/
def t609c3 : AVLNode :=
  (ndK 376 6 (ndK 232 5 (ndK 143 4 (ndK 88 3 (ndK 54 2 (ndK 33 1 .nil .nil) (ndK 75 1 .nil .nil)) (ndK 122 2
    (ndK 109 1 .nil .nil) (ndK 135 1 .nil .nil))) (ndK 198 3 (ndK 177 2 (ndK 164 1 .nil .nil) (ndK 190 1 .nil
    .nil)) (ndK 219 2 (ndK 211 1 .nil .nil) (ndK 227 1 .nil .nil)))) (ndK 321 4 (ndK 287 3 (ndK 266 2 (ndK 253
    1 .nil .nil) (ndK 279 1 .nil .nil)) (ndK 308 2 (ndK 300 1 .nil .nil) (ndK 316 1 .nil .nil))) (ndK 355 3
    (ndK 342 2 (ndK 334 1 .nil .nil) (ndK 350 1 .nil .nil)) (ndK 368 1 .nil .nil)))) (ndK 520 4 (ndK 465 3
    (ndK 431 2 (ndK 410 1 .nil .nil) (ndK 452 1 .nil .nil)) (ndK 499 2 (ndK 486 1 .nil .nil) (ndK 512 1 .nil
    .nil))) (ndK 575 3 (ndK 554 2 (ndK 541 1 .nil .nil) (ndK 567 1 .nil .nil)) (ndK 596 2 (ndK 588 1 .nil
    .nil) (ndK 604 1 .nil .nil)))))

/-- The tree after the first 60 inserts of `ops609`. -/
def t609c4 : AVLNode :=
  (ndK 376 6 (ndK 232 5 (ndK 143 4 (ndK 88 3 (ndK 54 2 (ndK 33 1 .nil .nil) (ndK 75 1 .nil .nil)) (ndK 122 2
    (ndK 109 1 .nil .nil) (ndK 135 1 .nil .nil))) (ndK 198 3 (ndK 177 2 (ndK 164 1 .nil .nil) (ndK 190 1 .nil
    .nil)) (ndK 219 2 (ndK 211 1 .nil .nil) (ndK 227 1 .nil .nil)))) (ndK 321 4 (ndK 287 3 (ndK 266 2 (ndK 253
    1 .nil .nil) (ndK 279 1 .nil .nil)) (ndK 308 2 (ndK 300 1 .nil .nil) (ndK 316 1 .nil .nil))) (ndK 355 3
    (ndK 342 2 (ndK 334 1 .nil .nil) (ndK 350 1 .nil .nil)) (ndK 368 2 (ndK 363 1 .nil .nil) (ndK 373 1 .nil
    .nil))))) (ndK 520 5 (ndK 465 4 (ndK 431 3 (ndK 410 2 (ndK 397 1 .nil .nil) (ndK 423 1 .nil .nil)) (ndK
    452 2 (ndK 444 1 .nil .nil) (ndK 460 1 .nil .nil))) (ndK 499 3 (ndK 486 2 (ndK 478 1 .nil .nil) (ndK 494 1
    .nil .nil)) (ndK 512 2 (ndK 507 1 .nil .nil) (ndK 517 1 .nil .nil)))) (ndK 575 4 (ndK 554 3 (ndK 541 2
    (ndK 533 1 .nil .nil) (ndK 549 1 .nil .nil)) (ndK 567 2 (ndK 562 1 .nil .nil) (ndK 572 1 .nil .nil))) (ndK
    596 3 (ndK 588 2 (ndK 583 1 .nil .nil) .nil) (ndK 604 1 .nil .nil)))))

/-- The tree after the first 75 inserts of `ops609`. -/
def t609c5 : AVLNode :=
  (ndK 376 7 (ndK 232 6 (ndK 143 5 (ndK 88 4 (ndK 54 3 (ndK 33 2 (ndK 20 1 .nil .nil) (ndK 46 1 .nil .nil))
    (ndK 75 2 (ndK 67 1 .nil .nil) (ndK 83 1 .nil .nil))) (ndK 122 3 (ndK 109 2 (ndK 101 1 .nil .nil) (ndK 117
    1 .nil .nil)) (ndK 135 2 (ndK 130 1 .nil .nil) (ndK 140 1 .nil .nil)))) (ndK 198 4 (ndK 177 3 (ndK 164 2
    (ndK 156 1 .nil .nil) (ndK 172 1 .nil .nil)) (ndK 190 2 (ndK 185 1 .nil .nil) (ndK 195 1 .nil .nil))) (ndK
    219 2 (ndK 211 1 .nil .nil) (ndK 227 1 .nil .nil)))) (ndK 321 4 (ndK 287 3 (ndK 266 2 (ndK 253 1 .nil
    .nil) (ndK 279 1 .nil .nil)) (ndK 308 2 (ndK 300 1 .nil .nil) (ndK 316 1 .nil .nil))) (ndK 355 3 (ndK 342
    2 (ndK 334 1 .nil .nil) (ndK 350 1 .nil .nil)) (ndK 368 2 (ndK 363 1 .nil .nil) (ndK 373 1 .nil .nil)))))
    (ndK 520 5 (ndK 465 4 (ndK 431 3 (ndK 410 2 (ndK 397 1 .nil .nil) (ndK 423 1 .nil .nil)) (ndK 452 2 (ndK
    444 1 .nil .nil) (ndK 460 1 .nil .nil))) (ndK 499 3 (ndK 486 2 (ndK 478 1 .nil .nil) (ndK 494 1 .nil
    .nil)) (ndK 512 2 (ndK 507 1 .nil .nil) (ndK 517 1 .nil .nil)))) (ndK 575 4 (ndK 554 3 (ndK 541 2 (ndK 533
    1 .nil .nil) (ndK 549 1 .nil .nil)) (ndK 567 2 (ndK 562 1 .nil .nil) (ndK 572 1 .nil .nil))) (ndK 596 3
    (ndK 588 2 (ndK 583 1 .nil .nil) (ndK 593 1 .nil .nil)) (ndK 604 2 (ndK 601 1 .nil .nil) (ndK 607 1 .nil
    .nil))))))

/-- The tree after the first 90 inserts of `ops609`. -/
def t609c6 : AVLNode :=
  (ndK 376 7 (ndK 232 6 (ndK 143 5 (ndK 88 4 (ndK 54 3 (ndK 33 2 (ndK 20 1 .nil .nil) (ndK 46 1 .nil .nil))
    (ndK 75 2 (ndK 67 1 .nil .nil) (ndK 83 1 .nil .nil))) (ndK 122 3 (ndK 109 2 (ndK 101 1 .nil .nil) (ndK 117
    1 .nil .nil)) (ndK 135 2 (ndK 130 1 .nil .nil) (ndK 140 1 .nil .nil)))) (ndK 198 4 (ndK 177 3 (ndK 164 2
    (ndK 156 1 .nil .nil) (ndK 172 1 .nil .nil)) (ndK 190 2 (ndK 185 1 .nil .nil) (ndK 195 1 .nil .nil))) (ndK
    219 3 (ndK 211 2 (ndK 206 1 .nil .nil) (ndK 216 1 .nil .nil)) (ndK 227 2 (ndK 224 1 .nil .nil) (ndK 230 1
    .nil .nil))))) (ndK 321 5 (ndK 287 4 (ndK 266 3 (ndK 253 2 (ndK 245 1 .nil .nil) (ndK 261 1 .nil .nil))
    (ndK 279 2 (ndK 274 1 .nil .nil) (ndK 284 1 .nil .nil))) (ndK 308 3 (ndK 300 2 (ndK 295 1 .nil .nil) (ndK
    305 1 .nil .nil)) (ndK 316 2 (ndK 313 1 .nil .nil) (ndK 319 1 .nil .nil)))) (ndK 355 4 (ndK 342 3 (ndK 334
    2 (ndK 329 1 .nil .nil) (ndK 339 1 .nil .nil)) (ndK 350 2 (ndK 347 1 .nil .nil) .nil)) (ndK 368 2 (ndK 363
    1 .nil .nil) (ndK 373 1 .nil .nil))))) (ndK 520 5 (ndK 465 4 (ndK 431 3 (ndK 410 2 (ndK 397 1 .nil .nil)
    (ndK 423 1 .nil .nil)) (ndK 452 2 (ndK 444 1 .nil .nil) (ndK 460 1 .nil .nil))) (ndK 499 3 (ndK 486 2 (ndK
    478 1 .nil .nil) (ndK 494 1 .nil .nil)) (ndK 512 2 (ndK 507 1 .nil .nil) (ndK 517 1 .nil .nil)))) (ndK 575
    4 (ndK 554 3 (ndK 541 2 (ndK 533 1 .nil .nil) (ndK 549 1 .nil .nil)) (ndK 567 2 (ndK 562 1 .nil .nil) (ndK
    572 1 .nil .nil))) (ndK 596 3 (ndK 588 2 (ndK 583 1 .nil .nil) (ndK 593 1 .nil .nil)) (ndK 604 2 (ndK 601
    1 .nil .nil) (ndK 607 1 .nil .nil))))))

/-- The tree after the first 105 inserts of `ops609`. -/
def t609c7 : AVLNode :=
  (ndK 376 7 (ndK 232 6 (ndK 143 5 (ndK 88 4 (ndK 54 3 (ndK 33 2 (ndK 20 1 .nil .nil) (ndK 46 1 .nil .nil))
    (ndK 75 2 (ndK 67 1 .nil .nil) (ndK 83 1 .nil .nil))) (ndK 122 3 (ndK 109 2 (ndK 101 1 .nil .nil) (ndK 117
    1 .nil .nil)) (ndK 135 2 (ndK 130 1 .nil .nil) (ndK 140 1 .nil .nil)))) (ndK 198 4 (ndK 177 3 (ndK 164 2
    (ndK 156 1 .nil .nil) (ndK 172 1 .nil .nil)) (ndK 190 2 (ndK 185 1 .nil .nil) (ndK 195 1 .nil .nil))) (ndK
    219 3 (ndK 211 2 (ndK 206 1 .nil .nil) (ndK 216 1 .nil .nil)) (ndK 227 2 (ndK 224 1 .nil .nil) (ndK 230 1
    .nil .nil))))) (ndK 321 5 (ndK 287 4 (ndK 266 3 (ndK 253 2 (ndK 245 1 .nil .nil) (ndK 261 1 .nil .nil))
    (ndK 279 2 (ndK 274 1 .nil .nil) (ndK 284 1 .nil .nil))) (ndK 308 3 (ndK 300 2 (ndK 295 1 .nil .nil) (ndK
    305 1 .nil .nil)) (ndK 316 2 (ndK 313 1 .nil .nil) (ndK 319 1 .nil .nil)))) (ndK 355 4 (ndK 342 3 (ndK 334
    2 (ndK 329 1 .nil .nil) (ndK 339 1 .nil .nil)) (ndK 350 2 (ndK 347 1 .nil .nil) (ndK 353 1 .nil .nil)))
    (ndK 368 3 (ndK 363 2 (ndK 360 1 .nil .nil) (ndK 366 1 .nil .nil)) (ndK 373 2 (ndK 371 1 .nil .nil) (ndK
    375 1 .nil .nil)))))) (ndK 520 6 (ndK 465 5 (ndK 431 4 (ndK 410 3 (ndK 397 2 (ndK 389 1 .nil .nil) (ndK
    405 1 .nil .nil)) (ndK 423 2 (ndK 418 1 .nil .nil) (ndK 428 1 .nil .nil))) (ndK 452 3 (ndK 444 2 (ndK 439
    1 .nil .nil) (ndK 449 1 .nil .nil)) (ndK 460 2 (ndK 457 1 .nil .nil) (ndK 463 1 .nil .nil)))) (ndK 499 4
    (ndK 486 3 (ndK 478 2 (ndK 473 1 .nil .nil) (ndK 483 1 .nil .nil)) (ndK 494 1 .nil .nil)) (ndK 512 2 (ndK
    507 1 .nil .nil) (ndK 517 1 .nil .nil)))) (ndK 575 4 (ndK 554 3 (ndK 541 2 (ndK 533 1 .nil .nil) (ndK 549
    1 .nil .nil)) (ndK 567 2 (ndK 562 1 .nil .nil) (ndK 572 1 .nil .nil))) (ndK 596 3 (ndK 588 2 (ndK 583 1
    .nil .nil) (ndK 593 1 .nil .nil)) (ndK 604 2 (ndK 601 1 .nil .nil) (ndK 607 1 .nil .nil))))))

/-- The tree after the first 120 inserts of `ops609`. -/
def t609c8 : AVLNode :=
  (ndK 376 7 (ndK 232 6 (ndK 143 5 (ndK 88 4 (ndK 54 3 (ndK 33 2 (ndK 20 1 .nil .nil) (ndK 46 1 .nil .nil))
    (ndK 75 2 (ndK 67 1 .nil .nil) (ndK 83 1 .nil .nil))) (ndK 122 3 (ndK 109 2 (ndK 101 1 .nil .nil) (ndK 117
    1 .nil .nil)) (ndK 135 2 (ndK 130 1 .nil .nil) (ndK 140 1 .nil .nil)))) (ndK 198 4 (ndK 177 3 (ndK 164 2
    (ndK 156 1 .nil .nil) (ndK 172 1 .nil .nil)) (ndK 190 2 (ndK 185 1 .nil .nil) (ndK 195 1 .nil .nil))) (ndK
    219 3 (ndK 211 2 (ndK 206 1 .nil .nil) (ndK 216 1 .nil .nil)) (ndK 227 2 (ndK 224 1 .nil .nil) (ndK 230 1
    .nil .nil))))) (ndK 321 5 (ndK 287 4 (ndK 266 3 (ndK 253 2 (ndK 245 1 .nil .nil) (ndK 261 1 .nil .nil))
    (ndK 279 2 (ndK 274 1 .nil .nil) (ndK 284 1 .nil .nil))) (ndK 308 3 (ndK 300 2 (ndK 295 1 .nil .nil) (ndK
    305 1 .nil .nil)) (ndK 316 2 (ndK 313 1 .nil .nil) (ndK 319 1 .nil .nil)))) (ndK 355 4 (ndK 342 3 (ndK 334
    2 (ndK 329 1 .nil .nil) (ndK 339 1 .nil .nil)) (ndK 350 2 (ndK 347 1 .nil .nil) (ndK 353 1 .nil .nil)))
    (ndK 368 3 (ndK 363 2 (ndK 360 1 .nil .nil) (ndK 366 1 .nil .nil)) (ndK 373 2 (ndK 371 1 .nil .nil) (ndK
    375 1 .nil .nil)))))) (ndK 520 6 (ndK 465 5 (ndK 431 4 (ndK 410 3 (ndK 397 2 (ndK 389 1 .nil .nil) (ndK
    405 1 .nil .nil)) (ndK 423 2 (ndK 418 1 .nil .nil) (ndK 428 1 .nil .nil))) (ndK 452 3 (ndK 444 2 (ndK 439
    1 .nil .nil) (ndK 449 1 .nil .nil)) (ndK 460 2 (ndK 457 1 .nil .nil) (ndK 463 1 .nil .nil)))) (ndK 499 4
    (ndK 486 3 (ndK 478 2 (ndK 473 1 .nil .nil) (ndK 483 1 .nil .nil)) (ndK 494 2 (ndK 491 1 .nil .nil) (ndK
    497 1 .nil .nil))) (ndK 512 3 (ndK 507 2 (ndK 504 1 .nil .nil) (ndK 510 1 .nil .nil)) (ndK 517 2 (ndK 515
    1 .nil .nil) (ndK 519 1 .nil .nil))))) (ndK 575 5 (ndK 554 4 (ndK 541 3 (ndK 533 2 (ndK 528 1 .nil .nil)
    (ndK 538 1 .nil .nil)) (ndK 549 2 (ndK 546 1 .nil .nil) (ndK 552 1 .nil .nil))) (ndK 567 3 (ndK 562 2 (ndK
    559 1 .nil .nil) (ndK 565 1 .nil .nil)) (ndK 572 2 (ndK 570 1 .nil .nil) (ndK 574 1 .nil .nil)))) (ndK 596
    4 (ndK 588 3 (ndK 583 2 (ndK 580 1 .nil .nil) .nil) (ndK 593 1 .nil .nil)) (ndK 604 2 (ndK 601 1 .nil
    .nil) (ndK 607 1 .nil .nil))))))

/-- The tree after the first 135 inserts of `ops609`. -/
def t609c9 : AVLNode :=
  (ndK 376 8 (ndK 232 7 (ndK 143 6 (ndK 88 5 (ndK 54 4 (ndK 33 3 (ndK 20 2 (ndK 12 1 .nil .nil) (ndK 28 1 .nil
    .nil)) (ndK 46 2 (ndK 41 1 .nil .nil) (ndK 51 1 .nil .nil))) (ndK 75 3 (ndK 67 2 (ndK 62 1 .nil .nil) (ndK
    72 1 .nil .nil)) (ndK 83 2 (ndK 80 1 .nil .nil) (ndK 86 1 .nil .nil)))) (ndK 122 3 (ndK 109 2 (ndK 101 1
    .nil .nil) (ndK 117 1 .nil .nil)) (ndK 135 2 (ndK 130 1 .nil .nil) (ndK 140 1 .nil .nil)))) (ndK 198 4
    (ndK 177 3 (ndK 164 2 (ndK 156 1 .nil .nil) (ndK 172 1 .nil .nil)) (ndK 190 2 (ndK 185 1 .nil .nil) (ndK
    195 1 .nil .nil))) (ndK 219 3 (ndK 211 2 (ndK 206 1 .nil .nil) (ndK 216 1 .nil .nil)) (ndK 227 2 (ndK 224
    1 .nil .nil) (ndK 230 1 .nil .nil))))) (ndK 321 5 (ndK 287 4 (ndK 266 3 (ndK 253 2 (ndK 245 1 .nil .nil)
    (ndK 261 1 .nil .nil)) (ndK 279 2 (ndK 274 1 .nil .nil) (ndK 284 1 .nil .nil))) (ndK 308 3 (ndK 300 2 (ndK
    295 1 .nil .nil) (ndK 305 1 .nil .nil)) (ndK 316 2 (ndK 313 1 .nil .nil) (ndK 319 1 .nil .nil)))) (ndK 355
    4 (ndK 342 3 (ndK 334 2 (ndK 329 1 .nil .nil) (ndK 339 1 .nil .nil)) (ndK 350 2 (ndK 347 1 .nil .nil) (ndK
    353 1 .nil .nil))) (ndK 368 3 (ndK 363 2 (ndK 360 1 .nil .nil) (ndK 366 1 .nil .nil)) (ndK 373 2 (ndK 371
    1 .nil .nil) (ndK 375 1 .nil .nil)))))) (ndK 520 6 (ndK 465 5 (ndK 431 4 (ndK 410 3 (ndK 397 2 (ndK 389 1
    .nil .nil) (ndK 405 1 .nil .nil)) (ndK 423 2 (ndK 418 1 .nil .nil) (ndK 428 1 .nil .nil))) (ndK 452 3 (ndK
    444 2 (ndK 439 1 .nil .nil) (ndK 449 1 .nil .nil)) (ndK 460 2 (ndK 457 1 .nil .nil) (ndK 463 1 .nil
    .nil)))) (ndK 499 4 (ndK 486 3 (ndK 478 2 (ndK 473 1 .nil .nil) (ndK 483 1 .nil .nil)) (ndK 494 2 (ndK 491
    1 .nil .nil) (ndK 497 1 .nil .nil))) (ndK 512 3 (ndK 507 2 (ndK 504 1 .nil .nil) (ndK 510 1 .nil .nil))
    (ndK 517 2 (ndK 515 1 .nil .nil) (ndK 519 1 .nil .nil))))) (ndK 575 5 (ndK 554 4 (ndK 541 3 (ndK 533 2
    (ndK 528 1 .nil .nil) (ndK 538 1 .nil .nil)) (ndK 549 2 (ndK 546 1 .nil .nil) (ndK 552 1 .nil .nil))) (ndK
    567 3 (ndK 562 2 (ndK 559 1 .nil .nil) (ndK 565 1 .nil .nil)) (ndK 572 2 (ndK 570 1 .nil .nil) (ndK 574 1
    .nil .nil)))) (ndK 596 4 (ndK 588 3 (ndK 583 2 (ndK 580 1 .nil .nil) (ndK 586 1 .nil .nil)) (ndK 593 2
    (ndK 591 1 .nil .nil) (ndK 595 1 .nil .nil))) (ndK 604 3 (ndK 601 2 (ndK 599 1 .nil .nil) (ndK 603 1 .nil
    .nil)) (ndK 607 2 (ndK 606 1 .nil .nil) (ndK 608 1 .nil .nil)))))))

/-- The tree after the first 150 inserts of `ops609`. -/
def t609c10 : AVLNode :=
  (ndK 376 8 (ndK 232 7 (ndK 143 6 (ndK 88 5 (ndK 54 4 (ndK 33 3 (ndK 20 2 (ndK 12 1 .nil .nil) (ndK 28 1 .nil
    .nil)) (ndK 46 2 (ndK 41 1 .nil .nil) (ndK 51 1 .nil .nil))) (ndK 75 3 (ndK 67 2 (ndK 62 1 .nil .nil) (ndK
    72 1 .nil .nil)) (ndK 83 2 (ndK 80 1 .nil .nil) (ndK 86 1 .nil .nil)))) (ndK 122 4 (ndK 109 3 (ndK 101 2
    (ndK 96 1 .nil .nil) (ndK 106 1 .nil .nil)) (ndK 117 2 (ndK 114 1 .nil .nil) (ndK 120 1 .nil .nil))) (ndK
    135 3 (ndK 130 2 (ndK 127 1 .nil .nil) (ndK 133 1 .nil .nil)) (ndK 140 2 (ndK 138 1 .nil .nil) (ndK 142 1
    .nil .nil))))) (ndK 198 5 (ndK 177 4 (ndK 164 3 (ndK 156 2 (ndK 151 1 .nil .nil) (ndK 161 1 .nil .nil))
    (ndK 172 2 (ndK 169 1 .nil .nil) (ndK 175 1 .nil .nil))) (ndK 190 3 (ndK 185 2 (ndK 182 1 .nil .nil) (ndK
    188 1 .nil .nil)) (ndK 195 2 (ndK 193 1 .nil .nil) .nil))) (ndK 219 3 (ndK 211 2 (ndK 206 1 .nil .nil)
    (ndK 216 1 .nil .nil)) (ndK 227 2 (ndK 224 1 .nil .nil) (ndK 230 1 .nil .nil))))) (ndK 321 5 (ndK 287 4
    (ndK 266 3 (ndK 253 2 (ndK 245 1 .nil .nil) (ndK 261 1 .nil .nil)) (ndK 279 2 (ndK 274 1 .nil .nil) (ndK
    284 1 .nil .nil))) (ndK 308 3 (ndK 300 2 (ndK 295 1 .nil .nil) (ndK 305 1 .nil .nil)) (ndK 316 2 (ndK 313
    1 .nil .nil) (ndK 319 1 .nil .nil)))) (ndK 355 4 (ndK 342 3 (ndK 334 2 (ndK 329 1 .nil .nil) (ndK 339 1
    .nil .nil)) (ndK 350 2 (ndK 347 1 .nil .nil) (ndK 353 1 .nil .nil))) (ndK 368 3 (ndK 363 2 (ndK 360 1 .nil
    .nil) (ndK 366 1 .nil .nil)) (ndK 373 2 (ndK 371 1 .nil .nil) (ndK 375 1 .nil .nil)))))) (ndK 520 6 (ndK
    465 5 (ndK 431 4 (ndK 410 3 (ndK 397 2 (ndK 389 1 .nil .nil) (ndK 405 1 .nil .nil)) (ndK 423 2 (ndK 418 1
    .nil .nil) (ndK 428 1 .nil .nil))) (ndK 452 3 (ndK 444 2 (ndK 439 1 .nil .nil) (ndK 449 1 .nil .nil)) (ndK
    460 2 (ndK 457 1 .nil .nil) (ndK 463 1 .nil .nil)))) (ndK 499 4 (ndK 486 3 (ndK 478 2 (ndK 473 1 .nil
    .nil) (ndK 483 1 .nil .nil)) (ndK 494 2 (ndK 491 1 .nil .nil) (ndK 497 1 .nil .nil))) (ndK 512 3 (ndK 507
    2 (ndK 504 1 .nil .nil) (ndK 510 1 .nil .nil)) (ndK 517 2 (ndK 515 1 .nil .nil) (ndK 519 1 .nil .nil)))))
    (ndK 575 5 (ndK 554 4 (ndK 541 3 (ndK 533 2 (ndK 528 1 .nil .nil) (ndK 538 1 .nil .nil)) (ndK 549 2 (ndK
    546 1 .nil .nil) (ndK 552 1 .nil .nil))) (ndK 567 3 (ndK 562 2 (ndK 559 1 .nil .nil) (ndK 565 1 .nil
    .nil)) (ndK 572 2 (ndK 570 1 .nil .nil) (ndK 574 1 .nil .nil)))) (ndK 596 4 (ndK 588 3 (ndK 583 2 (ndK 580
    1 .nil .nil) (ndK 586 1 .nil .nil)) (ndK 593 2 (ndK 591 1 .nil .nil) (ndK 595 1 .nil .nil))) (ndK 604 3
    (ndK 601 2 (ndK 599 1 .nil .nil) (ndK 603 1 .nil .nil)) (ndK 607 2 (ndK 606 1 .nil .nil) (ndK 608 1 .nil
    .nil)))))))

/-- The tree after the first 165 inserts of `ops609`. -/
def t609c11 : AVLNode :=
  (ndK 376 8 (ndK 232 7 (ndK 143 6 (ndK 88 5 (ndK 54 4 (ndK 33 3 (ndK 20 2 (ndK 12 1 .nil .nil) (ndK 28 1 .nil
    .nil)) (ndK 46 2 (ndK 41 1 .nil .nil) (ndK 51 1 .nil .nil))) (ndK 75 3 (ndK 67 2 (ndK 62 1 .nil .nil) (ndK
    72 1 .nil .nil)) (ndK 83 2 (ndK 80 1 .nil .nil) (ndK 86 1 .nil .nil)))) (ndK 122 4 (ndK 109 3 (ndK 101 2
    (ndK 96 1 .nil .nil) (ndK 106 1 .nil .nil)) (ndK 117 2 (ndK 114 1 .nil .nil) (ndK 120 1 .nil .nil))) (ndK
    135 3 (ndK 130 2 (ndK 127 1 .nil .nil) (ndK 133 1 .nil .nil)) (ndK 140 2 (ndK 138 1 .nil .nil) (ndK 142 1
    .nil .nil))))) (ndK 198 5 (ndK 177 4 (ndK 164 3 (ndK 156 2 (ndK 151 1 .nil .nil) (ndK 161 1 .nil .nil))
    (ndK 172 2 (ndK 169 1 .nil .nil) (ndK 175 1 .nil .nil))) (ndK 190 3 (ndK 185 2 (ndK 182 1 .nil .nil) (ndK
    188 1 .nil .nil)) (ndK 195 2 (ndK 193 1 .nil .nil) (ndK 197 1 .nil .nil)))) (ndK 219 4 (ndK 211 3 (ndK 206
    2 (ndK 203 1 .nil .nil) (ndK 209 1 .nil .nil)) (ndK 216 2 (ndK 214 1 .nil .nil) (ndK 218 1 .nil .nil)))
    (ndK 227 3 (ndK 224 2 (ndK 222 1 .nil .nil) (ndK 226 1 .nil .nil)) (ndK 230 2 (ndK 229 1 .nil .nil) (ndK
    231 1 .nil .nil)))))) (ndK 321 6 (ndK 287 5 (ndK 266 4 (ndK 253 3 (ndK 245 2 (ndK 240 1 .nil .nil) (ndK
    250 1 .nil .nil)) (ndK 261 2 (ndK 258 1 .nil .nil) (ndK 264 1 .nil .nil))) (ndK 279 3 (ndK 274 2 (ndK 271
    1 .nil .nil) (ndK 277 1 .nil .nil)) (ndK 284 1 .nil .nil))) (ndK 308 3 (ndK 300 2 (ndK 295 1 .nil .nil)
    (ndK 305 1 .nil .nil)) (ndK 316 2 (ndK 313 1 .nil .nil) (ndK 319 1 .nil .nil)))) (ndK 355 4 (ndK 342 3
    (ndK 334 2 (ndK 329 1 .nil .nil) (ndK 339 1 .nil .nil)) (ndK 350 2 (ndK 347 1 .nil .nil) (ndK 353 1 .nil
    .nil))) (ndK 368 3 (ndK 363 2 (ndK 360 1 .nil .nil) (ndK 366 1 .nil .nil)) (ndK 373 2 (ndK 371 1 .nil
    .nil) (ndK 375 1 .nil .nil)))))) (ndK 520 6 (ndK 465 5 (ndK 431 4 (ndK 410 3 (ndK 397 2 (ndK 389 1 .nil
    .nil) (ndK 405 1 .nil .nil)) (ndK 423 2 (ndK 418 1 .nil .nil) (ndK 428 1 .nil .nil))) (ndK 452 3 (ndK 444
    2 (ndK 439 1 .nil .nil) (ndK 449 1 .nil .nil)) (ndK 460 2 (ndK 457 1 .nil .nil) (ndK 463 1 .nil .nil))))
    (ndK 499 4 (ndK 486 3 (ndK 478 2 (ndK 473 1 .nil .nil) (ndK 483 1 .nil .nil)) (ndK 494 2 (ndK 491 1 .nil
    .nil) (ndK 497 1 .nil .nil))) (ndK 512 3 (ndK 507 2 (ndK 504 1 .nil .nil) (ndK 510 1 .nil .nil)) (ndK 517
    2 (ndK 515 1 .nil .nil) (ndK 519 1 .nil .nil))))) (ndK 575 5 (ndK 554 4 (ndK 541 3 (ndK 533 2 (ndK 528 1
    .nil .nil) (ndK 538 1 .nil .nil)) (ndK 549 2 (ndK 546 1 .nil .nil) (ndK 552 1 .nil .nil))) (ndK 567 3 (ndK
    562 2 (ndK 559 1 .nil .nil) (ndK 565 1 .nil .nil)) (ndK 572 2 (ndK 570 1 .nil .nil) (ndK 574 1 .nil
    .nil)))) (ndK 596 4 (ndK 588 3 (ndK 583 2 (ndK 580 1 .nil .nil) (ndK 586 1 .nil .nil)) (ndK 593 2 (ndK 591
    1 .nil .nil) (ndK 595 1 .nil .nil))) (ndK 604 3 (ndK 601 2 (ndK 599 1 .nil .nil) (ndK 603 1 .nil .nil))
    (ndK 607 2 (ndK 606 1 .nil .nil) (ndK 608 1 .nil .nil)))))))

/-- The tree after the first 180 inserts of `ops609`. -/
def t609c12 : AVLNode :=
  (ndK 376 8 (ndK 232 7 (ndK 143 6 (ndK 88 5 (ndK 54 4 (ndK 33 3 (ndK 20 2 (ndK 12 1 .nil .nil) (ndK 28 1 .nil
    .nil)) (ndK 46 2 (ndK 41 1 .nil .nil) (ndK 51 1 .nil .nil))) (ndK 75 3 (ndK 67 2 (ndK 62 1 .nil .nil) (ndK
    72 1 .nil .nil)) (ndK 83 2 (ndK 80 1 .nil .nil) (ndK 86 1 .nil .nil)))) (ndK 122 4 (ndK 109 3 (ndK 101 2
    (ndK 96 1 .nil .nil) (ndK 106 1 .nil .nil)) (ndK 117 2 (ndK 114 1 .nil .nil) (ndK 120 1 .nil .nil))) (ndK
    135 3 (ndK 130 2 (ndK 127 1 .nil .nil) (ndK 133 1 .nil .nil)) (ndK 140 2 (ndK 138 1 .nil .nil) (ndK 142 1
    .nil .nil))))) (ndK 198 5 (ndK 177 4 (ndK 164 3 (ndK 156 2 (ndK 151 1 .nil .nil) (ndK 161 1 .nil .nil))
    (ndK 172 2 (ndK 169 1 .nil .nil) (ndK 175 1 .nil .nil))) (ndK 190 3 (ndK 185 2 (ndK 182 1 .nil .nil) (ndK
    188 1 .nil .nil)) (ndK 195 2 (ndK 193 1 .nil .nil) (ndK 197 1 .nil .nil)))) (ndK 219 4 (ndK 211 3 (ndK 206
    2 (ndK 203 1 .nil .nil) (ndK 209 1 .nil .nil)) (ndK 216 2 (ndK 214 1 .nil .nil) (ndK 218 1 .nil .nil)))
    (ndK 227 3 (ndK 224 2 (ndK 222 1 .nil .nil) (ndK 226 1 .nil .nil)) (ndK 230 2 (ndK 229 1 .nil .nil) (ndK
    231 1 .nil .nil)))))) (ndK 321 6 (ndK 287 5 (ndK 266 4 (ndK 253 3 (ndK 245 2 (ndK 240 1 .nil .nil) (ndK
    250 1 .nil .nil)) (ndK 261 2 (ndK 258 1 .nil .nil) (ndK 264 1 .nil .nil))) (ndK 279 3 (ndK 274 2 (ndK 271
    1 .nil .nil) (ndK 277 1 .nil .nil)) (ndK 284 2 (ndK 282 1 .nil .nil) (ndK 286 1 .nil .nil)))) (ndK 308 4
    (ndK 300 3 (ndK 295 2 (ndK 292 1 .nil .nil) (ndK 298 1 .nil .nil)) (ndK 305 2 (ndK 303 1 .nil .nil) (ndK
    307 1 .nil .nil))) (ndK 316 3 (ndK 313 2 (ndK 311 1 .nil .nil) (ndK 315 1 .nil .nil)) (ndK 319 2 (ndK 318
    1 .nil .nil) (ndK 320 1 .nil .nil))))) (ndK 355 5 (ndK 342 4 (ndK 334 3 (ndK 329 2 (ndK 326 1 .nil .nil)
    (ndK 332 1 .nil .nil)) (ndK 339 2 (ndK 337 1 .nil .nil) (ndK 341 1 .nil .nil))) (ndK 350 3 (ndK 347 2 (ndK
    345 1 .nil .nil) .nil) (ndK 353 1 .nil .nil))) (ndK 368 3 (ndK 363 2 (ndK 360 1 .nil .nil) (ndK 366 1 .nil
    .nil)) (ndK 373 2 (ndK 371 1 .nil .nil) (ndK 375 1 .nil .nil)))))) (ndK 520 6 (ndK 465 5 (ndK 431 4 (ndK
    410 3 (ndK 397 2 (ndK 389 1 .nil .nil) (ndK 405 1 .nil .nil)) (ndK 423 2 (ndK 418 1 .nil .nil) (ndK 428 1
    .nil .nil))) (ndK 452 3 (ndK 444 2 (ndK 439 1 .nil .nil) (ndK 449 1 .nil .nil)) (ndK 460 2 (ndK 457 1 .nil
    .nil) (ndK 463 1 .nil .nil)))) (ndK 499 4 (ndK 486 3 (ndK 478 2 (ndK 473 1 .nil .nil) (ndK 483 1 .nil
    .nil)) (ndK 494 2 (ndK 491 1 .nil .nil) (ndK 497 1 .nil .nil))) (ndK 512 3 (ndK 507 2 (ndK 504 1 .nil
    .nil) (ndK 510 1 .nil .nil)) (ndK 517 2 (ndK 515 1 .nil .nil) (ndK 519 1 .nil .nil))))) (ndK 575 5 (ndK
    554 4 (ndK 541 3 (ndK 533 2 (ndK 528 1 .nil .nil) (ndK 538 1 .nil .nil)) (ndK 549 2 (ndK 546 1 .nil .nil)
    (ndK 552 1 .nil .nil))) (ndK 567 3 (ndK 562 2 (ndK 559 1 .nil .nil) (ndK 565 1 .nil .nil)) (ndK 572 2 (ndK
    570 1 .nil .nil) (ndK 574 1 .nil .nil)))) (ndK 596 4 (ndK 588 3 (ndK 583 2 (ndK 580 1 .nil .nil) (ndK 586
    1 .nil .nil)) (ndK 593 2 (ndK 591 1 .nil .nil) (ndK 595 1 .nil .nil))) (ndK 604 3 (ndK 601 2 (ndK 599 1
    .nil .nil) (ndK 603 1 .nil .nil)) (ndK 607 2 (ndK 606 1 .nil .nil) (ndK 608 1 .nil .nil)))))))

/-- The tree after the first 195 inserts of `ops609`. -/
def t609c13 : AVLNode :=
  (ndK 376 8 (ndK 232 7 (ndK 143 6 (ndK 88 5 (ndK 54 4 (ndK 33 3 (ndK 20 2 (ndK 12 1 .nil .nil) (ndK 28 1 .nil
    .nil)) (ndK 46 2 (ndK 41 1 .nil .nil) (ndK 51 1 .nil .nil))) (ndK 75 3 (ndK 67 2 (ndK 62 1 .nil .nil) (ndK
    72 1 .nil .nil)) (ndK 83 2 (ndK 80 1 .nil .nil) (ndK 86 1 .nil .nil)))) (ndK 122 4 (ndK 109 3 (ndK 101 2
    (ndK 96 1 .nil .nil) (ndK 106 1 .nil .nil)) (ndK 117 2 (ndK 114 1 .nil .nil) (ndK 120 1 .nil .nil))) (ndK
    135 3 (ndK 130 2 (ndK 127 1 .nil .nil) (ndK 133 1 .nil .nil)) (ndK 140 2 (ndK 138 1 .nil .nil) (ndK 142 1
    .nil .nil))))) (ndK 198 5 (ndK 177 4 (ndK 164 3 (ndK 156 2 (ndK 151 1 .nil .nil) (ndK 161 1 .nil .nil))
    (ndK 172 2 (ndK 169 1 .nil .nil) (ndK 175 1 .nil .nil))) (ndK 190 3 (ndK 185 2 (ndK 182 1 .nil .nil) (ndK
    188 1 .nil .nil)) (ndK 195 2 (ndK 193 1 .nil .nil) (ndK 197 1 .nil .nil)))) (ndK 219 4 (ndK 211 3 (ndK 206
    2 (ndK 203 1 .nil .nil) (ndK 209 1 .nil .nil)) (ndK 216 2 (ndK 214 1 .nil .nil) (ndK 218 1 .nil .nil)))
    (ndK 227 3 (ndK 224 2 (ndK 222 1 .nil .nil) (ndK 226 1 .nil .nil)) (ndK 230 2 (ndK 229 1 .nil .nil) (ndK
    231 1 .nil .nil)))))) (ndK 321 6 (ndK 287 5 (ndK 266 4 (ndK 253 3 (ndK 245 2 (ndK 240 1 .nil .nil) (ndK
    250 1 .nil .nil)) (ndK 261 2 (ndK 258 1 .nil .nil) (ndK 264 1 .nil .nil))) (ndK 279 3 (ndK 274 2 (ndK 271
    1 .nil .nil) (ndK 277 1 .nil .nil)) (ndK 284 2 (ndK 282 1 .nil .nil) (ndK 286 1 .nil .nil)))) (ndK 308 4
    (ndK 300 3 (ndK 295 2 (ndK 292 1 .nil .nil) (ndK 298 1 .nil .nil)) (ndK 305 2 (ndK 303 1 .nil .nil) (ndK
    307 1 .nil .nil))) (ndK 316 3 (ndK 313 2 (ndK 311 1 .nil .nil) (ndK 315 1 .nil .nil)) (ndK 319 2 (ndK 318
    1 .nil .nil) (ndK 320 1 .nil .nil))))) (ndK 355 5 (ndK 342 4 (ndK 334 3 (ndK 329 2 (ndK 326 1 .nil .nil)
    (ndK 332 1 .nil .nil)) (ndK 339 2 (ndK 337 1 .nil .nil) (ndK 341 1 .nil .nil))) (ndK 350 3 (ndK 347 2 (ndK
    345 1 .nil .nil) (ndK 349 1 .nil .nil)) (ndK 353 2 (ndK 352 1 .nil .nil) (ndK 354 1 .nil .nil)))) (ndK 368
    4 (ndK 363 3 (ndK 360 2 (ndK 358 1 .nil .nil) (ndK 362 1 .nil .nil)) (ndK 366 2 (ndK 365 1 .nil .nil) (ndK
    367 1 .nil .nil))) (ndK 373 3 (ndK 371 2 (ndK 370 1 .nil .nil) (ndK 372 1 .nil .nil)) (ndK 375 2 (ndK 374
    1 .nil .nil) .nil)))))) (ndK 520 7 (ndK 465 6 (ndK 431 5 (ndK 410 4 (ndK 397 3 (ndK 389 2 (ndK 384 1 .nil
    .nil) (ndK 394 1 .nil .nil)) (ndK 405 2 (ndK 402 1 .nil .nil) (ndK 408 1 .nil .nil))) (ndK 423 3 (ndK 418
    2 (ndK 415 1 .nil .nil) .nil) (ndK 428 1 .nil .nil))) (ndK 452 3 (ndK 444 2 (ndK 439 1 .nil .nil) (ndK 449
    1 .nil .nil)) (ndK 460 2 (ndK 457 1 .nil .nil) (ndK 463 1 .nil .nil)))) (ndK 499 4 (ndK 486 3 (ndK 478 2
    (ndK 473 1 .nil .nil) (ndK 483 1 .nil .nil)) (ndK 494 2 (ndK 491 1 .nil .nil) (ndK 497 1 .nil .nil))) (ndK
    512 3 (ndK 507 2 (ndK 504 1 .nil .nil) (ndK 510 1 .nil .nil)) (ndK 517 2 (ndK 515 1 .nil .nil) (ndK 519 1
    .nil .nil))))) (ndK 575 5 (ndK 554 4 (ndK 541 3 (ndK 533 2 (ndK 528 1 .nil .nil) (ndK 538 1 .nil .nil))
    (ndK 549 2 (ndK 546 1 .nil .nil) (ndK 552 1 .nil .nil))) (ndK 567 3 (ndK 562 2 (ndK 559 1 .nil .nil) (ndK
    565 1 .nil .nil)) (ndK 572 2 (ndK 570 1 .nil .nil) (ndK 574 1 .nil .nil)))) (ndK 596 4 (ndK 588 3 (ndK 583
    2 (ndK 580 1 .nil .nil) (ndK 586 1 .nil .nil)) (ndK 593 2 (ndK 591 1 .nil .nil) (ndK 595 1 .nil .nil)))
    (ndK 604 3 (ndK 601 2 (ndK 599 1 .nil .nil) (ndK 603 1 .nil .nil)) (ndK 607 2 (ndK 606 1 .nil .nil) (ndK
    608 1 .nil .nil)))))))

/-- The tree after the first 210 inserts of `ops609`. -/
def t609c14 : AVLNode :=
  (ndK 376 8 (ndK 232 7 (ndK 143 6 (ndK 88 5 (ndK 54 4 (ndK 33 3 (ndK 20 2 (ndK 12 1 .nil .nil) (ndK 28 1 .nil
    .nil)) (ndK 46 2 (ndK 41 1 .nil .nil) (ndK 51 1 .nil .nil))) (ndK 75 3 (ndK 67 2 (ndK 62 1 .nil .nil) (ndK
    72 1 .nil .nil)) (ndK 83 2 (ndK 80 1 .nil .nil) (ndK 86 1 .nil .nil)))) (ndK 122 4 (ndK 109 3 (ndK 101 2
    (ndK 96 1 .nil .nil) (ndK 106 1 .nil .nil)) (ndK 117 2 (ndK 114 1 .nil .nil) (ndK 120 1 .nil .nil))) (ndK
    135 3 (ndK 130 2 (ndK 127 1 .nil .nil) (ndK 133 1 .nil .nil)) (ndK 140 2 (ndK 138 1 .nil .nil) (ndK 142 1
    .nil .nil))))) (ndK 198 5 (ndK 177 4 (ndK 164 3 (ndK 156 2 (ndK 151 1 .nil .nil) (ndK 161 1 .nil .nil))
    (ndK 172 2 (ndK 169 1 .nil .nil) (ndK 175 1 .nil .nil))) (ndK 190 3 (ndK 185 2 (ndK 182 1 .nil .nil) (ndK
    188 1 .nil .nil)) (ndK 195 2 (ndK 193 1 .nil .nil) (ndK 197 1 .nil .nil)))) (ndK 219 4 (ndK 211 3 (ndK 206
    2 (ndK 203 1 .nil .nil) (ndK 209 1 .nil .nil)) (ndK 216 2 (ndK 214 1 .nil .nil) (ndK 218 1 .nil .nil)))
    (ndK 227 3 (ndK 224 2 (ndK 222 1 .nil .nil) (ndK 226 1 .nil .nil)) (ndK 230 2 (ndK 229 1 .nil .nil) (ndK
    231 1 .nil .nil)))))) (ndK 321 6 (ndK 287 5 (ndK 266 4 (ndK 253 3 (ndK 245 2 (ndK 240 1 .nil .nil) (ndK
    250 1 .nil .nil)) (ndK 261 2 (ndK 258 1 .nil .nil) (ndK 264 1 .nil .nil))) (ndK 279 3 (ndK 274 2 (ndK 271
    1 .nil .nil) (ndK 277 1 .nil .nil)) (ndK 284 2 (ndK 282 1 .nil .nil) (ndK 286 1 .nil .nil)))) (ndK 308 4
    (ndK 300 3 (ndK 295 2 (ndK 292 1 .nil .nil) (ndK 298 1 .nil .nil)) (ndK 305 2 (ndK 303 1 .nil .nil) (ndK
    307 1 .nil .nil))) (ndK 316 3 (ndK 313 2 (ndK 311 1 .nil .nil) (ndK 315 1 .nil .nil)) (ndK 319 2 (ndK 318
    1 .nil .nil) (ndK 320 1 .nil .nil))))) (ndK 355 5 (ndK 342 4 (ndK 334 3 (ndK 329 2 (ndK 326 1 .nil .nil)
    (ndK 332 1 .nil .nil)) (ndK 339 2 (ndK 337 1 .nil .nil) (ndK 341 1 .nil .nil))) (ndK 350 3 (ndK 347 2 (ndK
    345 1 .nil .nil) (ndK 349 1 .nil .nil)) (ndK 353 2 (ndK 352 1 .nil .nil) (ndK 354 1 .nil .nil)))) (ndK 368
    4 (ndK 363 3 (ndK 360 2 (ndK 358 1 .nil .nil) (ndK 362 1 .nil .nil)) (ndK 366 2 (ndK 365 1 .nil .nil) (ndK
    367 1 .nil .nil))) (ndK 373 3 (ndK 371 2 (ndK 370 1 .nil .nil) (ndK 372 1 .nil .nil)) (ndK 375 2 (ndK 374
    1 .nil .nil) .nil)))))) (ndK 520 7 (ndK 465 6 (ndK 431 5 (ndK 410 4 (ndK 397 3 (ndK 389 2 (ndK 384 1 .nil
    .nil) (ndK 394 1 .nil .nil)) (ndK 405 2 (ndK 402 1 .nil .nil) (ndK 408 1 .nil .nil))) (ndK 423 3 (ndK 418
    2 (ndK 415 1 .nil .nil) (ndK 421 1 .nil .nil)) (ndK 428 2 (ndK 426 1 .nil .nil) (ndK 430 1 .nil .nil))))
    (ndK 452 4 (ndK 444 3 (ndK 439 2 (ndK 436 1 .nil .nil) (ndK 442 1 .nil .nil)) (ndK 449 2 (ndK 447 1 .nil
    .nil) (ndK 451 1 .nil .nil))) (ndK 460 3 (ndK 457 2 (ndK 455 1 .nil .nil) (ndK 459 1 .nil .nil)) (ndK 463
    2 (ndK 462 1 .nil .nil) (ndK 464 1 .nil .nil))))) (ndK 499 5 (ndK 486 4 (ndK 478 3 (ndK 473 2 (ndK 470 1
    .nil .nil) (ndK 476 1 .nil .nil)) (ndK 483 2 (ndK 481 1 .nil .nil) (ndK 485 1 .nil .nil))) (ndK 494 2 (ndK
    491 1 .nil .nil) (ndK 497 1 .nil .nil))) (ndK 512 3 (ndK 507 2 (ndK 504 1 .nil .nil) (ndK 510 1 .nil
    .nil)) (ndK 517 2 (ndK 515 1 .nil .nil) (ndK 519 1 .nil .nil))))) (ndK 575 5 (ndK 554 4 (ndK 541 3 (ndK
    533 2 (ndK 528 1 .nil .nil) (ndK 538 1 .nil .nil)) (ndK 549 2 (ndK 546 1 .nil .nil) (ndK 552 1 .nil
    .nil))) (ndK 567 3 (ndK 562 2 (ndK 559 1 .nil .nil) (ndK 565 1 .nil .nil)) (ndK 572 2 (ndK 570 1 .nil
    .nil) (ndK 574 1 .nil .nil)))) (ndK 596 4 (ndK 588 3 (ndK 583 2 (ndK 580 1 .nil .nil) (ndK 586 1 .nil
    .nil)) (ndK 593 2 (ndK 591 1 .nil .nil) (ndK 595 1 .nil .nil))) (ndK 604 3 (ndK 601 2 (ndK 599 1 .nil
    .nil) (ndK 603 1 .nil .nil)) (ndK 607 2 (ndK 606 1 .nil .nil) (ndK 608 1 .nil .nil)))))))

/-- The tree after the first 225 inserts of `ops609`. -/
def t609c15 : AVLNode :=
  (ndK 376 8 (ndK 232 7 (ndK 143 6 (ndK 88 5 (ndK 54 4 (ndK 33 3 (ndK 20 2 (ndK 12 1 .nil .nil) (ndK 28 1 .nil
    .nil)) (ndK 46 2 (ndK 41 1 .nil .nil) (ndK 51 1 .nil .nil))) (ndK 75 3 (ndK 67 2 (ndK 62 1 .nil .nil) (ndK
    72 1 .nil .nil)) (ndK 83 2 (ndK 80 1 .nil .nil) (ndK 86 1 .nil .nil)))) (ndK 122 4 (ndK 109 3 (ndK 101 2
    (ndK 96 1 .nil .nil) (ndK 106 1 .nil .nil)) (ndK 117 2 (ndK 114 1 .nil .nil) (ndK 120 1 .nil .nil))) (ndK
    135 3 (ndK 130 2 (ndK 127 1 .nil .nil) (ndK 133 1 .nil .nil)) (ndK 140 2 (ndK 138 1 .nil .nil) (ndK 142 1
    .nil .nil))))) (ndK 198 5 (ndK 177 4 (ndK 164 3 (ndK 156 2 (ndK 151 1 .nil .nil) (ndK 161 1 .nil .nil))
    (ndK 172 2 (ndK 169 1 .nil .nil) (ndK 175 1 .nil .nil))) (ndK 190 3 (ndK 185 2 (ndK 182 1 .nil .nil) (ndK
    188 1 .nil .nil)) (ndK 195 2 (ndK 193 1 .nil .nil) (ndK 197 1 .nil .nil)))) (ndK 219 4 (ndK 211 3 (ndK 206
    2 (ndK 203 1 .nil .nil) (ndK 209 1 .nil .nil)) (ndK 216 2 (ndK 214 1 .nil .nil) (ndK 218 1 .nil .nil)))
    (ndK 227 3 (ndK 224 2 (ndK 222 1 .nil .nil) (ndK 226 1 .nil .nil)) (ndK 230 2 (ndK 229 1 .nil .nil) (ndK
    231 1 .nil .nil)))))) (ndK 321 6 (ndK 287 5 (ndK 266 4 (ndK 253 3 (ndK 245 2 (ndK 240 1 .nil .nil) (ndK
    250 1 .nil .nil)) (ndK 261 2 (ndK 258 1 .nil .nil) (ndK 264 1 .nil .nil))) (ndK 279 3 (ndK 274 2 (ndK 271
    1 .nil .nil) (ndK 277 1 .nil .nil)) (ndK 284 2 (ndK 282 1 .nil .nil) (ndK 286 1 .nil .nil)))) (ndK 308 4
    (ndK 300 3 (ndK 295 2 (ndK 292 1 .nil .nil) (ndK 298 1 .nil .nil)) (ndK 305 2 (ndK 303 1 .nil .nil) (ndK
    307 1 .nil .nil))) (ndK 316 3 (ndK 313 2 (ndK 311 1 .nil .nil) (ndK 315 1 .nil .nil)) (ndK 319 2 (ndK 318
    1 .nil .nil) (ndK 320 1 .nil .nil))))) (ndK 355 5 (ndK 342 4 (ndK 334 3 (ndK 329 2 (ndK 326 1 .nil .nil)
    (ndK 332 1 .nil .nil)) (ndK 339 2 (ndK 337 1 .nil .nil) (ndK 341 1 .nil .nil))) (ndK 350 3 (ndK 347 2 (ndK
    345 1 .nil .nil) (ndK 349 1 .nil .nil)) (ndK 353 2 (ndK 352 1 .nil .nil) (ndK 354 1 .nil .nil)))) (ndK 368
    4 (ndK 363 3 (ndK 360 2 (ndK 358 1 .nil .nil) (ndK 362 1 .nil .nil)) (ndK 366 2 (ndK 365 1 .nil .nil) (ndK
    367 1 .nil .nil))) (ndK 373 3 (ndK 371 2 (ndK 370 1 .nil .nil) (ndK 372 1 .nil .nil)) (ndK 375 2 (ndK 374
    1 .nil .nil) .nil)))))) (ndK 520 7 (ndK 465 6 (ndK 431 5 (ndK 410 4 (ndK 397 3 (ndK 389 2 (ndK 384 1 .nil
    .nil) (ndK 394 1 .nil .nil)) (ndK 405 2 (ndK 402 1 .nil .nil) (ndK 408 1 .nil .nil))) (ndK 423 3 (ndK 418
    2 (ndK 415 1 .nil .nil) (ndK 421 1 .nil .nil)) (ndK 428 2 (ndK 426 1 .nil .nil) (ndK 430 1 .nil .nil))))
    (ndK 452 4 (ndK 444 3 (ndK 439 2 (ndK 436 1 .nil .nil) (ndK 442 1 .nil .nil)) (ndK 449 2 (ndK 447 1 .nil
    .nil) (ndK 451 1 .nil .nil))) (ndK 460 3 (ndK 457 2 (ndK 455 1 .nil .nil) (ndK 459 1 .nil .nil)) (ndK 463
    2 (ndK 462 1 .nil .nil) (ndK 464 1 .nil .nil))))) (ndK 499 5 (ndK 486 4 (ndK 478 3 (ndK 473 2 (ndK 470 1
    .nil .nil) (ndK 476 1 .nil .nil)) (ndK 483 2 (ndK 481 1 .nil .nil) (ndK 485 1 .nil .nil))) (ndK 494 3 (ndK
    491 2 (ndK 489 1 .nil .nil) (ndK 493 1 .nil .nil)) (ndK 497 2 (ndK 496 1 .nil .nil) (ndK 498 1 .nil
    .nil)))) (ndK 512 4 (ndK 507 3 (ndK 504 2 (ndK 502 1 .nil .nil) (ndK 506 1 .nil .nil)) (ndK 510 2 (ndK 509
    1 .nil .nil) (ndK 511 1 .nil .nil))) (ndK 517 3 (ndK 515 2 (ndK 514 1 .nil .nil) (ndK 516 1 .nil .nil))
    (ndK 519 2 (ndK 518 1 .nil .nil) .nil))))) (ndK 575 6 (ndK 554 5 (ndK 541 4 (ndK 533 3 (ndK 528 2 (ndK 525
    1 .nil .nil) (ndK 531 1 .nil .nil)) (ndK 538 2 (ndK 536 1 .nil .nil) (ndK 540 1 .nil .nil))) (ndK 549 2
    (ndK 546 1 .nil .nil) (ndK 552 1 .nil .nil))) (ndK 567 3 (ndK 562 2 (ndK 559 1 .nil .nil) (ndK 565 1 .nil
    .nil)) (ndK 572 2 (ndK 570 1 .nil .nil) (ndK 574 1 .nil .nil)))) (ndK 596 4 (ndK 588 3 (ndK 583 2 (ndK 580
    1 .nil .nil) (ndK 586 1 .nil .nil)) (ndK 593 2 (ndK 591 1 .nil .nil) (ndK 595 1 .nil .nil))) (ndK 604 3
    (ndK 601 2 (ndK 599 1 .nil .nil) (ndK 603 1 .nil .nil)) (ndK 607 2 (ndK 606 1 .nil .nil) (ndK 608 1 .nil
    .nil)))))))

/-- The tree after the first 240 inserts of `ops609`. -/
def t609c16 : AVLNode :=
  (ndK 376 8 (ndK 232 7 (ndK 143 6 (ndK 88 5 (ndK 54 4 (ndK 33 3 (ndK 20 2 (ndK 12 1 .nil .nil) (ndK 28 1 .nil
    .nil)) (ndK 46 2 (ndK 41 1 .nil .nil) (ndK 51 1 .nil .nil))) (ndK 75 3 (ndK 67 2 (ndK 62 1 .nil .nil) (ndK
    72 1 .nil .nil)) (ndK 83 2 (ndK 80 1 .nil .nil) (ndK 86 1 .nil .nil)))) (ndK 122 4 (ndK 109 3 (ndK 101 2
    (ndK 96 1 .nil .nil) (ndK 106 1 .nil .nil)) (ndK 117 2 (ndK 114 1 .nil .nil) (ndK 120 1 .nil .nil))) (ndK
    135 3 (ndK 130 2 (ndK 127 1 .nil .nil) (ndK 133 1 .nil .nil)) (ndK 140 2 (ndK 138 1 .nil .nil) (ndK 142 1
    .nil .nil))))) (ndK 198 5 (ndK 177 4 (ndK 164 3 (ndK 156 2 (ndK 151 1 .nil .nil) (ndK 161 1 .nil .nil))
    (ndK 172 2 (ndK 169 1 .nil .nil) (ndK 175 1 .nil .nil))) (ndK 190 3 (ndK 185 2 (ndK 182 1 .nil .nil) (ndK
    188 1 .nil .nil)) (ndK 195 2 (ndK 193 1 .nil .nil) (ndK 197 1 .nil .nil)))) (ndK 219 4 (ndK 211 3 (ndK 206
    2 (ndK 203 1 .nil .nil) (ndK 209 1 .nil .nil)) (ndK 216 2 (ndK 214 1 .nil .nil) (ndK 218 1 .nil .nil)))
    (ndK 227 3 (ndK 224 2 (ndK 222 1 .nil .nil) (ndK 226 1 .nil .nil)) (ndK 230 2 (ndK 229 1 .nil .nil) (ndK
    231 1 .nil .nil)))))) (ndK 321 6 (ndK 287 5 (ndK 266 4 (ndK 253 3 (ndK 245 2 (ndK 240 1 .nil .nil) (ndK
    250 1 .nil .nil)) (ndK 261 2 (ndK 258 1 .nil .nil) (ndK 264 1 .nil .nil))) (ndK 279 3 (ndK 274 2 (ndK 271
    1 .nil .nil) (ndK 277 1 .nil .nil)) (ndK 284 2 (ndK 282 1 .nil .nil) (ndK 286 1 .nil .nil)))) (ndK 308 4
    (ndK 300 3 (ndK 295 2 (ndK 292 1 .nil .nil) (ndK 298 1 .nil .nil)) (ndK 305 2 (ndK 303 1 .nil .nil) (ndK
    307 1 .nil .nil))) (ndK 316 3 (ndK 313 2 (ndK 311 1 .nil .nil) (ndK 315 1 .nil .nil)) (ndK 319 2 (ndK 318
    1 .nil .nil) (ndK 320 1 .nil .nil))))) (ndK 355 5 (ndK 342 4 (ndK 334 3 (ndK 329 2 (ndK 326 1 .nil .nil)
    (ndK 332 1 .nil .nil)) (ndK 339 2 (ndK 337 1 .nil .nil) (ndK 341 1 .nil .nil))) (ndK 350 3 (ndK 347 2 (ndK
    345 1 .nil .nil) (ndK 349 1 .nil .nil)) (ndK 353 2 (ndK 352 1 .nil .nil) (ndK 354 1 .nil .nil)))) (ndK 368
    4 (ndK 363 3 (ndK 360 2 (ndK 358 1 .nil .nil) (ndK 362 1 .nil .nil)) (ndK 366 2 (ndK 365 1 .nil .nil) (ndK
    367 1 .nil .nil))) (ndK 373 3 (ndK 371 2 (ndK 370 1 .nil .nil) (ndK 372 1 .nil .nil)) (ndK 375 2 (ndK 374
    1 .nil .nil) .nil)))))) (ndK 520 7 (ndK 465 6 (ndK 431 5 (ndK 410 4 (ndK 397 3 (ndK 389 2 (ndK 384 1 .nil
    .nil) (ndK 394 1 .nil .nil)) (ndK 405 2 (ndK 402 1 .nil .nil) (ndK 408 1 .nil .nil))) (ndK 423 3 (ndK 418
    2 (ndK 415 1 .nil .nil) (ndK 421 1 .nil .nil)) (ndK 428 2 (ndK 426 1 .nil .nil) (ndK 430 1 .nil .nil))))
    (ndK 452 4 (ndK 444 3 (ndK 439 2 (ndK 436 1 .nil .nil) (ndK 442 1 .nil .nil)) (ndK 449 2 (ndK 447 1 .nil
    .nil) (ndK 451 1 .nil .nil))) (ndK 460 3 (ndK 457 2 (ndK 455 1 .nil .nil) (ndK 459 1 .nil .nil)) (ndK 463
    2 (ndK 462 1 .nil .nil) (ndK 464 1 .nil .nil))))) (ndK 499 5 (ndK 486 4 (ndK 478 3 (ndK 473 2 (ndK 470 1
    .nil .nil) (ndK 476 1 .nil .nil)) (ndK 483 2 (ndK 481 1 .nil .nil) (ndK 485 1 .nil .nil))) (ndK 494 3 (ndK
    491 2 (ndK 489 1 .nil .nil) (ndK 493 1 .nil .nil)) (ndK 497 2 (ndK 496 1 .nil .nil) (ndK 498 1 .nil
    .nil)))) (ndK 512 4 (ndK 507 3 (ndK 504 2 (ndK 502 1 .nil .nil) (ndK 506 1 .nil .nil)) (ndK 510 2 (ndK 509
    1 .nil .nil) (ndK 511 1 .nil .nil))) (ndK 517 3 (ndK 515 2 (ndK 514 1 .nil .nil) (ndK 516 1 .nil .nil))
    (ndK 519 2 (ndK 518 1 .nil .nil) .nil))))) (ndK 575 6 (ndK 554 5 (ndK 541 4 (ndK 533 3 (ndK 528 2 (ndK 525
    1 .nil .nil) (ndK 531 1 .nil .nil)) (ndK 538 2 (ndK 536 1 .nil .nil) (ndK 540 1 .nil .nil))) (ndK 549 3
    (ndK 546 2 (ndK 544 1 .nil .nil) (ndK 548 1 .nil .nil)) (ndK 552 2 (ndK 551 1 .nil .nil) (ndK 553 1 .nil
    .nil)))) (ndK 567 4 (ndK 562 3 (ndK 559 2 (ndK 557 1 .nil .nil) (ndK 561 1 .nil .nil)) (ndK 565 2 (ndK 564
    1 .nil .nil) (ndK 566 1 .nil .nil))) (ndK 572 3 (ndK 570 2 (ndK 569 1 .nil .nil) (ndK 571 1 .nil .nil))
    (ndK 574 2 (ndK 573 1 .nil .nil) .nil)))) (ndK 596 5 (ndK 588 4 (ndK 583 3 (ndK 580 2 (ndK 578 1 .nil
    .nil) (ndK 582 1 .nil .nil)) (ndK 586 2 (ndK 585 1 .nil .nil) (ndK 587 1 .nil .nil))) (ndK 593 2 (ndK 591
    1 .nil .nil) (ndK 595 1 .nil .nil))) (ndK 604 3 (ndK 601 2 (ndK 599 1 .nil .nil) (ndK 603 1 .nil .nil))
    (ndK 607 2 (ndK 606 1 .nil .nil) (ndK 608 1 .nil .nil)))))))

/-- The tree after the first 255 inserts of `ops609`. -/
def t609c17 : AVLNode :=
  (ndK 376 9 (ndK 232 8 (ndK 143 7 (ndK 88 6 (ndK 54 5 (ndK 33 4 (ndK 20 3 (ndK 12 2 (ndK 7 1 .nil .nil) (ndK
    17 1 .nil .nil)) (ndK 28 2 (ndK 25 1 .nil .nil) (ndK 31 1 .nil .nil))) (ndK 46 3 (ndK 41 2 (ndK 38 1 .nil
    .nil) (ndK 44 1 .nil .nil)) (ndK 51 2 (ndK 49 1 .nil .nil) (ndK 53 1 .nil .nil)))) (ndK 75 3 (ndK 67 2
    (ndK 62 1 .nil .nil) (ndK 72 1 .nil .nil)) (ndK 83 2 (ndK 80 1 .nil .nil) (ndK 86 1 .nil .nil)))) (ndK 122
    4 (ndK 109 3 (ndK 101 2 (ndK 96 1 .nil .nil) (ndK 106 1 .nil .nil)) (ndK 117 2 (ndK 114 1 .nil .nil) (ndK
    120 1 .nil .nil))) (ndK 135 3 (ndK 130 2 (ndK 127 1 .nil .nil) (ndK 133 1 .nil .nil)) (ndK 140 2 (ndK 138
    1 .nil .nil) (ndK 142 1 .nil .nil))))) (ndK 198 5 (ndK 177 4 (ndK 164 3 (ndK 156 2 (ndK 151 1 .nil .nil)
    (ndK 161 1 .nil .nil)) (ndK 172 2 (ndK 169 1 .nil .nil) (ndK 175 1 .nil .nil))) (ndK 190 3 (ndK 185 2 (ndK
    182 1 .nil .nil) (ndK 188 1 .nil .nil)) (ndK 195 2 (ndK 193 1 .nil .nil) (ndK 197 1 .nil .nil)))) (ndK 219
    4 (ndK 211 3 (ndK 206 2 (ndK 203 1 .nil .nil) (ndK 209 1 .nil .nil)) (ndK 216 2 (ndK 214 1 .nil .nil) (ndK
    218 1 .nil .nil))) (ndK 227 3 (ndK 224 2 (ndK 222 1 .nil .nil) (ndK 226 1 .nil .nil)) (ndK 230 2 (ndK 229
    1 .nil .nil) (ndK 231 1 .nil .nil)))))) (ndK 321 6 (ndK 287 5 (ndK 266 4 (ndK 253 3 (ndK 245 2 (ndK 240 1
    .nil .nil) (ndK 250 1 .nil .nil)) (ndK 261 2 (ndK 258 1 .nil .nil) (ndK 264 1 .nil .nil))) (ndK 279 3 (ndK
    274 2 (ndK 271 1 .nil .nil) (ndK 277 1 .nil .nil)) (ndK 284 2 (ndK 282 1 .nil .nil) (ndK 286 1 .nil
    .nil)))) (ndK 308 4 (ndK 300 3 (ndK 295 2 (ndK 292 1 .nil .nil) (ndK 298 1 .nil .nil)) (ndK 305 2 (ndK 303
    1 .nil .nil) (ndK 307 1 .nil .nil))) (ndK 316 3 (ndK 313 2 (ndK 311 1 .nil .nil) (ndK 315 1 .nil .nil))
    (ndK 319 2 (ndK 318 1 .nil .nil) (ndK 320 1 .nil .nil))))) (ndK 355 5 (ndK 342 4 (ndK 334 3 (ndK 329 2
    (ndK 326 1 .nil .nil) (ndK 332 1 .nil .nil)) (ndK 339 2 (ndK 337 1 .nil .nil) (ndK 341 1 .nil .nil))) (ndK
    350 3 (ndK 347 2 (ndK 345 1 .nil .nil) (ndK 349 1 .nil .nil)) (ndK 353 2 (ndK 352 1 .nil .nil) (ndK 354 1
    .nil .nil)))) (ndK 368 4 (ndK 363 3 (ndK 360 2 (ndK 358 1 .nil .nil) (ndK 362 1 .nil .nil)) (ndK 366 2
    (ndK 365 1 .nil .nil) (ndK 367 1 .nil .nil))) (ndK 373 3 (ndK 371 2 (ndK 370 1 .nil .nil) (ndK 372 1 .nil
    .nil)) (ndK 375 2 (ndK 374 1 .nil .nil) .nil)))))) (ndK 520 7 (ndK 465 6 (ndK 431 5 (ndK 410 4 (ndK 397 3
    (ndK 389 2 (ndK 384 1 .nil .nil) (ndK 394 1 .nil .nil)) (ndK 405 2 (ndK 402 1 .nil .nil) (ndK 408 1 .nil
    .nil))) (ndK 423 3 (ndK 418 2 (ndK 415 1 .nil .nil) (ndK 421 1 .nil .nil)) (ndK 428 2 (ndK 426 1 .nil
    .nil) (ndK 430 1 .nil .nil)))) (ndK 452 4 (ndK 444 3 (ndK 439 2 (ndK 436 1 .nil .nil) (ndK 442 1 .nil
    .nil)) (ndK 449 2 (ndK 447 1 .nil .nil) (ndK 451 1 .nil .nil))) (ndK 460 3 (ndK 457 2 (ndK 455 1 .nil
    .nil) (ndK 459 1 .nil .nil)) (ndK 463 2 (ndK 462 1 .nil .nil) (ndK 464 1 .nil .nil))))) (ndK 499 5 (ndK
    486 4 (ndK 478 3 (ndK 473 2 (ndK 470 1 .nil .nil) (ndK 476 1 .nil .nil)) (ndK 483 2 (ndK 481 1 .nil .nil)
    (ndK 485 1 .nil .nil))) (ndK 494 3 (ndK 491 2 (ndK 489 1 .nil .nil) (ndK 493 1 .nil .nil)) (ndK 497 2 (ndK
    496 1 .nil .nil) (ndK 498 1 .nil .nil)))) (ndK 512 4 (ndK 507 3 (ndK 504 2 (ndK 502 1 .nil .nil) (ndK 506
    1 .nil .nil)) (ndK 510 2 (ndK 509 1 .nil .nil) (ndK 511 1 .nil .nil))) (ndK 517 3 (ndK 515 2 (ndK 514 1
    .nil .nil) (ndK 516 1 .nil .nil)) (ndK 519 2 (ndK 518 1 .nil .nil) .nil))))) (ndK 575 6 (ndK 554 5 (ndK
    541 4 (ndK 533 3 (ndK 528 2 (ndK 525 1 .nil .nil) (ndK 531 1 .nil .nil)) (ndK 538 2 (ndK 536 1 .nil .nil)
    (ndK 540 1 .nil .nil))) (ndK 549 3 (ndK 546 2 (ndK 544 1 .nil .nil) (ndK 548 1 .nil .nil)) (ndK 552 2 (ndK
    551 1 .nil .nil) (ndK 553 1 .nil .nil)))) (ndK 567 4 (ndK 562 3 (ndK 559 2 (ndK 557 1 .nil .nil) (ndK 561
    1 .nil .nil)) (ndK 565 2 (ndK 564 1 .nil .nil) (ndK 566 1 .nil .nil))) (ndK 572 3 (ndK 570 2 (ndK 569 1
    .nil .nil) (ndK 571 1 .nil .nil)) (ndK 574 2 (ndK 573 1 .nil .nil) .nil)))) (ndK 596 5 (ndK 588 4 (ndK 583
    3 (ndK 580 2 (ndK 578 1 .nil .nil) (ndK 582 1 .nil .nil)) (ndK 586 2 (ndK 585 1 .nil .nil) (ndK 587 1 .nil
    .nil))) (ndK 593 3 (ndK 591 2 (ndK 590 1 .nil .nil) (ndK 592 1 .nil .nil)) (ndK 595 2 (ndK 594 1 .nil
    .nil) .nil))) (ndK 604 4 (ndK 601 3 (ndK 599 2 (ndK 598 1 .nil .nil) (ndK 600 1 .nil .nil)) (ndK 603 2
    (ndK 602 1 .nil .nil) .nil)) (ndK 607 3 (ndK 606 2 (ndK 605 1 .nil .nil) .nil) (ndK 608 1 .nil .nil)))))))

/-- The tree after the first 270 inserts of `ops609`. -/
def t609c18 : AVLNode :=
  (ndK 376 9 (ndK 232 8 (ndK 143 7 (ndK 88 6 (ndK 54 5 (ndK 33 4 (ndK 20 3 (ndK 12 2 (ndK 7 1 .nil .nil) (ndK
    17 1 .nil .nil)) (ndK 28 2 (ndK 25 1 .nil .nil) (ndK 31 1 .nil .nil))) (ndK 46 3 (ndK 41 2 (ndK 38 1 .nil
    .nil) (ndK 44 1 .nil .nil)) (ndK 51 2 (ndK 49 1 .nil .nil) (ndK 53 1 .nil .nil)))) (ndK 75 4 (ndK 67 3
    (ndK 62 2 (ndK 59 1 .nil .nil) (ndK 65 1 .nil .nil)) (ndK 72 2 (ndK 70 1 .nil .nil) (ndK 74 1 .nil .nil)))
    (ndK 83 3 (ndK 80 2 (ndK 78 1 .nil .nil) (ndK 82 1 .nil .nil)) (ndK 86 2 (ndK 85 1 .nil .nil) (ndK 87 1
    .nil .nil))))) (ndK 122 5 (ndK 109 4 (ndK 101 3 (ndK 96 2 (ndK 93 1 .nil .nil) (ndK 99 1 .nil .nil)) (ndK
    106 2 (ndK 104 1 .nil .nil) (ndK 108 1 .nil .nil))) (ndK 117 3 (ndK 114 2 (ndK 112 1 .nil .nil) (ndK 116 1
    .nil .nil)) (ndK 120 2 (ndK 119 1 .nil .nil) .nil))) (ndK 135 3 (ndK 130 2 (ndK 127 1 .nil .nil) (ndK 133
    1 .nil .nil)) (ndK 140 2 (ndK 138 1 .nil .nil) (ndK 142 1 .nil .nil))))) (ndK 198 5 (ndK 177 4 (ndK 164 3
    (ndK 156 2 (ndK 151 1 .nil .nil) (ndK 161 1 .nil .nil)) (ndK 172 2 (ndK 169 1 .nil .nil) (ndK 175 1 .nil
    .nil))) (ndK 190 3 (ndK 185 2 (ndK 182 1 .nil .nil) (ndK 188 1 .nil .nil)) (ndK 195 2 (ndK 193 1 .nil
    .nil) (ndK 197 1 .nil .nil)))) (ndK 219 4 (ndK 211 3 (ndK 206 2 (ndK 203 1 .nil .nil) (ndK 209 1 .nil
    .nil)) (ndK 216 2 (ndK 214 1 .nil .nil) (ndK 218 1 .nil .nil))) (ndK 227 3 (ndK 224 2 (ndK 222 1 .nil
    .nil) (ndK 226 1 .nil .nil)) (ndK 230 2 (ndK 229 1 .nil .nil) (ndK 231 1 .nil .nil)))))) (ndK 321 6 (ndK
    287 5 (ndK 266 4 (ndK 253 3 (ndK 245 2 (ndK 240 1 .nil .nil) (ndK 250 1 .nil .nil)) (ndK 261 2 (ndK 258 1
    .nil .nil) (ndK 264 1 .nil .nil))) (ndK 279 3 (ndK 274 2 (ndK 271 1 .nil .nil) (ndK 277 1 .nil .nil)) (ndK
    284 2 (ndK 282 1 .nil .nil) (ndK 286 1 .nil .nil)))) (ndK 308 4 (ndK 300 3 (ndK 295 2 (ndK 292 1 .nil
    .nil) (ndK 298 1 .nil .nil)) (ndK 305 2 (ndK 303 1 .nil .nil) (ndK 307 1 .nil .nil))) (ndK 316 3 (ndK 313
    2 (ndK 311 1 .nil .nil) (ndK 315 1 .nil .nil)) (ndK 319 2 (ndK 318 1 .nil .nil) (ndK 320 1 .nil .nil)))))
    (ndK 355 5 (ndK 342 4 (ndK 334 3 (ndK 329 2 (ndK 326 1 .nil .nil) (ndK 332 1 .nil .nil)) (ndK 339 2 (ndK
    337 1 .nil .nil) (ndK 341 1 .nil .nil))) (ndK 350 3 (ndK 347 2 (ndK 345 1 .nil .nil) (ndK 349 1 .nil
    .nil)) (ndK 353 2 (ndK 352 1 .nil .nil) (ndK 354 1 .nil .nil)))) (ndK 368 4 (ndK 363 3 (ndK 360 2 (ndK 358
    1 .nil .nil) (ndK 362 1 .nil .nil)) (ndK 366 2 (ndK 365 1 .nil .nil) (ndK 367 1 .nil .nil))) (ndK 373 3
    (ndK 371 2 (ndK 370 1 .nil .nil) (ndK 372 1 .nil .nil)) (ndK 375 2 (ndK 374 1 .nil .nil) .nil)))))) (ndK
    520 7 (ndK 465 6 (ndK 431 5 (ndK 410 4 (ndK 397 3 (ndK 389 2 (ndK 384 1 .nil .nil) (ndK 394 1 .nil .nil))
    (ndK 405 2 (ndK 402 1 .nil .nil) (ndK 408 1 .nil .nil))) (ndK 423 3 (ndK 418 2 (ndK 415 1 .nil .nil) (ndK
    421 1 .nil .nil)) (ndK 428 2 (ndK 426 1 .nil .nil) (ndK 430 1 .nil .nil)))) (ndK 452 4 (ndK 444 3 (ndK 439
    2 (ndK 436 1 .nil .nil) (ndK 442 1 .nil .nil)) (ndK 449 2 (ndK 447 1 .nil .nil) (ndK 451 1 .nil .nil)))
    (ndK 460 3 (ndK 457 2 (ndK 455 1 .nil .nil) (ndK 459 1 .nil .nil)) (ndK 463 2 (ndK 462 1 .nil .nil) (ndK
    464 1 .nil .nil))))) (ndK 499 5 (ndK 486 4 (ndK 478 3 (ndK 473 2 (ndK 470 1 .nil .nil) (ndK 476 1 .nil
    .nil)) (ndK 483 2 (ndK 481 1 .nil .nil) (ndK 485 1 .nil .nil))) (ndK 494 3 (ndK 491 2 (ndK 489 1 .nil
    .nil) (ndK 493 1 .nil .nil)) (ndK 497 2 (ndK 496 1 .nil .nil) (ndK 498 1 .nil .nil)))) (ndK 512 4 (ndK 507
    3 (ndK 504 2 (ndK 502 1 .nil .nil) (ndK 506 1 .nil .nil)) (ndK 510 2 (ndK 509 1 .nil .nil) (ndK 511 1 .nil
    .nil))) (ndK 517 3 (ndK 515 2 (ndK 514 1 .nil .nil) (ndK 516 1 .nil .nil)) (ndK 519 2 (ndK 518 1 .nil
    .nil) .nil))))) (ndK 575 6 (ndK 554 5 (ndK 541 4 (ndK 533 3 (ndK 528 2 (ndK 525 1 .nil .nil) (ndK 531 1
    .nil .nil)) (ndK 538 2 (ndK 536 1 .nil .nil) (ndK 540 1 .nil .nil))) (ndK 549 3 (ndK 546 2 (ndK 544 1 .nil
    .nil) (ndK 548 1 .nil .nil)) (ndK 552 2 (ndK 551 1 .nil .nil) (ndK 553 1 .nil .nil)))) (ndK 567 4 (ndK 562
    3 (ndK 559 2 (ndK 557 1 .nil .nil) (ndK 561 1 .nil .nil)) (ndK 565 2 (ndK 564 1 .nil .nil) (ndK 566 1 .nil
    .nil))) (ndK 572 3 (ndK 570 2 (ndK 569 1 .nil .nil) (ndK 571 1 .nil .nil)) (ndK 574 2 (ndK 573 1 .nil
    .nil) .nil)))) (ndK 596 5 (ndK 588 4 (ndK 583 3 (ndK 580 2 (ndK 578 1 .nil .nil) (ndK 582 1 .nil .nil))
    (ndK 586 2 (ndK 585 1 .nil .nil) (ndK 587 1 .nil .nil))) (ndK 593 3 (ndK 591 2 (ndK 590 1 .nil .nil) (ndK
    592 1 .nil .nil)) (ndK 595 2 (ndK 594 1 .nil .nil) .nil))) (ndK 604 4 (ndK 601 3 (ndK 599 2 (ndK 598 1
    .nil .nil) (ndK 600 1 .nil .nil)) (ndK 603 2 (ndK 602 1 .nil .nil) .nil)) (ndK 607 3 (ndK 606 2 (ndK 605 1
    .nil .nil) .nil) (ndK 608 1 .nil .nil)))))))

/-- The tree after the first 285 inserts of `ops609`. -/
def t609c19 : AVLNode :=
  (ndK 376 9 (ndK 232 8 (ndK 143 7 (ndK 88 6 (ndK 54 5 (ndK 33 4 (ndK 20 3 (ndK 12 2 (ndK 7 1 .nil .nil) (ndK
    17 1 .nil .nil)) (ndK 28 2 (ndK 25 1 .nil .nil) (ndK 31 1 .nil .nil))) (ndK 46 3 (ndK 41 2 (ndK 38 1 .nil
    .nil) (ndK 44 1 .nil .nil)) (ndK 51 2 (ndK 49 1 .nil .nil) (ndK 53 1 .nil .nil)))) (ndK 75 4 (ndK 67 3
    (ndK 62 2 (ndK 59 1 .nil .nil) (ndK 65 1 .nil .nil)) (ndK 72 2 (ndK 70 1 .nil .nil) (ndK 74 1 .nil .nil)))
    (ndK 83 3 (ndK 80 2 (ndK 78 1 .nil .nil) (ndK 82 1 .nil .nil)) (ndK 86 2 (ndK 85 1 .nil .nil) (ndK 87 1
    .nil .nil))))) (ndK 122 5 (ndK 109 4 (ndK 101 3 (ndK 96 2 (ndK 93 1 .nil .nil) (ndK 99 1 .nil .nil)) (ndK
    106 2 (ndK 104 1 .nil .nil) (ndK 108 1 .nil .nil))) (ndK 117 3 (ndK 114 2 (ndK 112 1 .nil .nil) (ndK 116 1
    .nil .nil)) (ndK 120 2 (ndK 119 1 .nil .nil) (ndK 121 1 .nil .nil)))) (ndK 135 4 (ndK 130 3 (ndK 127 2
    (ndK 125 1 .nil .nil) (ndK 129 1 .nil .nil)) (ndK 133 2 (ndK 132 1 .nil .nil) (ndK 134 1 .nil .nil))) (ndK
    140 3 (ndK 138 2 (ndK 137 1 .nil .nil) (ndK 139 1 .nil .nil)) (ndK 142 2 (ndK 141 1 .nil .nil) .nil)))))
    (ndK 198 6 (ndK 177 5 (ndK 164 4 (ndK 156 3 (ndK 151 2 (ndK 148 1 .nil .nil) (ndK 154 1 .nil .nil)) (ndK
    161 2 (ndK 159 1 .nil .nil) (ndK 163 1 .nil .nil))) (ndK 172 3 (ndK 169 2 (ndK 167 1 .nil .nil) (ndK 171 1
    .nil .nil)) (ndK 175 2 (ndK 174 1 .nil .nil) .nil))) (ndK 190 3 (ndK 185 2 (ndK 182 1 .nil .nil) (ndK 188
    1 .nil .nil)) (ndK 195 2 (ndK 193 1 .nil .nil) (ndK 197 1 .nil .nil)))) (ndK 219 4 (ndK 211 3 (ndK 206 2
    (ndK 203 1 .nil .nil) (ndK 209 1 .nil .nil)) (ndK 216 2 (ndK 214 1 .nil .nil) (ndK 218 1 .nil .nil))) (ndK
    227 3 (ndK 224 2 (ndK 222 1 .nil .nil) (ndK 226 1 .nil .nil)) (ndK 230 2 (ndK 229 1 .nil .nil) (ndK 231 1
    .nil .nil)))))) (ndK 321 6 (ndK 287 5 (ndK 266 4 (ndK 253 3 (ndK 245 2 (ndK 240 1 .nil .nil) (ndK 250 1
    .nil .nil)) (ndK 261 2 (ndK 258 1 .nil .nil) (ndK 264 1 .nil .nil))) (ndK 279 3 (ndK 274 2 (ndK 271 1 .nil
    .nil) (ndK 277 1 .nil .nil)) (ndK 284 2 (ndK 282 1 .nil .nil) (ndK 286 1 .nil .nil)))) (ndK 308 4 (ndK 300
    3 (ndK 295 2 (ndK 292 1 .nil .nil) (ndK 298 1 .nil .nil)) (ndK 305 2 (ndK 303 1 .nil .nil) (ndK 307 1 .nil
    .nil))) (ndK 316 3 (ndK 313 2 (ndK 311 1 .nil .nil) (ndK 315 1 .nil .nil)) (ndK 319 2 (ndK 318 1 .nil
    .nil) (ndK 320 1 .nil .nil))))) (ndK 355 5 (ndK 342 4 (ndK 334 3 (ndK 329 2 (ndK 326 1 .nil .nil) (ndK 332
    1 .nil .nil)) (ndK 339 2 (ndK 337 1 .nil .nil) (ndK 341 1 .nil .nil))) (ndK 350 3 (ndK 347 2 (ndK 345 1
    .nil .nil) (ndK 349 1 .nil .nil)) (ndK 353 2 (ndK 352 1 .nil .nil) (ndK 354 1 .nil .nil)))) (ndK 368 4
    (ndK 363 3 (ndK 360 2 (ndK 358 1 .nil .nil) (ndK 362 1 .nil .nil)) (ndK 366 2 (ndK 365 1 .nil .nil) (ndK
    367 1 .nil .nil))) (ndK 373 3 (ndK 371 2 (ndK 370 1 .nil .nil) (ndK 372 1 .nil .nil)) (ndK 375 2 (ndK 374
    1 .nil .nil) .nil)))))) (ndK 520 7 (ndK 465 6 (ndK 431 5 (ndK 410 4 (ndK 397 3 (ndK 389 2 (ndK 384 1 .nil
    .nil) (ndK 394 1 .nil .nil)) (ndK 405 2 (ndK 402 1 .nil .nil) (ndK 408 1 .nil .nil))) (ndK 423 3 (ndK 418
    2 (ndK 415 1 .nil .nil) (ndK 421 1 .nil .nil)) (ndK 428 2 (ndK 426 1 .nil .nil) (ndK 430 1 .nil .nil))))
    (ndK 452 4 (ndK 444 3 (ndK 439 2 (ndK 436 1 .nil .nil) (ndK 442 1 .nil .nil)) (ndK 449 2 (ndK 447 1 .nil
    .nil) (ndK 451 1 .nil .nil))) (ndK 460 3 (ndK 457 2 (ndK 455 1 .nil .nil) (ndK 459 1 .nil .nil)) (ndK 463
    2 (ndK 462 1 .nil .nil) (ndK 464 1 .nil .nil))))) (ndK 499 5 (ndK 486 4 (ndK 478 3 (ndK 473 2 (ndK 470 1
    .nil .nil) (ndK 476 1 .nil .nil)) (ndK 483 2 (ndK 481 1 .nil .nil) (ndK 485 1 .nil .nil))) (ndK 494 3 (ndK
    491 2 (ndK 489 1 .nil .nil) (ndK 493 1 .nil .nil)) (ndK 497 2 (ndK 496 1 .nil .nil) (ndK 498 1 .nil
    .nil)))) (ndK 512 4 (ndK 507 3 (ndK 504 2 (ndK 502 1 .nil .nil) (ndK 506 1 .nil .nil)) (ndK 510 2 (ndK 509
    1 .nil .nil) (ndK 511 1 .nil .nil))) (ndK 517 3 (ndK 515 2 (ndK 514 1 .nil .nil) (ndK 516 1 .nil .nil))
    (ndK 519 2 (ndK 518 1 .nil .nil) .nil))))) (ndK 575 6 (ndK 554 5 (ndK 541 4 (ndK 533 3 (ndK 528 2 (ndK 525
    1 .nil .nil) (ndK 531 1 .nil .nil)) (ndK 538 2 (ndK 536 1 .nil .nil) (ndK 540 1 .nil .nil))) (ndK 549 3
    (ndK 546 2 (ndK 544 1 .nil .nil) (ndK 548 1 .nil .nil)) (ndK 552 2 (ndK 551 1 .nil .nil) (ndK 553 1 .nil
    .nil)))) (ndK 567 4 (ndK 562 3 (ndK 559 2 (ndK 557 1 .nil .nil) (ndK 561 1 .nil .nil)) (ndK 565 2 (ndK 564
    1 .nil .nil) (ndK 566 1 .nil .nil))) (ndK 572 3 (ndK 570 2 (ndK 569 1 .nil .nil) (ndK 571 1 .nil .nil))
    (ndK 574 2 (ndK 573 1 .nil .nil) .nil)))) (ndK 596 5 (ndK 588 4 (ndK 583 3 (ndK 580 2 (ndK 578 1 .nil
    .nil) (ndK 582 1 .nil .nil)) (ndK 586 2 (ndK 585 1 .nil .nil) (ndK 587 1 .nil .nil))) (ndK 593 3 (ndK 591
    2 (ndK 590 1 .nil .nil) (ndK 592 1 .nil .nil)) (ndK 595 2 (ndK 594 1 .nil .nil) .nil))) (ndK 604 4 (ndK
    601 3 (ndK 599 2 (ndK 598 1 .nil .nil) (ndK 600 1 .nil .nil)) (ndK 603 2 (ndK 602 1 .nil .nil) .nil)) (ndK
    607 3 (ndK 606 2 (ndK 605 1 .nil .nil) .nil) (ndK 608 1 .nil .nil)))))))

/-- The tree after the first 300 inserts of `ops609`. -/
def t609c20 : AVLNode :=
  (ndK 376 9 (ndK 232 8 (ndK 143 7 (ndK 88 6 (ndK 54 5 (ndK 33 4 (ndK 20 3 (ndK 12 2 (ndK 7 1 .nil .nil) (ndK
    17 1 .nil .nil)) (ndK 28 2 (ndK 25 1 .nil .nil) (ndK 31 1 .nil .nil))) (ndK 46 3 (ndK 41 2 (ndK 38 1 .nil
    .nil) (ndK 44 1 .nil .nil)) (ndK 51 2 (ndK 49 1 .nil .nil) (ndK 53 1 .nil .nil)))) (ndK 75 4 (ndK 67 3
    (ndK 62 2 (ndK 59 1 .nil .nil) (ndK 65 1 .nil .nil)) (ndK 72 2 (ndK 70 1 .nil .nil) (ndK 74 1 .nil .nil)))
    (ndK 83 3 (ndK 80 2 (ndK 78 1 .nil .nil) (ndK 82 1 .nil .nil)) (ndK 86 2 (ndK 85 1 .nil .nil) (ndK 87 1
    .nil .nil))))) (ndK 122 5 (ndK 109 4 (ndK 101 3 (ndK 96 2 (ndK 93 1 .nil .nil) (ndK 99 1 .nil .nil)) (ndK
    106 2 (ndK 104 1 .nil .nil) (ndK 108 1 .nil .nil))) (ndK 117 3 (ndK 114 2 (ndK 112 1 .nil .nil) (ndK 116 1
    .nil .nil)) (ndK 120 2 (ndK 119 1 .nil .nil) (ndK 121 1 .nil .nil)))) (ndK 135 4 (ndK 130 3 (ndK 127 2
    (ndK 125 1 .nil .nil) (ndK 129 1 .nil .nil)) (ndK 133 2 (ndK 132 1 .nil .nil) (ndK 134 1 .nil .nil))) (ndK
    140 3 (ndK 138 2 (ndK 137 1 .nil .nil) (ndK 139 1 .nil .nil)) (ndK 142 2 (ndK 141 1 .nil .nil) .nil)))))
    (ndK 198 6 (ndK 177 5 (ndK 164 4 (ndK 156 3 (ndK 151 2 (ndK 148 1 .nil .nil) (ndK 154 1 .nil .nil)) (ndK
    161 2 (ndK 159 1 .nil .nil) (ndK 163 1 .nil .nil))) (ndK 172 3 (ndK 169 2 (ndK 167 1 .nil .nil) (ndK 171 1
    .nil .nil)) (ndK 175 2 (ndK 174 1 .nil .nil) (ndK 176 1 .nil .nil)))) (ndK 190 4 (ndK 185 3 (ndK 182 2
    (ndK 180 1 .nil .nil) (ndK 184 1 .nil .nil)) (ndK 188 2 (ndK 187 1 .nil .nil) (ndK 189 1 .nil .nil))) (ndK
    195 3 (ndK 193 2 (ndK 192 1 .nil .nil) (ndK 194 1 .nil .nil)) (ndK 197 2 (ndK 196 1 .nil .nil) .nil))))
    (ndK 219 5 (ndK 211 4 (ndK 206 3 (ndK 203 2 (ndK 201 1 .nil .nil) (ndK 205 1 .nil .nil)) (ndK 209 2 (ndK
    208 1 .nil .nil) (ndK 210 1 .nil .nil))) (ndK 216 3 (ndK 214 2 (ndK 213 1 .nil .nil) (ndK 215 1 .nil
    .nil)) (ndK 218 2 (ndK 217 1 .nil .nil) .nil))) (ndK 227 3 (ndK 224 2 (ndK 222 1 .nil .nil) (ndK 226 1
    .nil .nil)) (ndK 230 2 (ndK 229 1 .nil .nil) (ndK 231 1 .nil .nil)))))) (ndK 321 6 (ndK 287 5 (ndK 266 4
    (ndK 253 3 (ndK 245 2 (ndK 240 1 .nil .nil) (ndK 250 1 .nil .nil)) (ndK 261 2 (ndK 258 1 .nil .nil) (ndK
    264 1 .nil .nil))) (ndK 279 3 (ndK 274 2 (ndK 271 1 .nil .nil) (ndK 277 1 .nil .nil)) (ndK 284 2 (ndK 282
    1 .nil .nil) (ndK 286 1 .nil .nil)))) (ndK 308 4 (ndK 300 3 (ndK 295 2 (ndK 292 1 .nil .nil) (ndK 298 1
    .nil .nil)) (ndK 305 2 (ndK 303 1 .nil .nil) (ndK 307 1 .nil .nil))) (ndK 316 3 (ndK 313 2 (ndK 311 1 .nil
    .nil) (ndK 315 1 .nil .nil)) (ndK 319 2 (ndK 318 1 .nil .nil) (ndK 320 1 .nil .nil))))) (ndK 355 5 (ndK
    342 4 (ndK 334 3 (ndK 329 2 (ndK 326 1 .nil .nil) (ndK 332 1 .nil .nil)) (ndK 339 2 (ndK 337 1 .nil .nil)
    (ndK 341 1 .nil .nil))) (ndK 350 3 (ndK 347 2 (ndK 345 1 .nil .nil) (ndK 349 1 .nil .nil)) (ndK 353 2 (ndK
    352 1 .nil .nil) (ndK 354 1 .nil .nil)))) (ndK 368 4 (ndK 363 3 (ndK 360 2 (ndK 358 1 .nil .nil) (ndK 362
    1 .nil .nil)) (ndK 366 2 (ndK 365 1 .nil .nil) (ndK 367 1 .nil .nil))) (ndK 373 3 (ndK 371 2 (ndK 370 1
    .nil .nil) (ndK 372 1 .nil .nil)) (ndK 375 2 (ndK 374 1 .nil .nil) .nil)))))) (ndK 520 7 (ndK 465 6 (ndK
    431 5 (ndK 410 4 (ndK 397 3 (ndK 389 2 (ndK 384 1 .nil .nil) (ndK 394 1 .nil .nil)) (ndK 405 2 (ndK 402 1
    .nil .nil) (ndK 408 1 .nil .nil))) (ndK 423 3 (ndK 418 2 (ndK 415 1 .nil .nil) (ndK 421 1 .nil .nil)) (ndK
    428 2 (ndK 426 1 .nil .nil) (ndK 430 1 .nil .nil)))) (ndK 452 4 (ndK 444 3 (ndK 439 2 (ndK 436 1 .nil
    .nil) (ndK 442 1 .nil .nil)) (ndK 449 2 (ndK 447 1 .nil .nil) (ndK 451 1 .nil .nil))) (ndK 460 3 (ndK 457
    2 (ndK 455 1 .nil .nil) (ndK 459 1 .nil .nil)) (ndK 463 2 (ndK 462 1 .nil .nil) (ndK 464 1 .nil .nil)))))
    (ndK 499 5 (ndK 486 4 (ndK 478 3 (ndK 473 2 (ndK 470 1 .nil .nil) (ndK 476 1 .nil .nil)) (ndK 483 2 (ndK
    481 1 .nil .nil) (ndK 485 1 .nil .nil))) (ndK 494 3 (ndK 491 2 (ndK 489 1 .nil .nil) (ndK 493 1 .nil
    .nil)) (ndK 497 2 (ndK 496 1 .nil .nil) (ndK 498 1 .nil .nil)))) (ndK 512 4 (ndK 507 3 (ndK 504 2 (ndK 502
    1 .nil .nil) (ndK 506 1 .nil .nil)) (ndK 510 2 (ndK 509 1 .nil .nil) (ndK 511 1 .nil .nil))) (ndK 517 3
    (ndK 515 2 (ndK 514 1 .nil .nil) (ndK 516 1 .nil .nil)) (ndK 519 2 (ndK 518 1 .nil .nil) .nil))))) (ndK
    575 6 (ndK 554 5 (ndK 541 4 (ndK 533 3 (ndK 528 2 (ndK 525 1 .nil .nil) (ndK 531 1 .nil .nil)) (ndK 538 2
    (ndK 536 1 .nil .nil) (ndK 540 1 .nil .nil))) (ndK 549 3 (ndK 546 2 (ndK 544 1 .nil .nil) (ndK 548 1 .nil
    .nil)) (ndK 552 2 (ndK 551 1 .nil .nil) (ndK 553 1 .nil .nil)))) (ndK 567 4 (ndK 562 3 (ndK 559 2 (ndK 557
    1 .nil .nil) (ndK 561 1 .nil .nil)) (ndK 565 2 (ndK 564 1 .nil .nil) (ndK 566 1 .nil .nil))) (ndK 572 3
    (ndK 570 2 (ndK 569 1 .nil .nil) (ndK 571 1 .nil .nil)) (ndK 574 2 (ndK 573 1 .nil .nil) .nil)))) (ndK 596
    5 (ndK 588 4 (ndK 583 3 (ndK 580 2 (ndK 578 1 .nil .nil) (ndK 582 1 .nil .nil)) (ndK 586 2 (ndK 585 1 .nil
    .nil) (ndK 587 1 .nil .nil))) (ndK 593 3 (ndK 591 2 (ndK 590 1 .nil .nil) (ndK 592 1 .nil .nil)) (ndK 595
    2 (ndK 594 1 .nil .nil) .nil))) (ndK 604 4 (ndK 601 3 (ndK 599 2 (ndK 598 1 .nil .nil) (ndK 600 1 .nil
    .nil)) (ndK 603 2 (ndK 602 1 .nil .nil) .nil)) (ndK 607 3 (ndK 606 2 (ndK 605 1 .nil .nil) .nil) (ndK 608
    1 .nil .nil)))))))

/-- The tree after the first 315 inserts of `ops609`. -/
def t609c21 : AVLNode :=
  (ndK 376 9 (ndK 232 8 (ndK 143 7 (ndK 88 6 (ndK 54 5 (ndK 33 4 (ndK 20 3 (ndK 12 2 (ndK 7 1 .nil .nil) (ndK
    17 1 .nil .nil)) (ndK 28 2 (ndK 25 1 .nil .nil) (ndK 31 1 .nil .nil))) (ndK 46 3 (ndK 41 2 (ndK 38 1 .nil
    .nil) (ndK 44 1 .nil .nil)) (ndK 51 2 (ndK 49 1 .nil .nil) (ndK 53 1 .nil .nil)))) (ndK 75 4 (ndK 67 3
    (ndK 62 2 (ndK 59 1 .nil .nil) (ndK 65 1 .nil .nil)) (ndK 72 2 (ndK 70 1 .nil .nil) (ndK 74 1 .nil .nil)))
    (ndK 83 3 (ndK 80 2 (ndK 78 1 .nil .nil) (ndK 82 1 .nil .nil)) (ndK 86 2 (ndK 85 1 .nil .nil) (ndK 87 1
    .nil .nil))))) (ndK 122 5 (ndK 109 4 (ndK 101 3 (ndK 96 2 (ndK 93 1 .nil .nil) (ndK 99 1 .nil .nil)) (ndK
    106 2 (ndK 104 1 .nil .nil) (ndK 108 1 .nil .nil))) (ndK 117 3 (ndK 114 2 (ndK 112 1 .nil .nil) (ndK 116 1
    .nil .nil)) (ndK 120 2 (ndK 119 1 .nil .nil) (ndK 121 1 .nil .nil)))) (ndK 135 4 (ndK 130 3 (ndK 127 2
    (ndK 125 1 .nil .nil) (ndK 129 1 .nil .nil)) (ndK 133 2 (ndK 132 1 .nil .nil) (ndK 134 1 .nil .nil))) (ndK
    140 3 (ndK 138 2 (ndK 137 1 .nil .nil) (ndK 139 1 .nil .nil)) (ndK 142 2 (ndK 141 1 .nil .nil) .nil)))))
    (ndK 198 6 (ndK 177 5 (ndK 164 4 (ndK 156 3 (ndK 151 2 (ndK 148 1 .nil .nil) (ndK 154 1 .nil .nil)) (ndK
    161 2 (ndK 159 1 .nil .nil) (ndK 163 1 .nil .nil))) (ndK 172 3 (ndK 169 2 (ndK 167 1 .nil .nil) (ndK 171 1
    .nil .nil)) (ndK 175 2 (ndK 174 1 .nil .nil) (ndK 176 1 .nil .nil)))) (ndK 190 4 (ndK 185 3 (ndK 182 2
    (ndK 180 1 .nil .nil) (ndK 184 1 .nil .nil)) (ndK 188 2 (ndK 187 1 .nil .nil) (ndK 189 1 .nil .nil))) (ndK
    195 3 (ndK 193 2 (ndK 192 1 .nil .nil) (ndK 194 1 .nil .nil)) (ndK 197 2 (ndK 196 1 .nil .nil) .nil))))
    (ndK 219 5 (ndK 211 4 (ndK 206 3 (ndK 203 2 (ndK 201 1 .nil .nil) (ndK 205 1 .nil .nil)) (ndK 209 2 (ndK
    208 1 .nil .nil) (ndK 210 1 .nil .nil))) (ndK 216 3 (ndK 214 2 (ndK 213 1 .nil .nil) (ndK 215 1 .nil
    .nil)) (ndK 218 2 (ndK 217 1 .nil .nil) .nil))) (ndK 227 4 (ndK 224 3 (ndK 222 2 (ndK 221 1 .nil .nil)
    (ndK 223 1 .nil .nil)) (ndK 226 2 (ndK 225 1 .nil .nil) .nil)) (ndK 230 3 (ndK 229 2 (ndK 228 1 .nil .nil)
    .nil) (ndK 231 1 .nil .nil)))))) (ndK 321 7 (ndK 287 6 (ndK 266 5 (ndK 253 4 (ndK 245 3 (ndK 240 2 (ndK
    237 1 .nil .nil) (ndK 243 1 .nil .nil)) (ndK 250 2 (ndK 248 1 .nil .nil) (ndK 252 1 .nil .nil))) (ndK 261
    3 (ndK 258 2 (ndK 256 1 .nil .nil) (ndK 260 1 .nil .nil)) (ndK 264 2 (ndK 263 1 .nil .nil) (ndK 265 1 .nil
    .nil)))) (ndK 279 4 (ndK 274 3 (ndK 271 2 (ndK 269 1 .nil .nil) (ndK 273 1 .nil .nil)) (ndK 277 2 (ndK 276
    1 .nil .nil) .nil)) (ndK 284 2 (ndK 282 1 .nil .nil) (ndK 286 1 .nil .nil)))) (ndK 308 4 (ndK 300 3 (ndK
    295 2 (ndK 292 1 .nil .nil) (ndK 298 1 .nil .nil)) (ndK 305 2 (ndK 303 1 .nil .nil) (ndK 307 1 .nil
    .nil))) (ndK 316 3 (ndK 313 2 (ndK 311 1 .nil .nil) (ndK 315 1 .nil .nil)) (ndK 319 2 (ndK 318 1 .nil
    .nil) (ndK 320 1 .nil .nil))))) (ndK 355 5 (ndK 342 4 (ndK 334 3 (ndK 329 2 (ndK 326 1 .nil .nil) (ndK 332
    1 .nil .nil)) (ndK 339 2 (ndK 337 1 .nil .nil) (ndK 341 1 .nil .nil))) (ndK 350 3 (ndK 347 2 (ndK 345 1
    .nil .nil) (ndK 349 1 .nil .nil)) (ndK 353 2 (ndK 352 1 .nil .nil) (ndK 354 1 .nil .nil)))) (ndK 368 4
    (ndK 363 3 (ndK 360 2 (ndK 358 1 .nil .nil) (ndK 362 1 .nil .nil)) (ndK 366 2 (ndK 365 1 .nil .nil) (ndK
    367 1 .nil .nil))) (ndK 373 3 (ndK 371 2 (ndK 370 1 .nil .nil) (ndK 372 1 .nil .nil)) (ndK 375 2 (ndK 374
    1 .nil .nil) .nil)))))) (ndK 520 7 (ndK 465 6 (ndK 431 5 (ndK 410 4 (ndK 397 3 (ndK 389 2 (ndK 384 1 .nil
    .nil) (ndK 394 1 .nil .nil)) (ndK 405 2 (ndK 402 1 .nil .nil) (ndK 408 1 .nil .nil))) (ndK 423 3 (ndK 418
    2 (ndK 415 1 .nil .nil) (ndK 421 1 .nil .nil)) (ndK 428 2 (ndK 426 1 .nil .nil) (ndK 430 1 .nil .nil))))
    (ndK 452 4 (ndK 444 3 (ndK 439 2 (ndK 436 1 .nil .nil) (ndK 442 1 .nil .nil)) (ndK 449 2 (ndK 447 1 .nil
    .nil) (ndK 451 1 .nil .nil))) (ndK 460 3 (ndK 457 2 (ndK 455 1 .nil .nil) (ndK 459 1 .nil .nil)) (ndK 463
    2 (ndK 462 1 .nil .nil) (ndK 464 1 .nil .nil))))) (ndK 499 5 (ndK 486 4 (ndK 478 3 (ndK 473 2 (ndK 470 1
    .nil .nil) (ndK 476 1 .nil .nil)) (ndK 483 2 (ndK 481 1 .nil .nil) (ndK 485 1 .nil .nil))) (ndK 494 3 (ndK
    491 2 (ndK 489 1 .nil .nil) (ndK 493 1 .nil .nil)) (ndK 497 2 (ndK 496 1 .nil .nil) (ndK 498 1 .nil
    .nil)))) (ndK 512 4 (ndK 507 3 (ndK 504 2 (ndK 502 1 .nil .nil) (ndK 506 1 .nil .nil)) (ndK 510 2 (ndK 509
    1 .nil .nil) (ndK 511 1 .nil .nil))) (ndK 517 3 (ndK 515 2 (ndK 514 1 .nil .nil) (ndK 516 1 .nil .nil))
    (ndK 519 2 (ndK 518 1 .nil .nil) .nil))))) (ndK 575 6 (ndK 554 5 (ndK 541 4 (ndK 533 3 (ndK 528 2 (ndK 525
    1 .nil .nil) (ndK 531 1 .nil .nil)) (ndK 538 2 (ndK 536 1 .nil .nil) (ndK 540 1 .nil .nil))) (ndK 549 3
    (ndK 546 2 (ndK 544 1 .nil .nil) (ndK 548 1 .nil .nil)) (ndK 552 2 (ndK 551 1 .nil .nil) (ndK 553 1 .nil
    .nil)))) (ndK 567 4 (ndK 562 3 (ndK 559 2 (ndK 557 1 .nil .nil) (ndK 561 1 .nil .nil)) (ndK 565 2 (ndK 564
    1 .nil .nil) (ndK 566 1 .nil .nil))) (ndK 572 3 (ndK 570 2 (ndK 569 1 .nil .nil) (ndK 571 1 .nil .nil))
    (ndK 574 2 (ndK 573 1 .nil .nil) .nil)))) (ndK 596 5 (ndK 588 4 (ndK 583 3 (ndK 580 2 (ndK 578 1 .nil
    .nil) (ndK 582 1 .nil .nil)) (ndK 586 2 (ndK 585 1 .nil .nil) (ndK 587 1 .nil .nil))) (ndK 593 3 (ndK 591
    2 (ndK 590 1 .nil .nil) (ndK 592 1 .nil .nil)) (ndK 595 2 (ndK 594 1 .nil .nil) .nil))) (ndK 604 4 (ndK
    601 3 (ndK 599 2 (ndK 598 1 .nil .nil) (ndK 600 1 .nil .nil)) (ndK 603 2 (ndK 602 1 .nil .nil) .nil)) (ndK
    607 3 (ndK 606 2 (ndK 605 1 .nil .nil) .nil) (ndK 608 1 .nil .nil)))))))

/-- The tree after the first 330 inserts of `ops609`. -/
def t609c22 : AVLNode :=
  (ndK 376 9 (ndK 232 8 (ndK 143 7 (ndK 88 6 (ndK 54 5 (ndK 33 4 (ndK 20 3 (ndK 12 2 (ndK 7 1 .nil .nil) (ndK
    17 1 .nil .nil)) (ndK 28 2 (ndK 25 1 .nil .nil) (ndK 31 1 .nil .nil))) (ndK 46 3 (ndK 41 2 (ndK 38 1 .nil
    .nil) (ndK 44 1 .nil .nil)) (ndK 51 2 (ndK 49 1 .nil .nil) (ndK 53 1 .nil .nil)))) (ndK 75 4 (ndK 67 3
    (ndK 62 2 (ndK 59 1 .nil .nil) (ndK 65 1 .nil .nil)) (ndK 72 2 (ndK 70 1 .nil .nil) (ndK 74 1 .nil .nil)))
    (ndK 83 3 (ndK 80 2 (ndK 78 1 .nil .nil) (ndK 82 1 .nil .nil)) (ndK 86 2 (ndK 85 1 .nil .nil) (ndK 87 1
    .nil .nil))))) (ndK 122 5 (ndK 109 4 (ndK 101 3 (ndK 96 2 (ndK 93 1 .nil .nil) (ndK 99 1 .nil .nil)) (ndK
    106 2 (ndK 104 1 .nil .nil) (ndK 108 1 .nil .nil))) (ndK 117 3 (ndK 114 2 (ndK 112 1 .nil .nil) (ndK 116 1
    .nil .nil)) (ndK 120 2 (ndK 119 1 .nil .nil) (ndK 121 1 .nil .nil)))) (ndK 135 4 (ndK 130 3 (ndK 127 2
    (ndK 125 1 .nil .nil) (ndK 129 1 .nil .nil)) (ndK 133 2 (ndK 132 1 .nil .nil) (ndK 134 1 .nil .nil))) (ndK
    140 3 (ndK 138 2 (ndK 137 1 .nil .nil) (ndK 139 1 .nil .nil)) (ndK 142 2 (ndK 141 1 .nil .nil) .nil)))))
    (ndK 198 6 (ndK 177 5 (ndK 164 4 (ndK 156 3 (ndK 151 2 (ndK 148 1 .nil .nil) (ndK 154 1 .nil .nil)) (ndK
    161 2 (ndK 159 1 .nil .nil) (ndK 163 1 .nil .nil))) (ndK 172 3 (ndK 169 2 (ndK 167 1 .nil .nil) (ndK 171 1
    .nil .nil)) (ndK 175 2 (ndK 174 1 .nil .nil) (ndK 176 1 .nil .nil)))) (ndK 190 4 (ndK 185 3 (ndK 182 2
    (ndK 180 1 .nil .nil) (ndK 184 1 .nil .nil)) (ndK 188 2 (ndK 187 1 .nil .nil) (ndK 189 1 .nil .nil))) (ndK
    195 3 (ndK 193 2 (ndK 192 1 .nil .nil) (ndK 194 1 .nil .nil)) (ndK 197 2 (ndK 196 1 .nil .nil) .nil))))
    (ndK 219 5 (ndK 211 4 (ndK 206 3 (ndK 203 2 (ndK 201 1 .nil .nil) (ndK 205 1 .nil .nil)) (ndK 209 2 (ndK
    208 1 .nil .nil) (ndK 210 1 .nil .nil))) (ndK 216 3 (ndK 214 2 (ndK 213 1 .nil .nil) (ndK 215 1 .nil
    .nil)) (ndK 218 2 (ndK 217 1 .nil .nil) .nil))) (ndK 227 4 (ndK 224 3 (ndK 222 2 (ndK 221 1 .nil .nil)
    (ndK 223 1 .nil .nil)) (ndK 226 2 (ndK 225 1 .nil .nil) .nil)) (ndK 230 3 (ndK 229 2 (ndK 228 1 .nil .nil)
    .nil) (ndK 231 1 .nil .nil)))))) (ndK 321 7 (ndK 287 6 (ndK 266 5 (ndK 253 4 (ndK 245 3 (ndK 240 2 (ndK
    237 1 .nil .nil) (ndK 243 1 .nil .nil)) (ndK 250 2 (ndK 248 1 .nil .nil) (ndK 252 1 .nil .nil))) (ndK 261
    3 (ndK 258 2 (ndK 256 1 .nil .nil) (ndK 260 1 .nil .nil)) (ndK 264 2 (ndK 263 1 .nil .nil) (ndK 265 1 .nil
    .nil)))) (ndK 279 4 (ndK 274 3 (ndK 271 2 (ndK 269 1 .nil .nil) (ndK 273 1 .nil .nil)) (ndK 277 2 (ndK 276
    1 .nil .nil) (ndK 278 1 .nil .nil))) (ndK 284 3 (ndK 282 2 (ndK 281 1 .nil .nil) (ndK 283 1 .nil .nil))
    (ndK 286 2 (ndK 285 1 .nil .nil) .nil)))) (ndK 308 5 (ndK 300 4 (ndK 295 3 (ndK 292 2 (ndK 290 1 .nil
    .nil) (ndK 294 1 .nil .nil)) (ndK 298 2 (ndK 297 1 .nil .nil) (ndK 299 1 .nil .nil))) (ndK 305 3 (ndK 303
    2 (ndK 302 1 .nil .nil) (ndK 304 1 .nil .nil)) (ndK 307 2 (ndK 306 1 .nil .nil) .nil))) (ndK 316 4 (ndK
    313 3 (ndK 311 2 (ndK 310 1 .nil .nil) (ndK 312 1 .nil .nil)) (ndK 315 2 (ndK 314 1 .nil .nil) .nil)) (ndK
    319 3 (ndK 318 2 (ndK 317 1 .nil .nil) .nil) (ndK 320 1 .nil .nil))))) (ndK 355 5 (ndK 342 4 (ndK 334 3
    (ndK 329 2 (ndK 326 1 .nil .nil) (ndK 332 1 .nil .nil)) (ndK 339 2 (ndK 337 1 .nil .nil) (ndK 341 1 .nil
    .nil))) (ndK 350 3 (ndK 347 2 (ndK 345 1 .nil .nil) (ndK 349 1 .nil .nil)) (ndK 353 2 (ndK 352 1 .nil
    .nil) (ndK 354 1 .nil .nil)))) (ndK 368 4 (ndK 363 3 (ndK 360 2 (ndK 358 1 .nil .nil) (ndK 362 1 .nil
    .nil)) (ndK 366 2 (ndK 365 1 .nil .nil) (ndK 367 1 .nil .nil))) (ndK 373 3 (ndK 371 2 (ndK 370 1 .nil
    .nil) (ndK 372 1 .nil .nil)) (ndK 375 2 (ndK 374 1 .nil .nil) .nil)))))) (ndK 520 7 (ndK 465 6 (ndK 431 5
    (ndK 410 4 (ndK 397 3 (ndK 389 2 (ndK 384 1 .nil .nil) (ndK 394 1 .nil .nil)) (ndK 405 2 (ndK 402 1 .nil
    .nil) (ndK 408 1 .nil .nil))) (ndK 423 3 (ndK 418 2 (ndK 415 1 .nil .nil) (ndK 421 1 .nil .nil)) (ndK 428
    2 (ndK 426 1 .nil .nil) (ndK 430 1 .nil .nil)))) (ndK 452 4 (ndK 444 3 (ndK 439 2 (ndK 436 1 .nil .nil)
    (ndK 442 1 .nil .nil)) (ndK 449 2 (ndK 447 1 .nil .nil) (ndK 451 1 .nil .nil))) (ndK 460 3 (ndK 457 2 (ndK
    455 1 .nil .nil) (ndK 459 1 .nil .nil)) (ndK 463 2 (ndK 462 1 .nil .nil) (ndK 464 1 .nil .nil))))) (ndK
    499 5 (ndK 486 4 (ndK 478 3 (ndK 473 2 (ndK 470 1 .nil .nil) (ndK 476 1 .nil .nil)) (ndK 483 2 (ndK 481 1
    .nil .nil) (ndK 485 1 .nil .nil))) (ndK 494 3 (ndK 491 2 (ndK 489 1 .nil .nil) (ndK 493 1 .nil .nil)) (ndK
    497 2 (ndK 496 1 .nil .nil) (ndK 498 1 .nil .nil)))) (ndK 512 4 (ndK 507 3 (ndK 504 2 (ndK 502 1 .nil
    .nil) (ndK 506 1 .nil .nil)) (ndK 510 2 (ndK 509 1 .nil .nil) (ndK 511 1 .nil .nil))) (ndK 517 3 (ndK 515
    2 (ndK 514 1 .nil .nil) (ndK 516 1 .nil .nil)) (ndK 519 2 (ndK 518 1 .nil .nil) .nil))))) (ndK 575 6 (ndK
    554 5 (ndK 541 4 (ndK 533 3 (ndK 528 2 (ndK 525 1 .nil .nil) (ndK 531 1 .nil .nil)) (ndK 538 2 (ndK 536 1
    .nil .nil) (ndK 540 1 .nil .nil))) (ndK 549 3 (ndK 546 2 (ndK 544 1 .nil .nil) (ndK 548 1 .nil .nil)) (ndK
    552 2 (ndK 551 1 .nil .nil) (ndK 553 1 .nil .nil)))) (ndK 567 4 (ndK 562 3 (ndK 559 2 (ndK 557 1 .nil
    .nil) (ndK 561 1 .nil .nil)) (ndK 565 2 (ndK 564 1 .nil .nil) (ndK 566 1 .nil .nil))) (ndK 572 3 (ndK 570
    2 (ndK 569 1 .nil .nil) (ndK 571 1 .nil .nil)) (ndK 574 2 (ndK 573 1 .nil .nil) .nil)))) (ndK 596 5 (ndK
    588 4 (ndK 583 3 (ndK 580 2 (ndK 578 1 .nil .nil) (ndK 582 1 .nil .nil)) (ndK 586 2 (ndK 585 1 .nil .nil)
    (ndK 587 1 .nil .nil))) (ndK 593 3 (ndK 591 2 (ndK 590 1 .nil .nil) (ndK 592 1 .nil .nil)) (ndK 595 2 (ndK
    594 1 .nil .nil) .nil))) (ndK 604 4 (ndK 601 3 (ndK 599 2 (ndK 598 1 .nil .nil) (ndK 600 1 .nil .nil))
    (ndK 603 2 (ndK 602 1 .nil .nil) .nil)) (ndK 607 3 (ndK 606 2 (ndK 605 1 .nil .nil) .nil) (ndK 608 1 .nil
    .nil)))))))

/-- The tree after the first 345 inserts of `ops609`. -/
def t609c23 : AVLNode :=
  (ndK 376 9 (ndK 232 8 (ndK 143 7 (ndK 88 6 (ndK 54 5 (ndK 33 4 (ndK 20 3 (ndK 12 2 (ndK 7 1 .nil .nil) (ndK
    17 1 .nil .nil)) (ndK 28 2 (ndK 25 1 .nil .nil) (ndK 31 1 .nil .nil))) (ndK 46 3 (ndK 41 2 (ndK 38 1 .nil
    .nil) (ndK 44 1 .nil .nil)) (ndK 51 2 (ndK 49 1 .nil .nil) (ndK 53 1 .nil .nil)))) (ndK 75 4 (ndK 67 3
    (ndK 62 2 (ndK 59 1 .nil .nil) (ndK 65 1 .nil .nil)) (ndK 72 2 (ndK 70 1 .nil .nil) (ndK 74 1 .nil .nil)))
    (ndK 83 3 (ndK 80 2 (ndK 78 1 .nil .nil) (ndK 82 1 .nil .nil)) (ndK 86 2 (ndK 85 1 .nil .nil) (ndK 87 1
    .nil .nil))))) (ndK 122 5 (ndK 109 4 (ndK 101 3 (ndK 96 2 (ndK 93 1 .nil .nil) (ndK 99 1 .nil .nil)) (ndK
    106 2 (ndK 104 1 .nil .nil) (ndK 108 1 .nil .nil))) (ndK 117 3 (ndK 114 2 (ndK 112 1 .nil .nil) (ndK 116 1
    .nil .nil)) (ndK 120 2 (ndK 119 1 .nil .nil) (ndK 121 1 .nil .nil)))) (ndK 135 4 (ndK 130 3 (ndK 127 2
    (ndK 125 1 .nil .nil) (ndK 129 1 .nil .nil)) (ndK 133 2 (ndK 132 1 .nil .nil) (ndK 134 1 .nil .nil))) (ndK
    140 3 (ndK 138 2 (ndK 137 1 .nil .nil) (ndK 139 1 .nil .nil)) (ndK 142 2 (ndK 141 1 .nil .nil) .nil)))))
    (ndK 198 6 (ndK 177 5 (ndK 164 4 (ndK 156 3 (ndK 151 2 (ndK 148 1 .nil .nil) (ndK 154 1 .nil .nil)) (ndK
    161 2 (ndK 159 1 .nil .nil) (ndK 163 1 .nil .nil))) (ndK 172 3 (ndK 169 2 (ndK 167 1 .nil .nil) (ndK 171 1
    .nil .nil)) (ndK 175 2 (ndK 174 1 .nil .nil) (ndK 176 1 .nil .nil)))) (ndK 190 4 (ndK 185 3 (ndK 182 2
    (ndK 180 1 .nil .nil) (ndK 184 1 .nil .nil)) (ndK 188 2 (ndK 187 1 .nil .nil) (ndK 189 1 .nil .nil))) (ndK
    195 3 (ndK 193 2 (ndK 192 1 .nil .nil) (ndK 194 1 .nil .nil)) (ndK 197 2 (ndK 196 1 .nil .nil) .nil))))
    (ndK 219 5 (ndK 211 4 (ndK 206 3 (ndK 203 2 (ndK 201 1 .nil .nil) (ndK 205 1 .nil .nil)) (ndK 209 2 (ndK
    208 1 .nil .nil) (ndK 210 1 .nil .nil))) (ndK 216 3 (ndK 214 2 (ndK 213 1 .nil .nil) (ndK 215 1 .nil
    .nil)) (ndK 218 2 (ndK 217 1 .nil .nil) .nil))) (ndK 227 4 (ndK 224 3 (ndK 222 2 (ndK 221 1 .nil .nil)
    (ndK 223 1 .nil .nil)) (ndK 226 2 (ndK 225 1 .nil .nil) .nil)) (ndK 230 3 (ndK 229 2 (ndK 228 1 .nil .nil)
    .nil) (ndK 231 1 .nil .nil)))))) (ndK 321 7 (ndK 287 6 (ndK 266 5 (ndK 253 4 (ndK 245 3 (ndK 240 2 (ndK
    237 1 .nil .nil) (ndK 243 1 .nil .nil)) (ndK 250 2 (ndK 248 1 .nil .nil) (ndK 252 1 .nil .nil))) (ndK 261
    3 (ndK 258 2 (ndK 256 1 .nil .nil) (ndK 260 1 .nil .nil)) (ndK 264 2 (ndK 263 1 .nil .nil) (ndK 265 1 .nil
    .nil)))) (ndK 279 4 (ndK 274 3 (ndK 271 2 (ndK 269 1 .nil .nil) (ndK 273 1 .nil .nil)) (ndK 277 2 (ndK 276
    1 .nil .nil) (ndK 278 1 .nil .nil))) (ndK 284 3 (ndK 282 2 (ndK 281 1 .nil .nil) (ndK 283 1 .nil .nil))
    (ndK 286 2 (ndK 285 1 .nil .nil) .nil)))) (ndK 308 5 (ndK 300 4 (ndK 295 3 (ndK 292 2 (ndK 290 1 .nil
    .nil) (ndK 294 1 .nil .nil)) (ndK 298 2 (ndK 297 1 .nil .nil) (ndK 299 1 .nil .nil))) (ndK 305 3 (ndK 303
    2 (ndK 302 1 .nil .nil) (ndK 304 1 .nil .nil)) (ndK 307 2 (ndK 306 1 .nil .nil) .nil))) (ndK 316 4 (ndK
    313 3 (ndK 311 2 (ndK 310 1 .nil .nil) (ndK 312 1 .nil .nil)) (ndK 315 2 (ndK 314 1 .nil .nil) .nil)) (ndK
    319 3 (ndK 318 2 (ndK 317 1 .nil .nil) .nil) (ndK 320 1 .nil .nil))))) (ndK 355 6 (ndK 342 5 (ndK 334 4
    (ndK 329 3 (ndK 326 2 (ndK 324 1 .nil .nil) (ndK 328 1 .nil .nil)) (ndK 332 2 (ndK 331 1 .nil .nil) (ndK
    333 1 .nil .nil))) (ndK 339 3 (ndK 337 2 (ndK 336 1 .nil .nil) (ndK 338 1 .nil .nil)) (ndK 341 2 (ndK 340
    1 .nil .nil) .nil))) (ndK 350 4 (ndK 347 3 (ndK 345 2 (ndK 344 1 .nil .nil) (ndK 346 1 .nil .nil)) (ndK
    349 2 (ndK 348 1 .nil .nil) .nil)) (ndK 353 3 (ndK 352 2 (ndK 351 1 .nil .nil) .nil) (ndK 354 1 .nil
    .nil)))) (ndK 368 5 (ndK 363 4 (ndK 360 3 (ndK 358 2 (ndK 357 1 .nil .nil) (ndK 359 1 .nil .nil)) (ndK 362
    2 (ndK 361 1 .nil .nil) .nil)) (ndK 366 3 (ndK 365 2 (ndK 364 1 .nil .nil) .nil) (ndK 367 1 .nil .nil)))
    (ndK 373 3 (ndK 371 2 (ndK 370 1 .nil .nil) (ndK 372 1 .nil .nil)) (ndK 375 2 (ndK 374 1 .nil .nil)
    .nil)))))) (ndK 520 7 (ndK 465 6 (ndK 431 5 (ndK 410 4 (ndK 397 3 (ndK 389 2 (ndK 384 1 .nil .nil) (ndK
    394 1 .nil .nil)) (ndK 405 2 (ndK 402 1 .nil .nil) (ndK 408 1 .nil .nil))) (ndK 423 3 (ndK 418 2 (ndK 415
    1 .nil .nil) (ndK 421 1 .nil .nil)) (ndK 428 2 (ndK 426 1 .nil .nil) (ndK 430 1 .nil .nil)))) (ndK 452 4
    (ndK 444 3 (ndK 439 2 (ndK 436 1 .nil .nil) (ndK 442 1 .nil .nil)) (ndK 449 2 (ndK 447 1 .nil .nil) (ndK
    451 1 .nil .nil))) (ndK 460 3 (ndK 457 2 (ndK 455 1 .nil .nil) (ndK 459 1 .nil .nil)) (ndK 463 2 (ndK 462
    1 .nil .nil) (ndK 464 1 .nil .nil))))) (ndK 499 5 (ndK 486 4 (ndK 478 3 (ndK 473 2 (ndK 470 1 .nil .nil)
    (ndK 476 1 .nil .nil)) (ndK 483 2 (ndK 481 1 .nil .nil) (ndK 485 1 .nil .nil))) (ndK 494 3 (ndK 491 2 (ndK
    489 1 .nil .nil) (ndK 493 1 .nil .nil)) (ndK 497 2 (ndK 496 1 .nil .nil) (ndK 498 1 .nil .nil)))) (ndK 512
    4 (ndK 507 3 (ndK 504 2 (ndK 502 1 .nil .nil) (ndK 506 1 .nil .nil)) (ndK 510 2 (ndK 509 1 .nil .nil) (ndK
    511 1 .nil .nil))) (ndK 517 3 (ndK 515 2 (ndK 514 1 .nil .nil) (ndK 516 1 .nil .nil)) (ndK 519 2 (ndK 518
    1 .nil .nil) .nil))))) (ndK 575 6 (ndK 554 5 (ndK 541 4 (ndK 533 3 (ndK 528 2 (ndK 525 1 .nil .nil) (ndK
    531 1 .nil .nil)) (ndK 538 2 (ndK 536 1 .nil .nil) (ndK 540 1 .nil .nil))) (ndK 549 3 (ndK 546 2 (ndK 544
    1 .nil .nil) (ndK 548 1 .nil .nil)) (ndK 552 2 (ndK 551 1 .nil .nil) (ndK 553 1 .nil .nil)))) (ndK 567 4
    (ndK 562 3 (ndK 559 2 (ndK 557 1 .nil .nil) (ndK 561 1 .nil .nil)) (ndK 565 2 (ndK 564 1 .nil .nil) (ndK
    566 1 .nil .nil))) (ndK 572 3 (ndK 570 2 (ndK 569 1 .nil .nil) (ndK 571 1 .nil .nil)) (ndK 574 2 (ndK 573
    1 .nil .nil) .nil)))) (ndK 596 5 (ndK 588 4 (ndK 583 3 (ndK 580 2 (ndK 578 1 .nil .nil) (ndK 582 1 .nil
    .nil)) (ndK 586 2 (ndK 585 1 .nil .nil) (ndK 587 1 .nil .nil))) (ndK 593 3 (ndK 591 2 (ndK 590 1 .nil
    .nil) (ndK 592 1 .nil .nil)) (ndK 595 2 (ndK 594 1 .nil .nil) .nil))) (ndK 604 4 (ndK 601 3 (ndK 599 2
    (ndK 598 1 .nil .nil) (ndK 600 1 .nil .nil)) (ndK 603 2 (ndK 602 1 .nil .nil) .nil)) (ndK 607 3 (ndK 606 2
    (ndK 605 1 .nil .nil) .nil) (ndK 608 1 .nil .nil)))))))

/-- The tree after the first 360 inserts of `ops609`. -/
def t609c24 : AVLNode :=
  (ndK 376 9 (ndK 232 8 (ndK 143 7 (ndK 88 6 (ndK 54 5 (ndK 33 4 (ndK 20 3 (ndK 12 2 (ndK 7 1 .nil .nil) (ndK
    17 1 .nil .nil)) (ndK 28 2 (ndK 25 1 .nil .nil) (ndK 31 1 .nil .nil))) (ndK 46 3 (ndK 41 2 (ndK 38 1 .nil
    .nil) (ndK 44 1 .nil .nil)) (ndK 51 2 (ndK 49 1 .nil .nil) (ndK 53 1 .nil .nil)))) (ndK 75 4 (ndK 67 3
    (ndK 62 2 (ndK 59 1 .nil .nil) (ndK 65 1 .nil .nil)) (ndK 72 2 (ndK 70 1 .nil .nil) (ndK 74 1 .nil .nil)))
    (ndK 83 3 (ndK 80 2 (ndK 78 1 .nil .nil) (ndK 82 1 .nil .nil)) (ndK 86 2 (ndK 85 1 .nil .nil) (ndK 87 1
    .nil .nil))))) (ndK 122 5 (ndK 109 4 (ndK 101 3 (ndK 96 2 (ndK 93 1 .nil .nil) (ndK 99 1 .nil .nil)) (ndK
    106 2 (ndK 104 1 .nil .nil) (ndK 108 1 .nil .nil))) (ndK 117 3 (ndK 114 2 (ndK 112 1 .nil .nil) (ndK 116 1
    .nil .nil)) (ndK 120 2 (ndK 119 1 .nil .nil) (ndK 121 1 .nil .nil)))) (ndK 135 4 (ndK 130 3 (ndK 127 2
    (ndK 125 1 .nil .nil) (ndK 129 1 .nil .nil)) (ndK 133 2 (ndK 132 1 .nil .nil) (ndK 134 1 .nil .nil))) (ndK
    140 3 (ndK 138 2 (ndK 137 1 .nil .nil) (ndK 139 1 .nil .nil)) (ndK 142 2 (ndK 141 1 .nil .nil) .nil)))))
    (ndK 198 6 (ndK 177 5 (ndK 164 4 (ndK 156 3 (ndK 151 2 (ndK 148 1 .nil .nil) (ndK 154 1 .nil .nil)) (ndK
    161 2 (ndK 159 1 .nil .nil) (ndK 163 1 .nil .nil))) (ndK 172 3 (ndK 169 2 (ndK 167 1 .nil .nil) (ndK 171 1
    .nil .nil)) (ndK 175 2 (ndK 174 1 .nil .nil) (ndK 176 1 .nil .nil)))) (ndK 190 4 (ndK 185 3 (ndK 182 2
    (ndK 180 1 .nil .nil) (ndK 184 1 .nil .nil)) (ndK 188 2 (ndK 187 1 .nil .nil) (ndK 189 1 .nil .nil))) (ndK
    195 3 (ndK 193 2 (ndK 192 1 .nil .nil) (ndK 194 1 .nil .nil)) (ndK 197 2 (ndK 196 1 .nil .nil) .nil))))
    (ndK 219 5 (ndK 211 4 (ndK 206 3 (ndK 203 2 (ndK 201 1 .nil .nil) (ndK 205 1 .nil .nil)) (ndK 209 2 (ndK
    208 1 .nil .nil) (ndK 210 1 .nil .nil))) (ndK 216 3 (ndK 214 2 (ndK 213 1 .nil .nil) (ndK 215 1 .nil
    .nil)) (ndK 218 2 (ndK 217 1 .nil .nil) .nil))) (ndK 227 4 (ndK 224 3 (ndK 222 2 (ndK 221 1 .nil .nil)
    (ndK 223 1 .nil .nil)) (ndK 226 2 (ndK 225 1 .nil .nil) .nil)) (ndK 230 3 (ndK 229 2 (ndK 228 1 .nil .nil)
    .nil) (ndK 231 1 .nil .nil)))))) (ndK 321 7 (ndK 287 6 (ndK 266 5 (ndK 253 4 (ndK 245 3 (ndK 240 2 (ndK
    237 1 .nil .nil) (ndK 243 1 .nil .nil)) (ndK 250 2 (ndK 248 1 .nil .nil) (ndK 252 1 .nil .nil))) (ndK 261
    3 (ndK 258 2 (ndK 256 1 .nil .nil) (ndK 260 1 .nil .nil)) (ndK 264 2 (ndK 263 1 .nil .nil) (ndK 265 1 .nil
    .nil)))) (ndK 279 4 (ndK 274 3 (ndK 271 2 (ndK 269 1 .nil .nil) (ndK 273 1 .nil .nil)) (ndK 277 2 (ndK 276
    1 .nil .nil) (ndK 278 1 .nil .nil))) (ndK 284 3 (ndK 282 2 (ndK 281 1 .nil .nil) (ndK 283 1 .nil .nil))
    (ndK 286 2 (ndK 285 1 .nil .nil) .nil)))) (ndK 308 5 (ndK 300 4 (ndK 295 3 (ndK 292 2 (ndK 290 1 .nil
    .nil) (ndK 294 1 .nil .nil)) (ndK 298 2 (ndK 297 1 .nil .nil) (ndK 299 1 .nil .nil))) (ndK 305 3 (ndK 303
    2 (ndK 302 1 .nil .nil) (ndK 304 1 .nil .nil)) (ndK 307 2 (ndK 306 1 .nil .nil) .nil))) (ndK 316 4 (ndK
    313 3 (ndK 311 2 (ndK 310 1 .nil .nil) (ndK 312 1 .nil .nil)) (ndK 315 2 (ndK 314 1 .nil .nil) .nil)) (ndK
    319 3 (ndK 318 2 (ndK 317 1 .nil .nil) .nil) (ndK 320 1 .nil .nil))))) (ndK 355 6 (ndK 342 5 (ndK 334 4
    (ndK 329 3 (ndK 326 2 (ndK 324 1 .nil .nil) (ndK 328 1 .nil .nil)) (ndK 332 2 (ndK 331 1 .nil .nil) (ndK
    333 1 .nil .nil))) (ndK 339 3 (ndK 337 2 (ndK 336 1 .nil .nil) (ndK 338 1 .nil .nil)) (ndK 341 2 (ndK 340
    1 .nil .nil) .nil))) (ndK 350 4 (ndK 347 3 (ndK 345 2 (ndK 344 1 .nil .nil) (ndK 346 1 .nil .nil)) (ndK
    349 2 (ndK 348 1 .nil .nil) .nil)) (ndK 353 3 (ndK 352 2 (ndK 351 1 .nil .nil) .nil) (ndK 354 1 .nil
    .nil)))) (ndK 368 5 (ndK 363 4 (ndK 360 3 (ndK 358 2 (ndK 357 1 .nil .nil) (ndK 359 1 .nil .nil)) (ndK 362
    2 (ndK 361 1 .nil .nil) .nil)) (ndK 366 3 (ndK 365 2 (ndK 364 1 .nil .nil) .nil) (ndK 367 1 .nil .nil)))
    (ndK 373 4 (ndK 371 3 (ndK 370 2 (ndK 369 1 .nil .nil) .nil) (ndK 372 1 .nil .nil)) (ndK 375 2 (ndK 374 1
    .nil .nil) .nil)))))) (ndK 520 8 (ndK 465 7 (ndK 431 6 (ndK 410 5 (ndK 397 4 (ndK 389 3 (ndK 384 2 (ndK
    381 1 .nil .nil) (ndK 387 1 .nil .nil)) (ndK 394 2 (ndK 392 1 .nil .nil) (ndK 396 1 .nil .nil))) (ndK 405
    3 (ndK 402 2 (ndK 400 1 .nil .nil) (ndK 404 1 .nil .nil)) (ndK 408 2 (ndK 407 1 .nil .nil) (ndK 409 1 .nil
    .nil)))) (ndK 423 4 (ndK 418 3 (ndK 415 2 (ndK 413 1 .nil .nil) (ndK 417 1 .nil .nil)) (ndK 421 2 (ndK 420
    1 .nil .nil) (ndK 422 1 .nil .nil))) (ndK 428 3 (ndK 426 2 (ndK 425 1 .nil .nil) (ndK 427 1 .nil .nil))
    (ndK 430 1 .nil .nil)))) (ndK 452 4 (ndK 444 3 (ndK 439 2 (ndK 436 1 .nil .nil) (ndK 442 1 .nil .nil))
    (ndK 449 2 (ndK 447 1 .nil .nil) (ndK 451 1 .nil .nil))) (ndK 460 3 (ndK 457 2 (ndK 455 1 .nil .nil) (ndK
    459 1 .nil .nil)) (ndK 463 2 (ndK 462 1 .nil .nil) (ndK 464 1 .nil .nil))))) (ndK 499 5 (ndK 486 4 (ndK
    478 3 (ndK 473 2 (ndK 470 1 .nil .nil) (ndK 476 1 .nil .nil)) (ndK 483 2 (ndK 481 1 .nil .nil) (ndK 485 1
    .nil .nil))) (ndK 494 3 (ndK 491 2 (ndK 489 1 .nil .nil) (ndK 493 1 .nil .nil)) (ndK 497 2 (ndK 496 1 .nil
    .nil) (ndK 498 1 .nil .nil)))) (ndK 512 4 (ndK 507 3 (ndK 504 2 (ndK 502 1 .nil .nil) (ndK 506 1 .nil
    .nil)) (ndK 510 2 (ndK 509 1 .nil .nil) (ndK 511 1 .nil .nil))) (ndK 517 3 (ndK 515 2 (ndK 514 1 .nil
    .nil) (ndK 516 1 .nil .nil)) (ndK 519 2 (ndK 518 1 .nil .nil) .nil))))) (ndK 575 6 (ndK 554 5 (ndK 541 4
    (ndK 533 3 (ndK 528 2 (ndK 525 1 .nil .nil) (ndK 531 1 .nil .nil)) (ndK 538 2 (ndK 536 1 .nil .nil) (ndK
    540 1 .nil .nil))) (ndK 549 3 (ndK 546 2 (ndK 544 1 .nil .nil) (ndK 548 1 .nil .nil)) (ndK 552 2 (ndK 551
    1 .nil .nil) (ndK 553 1 .nil .nil)))) (ndK 567 4 (ndK 562 3 (ndK 559 2 (ndK 557 1 .nil .nil) (ndK 561 1
    .nil .nil)) (ndK 565 2 (ndK 564 1 .nil .nil) (ndK 566 1 .nil .nil))) (ndK 572 3 (ndK 570 2 (ndK 569 1 .nil
    .nil) (ndK 571 1 .nil .nil)) (ndK 574 2 (ndK 573 1 .nil .nil) .nil)))) (ndK 596 5 (ndK 588 4 (ndK 583 3
    (ndK 580 2 (ndK 578 1 .nil .nil) (ndK 582 1 .nil .nil)) (ndK 586 2 (ndK 585 1 .nil .nil) (ndK 587 1 .nil
    .nil))) (ndK 593 3 (ndK 591 2 (ndK 590 1 .nil .nil) (ndK 592 1 .nil .nil)) (ndK 595 2 (ndK 594 1 .nil
    .nil) .nil))) (ndK 604 4 (ndK 601 3 (ndK 599 2 (ndK 598 1 .nil .nil) (ndK 600 1 .nil .nil)) (ndK 603 2
    (ndK 602 1 .nil .nil) .nil)) (ndK 607 3 (ndK 606 2 (ndK 605 1 .nil .nil) .nil) (ndK 608 1 .nil .nil)))))))

/-- The tree after the first 375 inserts of `ops609`. -/
def t609c25 : AVLNode :=
  (ndK 376 9 (ndK 232 8 (ndK 143 7 (ndK 88 6 (ndK 54 5 (ndK 33 4 (ndK 20 3 (ndK 12 2 (ndK 7 1 .nil .nil) (ndK
    17 1 .nil .nil)) (ndK 28 2 (ndK 25 1 .nil .nil) (ndK 31 1 .nil .nil))) (ndK 46 3 (ndK 41 2 (ndK 38 1 .nil
    .nil) (ndK 44 1 .nil .nil)) (ndK 51 2 (ndK 49 1 .nil .nil) (ndK 53 1 .nil .nil)))) (ndK 75 4 (ndK 67 3
    (ndK 62 2 (ndK 59 1 .nil .nil) (ndK 65 1 .nil .nil)) (ndK 72 2 (ndK 70 1 .nil .nil) (ndK 74 1 .nil .nil)))
    (ndK 83 3 (ndK 80 2 (ndK 78 1 .nil .nil) (ndK 82 1 .nil .nil)) (ndK 86 2 (ndK 85 1 .nil .nil) (ndK 87 1
    .nil .nil))))) (ndK 122 5 (ndK 109 4 (ndK 101 3 (ndK 96 2 (ndK 93 1 .nil .nil) (ndK 99 1 .nil .nil)) (ndK
    106 2 (ndK 104 1 .nil .nil) (ndK 108 1 .nil .nil))) (ndK 117 3 (ndK 114 2 (ndK 112 1 .nil .nil) (ndK 116 1
    .nil .nil)) (ndK 120 2 (ndK 119 1 .nil .nil) (ndK 121 1 .nil .nil)))) (ndK 135 4 (ndK 130 3 (ndK 127 2
    (ndK 125 1 .nil .nil) (ndK 129 1 .nil .nil)) (ndK 133 2 (ndK 132 1 .nil .nil) (ndK 134 1 .nil .nil))) (ndK
    140 3 (ndK 138 2 (ndK 137 1 .nil .nil) (ndK 139 1 .nil .nil)) (ndK 142 2 (ndK 141 1 .nil .nil) .nil)))))
    (ndK 198 6 (ndK 177 5 (ndK 164 4 (ndK 156 3 (ndK 151 2 (ndK 148 1 .nil .nil) (ndK 154 1 .nil .nil)) (ndK
    161 2 (ndK 159 1 .nil .nil) (ndK 163 1 .nil .nil))) (ndK 172 3 (ndK 169 2 (ndK 167 1 .nil .nil) (ndK 171 1
    .nil .nil)) (ndK 175 2 (ndK 174 1 .nil .nil) (ndK 176 1 .nil .nil)))) (ndK 190 4 (ndK 185 3 (ndK 182 2
    (ndK 180 1 .nil .nil) (ndK 184 1 .nil .nil)) (ndK 188 2 (ndK 187 1 .nil .nil) (ndK 189 1 .nil .nil))) (ndK
    195 3 (ndK 193 2 (ndK 192 1 .nil .nil) (ndK 194 1 .nil .nil)) (ndK 197 2 (ndK 196 1 .nil .nil) .nil))))
    (ndK 219 5 (ndK 211 4 (ndK 206 3 (ndK 203 2 (ndK 201 1 .nil .nil) (ndK 205 1 .nil .nil)) (ndK 209 2 (ndK
    208 1 .nil .nil) (ndK 210 1 .nil .nil))) (ndK 216 3 (ndK 214 2 (ndK 213 1 .nil .nil) (ndK 215 1 .nil
    .nil)) (ndK 218 2 (ndK 217 1 .nil .nil) .nil))) (ndK 227 4 (ndK 224 3 (ndK 222 2 (ndK 221 1 .nil .nil)
    (ndK 223 1 .nil .nil)) (ndK 226 2 (ndK 225 1 .nil .nil) .nil)) (ndK 230 3 (ndK 229 2 (ndK 228 1 .nil .nil)
    .nil) (ndK 231 1 .nil .nil)))))) (ndK 321 7 (ndK 287 6 (ndK 266 5 (ndK 253 4 (ndK 245 3 (ndK 240 2 (ndK
    237 1 .nil .nil) (ndK 243 1 .nil .nil)) (ndK 250 2 (ndK 248 1 .nil .nil) (ndK 252 1 .nil .nil))) (ndK 261
    3 (ndK 258 2 (ndK 256 1 .nil .nil) (ndK 260 1 .nil .nil)) (ndK 264 2 (ndK 263 1 .nil .nil) (ndK 265 1 .nil
    .nil)))) (ndK 279 4 (ndK 274 3 (ndK 271 2 (ndK 269 1 .nil .nil) (ndK 273 1 .nil .nil)) (ndK 277 2 (ndK 276
    1 .nil .nil) (ndK 278 1 .nil .nil))) (ndK 284 3 (ndK 282 2 (ndK 281 1 .nil .nil) (ndK 283 1 .nil .nil))
    (ndK 286 2 (ndK 285 1 .nil .nil) .nil)))) (ndK 308 5 (ndK 300 4 (ndK 295 3 (ndK 292 2 (ndK 290 1 .nil
    .nil) (ndK 294 1 .nil .nil)) (ndK 298 2 (ndK 297 1 .nil .nil) (ndK 299 1 .nil .nil))) (ndK 305 3 (ndK 303
    2 (ndK 302 1 .nil .nil) (ndK 304 1 .nil .nil)) (ndK 307 2 (ndK 306 1 .nil .nil) .nil))) (ndK 316 4 (ndK
    313 3 (ndK 311 2 (ndK 310 1 .nil .nil) (ndK 312 1 .nil .nil)) (ndK 315 2 (ndK 314 1 .nil .nil) .nil)) (ndK
    319 3 (ndK 318 2 (ndK 317 1 .nil .nil) .nil) (ndK 320 1 .nil .nil))))) (ndK 355 6 (ndK 342 5 (ndK 334 4
    (ndK 329 3 (ndK 326 2 (ndK 324 1 .nil .nil) (ndK 328 1 .nil .nil)) (ndK 332 2 (ndK 331 1 .nil .nil) (ndK
    333 1 .nil .nil))) (ndK 339 3 (ndK 337 2 (ndK 336 1 .nil .nil) (ndK 338 1 .nil .nil)) (ndK 341 2 (ndK 340
    1 .nil .nil) .nil))) (ndK 350 4 (ndK 347 3 (ndK 345 2 (ndK 344 1 .nil .nil) (ndK 346 1 .nil .nil)) (ndK
    349 2 (ndK 348 1 .nil .nil) .nil)) (ndK 353 3 (ndK 352 2 (ndK 351 1 .nil .nil) .nil) (ndK 354 1 .nil
    .nil)))) (ndK 368 5 (ndK 363 4 (ndK 360 3 (ndK 358 2 (ndK 357 1 .nil .nil) (ndK 359 1 .nil .nil)) (ndK 362
    2 (ndK 361 1 .nil .nil) .nil)) (ndK 366 3 (ndK 365 2 (ndK 364 1 .nil .nil) .nil) (ndK 367 1 .nil .nil)))
    (ndK 373 4 (ndK 371 3 (ndK 370 2 (ndK 369 1 .nil .nil) .nil) (ndK 372 1 .nil .nil)) (ndK 375 2 (ndK 374 1
    .nil .nil) .nil)))))) (ndK 520 8 (ndK 465 7 (ndK 431 6 (ndK 410 5 (ndK 397 4 (ndK 389 3 (ndK 384 2 (ndK
    381 1 .nil .nil) (ndK 387 1 .nil .nil)) (ndK 394 2 (ndK 392 1 .nil .nil) (ndK 396 1 .nil .nil))) (ndK 405
    3 (ndK 402 2 (ndK 400 1 .nil .nil) (ndK 404 1 .nil .nil)) (ndK 408 2 (ndK 407 1 .nil .nil) (ndK 409 1 .nil
    .nil)))) (ndK 423 4 (ndK 418 3 (ndK 415 2 (ndK 413 1 .nil .nil) (ndK 417 1 .nil .nil)) (ndK 421 2 (ndK 420
    1 .nil .nil) (ndK 422 1 .nil .nil))) (ndK 428 3 (ndK 426 2 (ndK 425 1 .nil .nil) (ndK 427 1 .nil .nil))
    (ndK 430 2 (ndK 429 1 .nil .nil) .nil)))) (ndK 452 5 (ndK 444 4 (ndK 439 3 (ndK 436 2 (ndK 434 1 .nil
    .nil) (ndK 438 1 .nil .nil)) (ndK 442 2 (ndK 441 1 .nil .nil) (ndK 443 1 .nil .nil))) (ndK 449 3 (ndK 447
    2 (ndK 446 1 .nil .nil) (ndK 448 1 .nil .nil)) (ndK 451 2 (ndK 450 1 .nil .nil) .nil))) (ndK 460 4 (ndK
    457 3 (ndK 455 2 (ndK 454 1 .nil .nil) (ndK 456 1 .nil .nil)) (ndK 459 2 (ndK 458 1 .nil .nil) .nil)) (ndK
    463 3 (ndK 462 2 (ndK 461 1 .nil .nil) .nil) (ndK 464 1 .nil .nil))))) (ndK 499 6 (ndK 486 5 (ndK 478 4
    (ndK 473 3 (ndK 470 2 (ndK 468 1 .nil .nil) (ndK 472 1 .nil .nil)) (ndK 476 2 (ndK 475 1 .nil .nil) .nil))
    (ndK 483 2 (ndK 481 1 .nil .nil) (ndK 485 1 .nil .nil))) (ndK 494 3 (ndK 491 2 (ndK 489 1 .nil .nil) (ndK
    493 1 .nil .nil)) (ndK 497 2 (ndK 496 1 .nil .nil) (ndK 498 1 .nil .nil)))) (ndK 512 4 (ndK 507 3 (ndK 504
    2 (ndK 502 1 .nil .nil) (ndK 506 1 .nil .nil)) (ndK 510 2 (ndK 509 1 .nil .nil) (ndK 511 1 .nil .nil)))
    (ndK 517 3 (ndK 515 2 (ndK 514 1 .nil .nil) (ndK 516 1 .nil .nil)) (ndK 519 2 (ndK 518 1 .nil .nil)
    .nil))))) (ndK 575 6 (ndK 554 5 (ndK 541 4 (ndK 533 3 (ndK 528 2 (ndK 525 1 .nil .nil) (ndK 531 1 .nil
    .nil)) (ndK 538 2 (ndK 536 1 .nil .nil) (ndK 540 1 .nil .nil))) (ndK 549 3 (ndK 546 2 (ndK 544 1 .nil
    .nil) (ndK 548 1 .nil .nil)) (ndK 552 2 (ndK 551 1 .nil .nil) (ndK 553 1 .nil .nil)))) (ndK 567 4 (ndK 562
    3 (ndK 559 2 (ndK 557 1 .nil .nil) (ndK 561 1 .nil .nil)) (ndK 565 2 (ndK 564 1 .nil .nil) (ndK 566 1 .nil
    .nil))) (ndK 572 3 (ndK 570 2 (ndK 569 1 .nil .nil) (ndK 571 1 .nil .nil)) (ndK 574 2 (ndK 573 1 .nil
    .nil) .nil)))) (ndK 596 5 (ndK 588 4 (ndK 583 3 (ndK 580 2 (ndK 578 1 .nil .nil) (ndK 582 1 .nil .nil))
    (ndK 586 2 (ndK 585 1 .nil .nil) (ndK 587 1 .nil .nil))) (ndK 593 3 (ndK 591 2 (ndK 590 1 .nil .nil) (ndK
    592 1 .nil .nil)) (ndK 595 2 (ndK 594 1 .nil .nil) .nil))) (ndK 604 4 (ndK 601 3 (ndK 599 2 (ndK 598 1
    .nil .nil) (ndK 600 1 .nil .nil)) (ndK 603 2 (ndK 602 1 .nil .nil) .nil)) (ndK 607 3 (ndK 606 2 (ndK 605 1
    .nil .nil) .nil) (ndK 608 1 .nil .nil)))))))

/-- The tree after the first 390 inserts of `ops609`. -/
def t609c26 : AVLNode :=
  (ndK 376 9 (ndK 232 8 (ndK 143 7 (ndK 88 6 (ndK 54 5 (ndK 33 4 (ndK 20 3 (ndK 12 2 (ndK 7 1 .nil .nil) (ndK
    17 1 .nil .nil)) (ndK 28 2 (ndK 25 1 .nil .nil) (ndK 31 1 .nil .nil))) (ndK 46 3 (ndK 41 2 (ndK 38 1 .nil
    .nil) (ndK 44 1 .nil .nil)) (ndK 51 2 (ndK 49 1 .nil .nil) (ndK 53 1 .nil .nil)))) (ndK 75 4 (ndK 67 3
    (ndK 62 2 (ndK 59 1 .nil .nil) (ndK 65 1 .nil .nil)) (ndK 72 2 (ndK 70 1 .nil .nil) (ndK 74 1 .nil .nil)))
    (ndK 83 3 (ndK 80 2 (ndK 78 1 .nil .nil) (ndK 82 1 .nil .nil)) (ndK 86 2 (ndK 85 1 .nil .nil) (ndK 87 1
    .nil .nil))))) (ndK 122 5 (ndK 109 4 (ndK 101 3 (ndK 96 2 (ndK 93 1 .nil .nil) (ndK 99 1 .nil .nil)) (ndK
    106 2 (ndK 104 1 .nil .nil) (ndK 108 1 .nil .nil))) (ndK 117 3 (ndK 114 2 (ndK 112 1 .nil .nil) (ndK 116 1
    .nil .nil)) (ndK 120 2 (ndK 119 1 .nil .nil) (ndK 121 1 .nil .nil)))) (ndK 135 4 (ndK 130 3 (ndK 127 2
    (ndK 125 1 .nil .nil) (ndK 129 1 .nil .nil)) (ndK 133 2 (ndK 132 1 .nil .nil) (ndK 134 1 .nil .nil))) (ndK
    140 3 (ndK 138 2 (ndK 137 1 .nil .nil) (ndK 139 1 .nil .nil)) (ndK 142 2 (ndK 141 1 .nil .nil) .nil)))))
    (ndK 198 6 (ndK 177 5 (ndK 164 4 (ndK 156 3 (ndK 151 2 (ndK 148 1 .nil .nil) (ndK 154 1 .nil .nil)) (ndK
    161 2 (ndK 159 1 .nil .nil) (ndK 163 1 .nil .nil))) (ndK 172 3 (ndK 169 2 (ndK 167 1 .nil .nil) (ndK 171 1
    .nil .nil)) (ndK 175 2 (ndK 174 1 .nil .nil) (ndK 176 1 .nil .nil)))) (ndK 190 4 (ndK 185 3 (ndK 182 2
    (ndK 180 1 .nil .nil) (ndK 184 1 .nil .nil)) (ndK 188 2 (ndK 187 1 .nil .nil) (ndK 189 1 .nil .nil))) (ndK
    195 3 (ndK 193 2 (ndK 192 1 .nil .nil) (ndK 194 1 .nil .nil)) (ndK 197 2 (ndK 196 1 .nil .nil) .nil))))
    (ndK 219 5 (ndK 211 4 (ndK 206 3 (ndK 203 2 (ndK 201 1 .nil .nil) (ndK 205 1 .nil .nil)) (ndK 209 2 (ndK
    208 1 .nil .nil) (ndK 210 1 .nil .nil))) (ndK 216 3 (ndK 214 2 (ndK 213 1 .nil .nil) (ndK 215 1 .nil
    .nil)) (ndK 218 2 (ndK 217 1 .nil .nil) .nil))) (ndK 227 4 (ndK 224 3 (ndK 222 2 (ndK 221 1 .nil .nil)
    (ndK 223 1 .nil .nil)) (ndK 226 2 (ndK 225 1 .nil .nil) .nil)) (ndK 230 3 (ndK 229 2 (ndK 228 1 .nil .nil)
    .nil) (ndK 231 1 .nil .nil)))))) (ndK 321 7 (ndK 287 6 (ndK 266 5 (ndK 253 4 (ndK 245 3 (ndK 240 2 (ndK
    237 1 .nil .nil) (ndK 243 1 .nil .nil)) (ndK 250 2 (ndK 248 1 .nil .nil) (ndK 252 1 .nil .nil))) (ndK 261
    3 (ndK 258 2 (ndK 256 1 .nil .nil) (ndK 260 1 .nil .nil)) (ndK 264 2 (ndK 263 1 .nil .nil) (ndK 265 1 .nil
    .nil)))) (ndK 279 4 (ndK 274 3 (ndK 271 2 (ndK 269 1 .nil .nil) (ndK 273 1 .nil .nil)) (ndK 277 2 (ndK 276
    1 .nil .nil) (ndK 278 1 .nil .nil))) (ndK 284 3 (ndK 282 2 (ndK 281 1 .nil .nil) (ndK 283 1 .nil .nil))
    (ndK 286 2 (ndK 285 1 .nil .nil) .nil)))) (ndK 308 5 (ndK 300 4 (ndK 295 3 (ndK 292 2 (ndK 290 1 .nil
    .nil) (ndK 294 1 .nil .nil)) (ndK 298 2 (ndK 297 1 .nil .nil) (ndK 299 1 .nil .nil))) (ndK 305 3 (ndK 303
    2 (ndK 302 1 .nil .nil) (ndK 304 1 .nil .nil)) (ndK 307 2 (ndK 306 1 .nil .nil) .nil))) (ndK 316 4 (ndK
    313 3 (ndK 311 2 (ndK 310 1 .nil .nil) (ndK 312 1 .nil .nil)) (ndK 315 2 (ndK 314 1 .nil .nil) .nil)) (ndK
    319 3 (ndK 318 2 (ndK 317 1 .nil .nil) .nil) (ndK 320 1 .nil .nil))))) (ndK 355 6 (ndK 342 5 (ndK 334 4
    (ndK 329 3 (ndK 326 2 (ndK 324 1 .nil .nil) (ndK 328 1 .nil .nil)) (ndK 332 2 (ndK 331 1 .nil .nil) (ndK
    333 1 .nil .nil))) (ndK 339 3 (ndK 337 2 (ndK 336 1 .nil .nil) (ndK 338 1 .nil .nil)) (ndK 341 2 (ndK 340
    1 .nil .nil) .nil))) (ndK 350 4 (ndK 347 3 (ndK 345 2 (ndK 344 1 .nil .nil) (ndK 346 1 .nil .nil)) (ndK
    349 2 (ndK 348 1 .nil .nil) .nil)) (ndK 353 3 (ndK 352 2 (ndK 351 1 .nil .nil) .nil) (ndK 354 1 .nil
    .nil)))) (ndK 368 5 (ndK 363 4 (ndK 360 3 (ndK 358 2 (ndK 357 1 .nil .nil) (ndK 359 1 .nil .nil)) (ndK 362
    2 (ndK 361 1 .nil .nil) .nil)) (ndK 366 3 (ndK 365 2 (ndK 364 1 .nil .nil) .nil) (ndK 367 1 .nil .nil)))
    (ndK 373 4 (ndK 371 3 (ndK 370 2 (ndK 369 1 .nil .nil) .nil) (ndK 372 1 .nil .nil)) (ndK 375 2 (ndK 374 1
    .nil .nil) .nil)))))) (ndK 520 8 (ndK 465 7 (ndK 431 6 (ndK 410 5 (ndK 397 4 (ndK 389 3 (ndK 384 2 (ndK
    381 1 .nil .nil) (ndK 387 1 .nil .nil)) (ndK 394 2 (ndK 392 1 .nil .nil) (ndK 396 1 .nil .nil))) (ndK 405
    3 (ndK 402 2 (ndK 400 1 .nil .nil) (ndK 404 1 .nil .nil)) (ndK 408 2 (ndK 407 1 .nil .nil) (ndK 409 1 .nil
    .nil)))) (ndK 423 4 (ndK 418 3 (ndK 415 2 (ndK 413 1 .nil .nil) (ndK 417 1 .nil .nil)) (ndK 421 2 (ndK 420
    1 .nil .nil) (ndK 422 1 .nil .nil))) (ndK 428 3 (ndK 426 2 (ndK 425 1 .nil .nil) (ndK 427 1 .nil .nil))
    (ndK 430 2 (ndK 429 1 .nil .nil) .nil)))) (ndK 452 5 (ndK 444 4 (ndK 439 3 (ndK 436 2 (ndK 434 1 .nil
    .nil) (ndK 438 1 .nil .nil)) (ndK 442 2 (ndK 441 1 .nil .nil) (ndK 443 1 .nil .nil))) (ndK 449 3 (ndK 447
    2 (ndK 446 1 .nil .nil) (ndK 448 1 .nil .nil)) (ndK 451 2 (ndK 450 1 .nil .nil) .nil))) (ndK 460 4 (ndK
    457 3 (ndK 455 2 (ndK 454 1 .nil .nil) (ndK 456 1 .nil .nil)) (ndK 459 2 (ndK 458 1 .nil .nil) .nil)) (ndK
    463 3 (ndK 462 2 (ndK 461 1 .nil .nil) .nil) (ndK 464 1 .nil .nil))))) (ndK 499 6 (ndK 486 5 (ndK 478 4
    (ndK 473 3 (ndK 470 2 (ndK 468 1 .nil .nil) (ndK 472 1 .nil .nil)) (ndK 476 2 (ndK 475 1 .nil .nil) (ndK
    477 1 .nil .nil))) (ndK 483 3 (ndK 481 2 (ndK 480 1 .nil .nil) (ndK 482 1 .nil .nil)) (ndK 485 2 (ndK 484
    1 .nil .nil) .nil))) (ndK 494 4 (ndK 491 3 (ndK 489 2 (ndK 488 1 .nil .nil) (ndK 490 1 .nil .nil)) (ndK
    493 2 (ndK 492 1 .nil .nil) .nil)) (ndK 497 3 (ndK 496 2 (ndK 495 1 .nil .nil) .nil) (ndK 498 1 .nil
    .nil)))) (ndK 512 5 (ndK 507 4 (ndK 504 3 (ndK 502 2 (ndK 501 1 .nil .nil) (ndK 503 1 .nil .nil)) (ndK 506
    2 (ndK 505 1 .nil .nil) .nil)) (ndK 510 3 (ndK 509 2 (ndK 508 1 .nil .nil) .nil) (ndK 511 1 .nil .nil)))
    (ndK 517 4 (ndK 515 3 (ndK 514 2 (ndK 513 1 .nil .nil) .nil) (ndK 516 1 .nil .nil)) (ndK 519 2 (ndK 518 1
    .nil .nil) .nil))))) (ndK 575 7 (ndK 554 6 (ndK 541 5 (ndK 533 4 (ndK 528 3 (ndK 525 2 (ndK 523 1 .nil
    .nil) (ndK 527 1 .nil .nil)) (ndK 531 1 .nil .nil)) (ndK 538 2 (ndK 536 1 .nil .nil) (ndK 540 1 .nil
    .nil))) (ndK 549 3 (ndK 546 2 (ndK 544 1 .nil .nil) (ndK 548 1 .nil .nil)) (ndK 552 2 (ndK 551 1 .nil
    .nil) (ndK 553 1 .nil .nil)))) (ndK 567 4 (ndK 562 3 (ndK 559 2 (ndK 557 1 .nil .nil) (ndK 561 1 .nil
    .nil)) (ndK 565 2 (ndK 564 1 .nil .nil) (ndK 566 1 .nil .nil))) (ndK 572 3 (ndK 570 2 (ndK 569 1 .nil
    .nil) (ndK 571 1 .nil .nil)) (ndK 574 2 (ndK 573 1 .nil .nil) .nil)))) (ndK 596 5 (ndK 588 4 (ndK 583 3
    (ndK 580 2 (ndK 578 1 .nil .nil) (ndK 582 1 .nil .nil)) (ndK 586 2 (ndK 585 1 .nil .nil) (ndK 587 1 .nil
    .nil))) (ndK 593 3 (ndK 591 2 (ndK 590 1 .nil .nil) (ndK 592 1 .nil .nil)) (ndK 595 2 (ndK 594 1 .nil
    .nil) .nil))) (ndK 604 4 (ndK 601 3 (ndK 599 2 (ndK 598 1 .nil .nil) (ndK 600 1 .nil .nil)) (ndK 603 2
    (ndK 602 1 .nil .nil) .nil)) (ndK 607 3 (ndK 606 2 (ndK 605 1 .nil .nil) .nil) (ndK 608 1 .nil .nil)))))))

/-- The tree after the first 405 inserts of `ops609`. -/
def t609c27 : AVLNode :=
  (ndK 376 9 (ndK 232 8 (ndK 143 7 (ndK 88 6 (ndK 54 5 (ndK 33 4 (ndK 20 3 (ndK 12 2 (ndK 7 1 .nil .nil) (ndK
    17 1 .nil .nil)) (ndK 28 2 (ndK 25 1 .nil .nil) (ndK 31 1 .nil .nil))) (ndK 46 3 (ndK 41 2 (ndK 38 1 .nil
    .nil) (ndK 44 1 .nil .nil)) (ndK 51 2 (ndK 49 1 .nil .nil) (ndK 53 1 .nil .nil)))) (ndK 75 4 (ndK 67 3
    (ndK 62 2 (ndK 59 1 .nil .nil) (ndK 65 1 .nil .nil)) (ndK 72 2 (ndK 70 1 .nil .nil) (ndK 74 1 .nil .nil)))
    (ndK 83 3 (ndK 80 2 (ndK 78 1 .nil .nil) (ndK 82 1 .nil .nil)) (ndK 86 2 (ndK 85 1 .nil .nil) (ndK 87 1
    .nil .nil))))) (ndK 122 5 (ndK 109 4 (ndK 101 3 (ndK 96 2 (ndK 93 1 .nil .nil) (ndK 99 1 .nil .nil)) (ndK
    106 2 (ndK 104 1 .nil .nil) (ndK 108 1 .nil .nil))) (ndK 117 3 (ndK 114 2 (ndK 112 1 .nil .nil) (ndK 116 1
    .nil .nil)) (ndK 120 2 (ndK 119 1 .nil .nil) (ndK 121 1 .nil .nil)))) (ndK 135 4 (ndK 130 3 (ndK 127 2
    (ndK 125 1 .nil .nil) (ndK 129 1 .nil .nil)) (ndK 133 2 (ndK 132 1 .nil .nil) (ndK 134 1 .nil .nil))) (ndK
    140 3 (ndK 138 2 (ndK 137 1 .nil .nil) (ndK 139 1 .nil .nil)) (ndK 142 2 (ndK 141 1 .nil .nil) .nil)))))
    (ndK 198 6 (ndK 177 5 (ndK 164 4 (ndK 156 3 (ndK 151 2 (ndK 148 1 .nil .nil) (ndK 154 1 .nil .nil)) (ndK
    161 2 (ndK 159 1 .nil .nil) (ndK 163 1 .nil .nil))) (ndK 172 3 (ndK 169 2 (ndK 167 1 .nil .nil) (ndK 171 1
    .nil .nil)) (ndK 175 2 (ndK 174 1 .nil .nil) (ndK 176 1 .nil .nil)))) (ndK 190 4 (ndK 185 3 (ndK 182 2
    (ndK 180 1 .nil .nil) (ndK 184 1 .nil .nil)) (ndK 188 2 (ndK 187 1 .nil .nil) (ndK 189 1 .nil .nil))) (ndK
    195 3 (ndK 193 2 (ndK 192 1 .nil .nil) (ndK 194 1 .nil .nil)) (ndK 197 2 (ndK 196 1 .nil .nil) .nil))))
    (ndK 219 5 (ndK 211 4 (ndK 206 3 (ndK 203 2 (ndK 201 1 .nil .nil) (ndK 205 1 .nil .nil)) (ndK 209 2 (ndK
    208 1 .nil .nil) (ndK 210 1 .nil .nil))) (ndK 216 3 (ndK 214 2 (ndK 213 1 .nil .nil) (ndK 215 1 .nil
    .nil)) (ndK 218 2 (ndK 217 1 .nil .nil) .nil))) (ndK 227 4 (ndK 224 3 (ndK 222 2 (ndK 221 1 .nil .nil)
    (ndK 223 1 .nil .nil)) (ndK 226 2 (ndK 225 1 .nil .nil) .nil)) (ndK 230 3 (ndK 229 2 (ndK 228 1 .nil .nil)
    .nil) (ndK 231 1 .nil .nil)))))) (ndK 321 7 (ndK 287 6 (ndK 266 5 (ndK 253 4 (ndK 245 3 (ndK 240 2 (ndK
    237 1 .nil .nil) (ndK 243 1 .nil .nil)) (ndK 250 2 (ndK 248 1 .nil .nil) (ndK 252 1 .nil .nil))) (ndK 261
    3 (ndK 258 2 (ndK 256 1 .nil .nil) (ndK 260 1 .nil .nil)) (ndK 264 2 (ndK 263 1 .nil .nil) (ndK 265 1 .nil
    .nil)))) (ndK 279 4 (ndK 274 3 (ndK 271 2 (ndK 269 1 .nil .nil) (ndK 273 1 .nil .nil)) (ndK 277 2 (ndK 276
    1 .nil .nil) (ndK 278 1 .nil .nil))) (ndK 284 3 (ndK 282 2 (ndK 281 1 .nil .nil) (ndK 283 1 .nil .nil))
    (ndK 286 2 (ndK 285 1 .nil .nil) .nil)))) (ndK 308 5 (ndK 300 4 (ndK 295 3 (ndK 292 2 (ndK 290 1 .nil
    .nil) (ndK 294 1 .nil .nil)) (ndK 298 2 (ndK 297 1 .nil .nil) (ndK 299 1 .nil .nil))) (ndK 305 3 (ndK 303
    2 (ndK 302 1 .nil .nil) (ndK 304 1 .nil .nil)) (ndK 307 2 (ndK 306 1 .nil .nil) .nil))) (ndK 316 4 (ndK
    313 3 (ndK 311 2 (ndK 310 1 .nil .nil) (ndK 312 1 .nil .nil)) (ndK 315 2 (ndK 314 1 .nil .nil) .nil)) (ndK
    319 3 (ndK 318 2 (ndK 317 1 .nil .nil) .nil) (ndK 320 1 .nil .nil))))) (ndK 355 6 (ndK 342 5 (ndK 334 4
    (ndK 329 3 (ndK 326 2 (ndK 324 1 .nil .nil) (ndK 328 1 .nil .nil)) (ndK 332 2 (ndK 331 1 .nil .nil) (ndK
    333 1 .nil .nil))) (ndK 339 3 (ndK 337 2 (ndK 336 1 .nil .nil) (ndK 338 1 .nil .nil)) (ndK 341 2 (ndK 340
    1 .nil .nil) .nil))) (ndK 350 4 (ndK 347 3 (ndK 345 2 (ndK 344 1 .nil .nil) (ndK 346 1 .nil .nil)) (ndK
    349 2 (ndK 348 1 .nil .nil) .nil)) (ndK 353 3 (ndK 352 2 (ndK 351 1 .nil .nil) .nil) (ndK 354 1 .nil
    .nil)))) (ndK 368 5 (ndK 363 4 (ndK 360 3 (ndK 358 2 (ndK 357 1 .nil .nil) (ndK 359 1 .nil .nil)) (ndK 362
    2 (ndK 361 1 .nil .nil) .nil)) (ndK 366 3 (ndK 365 2 (ndK 364 1 .nil .nil) .nil) (ndK 367 1 .nil .nil)))
    (ndK 373 4 (ndK 371 3 (ndK 370 2 (ndK 369 1 .nil .nil) .nil) (ndK 372 1 .nil .nil)) (ndK 375 2 (ndK 374 1
    .nil .nil) .nil)))))) (ndK 520 8 (ndK 465 7 (ndK 431 6 (ndK 410 5 (ndK 397 4 (ndK 389 3 (ndK 384 2 (ndK
    381 1 .nil .nil) (ndK 387 1 .nil .nil)) (ndK 394 2 (ndK 392 1 .nil .nil) (ndK 396 1 .nil .nil))) (ndK 405
    3 (ndK 402 2 (ndK 400 1 .nil .nil) (ndK 404 1 .nil .nil)) (ndK 408 2 (ndK 407 1 .nil .nil) (ndK 409 1 .nil
    .nil)))) (ndK 423 4 (ndK 418 3 (ndK 415 2 (ndK 413 1 .nil .nil) (ndK 417 1 .nil .nil)) (ndK 421 2 (ndK 420
    1 .nil .nil) (ndK 422 1 .nil .nil))) (ndK 428 3 (ndK 426 2 (ndK 425 1 .nil .nil) (ndK 427 1 .nil .nil))
    (ndK 430 2 (ndK 429 1 .nil .nil) .nil)))) (ndK 452 5 (ndK 444 4 (ndK 439 3 (ndK 436 2 (ndK 434 1 .nil
    .nil) (ndK 438 1 .nil .nil)) (ndK 442 2 (ndK 441 1 .nil .nil) (ndK 443 1 .nil .nil))) (ndK 449 3 (ndK 447
    2 (ndK 446 1 .nil .nil) (ndK 448 1 .nil .nil)) (ndK 451 2 (ndK 450 1 .nil .nil) .nil))) (ndK 460 4 (ndK
    457 3 (ndK 455 2 (ndK 454 1 .nil .nil) (ndK 456 1 .nil .nil)) (ndK 459 2 (ndK 458 1 .nil .nil) .nil)) (ndK
    463 3 (ndK 462 2 (ndK 461 1 .nil .nil) .nil) (ndK 464 1 .nil .nil))))) (ndK 499 6 (ndK 486 5 (ndK 478 4
    (ndK 473 3 (ndK 470 2 (ndK 468 1 .nil .nil) (ndK 472 1 .nil .nil)) (ndK 476 2 (ndK 475 1 .nil .nil) (ndK
    477 1 .nil .nil))) (ndK 483 3 (ndK 481 2 (ndK 480 1 .nil .nil) (ndK 482 1 .nil .nil)) (ndK 485 2 (ndK 484
    1 .nil .nil) .nil))) (ndK 494 4 (ndK 491 3 (ndK 489 2 (ndK 488 1 .nil .nil) (ndK 490 1 .nil .nil)) (ndK
    493 2 (ndK 492 1 .nil .nil) .nil)) (ndK 497 3 (ndK 496 2 (ndK 495 1 .nil .nil) .nil) (ndK 498 1 .nil
    .nil)))) (ndK 512 5 (ndK 507 4 (ndK 504 3 (ndK 502 2 (ndK 501 1 .nil .nil) (ndK 503 1 .nil .nil)) (ndK 506
    2 (ndK 505 1 .nil .nil) .nil)) (ndK 510 3 (ndK 509 2 (ndK 508 1 .nil .nil) .nil) (ndK 511 1 .nil .nil)))
    (ndK 517 4 (ndK 515 3 (ndK 514 2 (ndK 513 1 .nil .nil) .nil) (ndK 516 1 .nil .nil)) (ndK 519 2 (ndK 518 1
    .nil .nil) .nil))))) (ndK 575 7 (ndK 554 6 (ndK 541 5 (ndK 533 4 (ndK 528 3 (ndK 525 2 (ndK 523 1 .nil
    .nil) (ndK 527 1 .nil .nil)) (ndK 531 2 (ndK 530 1 .nil .nil) (ndK 532 1 .nil .nil))) (ndK 538 3 (ndK 536
    2 (ndK 535 1 .nil .nil) (ndK 537 1 .nil .nil)) (ndK 540 2 (ndK 539 1 .nil .nil) .nil))) (ndK 549 4 (ndK
    546 3 (ndK 544 2 (ndK 543 1 .nil .nil) (ndK 545 1 .nil .nil)) (ndK 548 2 (ndK 547 1 .nil .nil) .nil)) (ndK
    552 3 (ndK 551 2 (ndK 550 1 .nil .nil) .nil) (ndK 553 1 .nil .nil)))) (ndK 567 5 (ndK 562 4 (ndK 559 3
    (ndK 557 2 (ndK 556 1 .nil .nil) (ndK 558 1 .nil .nil)) (ndK 561 2 (ndK 560 1 .nil .nil) .nil)) (ndK 565 3
    (ndK 564 2 (ndK 563 1 .nil .nil) .nil) (ndK 566 1 .nil .nil))) (ndK 572 4 (ndK 570 3 (ndK 569 2 (ndK 568 1
    .nil .nil) .nil) (ndK 571 1 .nil .nil)) (ndK 574 2 (ndK 573 1 .nil .nil) .nil)))) (ndK 596 6 (ndK 588 5
    (ndK 583 4 (ndK 580 3 (ndK 578 2 (ndK 577 1 .nil .nil) .nil) (ndK 582 1 .nil .nil)) (ndK 586 2 (ndK 585 1
    .nil .nil) (ndK 587 1 .nil .nil))) (ndK 593 3 (ndK 591 2 (ndK 590 1 .nil .nil) (ndK 592 1 .nil .nil)) (ndK
    595 2 (ndK 594 1 .nil .nil) .nil))) (ndK 604 4 (ndK 601 3 (ndK 599 2 (ndK 598 1 .nil .nil) (ndK 600 1 .nil
    .nil)) (ndK 603 2 (ndK 602 1 .nil .nil) .nil)) (ndK 607 3 (ndK 606 2 (ndK 605 1 .nil .nil) .nil) (ndK 608
    1 .nil .nil)))))))

/-- The tree after the first 420 inserts of `ops609`. -/
def t609c28 : AVLNode :=
  (ndK 376 10 (ndK 232 9 (ndK 143 8 (ndK 88 7 (ndK 54 6 (ndK 33 5 (ndK 20 4 (ndK 12 3 (ndK 7 2 (ndK 4 1 .nil
    .nil) (ndK 10 1 .nil .nil)) (ndK 17 2 (ndK 15 1 .nil .nil) (ndK 19 1 .nil .nil))) (ndK 28 3 (ndK 25 2 (ndK
    23 1 .nil .nil) (ndK 27 1 .nil .nil)) (ndK 31 2 (ndK 30 1 .nil .nil) (ndK 32 1 .nil .nil)))) (ndK 46 4
    (ndK 41 3 (ndK 38 2 (ndK 36 1 .nil .nil) (ndK 40 1 .nil .nil)) (ndK 44 1 .nil .nil)) (ndK 51 2 (ndK 49 1
    .nil .nil) (ndK 53 1 .nil .nil)))) (ndK 75 4 (ndK 67 3 (ndK 62 2 (ndK 59 1 .nil .nil) (ndK 65 1 .nil
    .nil)) (ndK 72 2 (ndK 70 1 .nil .nil) (ndK 74 1 .nil .nil))) (ndK 83 3 (ndK 80 2 (ndK 78 1 .nil .nil) (ndK
    82 1 .nil .nil)) (ndK 86 2 (ndK 85 1 .nil .nil) (ndK 87 1 .nil .nil))))) (ndK 122 5 (ndK 109 4 (ndK 101 3
    (ndK 96 2 (ndK 93 1 .nil .nil) (ndK 99 1 .nil .nil)) (ndK 106 2 (ndK 104 1 .nil .nil) (ndK 108 1 .nil
    .nil))) (ndK 117 3 (ndK 114 2 (ndK 112 1 .nil .nil) (ndK 116 1 .nil .nil)) (ndK 120 2 (ndK 119 1 .nil
    .nil) (ndK 121 1 .nil .nil)))) (ndK 135 4 (ndK 130 3 (ndK 127 2 (ndK 125 1 .nil .nil) (ndK 129 1 .nil
    .nil)) (ndK 133 2 (ndK 132 1 .nil .nil) (ndK 134 1 .nil .nil))) (ndK 140 3 (ndK 138 2 (ndK 137 1 .nil
    .nil) (ndK 139 1 .nil .nil)) (ndK 142 2 (ndK 141 1 .nil .nil) .nil))))) (ndK 198 6 (ndK 177 5 (ndK 164 4
    (ndK 156 3 (ndK 151 2 (ndK 148 1 .nil .nil) (ndK 154 1 .nil .nil)) (ndK 161 2 (ndK 159 1 .nil .nil) (ndK
    163 1 .nil .nil))) (ndK 172 3 (ndK 169 2 (ndK 167 1 .nil .nil) (ndK 171 1 .nil .nil)) (ndK 175 2 (ndK 174
    1 .nil .nil) (ndK 176 1 .nil .nil)))) (ndK 190 4 (ndK 185 3 (ndK 182 2 (ndK 180 1 .nil .nil) (ndK 184 1
    .nil .nil)) (ndK 188 2 (ndK 187 1 .nil .nil) (ndK 189 1 .nil .nil))) (ndK 195 3 (ndK 193 2 (ndK 192 1 .nil
    .nil) (ndK 194 1 .nil .nil)) (ndK 197 2 (ndK 196 1 .nil .nil) .nil)))) (ndK 219 5 (ndK 211 4 (ndK 206 3
    (ndK 203 2 (ndK 201 1 .nil .nil) (ndK 205 1 .nil .nil)) (ndK 209 2 (ndK 208 1 .nil .nil) (ndK 210 1 .nil
    .nil))) (ndK 216 3 (ndK 214 2 (ndK 213 1 .nil .nil) (ndK 215 1 .nil .nil)) (ndK 218 2 (ndK 217 1 .nil
    .nil) .nil))) (ndK 227 4 (ndK 224 3 (ndK 222 2 (ndK 221 1 .nil .nil) (ndK 223 1 .nil .nil)) (ndK 226 2
    (ndK 225 1 .nil .nil) .nil)) (ndK 230 3 (ndK 229 2 (ndK 228 1 .nil .nil) .nil) (ndK 231 1 .nil .nil))))))
    (ndK 321 7 (ndK 287 6 (ndK 266 5 (ndK 253 4 (ndK 245 3 (ndK 240 2 (ndK 237 1 .nil .nil) (ndK 243 1 .nil
    .nil)) (ndK 250 2 (ndK 248 1 .nil .nil) (ndK 252 1 .nil .nil))) (ndK 261 3 (ndK 258 2 (ndK 256 1 .nil
    .nil) (ndK 260 1 .nil .nil)) (ndK 264 2 (ndK 263 1 .nil .nil) (ndK 265 1 .nil .nil)))) (ndK 279 4 (ndK 274
    3 (ndK 271 2 (ndK 269 1 .nil .nil) (ndK 273 1 .nil .nil)) (ndK 277 2 (ndK 276 1 .nil .nil) (ndK 278 1 .nil
    .nil))) (ndK 284 3 (ndK 282 2 (ndK 281 1 .nil .nil) (ndK 283 1 .nil .nil)) (ndK 286 2 (ndK 285 1 .nil
    .nil) .nil)))) (ndK 308 5 (ndK 300 4 (ndK 295 3 (ndK 292 2 (ndK 290 1 .nil .nil) (ndK 294 1 .nil .nil))
    (ndK 298 2 (ndK 297 1 .nil .nil) (ndK 299 1 .nil .nil))) (ndK 305 3 (ndK 303 2 (ndK 302 1 .nil .nil) (ndK
    304 1 .nil .nil)) (ndK 307 2 (ndK 306 1 .nil .nil) .nil))) (ndK 316 4 (ndK 313 3 (ndK 311 2 (ndK 310 1
    .nil .nil) (ndK 312 1 .nil .nil)) (ndK 315 2 (ndK 314 1 .nil .nil) .nil)) (ndK 319 3 (ndK 318 2 (ndK 317 1
    .nil .nil) .nil) (ndK 320 1 .nil .nil))))) (ndK 355 6 (ndK 342 5 (ndK 334 4 (ndK 329 3 (ndK 326 2 (ndK 324
    1 .nil .nil) (ndK 328 1 .nil .nil)) (ndK 332 2 (ndK 331 1 .nil .nil) (ndK 333 1 .nil .nil))) (ndK 339 3
    (ndK 337 2 (ndK 336 1 .nil .nil) (ndK 338 1 .nil .nil)) (ndK 341 2 (ndK 340 1 .nil .nil) .nil))) (ndK 350
    4 (ndK 347 3 (ndK 345 2 (ndK 344 1 .nil .nil) (ndK 346 1 .nil .nil)) (ndK 349 2 (ndK 348 1 .nil .nil)
    .nil)) (ndK 353 3 (ndK 352 2 (ndK 351 1 .nil .nil) .nil) (ndK 354 1 .nil .nil)))) (ndK 368 5 (ndK 363 4
    (ndK 360 3 (ndK 358 2 (ndK 357 1 .nil .nil) (ndK 359 1 .nil .nil)) (ndK 362 2 (ndK 361 1 .nil .nil) .nil))
    (ndK 366 3 (ndK 365 2 (ndK 364 1 .nil .nil) .nil) (ndK 367 1 .nil .nil))) (ndK 373 4 (ndK 371 3 (ndK 370 2
    (ndK 369 1 .nil .nil) .nil) (ndK 372 1 .nil .nil)) (ndK 375 2 (ndK 374 1 .nil .nil) .nil)))))) (ndK 520 8
    (ndK 465 7 (ndK 431 6 (ndK 410 5 (ndK 397 4 (ndK 389 3 (ndK 384 2 (ndK 381 1 .nil .nil) (ndK 387 1 .nil
    .nil)) (ndK 394 2 (ndK 392 1 .nil .nil) (ndK 396 1 .nil .nil))) (ndK 405 3 (ndK 402 2 (ndK 400 1 .nil
    .nil) (ndK 404 1 .nil .nil)) (ndK 408 2 (ndK 407 1 .nil .nil) (ndK 409 1 .nil .nil)))) (ndK 423 4 (ndK 418
    3 (ndK 415 2 (ndK 413 1 .nil .nil) (ndK 417 1 .nil .nil)) (ndK 421 2 (ndK 420 1 .nil .nil) (ndK 422 1 .nil
    .nil))) (ndK 428 3 (ndK 426 2 (ndK 425 1 .nil .nil) (ndK 427 1 .nil .nil)) (ndK 430 2 (ndK 429 1 .nil
    .nil) .nil)))) (ndK 452 5 (ndK 444 4 (ndK 439 3 (ndK 436 2 (ndK 434 1 .nil .nil) (ndK 438 1 .nil .nil))
    (ndK 442 2 (ndK 441 1 .nil .nil) (ndK 443 1 .nil .nil))) (ndK 449 3 (ndK 447 2 (ndK 446 1 .nil .nil) (ndK
    448 1 .nil .nil)) (ndK 451 2 (ndK 450 1 .nil .nil) .nil))) (ndK 460 4 (ndK 457 3 (ndK 455 2 (ndK 454 1
    .nil .nil) (ndK 456 1 .nil .nil)) (ndK 459 2 (ndK 458 1 .nil .nil) .nil)) (ndK 463 3 (ndK 462 2 (ndK 461 1
    .nil .nil) .nil) (ndK 464 1 .nil .nil))))) (ndK 499 6 (ndK 486 5 (ndK 478 4 (ndK 473 3 (ndK 470 2 (ndK 468
    1 .nil .nil) (ndK 472 1 .nil .nil)) (ndK 476 2 (ndK 475 1 .nil .nil) (ndK 477 1 .nil .nil))) (ndK 483 3
    (ndK 481 2 (ndK 480 1 .nil .nil) (ndK 482 1 .nil .nil)) (ndK 485 2 (ndK 484 1 .nil .nil) .nil))) (ndK 494
    4 (ndK 491 3 (ndK 489 2 (ndK 488 1 .nil .nil) (ndK 490 1 .nil .nil)) (ndK 493 2 (ndK 492 1 .nil .nil)
    .nil)) (ndK 497 3 (ndK 496 2 (ndK 495 1 .nil .nil) .nil) (ndK 498 1 .nil .nil)))) (ndK 512 5 (ndK 507 4
    (ndK 504 3 (ndK 502 2 (ndK 501 1 .nil .nil) (ndK 503 1 .nil .nil)) (ndK 506 2 (ndK 505 1 .nil .nil) .nil))
    (ndK 510 3 (ndK 509 2 (ndK 508 1 .nil .nil) .nil) (ndK 511 1 .nil .nil))) (ndK 517 4 (ndK 515 3 (ndK 514 2
    (ndK 513 1 .nil .nil) .nil) (ndK 516 1 .nil .nil)) (ndK 519 2 (ndK 518 1 .nil .nil) .nil))))) (ndK 575 7
    (ndK 554 6 (ndK 541 5 (ndK 533 4 (ndK 528 3 (ndK 525 2 (ndK 523 1 .nil .nil) (ndK 527 1 .nil .nil)) (ndK
    531 2 (ndK 530 1 .nil .nil) (ndK 532 1 .nil .nil))) (ndK 538 3 (ndK 536 2 (ndK 535 1 .nil .nil) (ndK 537 1
    .nil .nil)) (ndK 540 2 (ndK 539 1 .nil .nil) .nil))) (ndK 549 4 (ndK 546 3 (ndK 544 2 (ndK 543 1 .nil
    .nil) (ndK 545 1 .nil .nil)) (ndK 548 2 (ndK 547 1 .nil .nil) .nil)) (ndK 552 3 (ndK 551 2 (ndK 550 1 .nil
    .nil) .nil) (ndK 553 1 .nil .nil)))) (ndK 567 5 (ndK 562 4 (ndK 559 3 (ndK 557 2 (ndK 556 1 .nil .nil)
    (ndK 558 1 .nil .nil)) (ndK 561 2 (ndK 560 1 .nil .nil) .nil)) (ndK 565 3 (ndK 564 2 (ndK 563 1 .nil .nil)
    .nil) (ndK 566 1 .nil .nil))) (ndK 572 4 (ndK 570 3 (ndK 569 2 (ndK 568 1 .nil .nil) .nil) (ndK 571 1 .nil
    .nil)) (ndK 574 2 (ndK 573 1 .nil .nil) .nil)))) (ndK 596 6 (ndK 588 5 (ndK 583 4 (ndK 580 3 (ndK 578 2
    (ndK 577 1 .nil .nil) (ndK 579 1 .nil .nil)) (ndK 582 2 (ndK 581 1 .nil .nil) .nil)) (ndK 586 3 (ndK 585 2
    (ndK 584 1 .nil .nil) .nil) (ndK 587 1 .nil .nil))) (ndK 593 4 (ndK 591 3 (ndK 590 2 (ndK 589 1 .nil .nil)
    .nil) (ndK 592 1 .nil .nil)) (ndK 595 2 (ndK 594 1 .nil .nil) .nil))) (ndK 604 5 (ndK 601 4 (ndK 599 3
    (ndK 598 2 (ndK 597 1 .nil .nil) .nil) (ndK 600 1 .nil .nil)) (ndK 603 2 (ndK 602 1 .nil .nil) .nil)) (ndK
    607 3 (ndK 606 2 (ndK 605 1 .nil .nil) .nil) (ndK 608 1 .nil .nil)))))))

/-- The tree after the first 435 inserts of `ops609`. -/
def t609c29 : AVLNode :=
  (ndK 376 10 (ndK 232 9 (ndK 143 8 (ndK 88 7 (ndK 54 6 (ndK 33 5 (ndK 20 4 (ndK 12 3 (ndK 7 2 (ndK 4 1 .nil
    .nil) (ndK 10 1 .nil .nil)) (ndK 17 2 (ndK 15 1 .nil .nil) (ndK 19 1 .nil .nil))) (ndK 28 3 (ndK 25 2 (ndK
    23 1 .nil .nil) (ndK 27 1 .nil .nil)) (ndK 31 2 (ndK 30 1 .nil .nil) (ndK 32 1 .nil .nil)))) (ndK 46 4
    (ndK 41 3 (ndK 38 2 (ndK 36 1 .nil .nil) (ndK 40 1 .nil .nil)) (ndK 44 2 (ndK 43 1 .nil .nil) (ndK 45 1
    .nil .nil))) (ndK 51 3 (ndK 49 2 (ndK 48 1 .nil .nil) (ndK 50 1 .nil .nil)) (ndK 53 2 (ndK 52 1 .nil .nil)
    .nil)))) (ndK 75 5 (ndK 67 4 (ndK 62 3 (ndK 59 2 (ndK 57 1 .nil .nil) (ndK 61 1 .nil .nil)) (ndK 65 2 (ndK
    64 1 .nil .nil) (ndK 66 1 .nil .nil))) (ndK 72 3 (ndK 70 2 (ndK 69 1 .nil .nil) (ndK 71 1 .nil .nil)) (ndK
    74 2 (ndK 73 1 .nil .nil) .nil))) (ndK 83 4 (ndK 80 3 (ndK 78 2 (ndK 77 1 .nil .nil) (ndK 79 1 .nil .nil))
    (ndK 82 2 (ndK 81 1 .nil .nil) .nil)) (ndK 86 2 (ndK 85 1 .nil .nil) (ndK 87 1 .nil .nil))))) (ndK 122 5
    (ndK 109 4 (ndK 101 3 (ndK 96 2 (ndK 93 1 .nil .nil) (ndK 99 1 .nil .nil)) (ndK 106 2 (ndK 104 1 .nil
    .nil) (ndK 108 1 .nil .nil))) (ndK 117 3 (ndK 114 2 (ndK 112 1 .nil .nil) (ndK 116 1 .nil .nil)) (ndK 120
    2 (ndK 119 1 .nil .nil) (ndK 121 1 .nil .nil)))) (ndK 135 4 (ndK 130 3 (ndK 127 2 (ndK 125 1 .nil .nil)
    (ndK 129 1 .nil .nil)) (ndK 133 2 (ndK 132 1 .nil .nil) (ndK 134 1 .nil .nil))) (ndK 140 3 (ndK 138 2 (ndK
    137 1 .nil .nil) (ndK 139 1 .nil .nil)) (ndK 142 2 (ndK 141 1 .nil .nil) .nil))))) (ndK 198 6 (ndK 177 5
    (ndK 164 4 (ndK 156 3 (ndK 151 2 (ndK 148 1 .nil .nil) (ndK 154 1 .nil .nil)) (ndK 161 2 (ndK 159 1 .nil
    .nil) (ndK 163 1 .nil .nil))) (ndK 172 3 (ndK 169 2 (ndK 167 1 .nil .nil) (ndK 171 1 .nil .nil)) (ndK 175
    2 (ndK 174 1 .nil .nil) (ndK 176 1 .nil .nil)))) (ndK 190 4 (ndK 185 3 (ndK 182 2 (ndK 180 1 .nil .nil)
    (ndK 184 1 .nil .nil)) (ndK 188 2 (ndK 187 1 .nil .nil) (ndK 189 1 .nil .nil))) (ndK 195 3 (ndK 193 2 (ndK
    192 1 .nil .nil) (ndK 194 1 .nil .nil)) (ndK 197 2 (ndK 196 1 .nil .nil) .nil)))) (ndK 219 5 (ndK 211 4
    (ndK 206 3 (ndK 203 2 (ndK 201 1 .nil .nil) (ndK 205 1 .nil .nil)) (ndK 209 2 (ndK 208 1 .nil .nil) (ndK
    210 1 .nil .nil))) (ndK 216 3 (ndK 214 2 (ndK 213 1 .nil .nil) (ndK 215 1 .nil .nil)) (ndK 218 2 (ndK 217
    1 .nil .nil) .nil))) (ndK 227 4 (ndK 224 3 (ndK 222 2 (ndK 221 1 .nil .nil) (ndK 223 1 .nil .nil)) (ndK
    226 2 (ndK 225 1 .nil .nil) .nil)) (ndK 230 3 (ndK 229 2 (ndK 228 1 .nil .nil) .nil) (ndK 231 1 .nil
    .nil)))))) (ndK 321 7 (ndK 287 6 (ndK 266 5 (ndK 253 4 (ndK 245 3 (ndK 240 2 (ndK 237 1 .nil .nil) (ndK
    243 1 .nil .nil)) (ndK 250 2 (ndK 248 1 .nil .nil) (ndK 252 1 .nil .nil))) (ndK 261 3 (ndK 258 2 (ndK 256
    1 .nil .nil) (ndK 260 1 .nil .nil)) (ndK 264 2 (ndK 263 1 .nil .nil) (ndK 265 1 .nil .nil)))) (ndK 279 4
    (ndK 274 3 (ndK 271 2 (ndK 269 1 .nil .nil) (ndK 273 1 .nil .nil)) (ndK 277 2 (ndK 276 1 .nil .nil) (ndK
    278 1 .nil .nil))) (ndK 284 3 (ndK 282 2 (ndK 281 1 .nil .nil) (ndK 283 1 .nil .nil)) (ndK 286 2 (ndK 285
    1 .nil .nil) .nil)))) (ndK 308 5 (ndK 300 4 (ndK 295 3 (ndK 292 2 (ndK 290 1 .nil .nil) (ndK 294 1 .nil
    .nil)) (ndK 298 2 (ndK 297 1 .nil .nil) (ndK 299 1 .nil .nil))) (ndK 305 3 (ndK 303 2 (ndK 302 1 .nil
    .nil) (ndK 304 1 .nil .nil)) (ndK 307 2 (ndK 306 1 .nil .nil) .nil))) (ndK 316 4 (ndK 313 3 (ndK 311 2
    (ndK 310 1 .nil .nil) (ndK 312 1 .nil .nil)) (ndK 315 2 (ndK 314 1 .nil .nil) .nil)) (ndK 319 3 (ndK 318 2
    (ndK 317 1 .nil .nil) .nil) (ndK 320 1 .nil .nil))))) (ndK 355 6 (ndK 342 5 (ndK 334 4 (ndK 329 3 (ndK 326
    2 (ndK 324 1 .nil .nil) (ndK 328 1 .nil .nil)) (ndK 332 2 (ndK 331 1 .nil .nil) (ndK 333 1 .nil .nil)))
    (ndK 339 3 (ndK 337 2 (ndK 336 1 .nil .nil) (ndK 338 1 .nil .nil)) (ndK 341 2 (ndK 340 1 .nil .nil)
    .nil))) (ndK 350 4 (ndK 347 3 (ndK 345 2 (ndK 344 1 .nil .nil) (ndK 346 1 .nil .nil)) (ndK 349 2 (ndK 348
    1 .nil .nil) .nil)) (ndK 353 3 (ndK 352 2 (ndK 351 1 .nil .nil) .nil) (ndK 354 1 .nil .nil)))) (ndK 368 5
    (ndK 363 4 (ndK 360 3 (ndK 358 2 (ndK 357 1 .nil .nil) (ndK 359 1 .nil .nil)) (ndK 362 2 (ndK 361 1 .nil
    .nil) .nil)) (ndK 366 3 (ndK 365 2 (ndK 364 1 .nil .nil) .nil) (ndK 367 1 .nil .nil))) (ndK 373 4 (ndK 371
    3 (ndK 370 2 (ndK 369 1 .nil .nil) .nil) (ndK 372 1 .nil .nil)) (ndK 375 2 (ndK 374 1 .nil .nil)
    .nil)))))) (ndK 520 8 (ndK 465 7 (ndK 431 6 (ndK 410 5 (ndK 397 4 (ndK 389 3 (ndK 384 2 (ndK 381 1 .nil
    .nil) (ndK 387 1 .nil .nil)) (ndK 394 2 (ndK 392 1 .nil .nil) (ndK 396 1 .nil .nil))) (ndK 405 3 (ndK 402
    2 (ndK 400 1 .nil .nil) (ndK 404 1 .nil .nil)) (ndK 408 2 (ndK 407 1 .nil .nil) (ndK 409 1 .nil .nil))))
    (ndK 423 4 (ndK 418 3 (ndK 415 2 (ndK 413 1 .nil .nil) (ndK 417 1 .nil .nil)) (ndK 421 2 (ndK 420 1 .nil
    .nil) (ndK 422 1 .nil .nil))) (ndK 428 3 (ndK 426 2 (ndK 425 1 .nil .nil) (ndK 427 1 .nil .nil)) (ndK 430
    2 (ndK 429 1 .nil .nil) .nil)))) (ndK 452 5 (ndK 444 4 (ndK 439 3 (ndK 436 2 (ndK 434 1 .nil .nil) (ndK
    438 1 .nil .nil)) (ndK 442 2 (ndK 441 1 .nil .nil) (ndK 443 1 .nil .nil))) (ndK 449 3 (ndK 447 2 (ndK 446
    1 .nil .nil) (ndK 448 1 .nil .nil)) (ndK 451 2 (ndK 450 1 .nil .nil) .nil))) (ndK 460 4 (ndK 457 3 (ndK
    455 2 (ndK 454 1 .nil .nil) (ndK 456 1 .nil .nil)) (ndK 459 2 (ndK 458 1 .nil .nil) .nil)) (ndK 463 3 (ndK
    462 2 (ndK 461 1 .nil .nil) .nil) (ndK 464 1 .nil .nil))))) (ndK 499 6 (ndK 486 5 (ndK 478 4 (ndK 473 3
    (ndK 470 2 (ndK 468 1 .nil .nil) (ndK 472 1 .nil .nil)) (ndK 476 2 (ndK 475 1 .nil .nil) (ndK 477 1 .nil
    .nil))) (ndK 483 3 (ndK 481 2 (ndK 480 1 .nil .nil) (ndK 482 1 .nil .nil)) (ndK 485 2 (ndK 484 1 .nil
    .nil) .nil))) (ndK 494 4 (ndK 491 3 (ndK 489 2 (ndK 488 1 .nil .nil) (ndK 490 1 .nil .nil)) (ndK 493 2
    (ndK 492 1 .nil .nil) .nil)) (ndK 497 3 (ndK 496 2 (ndK 495 1 .nil .nil) .nil) (ndK 498 1 .nil .nil))))
    (ndK 512 5 (ndK 507 4 (ndK 504 3 (ndK 502 2 (ndK 501 1 .nil .nil) (ndK 503 1 .nil .nil)) (ndK 506 2 (ndK
    505 1 .nil .nil) .nil)) (ndK 510 3 (ndK 509 2 (ndK 508 1 .nil .nil) .nil) (ndK 511 1 .nil .nil))) (ndK 517
    4 (ndK 515 3 (ndK 514 2 (ndK 513 1 .nil .nil) .nil) (ndK 516 1 .nil .nil)) (ndK 519 2 (ndK 518 1 .nil
    .nil) .nil))))) (ndK 575 7 (ndK 554 6 (ndK 541 5 (ndK 533 4 (ndK 528 3 (ndK 525 2 (ndK 523 1 .nil .nil)
    (ndK 527 1 .nil .nil)) (ndK 531 2 (ndK 530 1 .nil .nil) (ndK 532 1 .nil .nil))) (ndK 538 3 (ndK 536 2 (ndK
    535 1 .nil .nil) (ndK 537 1 .nil .nil)) (ndK 540 2 (ndK 539 1 .nil .nil) .nil))) (ndK 549 4 (ndK 546 3
    (ndK 544 2 (ndK 543 1 .nil .nil) (ndK 545 1 .nil .nil)) (ndK 548 2 (ndK 547 1 .nil .nil) .nil)) (ndK 552 3
    (ndK 551 2 (ndK 550 1 .nil .nil) .nil) (ndK 553 1 .nil .nil)))) (ndK 567 5 (ndK 562 4 (ndK 559 3 (ndK 557
    2 (ndK 556 1 .nil .nil) (ndK 558 1 .nil .nil)) (ndK 561 2 (ndK 560 1 .nil .nil) .nil)) (ndK 565 3 (ndK 564
    2 (ndK 563 1 .nil .nil) .nil) (ndK 566 1 .nil .nil))) (ndK 572 4 (ndK 570 3 (ndK 569 2 (ndK 568 1 .nil
    .nil) .nil) (ndK 571 1 .nil .nil)) (ndK 574 2 (ndK 573 1 .nil .nil) .nil)))) (ndK 596 6 (ndK 588 5 (ndK
    583 4 (ndK 580 3 (ndK 578 2 (ndK 577 1 .nil .nil) (ndK 579 1 .nil .nil)) (ndK 582 2 (ndK 581 1 .nil .nil)
    .nil)) (ndK 586 3 (ndK 585 2 (ndK 584 1 .nil .nil) .nil) (ndK 587 1 .nil .nil))) (ndK 593 4 (ndK 591 3
    (ndK 590 2 (ndK 589 1 .nil .nil) .nil) (ndK 592 1 .nil .nil)) (ndK 595 2 (ndK 594 1 .nil .nil) .nil)))
    (ndK 604 5 (ndK 601 4 (ndK 599 3 (ndK 598 2 (ndK 597 1 .nil .nil) .nil) (ndK 600 1 .nil .nil)) (ndK 603 2
    (ndK 602 1 .nil .nil) .nil)) (ndK 607 3 (ndK 606 2 (ndK 605 1 .nil .nil) .nil) (ndK 608 1 .nil .nil)))))))

/-- The tree after the first 450 inserts of `ops609`. -/
def t609c30 : AVLNode :=
  (ndK 376 10 (ndK 232 9 (ndK 143 8 (ndK 88 7 (ndK 54 6 (ndK 33 5 (ndK 20 4 (ndK 12 3 (ndK 7 2 (ndK 4 1 .nil
    .nil) (ndK 10 1 .nil .nil)) (ndK 17 2 (ndK 15 1 .nil .nil) (ndK 19 1 .nil .nil))) (ndK 28 3 (ndK 25 2 (ndK
    23 1 .nil .nil) (ndK 27 1 .nil .nil)) (ndK 31 2 (ndK 30 1 .nil .nil) (ndK 32 1 .nil .nil)))) (ndK 46 4
    (ndK 41 3 (ndK 38 2 (ndK 36 1 .nil .nil) (ndK 40 1 .nil .nil)) (ndK 44 2 (ndK 43 1 .nil .nil) (ndK 45 1
    .nil .nil))) (ndK 51 3 (ndK 49 2 (ndK 48 1 .nil .nil) (ndK 50 1 .nil .nil)) (ndK 53 2 (ndK 52 1 .nil .nil)
    .nil)))) (ndK 75 5 (ndK 67 4 (ndK 62 3 (ndK 59 2 (ndK 57 1 .nil .nil) (ndK 61 1 .nil .nil)) (ndK 65 2 (ndK
    64 1 .nil .nil) (ndK 66 1 .nil .nil))) (ndK 72 3 (ndK 70 2 (ndK 69 1 .nil .nil) (ndK 71 1 .nil .nil)) (ndK
    74 2 (ndK 73 1 .nil .nil) .nil))) (ndK 83 4 (ndK 80 3 (ndK 78 2 (ndK 77 1 .nil .nil) (ndK 79 1 .nil .nil))
    (ndK 82 2 (ndK 81 1 .nil .nil) .nil)) (ndK 86 3 (ndK 85 2 (ndK 84 1 .nil .nil) .nil) (ndK 87 1 .nil
    .nil))))) (ndK 122 6 (ndK 109 5 (ndK 101 4 (ndK 96 3 (ndK 93 2 (ndK 91 1 .nil .nil) (ndK 95 1 .nil .nil))
    (ndK 99 2 (ndK 98 1 .nil .nil) (ndK 100 1 .nil .nil))) (ndK 106 3 (ndK 104 2 (ndK 103 1 .nil .nil) (ndK
    105 1 .nil .nil)) (ndK 108 2 (ndK 107 1 .nil .nil) .nil))) (ndK 117 4 (ndK 114 3 (ndK 112 2 (ndK 111 1
    .nil .nil) (ndK 113 1 .nil .nil)) (ndK 116 2 (ndK 115 1 .nil .nil) .nil)) (ndK 120 3 (ndK 119 2 (ndK 118 1
    .nil .nil) .nil) (ndK 121 1 .nil .nil)))) (ndK 135 5 (ndK 130 4 (ndK 127 3 (ndK 125 2 (ndK 124 1 .nil
    .nil) (ndK 126 1 .nil .nil)) (ndK 129 2 (ndK 128 1 .nil .nil) .nil)) (ndK 133 2 (ndK 132 1 .nil .nil) (ndK
    134 1 .nil .nil))) (ndK 140 3 (ndK 138 2 (ndK 137 1 .nil .nil) (ndK 139 1 .nil .nil)) (ndK 142 2 (ndK 141
    1 .nil .nil) .nil))))) (ndK 198 6 (ndK 177 5 (ndK 164 4 (ndK 156 3 (ndK 151 2 (ndK 148 1 .nil .nil) (ndK
    154 1 .nil .nil)) (ndK 161 2 (ndK 159 1 .nil .nil) (ndK 163 1 .nil .nil))) (ndK 172 3 (ndK 169 2 (ndK 167
    1 .nil .nil) (ndK 171 1 .nil .nil)) (ndK 175 2 (ndK 174 1 .nil .nil) (ndK 176 1 .nil .nil)))) (ndK 190 4
    (ndK 185 3 (ndK 182 2 (ndK 180 1 .nil .nil) (ndK 184 1 .nil .nil)) (ndK 188 2 (ndK 187 1 .nil .nil) (ndK
    189 1 .nil .nil))) (ndK 195 3 (ndK 193 2 (ndK 192 1 .nil .nil) (ndK 194 1 .nil .nil)) (ndK 197 2 (ndK 196
    1 .nil .nil) .nil)))) (ndK 219 5 (ndK 211 4 (ndK 206 3 (ndK 203 2 (ndK 201 1 .nil .nil) (ndK 205 1 .nil
    .nil)) (ndK 209 2 (ndK 208 1 .nil .nil) (ndK 210 1 .nil .nil))) (ndK 216 3 (ndK 214 2 (ndK 213 1 .nil
    .nil) (ndK 215 1 .nil .nil)) (ndK 218 2 (ndK 217 1 .nil .nil) .nil))) (ndK 227 4 (ndK 224 3 (ndK 222 2
    (ndK 221 1 .nil .nil) (ndK 223 1 .nil .nil)) (ndK 226 2 (ndK 225 1 .nil .nil) .nil)) (ndK 230 3 (ndK 229 2
    (ndK 228 1 .nil .nil) .nil) (ndK 231 1 .nil .nil)))))) (ndK 321 7 (ndK 287 6 (ndK 266 5 (ndK 253 4 (ndK
    245 3 (ndK 240 2 (ndK 237 1 .nil .nil) (ndK 243 1 .nil .nil)) (ndK 250 2 (ndK 248 1 .nil .nil) (ndK 252 1
    .nil .nil))) (ndK 261 3 (ndK 258 2 (ndK 256 1 .nil .nil) (ndK 260 1 .nil .nil)) (ndK 264 2 (ndK 263 1 .nil
    .nil) (ndK 265 1 .nil .nil)))) (ndK 279 4 (ndK 274 3 (ndK 271 2 (ndK 269 1 .nil .nil) (ndK 273 1 .nil
    .nil)) (ndK 277 2 (ndK 276 1 .nil .nil) (ndK 278 1 .nil .nil))) (ndK 284 3 (ndK 282 2 (ndK 281 1 .nil
    .nil) (ndK 283 1 .nil .nil)) (ndK 286 2 (ndK 285 1 .nil .nil) .nil)))) (ndK 308 5 (ndK 300 4 (ndK 295 3
    (ndK 292 2 (ndK 290 1 .nil .nil) (ndK 294 1 .nil .nil)) (ndK 298 2 (ndK 297 1 .nil .nil) (ndK 299 1 .nil
    .nil))) (ndK 305 3 (ndK 303 2 (ndK 302 1 .nil .nil) (ndK 304 1 .nil .nil)) (ndK 307 2 (ndK 306 1 .nil
    .nil) .nil))) (ndK 316 4 (ndK 313 3 (ndK 311 2 (ndK 310 1 .nil .nil) (ndK 312 1 .nil .nil)) (ndK 315 2
    (ndK 314 1 .nil .nil) .nil)) (ndK 319 3 (ndK 318 2 (ndK 317 1 .nil .nil) .nil) (ndK 320 1 .nil .nil)))))
    (ndK 355 6 (ndK 342 5 (ndK 334 4 (ndK 329 3 (ndK 326 2 (ndK 324 1 .nil .nil) (ndK 328 1 .nil .nil)) (ndK
    332 2 (ndK 331 1 .nil .nil) (ndK 333 1 .nil .nil))) (ndK 339 3 (ndK 337 2 (ndK 336 1 .nil .nil) (ndK 338 1
    .nil .nil)) (ndK 341 2 (ndK 340 1 .nil .nil) .nil))) (ndK 350 4 (ndK 347 3 (ndK 345 2 (ndK 344 1 .nil
    .nil) (ndK 346 1 .nil .nil)) (ndK 349 2 (ndK 348 1 .nil .nil) .nil)) (ndK 353 3 (ndK 352 2 (ndK 351 1 .nil
    .nil) .nil) (ndK 354 1 .nil .nil)))) (ndK 368 5 (ndK 363 4 (ndK 360 3 (ndK 358 2 (ndK 357 1 .nil .nil)
    (ndK 359 1 .nil .nil)) (ndK 362 2 (ndK 361 1 .nil .nil) .nil)) (ndK 366 3 (ndK 365 2 (ndK 364 1 .nil .nil)
    .nil) (ndK 367 1 .nil .nil))) (ndK 373 4 (ndK 371 3 (ndK 370 2 (ndK 369 1 .nil .nil) .nil) (ndK 372 1 .nil
    .nil)) (ndK 375 2 (ndK 374 1 .nil .nil) .nil)))))) (ndK 520 8 (ndK 465 7 (ndK 431 6 (ndK 410 5 (ndK 397 4
    (ndK 389 3 (ndK 384 2 (ndK 381 1 .nil .nil) (ndK 387 1 .nil .nil)) (ndK 394 2 (ndK 392 1 .nil .nil) (ndK
    396 1 .nil .nil))) (ndK 405 3 (ndK 402 2 (ndK 400 1 .nil .nil) (ndK 404 1 .nil .nil)) (ndK 408 2 (ndK 407
    1 .nil .nil) (ndK 409 1 .nil .nil)))) (ndK 423 4 (ndK 418 3 (ndK 415 2 (ndK 413 1 .nil .nil) (ndK 417 1
    .nil .nil)) (ndK 421 2 (ndK 420 1 .nil .nil) (ndK 422 1 .nil .nil))) (ndK 428 3 (ndK 426 2 (ndK 425 1 .nil
    .nil) (ndK 427 1 .nil .nil)) (ndK 430 2 (ndK 429 1 .nil .nil) .nil)))) (ndK 452 5 (ndK 444 4 (ndK 439 3
    (ndK 436 2 (ndK 434 1 .nil .nil) (ndK 438 1 .nil .nil)) (ndK 442 2 (ndK 441 1 .nil .nil) (ndK 443 1 .nil
    .nil))) (ndK 449 3 (ndK 447 2 (ndK 446 1 .nil .nil) (ndK 448 1 .nil .nil)) (ndK 451 2 (ndK 450 1 .nil
    .nil) .nil))) (ndK 460 4 (ndK 457 3 (ndK 455 2 (ndK 454 1 .nil .nil) (ndK 456 1 .nil .nil)) (ndK 459 2
    (ndK 458 1 .nil .nil) .nil)) (ndK 463 3 (ndK 462 2 (ndK 461 1 .nil .nil) .nil) (ndK 464 1 .nil .nil)))))
    (ndK 499 6 (ndK 486 5 (ndK 478 4 (ndK 473 3 (ndK 470 2 (ndK 468 1 .nil .nil) (ndK 472 1 .nil .nil)) (ndK
    476 2 (ndK 475 1 .nil .nil) (ndK 477 1 .nil .nil))) (ndK 483 3 (ndK 481 2 (ndK 480 1 .nil .nil) (ndK 482 1
    .nil .nil)) (ndK 485 2 (ndK 484 1 .nil .nil) .nil))) (ndK 494 4 (ndK 491 3 (ndK 489 2 (ndK 488 1 .nil
    .nil) (ndK 490 1 .nil .nil)) (ndK 493 2 (ndK 492 1 .nil .nil) .nil)) (ndK 497 3 (ndK 496 2 (ndK 495 1 .nil
    .nil) .nil) (ndK 498 1 .nil .nil)))) (ndK 512 5 (ndK 507 4 (ndK 504 3 (ndK 502 2 (ndK 501 1 .nil .nil)
    (ndK 503 1 .nil .nil)) (ndK 506 2 (ndK 505 1 .nil .nil) .nil)) (ndK 510 3 (ndK 509 2 (ndK 508 1 .nil .nil)
    .nil) (ndK 511 1 .nil .nil))) (ndK 517 4 (ndK 515 3 (ndK 514 2 (ndK 513 1 .nil .nil) .nil) (ndK 516 1 .nil
    .nil)) (ndK 519 2 (ndK 518 1 .nil .nil) .nil))))) (ndK 575 7 (ndK 554 6 (ndK 541 5 (ndK 533 4 (ndK 528 3
    (ndK 525 2 (ndK 523 1 .nil .nil) (ndK 527 1 .nil .nil)) (ndK 531 2 (ndK 530 1 .nil .nil) (ndK 532 1 .nil
    .nil))) (ndK 538 3 (ndK 536 2 (ndK 535 1 .nil .nil) (ndK 537 1 .nil .nil)) (ndK 540 2 (ndK 539 1 .nil
    .nil) .nil))) (ndK 549 4 (ndK 546 3 (ndK 544 2 (ndK 543 1 .nil .nil) (ndK 545 1 .nil .nil)) (ndK 548 2
    (ndK 547 1 .nil .nil) .nil)) (ndK 552 3 (ndK 551 2 (ndK 550 1 .nil .nil) .nil) (ndK 553 1 .nil .nil))))
    (ndK 567 5 (ndK 562 4 (ndK 559 3 (ndK 557 2 (ndK 556 1 .nil .nil) (ndK 558 1 .nil .nil)) (ndK 561 2 (ndK
    560 1 .nil .nil) .nil)) (ndK 565 3 (ndK 564 2 (ndK 563 1 .nil .nil) .nil) (ndK 566 1 .nil .nil))) (ndK 572
    4 (ndK 570 3 (ndK 569 2 (ndK 568 1 .nil .nil) .nil) (ndK 571 1 .nil .nil)) (ndK 574 2 (ndK 573 1 .nil
    .nil) .nil)))) (ndK 596 6 (ndK 588 5 (ndK 583 4 (ndK 580 3 (ndK 578 2 (ndK 577 1 .nil .nil) (ndK 579 1
    .nil .nil)) (ndK 582 2 (ndK 581 1 .nil .nil) .nil)) (ndK 586 3 (ndK 585 2 (ndK 584 1 .nil .nil) .nil) (ndK
    587 1 .nil .nil))) (ndK 593 4 (ndK 591 3 (ndK 590 2 (ndK 589 1 .nil .nil) .nil) (ndK 592 1 .nil .nil))
    (ndK 595 2 (ndK 594 1 .nil .nil) .nil))) (ndK 604 5 (ndK 601 4 (ndK 599 3 (ndK 598 2 (ndK 597 1 .nil .nil)
    .nil) (ndK 600 1 .nil .nil)) (ndK 603 2 (ndK 602 1 .nil .nil) .nil)) (ndK 607 3 (ndK 606 2 (ndK 605 1 .nil
    .nil) .nil) (ndK 608 1 .nil .nil)))))))

/-- The tree after the first 465 inserts of `ops609`. -/
def t609c31 : AVLNode :=
  (ndK 376 10 (ndK 232 9 (ndK 143 8 (ndK 88 7 (ndK 54 6 (ndK 33 5 (ndK 20 4 (ndK 12 3 (ndK 7 2 (ndK 4 1 .nil
    .nil) (ndK 10 1 .nil .nil)) (ndK 17 2 (ndK 15 1 .nil .nil) (ndK 19 1 .nil .nil))) (ndK 28 3 (ndK 25 2 (ndK
    23 1 .nil .nil) (ndK 27 1 .nil .nil)) (ndK 31 2 (ndK 30 1 .nil .nil) (ndK 32 1 .nil .nil)))) (ndK 46 4
    (ndK 41 3 (ndK 38 2 (ndK 36 1 .nil .nil) (ndK 40 1 .nil .nil)) (ndK 44 2 (ndK 43 1 .nil .nil) (ndK 45 1
    .nil .nil))) (ndK 51 3 (ndK 49 2 (ndK 48 1 .nil .nil) (ndK 50 1 .nil .nil)) (ndK 53 2 (ndK 52 1 .nil .nil)
    .nil)))) (ndK 75 5 (ndK 67 4 (ndK 62 3 (ndK 59 2 (ndK 57 1 .nil .nil) (ndK 61 1 .nil .nil)) (ndK 65 2 (ndK
    64 1 .nil .nil) (ndK 66 1 .nil .nil))) (ndK 72 3 (ndK 70 2 (ndK 69 1 .nil .nil) (ndK 71 1 .nil .nil)) (ndK
    74 2 (ndK 73 1 .nil .nil) .nil))) (ndK 83 4 (ndK 80 3 (ndK 78 2 (ndK 77 1 .nil .nil) (ndK 79 1 .nil .nil))
    (ndK 82 2 (ndK 81 1 .nil .nil) .nil)) (ndK 86 3 (ndK 85 2 (ndK 84 1 .nil .nil) .nil) (ndK 87 1 .nil
    .nil))))) (ndK 122 6 (ndK 109 5 (ndK 101 4 (ndK 96 3 (ndK 93 2 (ndK 91 1 .nil .nil) (ndK 95 1 .nil .nil))
    (ndK 99 2 (ndK 98 1 .nil .nil) (ndK 100 1 .nil .nil))) (ndK 106 3 (ndK 104 2 (ndK 103 1 .nil .nil) (ndK
    105 1 .nil .nil)) (ndK 108 2 (ndK 107 1 .nil .nil) .nil))) (ndK 117 4 (ndK 114 3 (ndK 112 2 (ndK 111 1
    .nil .nil) (ndK 113 1 .nil .nil)) (ndK 116 2 (ndK 115 1 .nil .nil) .nil)) (ndK 120 3 (ndK 119 2 (ndK 118 1
    .nil .nil) .nil) (ndK 121 1 .nil .nil)))) (ndK 135 5 (ndK 130 4 (ndK 127 3 (ndK 125 2 (ndK 124 1 .nil
    .nil) (ndK 126 1 .nil .nil)) (ndK 129 2 (ndK 128 1 .nil .nil) .nil)) (ndK 133 3 (ndK 132 2 (ndK 131 1 .nil
    .nil) .nil) (ndK 134 1 .nil .nil))) (ndK 140 4 (ndK 138 3 (ndK 137 2 (ndK 136 1 .nil .nil) .nil) (ndK 139
    1 .nil .nil)) (ndK 142 2 (ndK 141 1 .nil .nil) .nil))))) (ndK 198 7 (ndK 177 6 (ndK 164 5 (ndK 156 4 (ndK
    151 3 (ndK 148 2 (ndK 146 1 .nil .nil) (ndK 150 1 .nil .nil)) (ndK 154 2 (ndK 153 1 .nil .nil) (ndK 155 1
    .nil .nil))) (ndK 161 3 (ndK 159 2 (ndK 158 1 .nil .nil) (ndK 160 1 .nil .nil)) (ndK 163 2 (ndK 162 1 .nil
    .nil) .nil))) (ndK 172 4 (ndK 169 3 (ndK 167 2 (ndK 166 1 .nil .nil) (ndK 168 1 .nil .nil)) (ndK 171 2
    (ndK 170 1 .nil .nil) .nil)) (ndK 175 3 (ndK 174 2 (ndK 173 1 .nil .nil) .nil) (ndK 176 1 .nil .nil))))
    (ndK 190 5 (ndK 185 4 (ndK 182 3 (ndK 180 2 (ndK 179 1 .nil .nil) (ndK 181 1 .nil .nil)) (ndK 184 1 .nil
    .nil)) (ndK 188 2 (ndK 187 1 .nil .nil) (ndK 189 1 .nil .nil))) (ndK 195 3 (ndK 193 2 (ndK 192 1 .nil
    .nil) (ndK 194 1 .nil .nil)) (ndK 197 2 (ndK 196 1 .nil .nil) .nil)))) (ndK 219 5 (ndK 211 4 (ndK 206 3
    (ndK 203 2 (ndK 201 1 .nil .nil) (ndK 205 1 .nil .nil)) (ndK 209 2 (ndK 208 1 .nil .nil) (ndK 210 1 .nil
    .nil))) (ndK 216 3 (ndK 214 2 (ndK 213 1 .nil .nil) (ndK 215 1 .nil .nil)) (ndK 218 2 (ndK 217 1 .nil
    .nil) .nil))) (ndK 227 4 (ndK 224 3 (ndK 222 2 (ndK 221 1 .nil .nil) (ndK 223 1 .nil .nil)) (ndK 226 2
    (ndK 225 1 .nil .nil) .nil)) (ndK 230 3 (ndK 229 2 (ndK 228 1 .nil .nil) .nil) (ndK 231 1 .nil .nil))))))
    (ndK 321 7 (ndK 287 6 (ndK 266 5 (ndK 253 4 (ndK 245 3 (ndK 240 2 (ndK 237 1 .nil .nil) (ndK 243 1 .nil
    .nil)) (ndK 250 2 (ndK 248 1 .nil .nil) (ndK 252 1 .nil .nil))) (ndK 261 3 (ndK 258 2 (ndK 256 1 .nil
    .nil) (ndK 260 1 .nil .nil)) (ndK 264 2 (ndK 263 1 .nil .nil) (ndK 265 1 .nil .nil)))) (ndK 279 4 (ndK 274
    3 (ndK 271 2 (ndK 269 1 .nil .nil) (ndK 273 1 .nil .nil)) (ndK 277 2 (ndK 276 1 .nil .nil) (ndK 278 1 .nil
    .nil))) (ndK 284 3 (ndK 282 2 (ndK 281 1 .nil .nil) (ndK 283 1 .nil .nil)) (ndK 286 2 (ndK 285 1 .nil
    .nil) .nil)))) (ndK 308 5 (ndK 300 4 (ndK 295 3 (ndK 292 2 (ndK 290 1 .nil .nil) (ndK 294 1 .nil .nil))
    (ndK 298 2 (ndK 297 1 .nil .nil) (ndK 299 1 .nil .nil))) (ndK 305 3 (ndK 303 2 (ndK 302 1 .nil .nil) (ndK
    304 1 .nil .nil)) (ndK 307 2 (ndK 306 1 .nil .nil) .nil))) (ndK 316 4 (ndK 313 3 (ndK 311 2 (ndK 310 1
    .nil .nil) (ndK 312 1 .nil .nil)) (ndK 315 2 (ndK 314 1 .nil .nil) .nil)) (ndK 319 3 (ndK 318 2 (ndK 317 1
    .nil .nil) .nil) (ndK 320 1 .nil .nil))))) (ndK 355 6 (ndK 342 5 (ndK 334 4 (ndK 329 3 (ndK 326 2 (ndK 324
    1 .nil .nil) (ndK 328 1 .nil .nil)) (ndK 332 2 (ndK 331 1 .nil .nil) (ndK 333 1 .nil .nil))) (ndK 339 3
    (ndK 337 2 (ndK 336 1 .nil .nil) (ndK 338 1 .nil .nil)) (ndK 341 2 (ndK 340 1 .nil .nil) .nil))) (ndK 350
    4 (ndK 347 3 (ndK 345 2 (ndK 344 1 .nil .nil) (ndK 346 1 .nil .nil)) (ndK 349 2 (ndK 348 1 .nil .nil)
    .nil)) (ndK 353 3 (ndK 352 2 (ndK 351 1 .nil .nil) .nil) (ndK 354 1 .nil .nil)))) (ndK 368 5 (ndK 363 4
    (ndK 360 3 (ndK 358 2 (ndK 357 1 .nil .nil) (ndK 359 1 .nil .nil)) (ndK 362 2 (ndK 361 1 .nil .nil) .nil))
    (ndK 366 3 (ndK 365 2 (ndK 364 1 .nil .nil) .nil) (ndK 367 1 .nil .nil))) (ndK 373 4 (ndK 371 3 (ndK 370 2
    (ndK 369 1 .nil .nil) .nil) (ndK 372 1 .nil .nil)) (ndK 375 2 (ndK 374 1 .nil .nil) .nil)))))) (ndK 520 8
    (ndK 465 7 (ndK 431 6 (ndK 410 5 (ndK 397 4 (ndK 389 3 (ndK 384 2 (ndK 381 1 .nil .nil) (ndK 387 1 .nil
    .nil)) (ndK 394 2 (ndK 392 1 .nil .nil) (ndK 396 1 .nil .nil))) (ndK 405 3 (ndK 402 2 (ndK 400 1 .nil
    .nil) (ndK 404 1 .nil .nil)) (ndK 408 2 (ndK 407 1 .nil .nil) (ndK 409 1 .nil .nil)))) (ndK 423 4 (ndK 418
    3 (ndK 415 2 (ndK 413 1 .nil .nil) (ndK 417 1 .nil .nil)) (ndK 421 2 (ndK 420 1 .nil .nil) (ndK 422 1 .nil
    .nil))) (ndK 428 3 (ndK 426 2 (ndK 425 1 .nil .nil) (ndK 427 1 .nil .nil)) (ndK 430 2 (ndK 429 1 .nil
    .nil) .nil)))) (ndK 452 5 (ndK 444 4 (ndK 439 3 (ndK 436 2 (ndK 434 1 .nil .nil) (ndK 438 1 .nil .nil))
    (ndK 442 2 (ndK 441 1 .nil .nil) (ndK 443 1 .nil .nil))) (ndK 449 3 (ndK 447 2 (ndK 446 1 .nil .nil) (ndK
    448 1 .nil .nil)) (ndK 451 2 (ndK 450 1 .nil .nil) .nil))) (ndK 460 4 (ndK 457 3 (ndK 455 2 (ndK 454 1
    .nil .nil) (ndK 456 1 .nil .nil)) (ndK 459 2 (ndK 458 1 .nil .nil) .nil)) (ndK 463 3 (ndK 462 2 (ndK 461 1
    .nil .nil) .nil) (ndK 464 1 .nil .nil))))) (ndK 499 6 (ndK 486 5 (ndK 478 4 (ndK 473 3 (ndK 470 2 (ndK 468
    1 .nil .nil) (ndK 472 1 .nil .nil)) (ndK 476 2 (ndK 475 1 .nil .nil) (ndK 477 1 .nil .nil))) (ndK 483 3
    (ndK 481 2 (ndK 480 1 .nil .nil) (ndK 482 1 .nil .nil)) (ndK 485 2 (ndK 484 1 .nil .nil) .nil))) (ndK 494
    4 (ndK 491 3 (ndK 489 2 (ndK 488 1 .nil .nil) (ndK 490 1 .nil .nil)) (ndK 493 2 (ndK 492 1 .nil .nil)
    .nil)) (ndK 497 3 (ndK 496 2 (ndK 495 1 .nil .nil) .nil) (ndK 498 1 .nil .nil)))) (ndK 512 5 (ndK 507 4
    (ndK 504 3 (ndK 502 2 (ndK 501 1 .nil .nil) (ndK 503 1 .nil .nil)) (ndK 506 2 (ndK 505 1 .nil .nil) .nil))
    (ndK 510 3 (ndK 509 2 (ndK 508 1 .nil .nil) .nil) (ndK 511 1 .nil .nil))) (ndK 517 4 (ndK 515 3 (ndK 514 2
    (ndK 513 1 .nil .nil) .nil) (ndK 516 1 .nil .nil)) (ndK 519 2 (ndK 518 1 .nil .nil) .nil))))) (ndK 575 7
    (ndK 554 6 (ndK 541 5 (ndK 533 4 (ndK 528 3 (ndK 525 2 (ndK 523 1 .nil .nil) (ndK 527 1 .nil .nil)) (ndK
    531 2 (ndK 530 1 .nil .nil) (ndK 532 1 .nil .nil))) (ndK 538 3 (ndK 536 2 (ndK 535 1 .nil .nil) (ndK 537 1
    .nil .nil)) (ndK 540 2 (ndK 539 1 .nil .nil) .nil))) (ndK 549 4 (ndK 546 3 (ndK 544 2 (ndK 543 1 .nil
    .nil) (ndK 545 1 .nil .nil)) (ndK 548 2 (ndK 547 1 .nil .nil) .nil)) (ndK 552 3 (ndK 551 2 (ndK 550 1 .nil
    .nil) .nil) (ndK 553 1 .nil .nil)))) (ndK 567 5 (ndK 562 4 (ndK 559 3 (ndK 557 2 (ndK 556 1 .nil .nil)
    (ndK 558 1 .nil .nil)) (ndK 561 2 (ndK 560 1 .nil .nil) .nil)) (ndK 565 3 (ndK 564 2 (ndK 563 1 .nil .nil)
    .nil) (ndK 566 1 .nil .nil))) (ndK 572 4 (ndK 570 3 (ndK 569 2 (ndK 568 1 .nil .nil) .nil) (ndK 571 1 .nil
    .nil)) (ndK 574 2 (ndK 573 1 .nil .nil) .nil)))) (ndK 596 6 (ndK 588 5 (ndK 583 4 (ndK 580 3 (ndK 578 2
    (ndK 577 1 .nil .nil) (ndK 579 1 .nil .nil)) (ndK 582 2 (ndK 581 1 .nil .nil) .nil)) (ndK 586 3 (ndK 585 2
    (ndK 584 1 .nil .nil) .nil) (ndK 587 1 .nil .nil))) (ndK 593 4 (ndK 591 3 (ndK 590 2 (ndK 589 1 .nil .nil)
    .nil) (ndK 592 1 .nil .nil)) (ndK 595 2 (ndK 594 1 .nil .nil) .nil))) (ndK 604 5 (ndK 601 4 (ndK 599 3
    (ndK 598 2 (ndK 597 1 .nil .nil) .nil) (ndK 600 1 .nil .nil)) (ndK 603 2 (ndK 602 1 .nil .nil) .nil)) (ndK
    607 3 (ndK 606 2 (ndK 605 1 .nil .nil) .nil) (ndK 608 1 .nil .nil)))))))

/-- The tree after the first 480 inserts of `ops609`. -/
def t609c32 : AVLNode :=
  (ndK 376 10 (ndK 232 9 (ndK 143 8 (ndK 88 7 (ndK 54 6 (ndK 33 5 (ndK 20 4 (ndK 12 3 (ndK 7 2 (ndK 4 1 .nil
    .nil) (ndK 10 1 .nil .nil)) (ndK 17 2 (ndK 15 1 .nil .nil) (ndK 19 1 .nil .nil))) (ndK 28 3 (ndK 25 2 (ndK
    23 1 .nil .nil) (ndK 27 1 .nil .nil)) (ndK 31 2 (ndK 30 1 .nil .nil) (ndK 32 1 .nil .nil)))) (ndK 46 4
    (ndK 41 3 (ndK 38 2 (ndK 36 1 .nil .nil) (ndK 40 1 .nil .nil)) (ndK 44 2 (ndK 43 1 .nil .nil) (ndK 45 1
    .nil .nil))) (ndK 51 3 (ndK 49 2 (ndK 48 1 .nil .nil) (ndK 50 1 .nil .nil)) (ndK 53 2 (ndK 52 1 .nil .nil)
    .nil)))) (ndK 75 5 (ndK 67 4 (ndK 62 3 (ndK 59 2 (ndK 57 1 .nil .nil) (ndK 61 1 .nil .nil)) (ndK 65 2 (ndK
    64 1 .nil .nil) (ndK 66 1 .nil .nil))) (ndK 72 3 (ndK 70 2 (ndK 69 1 .nil .nil) (ndK 71 1 .nil .nil)) (ndK
    74 2 (ndK 73 1 .nil .nil) .nil))) (ndK 83 4 (ndK 80 3 (ndK 78 2 (ndK 77 1 .nil .nil) (ndK 79 1 .nil .nil))
    (ndK 82 2 (ndK 81 1 .nil .nil) .nil)) (ndK 86 3 (ndK 85 2 (ndK 84 1 .nil .nil) .nil) (ndK 87 1 .nil
    .nil))))) (ndK 122 6 (ndK 109 5 (ndK 101 4 (ndK 96 3 (ndK 93 2 (ndK 91 1 .nil .nil) (ndK 95 1 .nil .nil))
    (ndK 99 2 (ndK 98 1 .nil .nil) (ndK 100 1 .nil .nil))) (ndK 106 3 (ndK 104 2 (ndK 103 1 .nil .nil) (ndK
    105 1 .nil .nil)) (ndK 108 2 (ndK 107 1 .nil .nil) .nil))) (ndK 117 4 (ndK 114 3 (ndK 112 2 (ndK 111 1
    .nil .nil) (ndK 113 1 .nil .nil)) (ndK 116 2 (ndK 115 1 .nil .nil) .nil)) (ndK 120 3 (ndK 119 2 (ndK 118 1
    .nil .nil) .nil) (ndK 121 1 .nil .nil)))) (ndK 135 5 (ndK 130 4 (ndK 127 3 (ndK 125 2 (ndK 124 1 .nil
    .nil) (ndK 126 1 .nil .nil)) (ndK 129 2 (ndK 128 1 .nil .nil) .nil)) (ndK 133 3 (ndK 132 2 (ndK 131 1 .nil
    .nil) .nil) (ndK 134 1 .nil .nil))) (ndK 140 4 (ndK 138 3 (ndK 137 2 (ndK 136 1 .nil .nil) .nil) (ndK 139
    1 .nil .nil)) (ndK 142 2 (ndK 141 1 .nil .nil) .nil))))) (ndK 198 7 (ndK 177 6 (ndK 164 5 (ndK 156 4 (ndK
    151 3 (ndK 148 2 (ndK 146 1 .nil .nil) (ndK 150 1 .nil .nil)) (ndK 154 2 (ndK 153 1 .nil .nil) (ndK 155 1
    .nil .nil))) (ndK 161 3 (ndK 159 2 (ndK 158 1 .nil .nil) (ndK 160 1 .nil .nil)) (ndK 163 2 (ndK 162 1 .nil
    .nil) .nil))) (ndK 172 4 (ndK 169 3 (ndK 167 2 (ndK 166 1 .nil .nil) (ndK 168 1 .nil .nil)) (ndK 171 2
    (ndK 170 1 .nil .nil) .nil)) (ndK 175 3 (ndK 174 2 (ndK 173 1 .nil .nil) .nil) (ndK 176 1 .nil .nil))))
    (ndK 190 5 (ndK 185 4 (ndK 182 3 (ndK 180 2 (ndK 179 1 .nil .nil) (ndK 181 1 .nil .nil)) (ndK 184 2 (ndK
    183 1 .nil .nil) .nil)) (ndK 188 3 (ndK 187 2 (ndK 186 1 .nil .nil) .nil) (ndK 189 1 .nil .nil))) (ndK 195
    4 (ndK 193 3 (ndK 192 2 (ndK 191 1 .nil .nil) .nil) (ndK 194 1 .nil .nil)) (ndK 197 2 (ndK 196 1 .nil
    .nil) .nil)))) (ndK 219 6 (ndK 211 5 (ndK 206 4 (ndK 203 3 (ndK 201 2 (ndK 200 1 .nil .nil) (ndK 202 1
    .nil .nil)) (ndK 205 2 (ndK 204 1 .nil .nil) .nil)) (ndK 209 3 (ndK 208 2 (ndK 207 1 .nil .nil) .nil) (ndK
    210 1 .nil .nil))) (ndK 216 4 (ndK 214 3 (ndK 213 2 (ndK 212 1 .nil .nil) .nil) (ndK 215 1 .nil .nil))
    (ndK 218 2 (ndK 217 1 .nil .nil) .nil))) (ndK 227 5 (ndK 224 4 (ndK 222 3 (ndK 221 2 (ndK 220 1 .nil .nil)
    .nil) (ndK 223 1 .nil .nil)) (ndK 226 2 (ndK 225 1 .nil .nil) .nil)) (ndK 230 3 (ndK 229 2 (ndK 228 1 .nil
    .nil) .nil) (ndK 231 1 .nil .nil)))))) (ndK 321 8 (ndK 287 7 (ndK 266 6 (ndK 253 5 (ndK 245 4 (ndK 240 3
    (ndK 237 2 (ndK 235 1 .nil .nil) (ndK 239 1 .nil .nil)) (ndK 243 2 (ndK 242 1 .nil .nil) (ndK 244 1 .nil
    .nil))) (ndK 250 3 (ndK 248 2 (ndK 247 1 .nil .nil) (ndK 249 1 .nil .nil)) (ndK 252 1 .nil .nil))) (ndK
    261 3 (ndK 258 2 (ndK 256 1 .nil .nil) (ndK 260 1 .nil .nil)) (ndK 264 2 (ndK 263 1 .nil .nil) (ndK 265 1
    .nil .nil)))) (ndK 279 4 (ndK 274 3 (ndK 271 2 (ndK 269 1 .nil .nil) (ndK 273 1 .nil .nil)) (ndK 277 2
    (ndK 276 1 .nil .nil) (ndK 278 1 .nil .nil))) (ndK 284 3 (ndK 282 2 (ndK 281 1 .nil .nil) (ndK 283 1 .nil
    .nil)) (ndK 286 2 (ndK 285 1 .nil .nil) .nil)))) (ndK 308 5 (ndK 300 4 (ndK 295 3 (ndK 292 2 (ndK 290 1
    .nil .nil) (ndK 294 1 .nil .nil)) (ndK 298 2 (ndK 297 1 .nil .nil) (ndK 299 1 .nil .nil))) (ndK 305 3 (ndK
    303 2 (ndK 302 1 .nil .nil) (ndK 304 1 .nil .nil)) (ndK 307 2 (ndK 306 1 .nil .nil) .nil))) (ndK 316 4
    (ndK 313 3 (ndK 311 2 (ndK 310 1 .nil .nil) (ndK 312 1 .nil .nil)) (ndK 315 2 (ndK 314 1 .nil .nil) .nil))
    (ndK 319 3 (ndK 318 2 (ndK 317 1 .nil .nil) .nil) (ndK 320 1 .nil .nil))))) (ndK 355 6 (ndK 342 5 (ndK 334
    4 (ndK 329 3 (ndK 326 2 (ndK 324 1 .nil .nil) (ndK 328 1 .nil .nil)) (ndK 332 2 (ndK 331 1 .nil .nil) (ndK
    333 1 .nil .nil))) (ndK 339 3 (ndK 337 2 (ndK 336 1 .nil .nil) (ndK 338 1 .nil .nil)) (ndK 341 2 (ndK 340
    1 .nil .nil) .nil))) (ndK 350 4 (ndK 347 3 (ndK 345 2 (ndK 344 1 .nil .nil) (ndK 346 1 .nil .nil)) (ndK
    349 2 (ndK 348 1 .nil .nil) .nil)) (ndK 353 3 (ndK 352 2 (ndK 351 1 .nil .nil) .nil) (ndK 354 1 .nil
    .nil)))) (ndK 368 5 (ndK 363 4 (ndK 360 3 (ndK 358 2 (ndK 357 1 .nil .nil) (ndK 359 1 .nil .nil)) (ndK 362
    2 (ndK 361 1 .nil .nil) .nil)) (ndK 366 3 (ndK 365 2 (ndK 364 1 .nil .nil) .nil) (ndK 367 1 .nil .nil)))
    (ndK 373 4 (ndK 371 3 (ndK 370 2 (ndK 369 1 .nil .nil) .nil) (ndK 372 1 .nil .nil)) (ndK 375 2 (ndK 374 1
    .nil .nil) .nil)))))) (ndK 520 8 (ndK 465 7 (ndK 431 6 (ndK 410 5 (ndK 397 4 (ndK 389 3 (ndK 384 2 (ndK
    381 1 .nil .nil) (ndK 387 1 .nil .nil)) (ndK 394 2 (ndK 392 1 .nil .nil) (ndK 396 1 .nil .nil))) (ndK 405
    3 (ndK 402 2 (ndK 400 1 .nil .nil) (ndK 404 1 .nil .nil)) (ndK 408 2 (ndK 407 1 .nil .nil) (ndK 409 1 .nil
    .nil)))) (ndK 423 4 (ndK 418 3 (ndK 415 2 (ndK 413 1 .nil .nil) (ndK 417 1 .nil .nil)) (ndK 421 2 (ndK 420
    1 .nil .nil) (ndK 422 1 .nil .nil))) (ndK 428 3 (ndK 426 2 (ndK 425 1 .nil .nil) (ndK 427 1 .nil .nil))
    (ndK 430 2 (ndK 429 1 .nil .nil) .nil)))) (ndK 452 5 (ndK 444 4 (ndK 439 3 (ndK 436 2 (ndK 434 1 .nil
    .nil) (ndK 438 1 .nil .nil)) (ndK 442 2 (ndK 441 1 .nil .nil) (ndK 443 1 .nil .nil))) (ndK 449 3 (ndK 447
    2 (ndK 446 1 .nil .nil) (ndK 448 1 .nil .nil)) (ndK 451 2 (ndK 450 1 .nil .nil) .nil))) (ndK 460 4 (ndK
    457 3 (ndK 455 2 (ndK 454 1 .nil .nil) (ndK 456 1 .nil .nil)) (ndK 459 2 (ndK 458 1 .nil .nil) .nil)) (ndK
    463 3 (ndK 462 2 (ndK 461 1 .nil .nil) .nil) (ndK 464 1 .nil .nil))))) (ndK 499 6 (ndK 486 5 (ndK 478 4
    (ndK 473 3 (ndK 470 2 (ndK 468 1 .nil .nil) (ndK 472 1 .nil .nil)) (ndK 476 2 (ndK 475 1 .nil .nil) (ndK
    477 1 .nil .nil))) (ndK 483 3 (ndK 481 2 (ndK 480 1 .nil .nil) (ndK 482 1 .nil .nil)) (ndK 485 2 (ndK 484
    1 .nil .nil) .nil))) (ndK 494 4 (ndK 491 3 (ndK 489 2 (ndK 488 1 .nil .nil) (ndK 490 1 .nil .nil)) (ndK
    493 2 (ndK 492 1 .nil .nil) .nil)) (ndK 497 3 (ndK 496 2 (ndK 495 1 .nil .nil) .nil) (ndK 498 1 .nil
    .nil)))) (ndK 512 5 (ndK 507 4 (ndK 504 3 (ndK 502 2 (ndK 501 1 .nil .nil) (ndK 503 1 .nil .nil)) (ndK 506
    2 (ndK 505 1 .nil .nil) .nil)) (ndK 510 3 (ndK 509 2 (ndK 508 1 .nil .nil) .nil) (ndK 511 1 .nil .nil)))
    (ndK 517 4 (ndK 515 3 (ndK 514 2 (ndK 513 1 .nil .nil) .nil) (ndK 516 1 .nil .nil)) (ndK 519 2 (ndK 518 1
    .nil .nil) .nil))))) (ndK 575 7 (ndK 554 6 (ndK 541 5 (ndK 533 4 (ndK 528 3 (ndK 525 2 (ndK 523 1 .nil
    .nil) (ndK 527 1 .nil .nil)) (ndK 531 2 (ndK 530 1 .nil .nil) (ndK 532 1 .nil .nil))) (ndK 538 3 (ndK 536
    2 (ndK 535 1 .nil .nil) (ndK 537 1 .nil .nil)) (ndK 540 2 (ndK 539 1 .nil .nil) .nil))) (ndK 549 4 (ndK
    546 3 (ndK 544 2 (ndK 543 1 .nil .nil) (ndK 545 1 .nil .nil)) (ndK 548 2 (ndK 547 1 .nil .nil) .nil)) (ndK
    552 3 (ndK 551 2 (ndK 550 1 .nil .nil) .nil) (ndK 553 1 .nil .nil)))) (ndK 567 5 (ndK 562 4 (ndK 559 3
    (ndK 557 2 (ndK 556 1 .nil .nil) (ndK 558 1 .nil .nil)) (ndK 561 2 (ndK 560 1 .nil .nil) .nil)) (ndK 565 3
    (ndK 564 2 (ndK 563 1 .nil .nil) .nil) (ndK 566 1 .nil .nil))) (ndK 572 4 (ndK 570 3 (ndK 569 2 (ndK 568 1
    .nil .nil) .nil) (ndK 571 1 .nil .nil)) (ndK 574 2 (ndK 573 1 .nil .nil) .nil)))) (ndK 596 6 (ndK 588 5
    (ndK 583 4 (ndK 580 3 (ndK 578 2 (ndK 577 1 .nil .nil) (ndK 579 1 .nil .nil)) (ndK 582 2 (ndK 581 1 .nil
    .nil) .nil)) (ndK 586 3 (ndK 585 2 (ndK 584 1 .nil .nil) .nil) (ndK 587 1 .nil .nil))) (ndK 593 4 (ndK 591
    3 (ndK 590 2 (ndK 589 1 .nil .nil) .nil) (ndK 592 1 .nil .nil)) (ndK 595 2 (ndK 594 1 .nil .nil) .nil)))
    (ndK 604 5 (ndK 601 4 (ndK 599 3 (ndK 598 2 (ndK 597 1 .nil .nil) .nil) (ndK 600 1 .nil .nil)) (ndK 603 2
    (ndK 602 1 .nil .nil) .nil)) (ndK 607 3 (ndK 606 2 (ndK 605 1 .nil .nil) .nil) (ndK 608 1 .nil .nil)))))))

/-- The tree after the first 495 inserts of `ops609`. -/
def t609c33 : AVLNode :=
  (ndK 376 10 (ndK 232 9 (ndK 143 8 (ndK 88 7 (ndK 54 6 (ndK 33 5 (ndK 20 4 (ndK 12 3 (ndK 7 2 (ndK 4 1 .nil
    .nil) (ndK 10 1 .nil .nil)) (ndK 17 2 (ndK 15 1 .nil .nil) (ndK 19 1 .nil .nil))) (ndK 28 3 (ndK 25 2 (ndK
    23 1 .nil .nil) (ndK 27 1 .nil .nil)) (ndK 31 2 (ndK 30 1 .nil .nil) (ndK 32 1 .nil .nil)))) (ndK 46 4
    (ndK 41 3 (ndK 38 2 (ndK 36 1 .nil .nil) (ndK 40 1 .nil .nil)) (ndK 44 2 (ndK 43 1 .nil .nil) (ndK 45 1
    .nil .nil))) (ndK 51 3 (ndK 49 2 (ndK 48 1 .nil .nil) (ndK 50 1 .nil .nil)) (ndK 53 2 (ndK 52 1 .nil .nil)
    .nil)))) (ndK 75 5 (ndK 67 4 (ndK 62 3 (ndK 59 2 (ndK 57 1 .nil .nil) (ndK 61 1 .nil .nil)) (ndK 65 2 (ndK
    64 1 .nil .nil) (ndK 66 1 .nil .nil))) (ndK 72 3 (ndK 70 2 (ndK 69 1 .nil .nil) (ndK 71 1 .nil .nil)) (ndK
    74 2 (ndK 73 1 .nil .nil) .nil))) (ndK 83 4 (ndK 80 3 (ndK 78 2 (ndK 77 1 .nil .nil) (ndK 79 1 .nil .nil))
    (ndK 82 2 (ndK 81 1 .nil .nil) .nil)) (ndK 86 3 (ndK 85 2 (ndK 84 1 .nil .nil) .nil) (ndK 87 1 .nil
    .nil))))) (ndK 122 6 (ndK 109 5 (ndK 101 4 (ndK 96 3 (ndK 93 2 (ndK 91 1 .nil .nil) (ndK 95 1 .nil .nil))
    (ndK 99 2 (ndK 98 1 .nil .nil) (ndK 100 1 .nil .nil))) (ndK 106 3 (ndK 104 2 (ndK 103 1 .nil .nil) (ndK
    105 1 .nil .nil)) (ndK 108 2 (ndK 107 1 .nil .nil) .nil))) (ndK 117 4 (ndK 114 3 (ndK 112 2 (ndK 111 1
    .nil .nil) (ndK 113 1 .nil .nil)) (ndK 116 2 (ndK 115 1 .nil .nil) .nil)) (ndK 120 3 (ndK 119 2 (ndK 118 1
    .nil .nil) .nil) (ndK 121 1 .nil .nil)))) (ndK 135 5 (ndK 130 4 (ndK 127 3 (ndK 125 2 (ndK 124 1 .nil
    .nil) (ndK 126 1 .nil .nil)) (ndK 129 2 (ndK 128 1 .nil .nil) .nil)) (ndK 133 3 (ndK 132 2 (ndK 131 1 .nil
    .nil) .nil) (ndK 134 1 .nil .nil))) (ndK 140 4 (ndK 138 3 (ndK 137 2 (ndK 136 1 .nil .nil) .nil) (ndK 139
    1 .nil .nil)) (ndK 142 2 (ndK 141 1 .nil .nil) .nil))))) (ndK 198 7 (ndK 177 6 (ndK 164 5 (ndK 156 4 (ndK
    151 3 (ndK 148 2 (ndK 146 1 .nil .nil) (ndK 150 1 .nil .nil)) (ndK 154 2 (ndK 153 1 .nil .nil) (ndK 155 1
    .nil .nil))) (ndK 161 3 (ndK 159 2 (ndK 158 1 .nil .nil) (ndK 160 1 .nil .nil)) (ndK 163 2 (ndK 162 1 .nil
    .nil) .nil))) (ndK 172 4 (ndK 169 3 (ndK 167 2 (ndK 166 1 .nil .nil) (ndK 168 1 .nil .nil)) (ndK 171 2
    (ndK 170 1 .nil .nil) .nil)) (ndK 175 3 (ndK 174 2 (ndK 173 1 .nil .nil) .nil) (ndK 176 1 .nil .nil))))
    (ndK 190 5 (ndK 185 4 (ndK 182 3 (ndK 180 2 (ndK 179 1 .nil .nil) (ndK 181 1 .nil .nil)) (ndK 184 2 (ndK
    183 1 .nil .nil) .nil)) (ndK 188 3 (ndK 187 2 (ndK 186 1 .nil .nil) .nil) (ndK 189 1 .nil .nil))) (ndK 195
    4 (ndK 193 3 (ndK 192 2 (ndK 191 1 .nil .nil) .nil) (ndK 194 1 .nil .nil)) (ndK 197 2 (ndK 196 1 .nil
    .nil) .nil)))) (ndK 219 6 (ndK 211 5 (ndK 206 4 (ndK 203 3 (ndK 201 2 (ndK 200 1 .nil .nil) (ndK 202 1
    .nil .nil)) (ndK 205 2 (ndK 204 1 .nil .nil) .nil)) (ndK 209 3 (ndK 208 2 (ndK 207 1 .nil .nil) .nil) (ndK
    210 1 .nil .nil))) (ndK 216 4 (ndK 214 3 (ndK 213 2 (ndK 212 1 .nil .nil) .nil) (ndK 215 1 .nil .nil))
    (ndK 218 2 (ndK 217 1 .nil .nil) .nil))) (ndK 227 5 (ndK 224 4 (ndK 222 3 (ndK 221 2 (ndK 220 1 .nil .nil)
    .nil) (ndK 223 1 .nil .nil)) (ndK 226 2 (ndK 225 1 .nil .nil) .nil)) (ndK 230 3 (ndK 229 2 (ndK 228 1 .nil
    .nil) .nil) (ndK 231 1 .nil .nil)))))) (ndK 321 8 (ndK 287 7 (ndK 266 6 (ndK 253 5 (ndK 245 4 (ndK 240 3
    (ndK 237 2 (ndK 235 1 .nil .nil) (ndK 239 1 .nil .nil)) (ndK 243 2 (ndK 242 1 .nil .nil) (ndK 244 1 .nil
    .nil))) (ndK 250 3 (ndK 248 2 (ndK 247 1 .nil .nil) (ndK 249 1 .nil .nil)) (ndK 252 2 (ndK 251 1 .nil
    .nil) .nil))) (ndK 261 4 (ndK 258 3 (ndK 256 2 (ndK 255 1 .nil .nil) (ndK 257 1 .nil .nil)) (ndK 260 2
    (ndK 259 1 .nil .nil) .nil)) (ndK 264 3 (ndK 263 2 (ndK 262 1 .nil .nil) .nil) (ndK 265 1 .nil .nil))))
    (ndK 279 5 (ndK 274 4 (ndK 271 3 (ndK 269 2 (ndK 268 1 .nil .nil) (ndK 270 1 .nil .nil)) (ndK 273 2 (ndK
    272 1 .nil .nil) .nil)) (ndK 277 3 (ndK 276 2 (ndK 275 1 .nil .nil) .nil) (ndK 278 1 .nil .nil))) (ndK 284
    4 (ndK 282 3 (ndK 281 2 (ndK 280 1 .nil .nil) .nil) (ndK 283 1 .nil .nil)) (ndK 286 2 (ndK 285 1 .nil
    .nil) .nil)))) (ndK 308 6 (ndK 300 5 (ndK 295 4 (ndK 292 3 (ndK 290 2 (ndK 289 1 .nil .nil) (ndK 291 1
    .nil .nil)) (ndK 294 2 (ndK 293 1 .nil .nil) .nil)) (ndK 298 3 (ndK 297 2 (ndK 296 1 .nil .nil) .nil) (ndK
    299 1 .nil .nil))) (ndK 305 4 (ndK 303 3 (ndK 302 2 (ndK 301 1 .nil .nil) .nil) (ndK 304 1 .nil .nil))
    (ndK 307 2 (ndK 306 1 .nil .nil) .nil))) (ndK 316 4 (ndK 313 3 (ndK 311 2 (ndK 310 1 .nil .nil) (ndK 312 1
    .nil .nil)) (ndK 315 2 (ndK 314 1 .nil .nil) .nil)) (ndK 319 3 (ndK 318 2 (ndK 317 1 .nil .nil) .nil) (ndK
    320 1 .nil .nil))))) (ndK 355 6 (ndK 342 5 (ndK 334 4 (ndK 329 3 (ndK 326 2 (ndK 324 1 .nil .nil) (ndK 328
    1 .nil .nil)) (ndK 332 2 (ndK 331 1 .nil .nil) (ndK 333 1 .nil .nil))) (ndK 339 3 (ndK 337 2 (ndK 336 1
    .nil .nil) (ndK 338 1 .nil .nil)) (ndK 341 2 (ndK 340 1 .nil .nil) .nil))) (ndK 350 4 (ndK 347 3 (ndK 345
    2 (ndK 344 1 .nil .nil) (ndK 346 1 .nil .nil)) (ndK 349 2 (ndK 348 1 .nil .nil) .nil)) (ndK 353 3 (ndK 352
    2 (ndK 351 1 .nil .nil) .nil) (ndK 354 1 .nil .nil)))) (ndK 368 5 (ndK 363 4 (ndK 360 3 (ndK 358 2 (ndK
    357 1 .nil .nil) (ndK 359 1 .nil .nil)) (ndK 362 2 (ndK 361 1 .nil .nil) .nil)) (ndK 366 3 (ndK 365 2 (ndK
    364 1 .nil .nil) .nil) (ndK 367 1 .nil .nil))) (ndK 373 4 (ndK 371 3 (ndK 370 2 (ndK 369 1 .nil .nil)
    .nil) (ndK 372 1 .nil .nil)) (ndK 375 2 (ndK 374 1 .nil .nil) .nil)))))) (ndK 520 8 (ndK 465 7 (ndK 431 6
    (ndK 410 5 (ndK 397 4 (ndK 389 3 (ndK 384 2 (ndK 381 1 .nil .nil) (ndK 387 1 .nil .nil)) (ndK 394 2 (ndK
    392 1 .nil .nil) (ndK 396 1 .nil .nil))) (ndK 405 3 (ndK 402 2 (ndK 400 1 .nil .nil) (ndK 404 1 .nil
    .nil)) (ndK 408 2 (ndK 407 1 .nil .nil) (ndK 409 1 .nil .nil)))) (ndK 423 4 (ndK 418 3 (ndK 415 2 (ndK 413
    1 .nil .nil) (ndK 417 1 .nil .nil)) (ndK 421 2 (ndK 420 1 .nil .nil) (ndK 422 1 .nil .nil))) (ndK 428 3
    (ndK 426 2 (ndK 425 1 .nil .nil) (ndK 427 1 .nil .nil)) (ndK 430 2 (ndK 429 1 .nil .nil) .nil)))) (ndK 452
    5 (ndK 444 4 (ndK 439 3 (ndK 436 2 (ndK 434 1 .nil .nil) (ndK 438 1 .nil .nil)) (ndK 442 2 (ndK 441 1 .nil
    .nil) (ndK 443 1 .nil .nil))) (ndK 449 3 (ndK 447 2 (ndK 446 1 .nil .nil) (ndK 448 1 .nil .nil)) (ndK 451
    2 (ndK 450 1 .nil .nil) .nil))) (ndK 460 4 (ndK 457 3 (ndK 455 2 (ndK 454 1 .nil .nil) (ndK 456 1 .nil
    .nil)) (ndK 459 2 (ndK 458 1 .nil .nil) .nil)) (ndK 463 3 (ndK 462 2 (ndK 461 1 .nil .nil) .nil) (ndK 464
    1 .nil .nil))))) (ndK 499 6 (ndK 486 5 (ndK 478 4 (ndK 473 3 (ndK 470 2 (ndK 468 1 .nil .nil) (ndK 472 1
    .nil .nil)) (ndK 476 2 (ndK 475 1 .nil .nil) (ndK 477 1 .nil .nil))) (ndK 483 3 (ndK 481 2 (ndK 480 1 .nil
    .nil) (ndK 482 1 .nil .nil)) (ndK 485 2 (ndK 484 1 .nil .nil) .nil))) (ndK 494 4 (ndK 491 3 (ndK 489 2
    (ndK 488 1 .nil .nil) (ndK 490 1 .nil .nil)) (ndK 493 2 (ndK 492 1 .nil .nil) .nil)) (ndK 497 3 (ndK 496 2
    (ndK 495 1 .nil .nil) .nil) (ndK 498 1 .nil .nil)))) (ndK 512 5 (ndK 507 4 (ndK 504 3 (ndK 502 2 (ndK 501
    1 .nil .nil) (ndK 503 1 .nil .nil)) (ndK 506 2 (ndK 505 1 .nil .nil) .nil)) (ndK 510 3 (ndK 509 2 (ndK 508
    1 .nil .nil) .nil) (ndK 511 1 .nil .nil))) (ndK 517 4 (ndK 515 3 (ndK 514 2 (ndK 513 1 .nil .nil) .nil)
    (ndK 516 1 .nil .nil)) (ndK 519 2 (ndK 518 1 .nil .nil) .nil))))) (ndK 575 7 (ndK 554 6 (ndK 541 5 (ndK
    533 4 (ndK 528 3 (ndK 525 2 (ndK 523 1 .nil .nil) (ndK 527 1 .nil .nil)) (ndK 531 2 (ndK 530 1 .nil .nil)
    (ndK 532 1 .nil .nil))) (ndK 538 3 (ndK 536 2 (ndK 535 1 .nil .nil) (ndK 537 1 .nil .nil)) (ndK 540 2 (ndK
    539 1 .nil .nil) .nil))) (ndK 549 4 (ndK 546 3 (ndK 544 2 (ndK 543 1 .nil .nil) (ndK 545 1 .nil .nil))
    (ndK 548 2 (ndK 547 1 .nil .nil) .nil)) (ndK 552 3 (ndK 551 2 (ndK 550 1 .nil .nil) .nil) (ndK 553 1 .nil
    .nil)))) (ndK 567 5 (ndK 562 4 (ndK 559 3 (ndK 557 2 (ndK 556 1 .nil .nil) (ndK 558 1 .nil .nil)) (ndK 561
    2 (ndK 560 1 .nil .nil) .nil)) (ndK 565 3 (ndK 564 2 (ndK 563 1 .nil .nil) .nil) (ndK 566 1 .nil .nil)))
    (ndK 572 4 (ndK 570 3 (ndK 569 2 (ndK 568 1 .nil .nil) .nil) (ndK 571 1 .nil .nil)) (ndK 574 2 (ndK 573 1
    .nil .nil) .nil)))) (ndK 596 6 (ndK 588 5 (ndK 583 4 (ndK 580 3 (ndK 578 2 (ndK 577 1 .nil .nil) (ndK 579
    1 .nil .nil)) (ndK 582 2 (ndK 581 1 .nil .nil) .nil)) (ndK 586 3 (ndK 585 2 (ndK 584 1 .nil .nil) .nil)
    (ndK 587 1 .nil .nil))) (ndK 593 4 (ndK 591 3 (ndK 590 2 (ndK 589 1 .nil .nil) .nil) (ndK 592 1 .nil
    .nil)) (ndK 595 2 (ndK 594 1 .nil .nil) .nil))) (ndK 604 5 (ndK 601 4 (ndK 599 3 (ndK 598 2 (ndK 597 1
    .nil .nil) .nil) (ndK 600 1 .nil .nil)) (ndK 603 2 (ndK 602 1 .nil .nil) .nil)) (ndK 607 3 (ndK 606 2 (ndK
    605 1 .nil .nil) .nil) (ndK 608 1 .nil .nil)))))))

/-- The tree after the first 510 inserts of `ops609`. -/
def t609c34 : AVLNode :=
  (ndK 376 10 (ndK 232 9 (ndK 143 8 (ndK 88 7 (ndK 54 6 (ndK 33 5 (ndK 20 4 (ndK 12 3 (ndK 7 2 (ndK 4 1 .nil
    .nil) (ndK 10 1 .nil .nil)) (ndK 17 2 (ndK 15 1 .nil .nil) (ndK 19 1 .nil .nil))) (ndK 28 3 (ndK 25 2 (ndK
    23 1 .nil .nil) (ndK 27 1 .nil .nil)) (ndK 31 2 (ndK 30 1 .nil .nil) (ndK 32 1 .nil .nil)))) (ndK 46 4
    (ndK 41 3 (ndK 38 2 (ndK 36 1 .nil .nil) (ndK 40 1 .nil .nil)) (ndK 44 2 (ndK 43 1 .nil .nil) (ndK 45 1
    .nil .nil))) (ndK 51 3 (ndK 49 2 (ndK 48 1 .nil .nil) (ndK 50 1 .nil .nil)) (ndK 53 2 (ndK 52 1 .nil .nil)
    .nil)))) (ndK 75 5 (ndK 67 4 (ndK 62 3 (ndK 59 2 (ndK 57 1 .nil .nil) (ndK 61 1 .nil .nil)) (ndK 65 2 (ndK
    64 1 .nil .nil) (ndK 66 1 .nil .nil))) (ndK 72 3 (ndK 70 2 (ndK 69 1 .nil .nil) (ndK 71 1 .nil .nil)) (ndK
    74 2 (ndK 73 1 .nil .nil) .nil))) (ndK 83 4 (ndK 80 3 (ndK 78 2 (ndK 77 1 .nil .nil) (ndK 79 1 .nil .nil))
    (ndK 82 2 (ndK 81 1 .nil .nil) .nil)) (ndK 86 3 (ndK 85 2 (ndK 84 1 .nil .nil) .nil) (ndK 87 1 .nil
    .nil))))) (ndK 122 6 (ndK 109 5 (ndK 101 4 (ndK 96 3 (ndK 93 2 (ndK 91 1 .nil .nil) (ndK 95 1 .nil .nil))
    (ndK 99 2 (ndK 98 1 .nil .nil) (ndK 100 1 .nil .nil))) (ndK 106 3 (ndK 104 2 (ndK 103 1 .nil .nil) (ndK
    105 1 .nil .nil)) (ndK 108 2 (ndK 107 1 .nil .nil) .nil))) (ndK 117 4 (ndK 114 3 (ndK 112 2 (ndK 111 1
    .nil .nil) (ndK 113 1 .nil .nil)) (ndK 116 2 (ndK 115 1 .nil .nil) .nil)) (ndK 120 3 (ndK 119 2 (ndK 118 1
    .nil .nil) .nil) (ndK 121 1 .nil .nil)))) (ndK 135 5 (ndK 130 4 (ndK 127 3 (ndK 125 2 (ndK 124 1 .nil
    .nil) (ndK 126 1 .nil .nil)) (ndK 129 2 (ndK 128 1 .nil .nil) .nil)) (ndK 133 3 (ndK 132 2 (ndK 131 1 .nil
    .nil) .nil) (ndK 134 1 .nil .nil))) (ndK 140 4 (ndK 138 3 (ndK 137 2 (ndK 136 1 .nil .nil) .nil) (ndK 139
    1 .nil .nil)) (ndK 142 2 (ndK 141 1 .nil .nil) .nil))))) (ndK 198 7 (ndK 177 6 (ndK 164 5 (ndK 156 4 (ndK
    151 3 (ndK 148 2 (ndK 146 1 .nil .nil) (ndK 150 1 .nil .nil)) (ndK 154 2 (ndK 153 1 .nil .nil) (ndK 155 1
    .nil .nil))) (ndK 161 3 (ndK 159 2 (ndK 158 1 .nil .nil) (ndK 160 1 .nil .nil)) (ndK 163 2 (ndK 162 1 .nil
    .nil) .nil))) (ndK 172 4 (ndK 169 3 (ndK 167 2 (ndK 166 1 .nil .nil) (ndK 168 1 .nil .nil)) (ndK 171 2
    (ndK 170 1 .nil .nil) .nil)) (ndK 175 3 (ndK 174 2 (ndK 173 1 .nil .nil) .nil) (ndK 176 1 .nil .nil))))
    (ndK 190 5 (ndK 185 4 (ndK 182 3 (ndK 180 2 (ndK 179 1 .nil .nil) (ndK 181 1 .nil .nil)) (ndK 184 2 (ndK
    183 1 .nil .nil) .nil)) (ndK 188 3 (ndK 187 2 (ndK 186 1 .nil .nil) .nil) (ndK 189 1 .nil .nil))) (ndK 195
    4 (ndK 193 3 (ndK 192 2 (ndK 191 1 .nil .nil) .nil) (ndK 194 1 .nil .nil)) (ndK 197 2 (ndK 196 1 .nil
    .nil) .nil)))) (ndK 219 6 (ndK 211 5 (ndK 206 4 (ndK 203 3 (ndK 201 2 (ndK 200 1 .nil .nil) (ndK 202 1
    .nil .nil)) (ndK 205 2 (ndK 204 1 .nil .nil) .nil)) (ndK 209 3 (ndK 208 2 (ndK 207 1 .nil .nil) .nil) (ndK
    210 1 .nil .nil))) (ndK 216 4 (ndK 214 3 (ndK 213 2 (ndK 212 1 .nil .nil) .nil) (ndK 215 1 .nil .nil))
    (ndK 218 2 (ndK 217 1 .nil .nil) .nil))) (ndK 227 5 (ndK 224 4 (ndK 222 3 (ndK 221 2 (ndK 220 1 .nil .nil)
    .nil) (ndK 223 1 .nil .nil)) (ndK 226 2 (ndK 225 1 .nil .nil) .nil)) (ndK 230 3 (ndK 229 2 (ndK 228 1 .nil
    .nil) .nil) (ndK 231 1 .nil .nil)))))) (ndK 321 8 (ndK 287 7 (ndK 266 6 (ndK 253 5 (ndK 245 4 (ndK 240 3
    (ndK 237 2 (ndK 235 1 .nil .nil) (ndK 239 1 .nil .nil)) (ndK 243 2 (ndK 242 1 .nil .nil) (ndK 244 1 .nil
    .nil))) (ndK 250 3 (ndK 248 2 (ndK 247 1 .nil .nil) (ndK 249 1 .nil .nil)) (ndK 252 2 (ndK 251 1 .nil
    .nil) .nil))) (ndK 261 4 (ndK 258 3 (ndK 256 2 (ndK 255 1 .nil .nil) (ndK 257 1 .nil .nil)) (ndK 260 2
    (ndK 259 1 .nil .nil) .nil)) (ndK 264 3 (ndK 263 2 (ndK 262 1 .nil .nil) .nil) (ndK 265 1 .nil .nil))))
    (ndK 279 5 (ndK 274 4 (ndK 271 3 (ndK 269 2 (ndK 268 1 .nil .nil) (ndK 270 1 .nil .nil)) (ndK 273 2 (ndK
    272 1 .nil .nil) .nil)) (ndK 277 3 (ndK 276 2 (ndK 275 1 .nil .nil) .nil) (ndK 278 1 .nil .nil))) (ndK 284
    4 (ndK 282 3 (ndK 281 2 (ndK 280 1 .nil .nil) .nil) (ndK 283 1 .nil .nil)) (ndK 286 2 (ndK 285 1 .nil
    .nil) .nil)))) (ndK 308 6 (ndK 300 5 (ndK 295 4 (ndK 292 3 (ndK 290 2 (ndK 289 1 .nil .nil) (ndK 291 1
    .nil .nil)) (ndK 294 2 (ndK 293 1 .nil .nil) .nil)) (ndK 298 3 (ndK 297 2 (ndK 296 1 .nil .nil) .nil) (ndK
    299 1 .nil .nil))) (ndK 305 4 (ndK 303 3 (ndK 302 2 (ndK 301 1 .nil .nil) .nil) (ndK 304 1 .nil .nil))
    (ndK 307 2 (ndK 306 1 .nil .nil) .nil))) (ndK 316 5 (ndK 313 4 (ndK 311 3 (ndK 310 2 (ndK 309 1 .nil .nil)
    .nil) (ndK 312 1 .nil .nil)) (ndK 315 2 (ndK 314 1 .nil .nil) .nil)) (ndK 319 3 (ndK 318 2 (ndK 317 1 .nil
    .nil) .nil) (ndK 320 1 .nil .nil))))) (ndK 355 7 (ndK 342 6 (ndK 334 5 (ndK 329 4 (ndK 326 3 (ndK 324 2
    (ndK 323 1 .nil .nil) (ndK 325 1 .nil .nil)) (ndK 328 2 (ndK 327 1 .nil .nil) .nil)) (ndK 332 3 (ndK 331 2
    (ndK 330 1 .nil .nil) .nil) (ndK 333 1 .nil .nil))) (ndK 339 4 (ndK 337 3 (ndK 336 2 (ndK 335 1 .nil .nil)
    .nil) (ndK 338 1 .nil .nil)) (ndK 341 2 (ndK 340 1 .nil .nil) .nil))) (ndK 350 5 (ndK 347 4 (ndK 345 3
    (ndK 344 2 (ndK 343 1 .nil .nil) .nil) (ndK 346 1 .nil .nil)) (ndK 349 2 (ndK 348 1 .nil .nil) .nil)) (ndK
    353 3 (ndK 352 2 (ndK 351 1 .nil .nil) .nil) (ndK 354 1 .nil .nil)))) (ndK 368 6 (ndK 363 5 (ndK 360 4
    (ndK 358 3 (ndK 357 2 (ndK 356 1 .nil .nil) .nil) (ndK 359 1 .nil .nil)) (ndK 362 2 (ndK 361 1 .nil .nil)
    .nil)) (ndK 366 3 (ndK 365 2 (ndK 364 1 .nil .nil) .nil) (ndK 367 1 .nil .nil))) (ndK 373 4 (ndK 371 3
    (ndK 370 2 (ndK 369 1 .nil .nil) .nil) (ndK 372 1 .nil .nil)) (ndK 375 2 (ndK 374 1 .nil .nil) .nil))))))
    (ndK 520 9 (ndK 465 8 (ndK 431 7 (ndK 410 6 (ndK 397 5 (ndK 389 4 (ndK 384 3 (ndK 381 2 (ndK 379 1 .nil
    .nil) (ndK 383 1 .nil .nil)) (ndK 387 2 (ndK 386 1 .nil .nil) (ndK 388 1 .nil .nil))) (ndK 394 3 (ndK 392
    2 (ndK 391 1 .nil .nil) (ndK 393 1 .nil .nil)) (ndK 396 2 (ndK 395 1 .nil .nil) .nil))) (ndK 405 3 (ndK
    402 2 (ndK 400 1 .nil .nil) (ndK 404 1 .nil .nil)) (ndK 408 2 (ndK 407 1 .nil .nil) (ndK 409 1 .nil
    .nil)))) (ndK 423 4 (ndK 418 3 (ndK 415 2 (ndK 413 1 .nil .nil) (ndK 417 1 .nil .nil)) (ndK 421 2 (ndK 420
    1 .nil .nil) (ndK 422 1 .nil .nil))) (ndK 428 3 (ndK 426 2 (ndK 425 1 .nil .nil) (ndK 427 1 .nil .nil))
    (ndK 430 2 (ndK 429 1 .nil .nil) .nil)))) (ndK 452 5 (ndK 444 4 (ndK 439 3 (ndK 436 2 (ndK 434 1 .nil
    .nil) (ndK 438 1 .nil .nil)) (ndK 442 2 (ndK 441 1 .nil .nil) (ndK 443 1 .nil .nil))) (ndK 449 3 (ndK 447
    2 (ndK 446 1 .nil .nil) (ndK 448 1 .nil .nil)) (ndK 451 2 (ndK 450 1 .nil .nil) .nil))) (ndK 460 4 (ndK
    457 3 (ndK 455 2 (ndK 454 1 .nil .nil) (ndK 456 1 .nil .nil)) (ndK 459 2 (ndK 458 1 .nil .nil) .nil)) (ndK
    463 3 (ndK 462 2 (ndK 461 1 .nil .nil) .nil) (ndK 464 1 .nil .nil))))) (ndK 499 6 (ndK 486 5 (ndK 478 4
    (ndK 473 3 (ndK 470 2 (ndK 468 1 .nil .nil) (ndK 472 1 .nil .nil)) (ndK 476 2 (ndK 475 1 .nil .nil) (ndK
    477 1 .nil .nil))) (ndK 483 3 (ndK 481 2 (ndK 480 1 .nil .nil) (ndK 482 1 .nil .nil)) (ndK 485 2 (ndK 484
    1 .nil .nil) .nil))) (ndK 494 4 (ndK 491 3 (ndK 489 2 (ndK 488 1 .nil .nil) (ndK 490 1 .nil .nil)) (ndK
    493 2 (ndK 492 1 .nil .nil) .nil)) (ndK 497 3 (ndK 496 2 (ndK 495 1 .nil .nil) .nil) (ndK 498 1 .nil
    .nil)))) (ndK 512 5 (ndK 507 4 (ndK 504 3 (ndK 502 2 (ndK 501 1 .nil .nil) (ndK 503 1 .nil .nil)) (ndK 506
    2 (ndK 505 1 .nil .nil) .nil)) (ndK 510 3 (ndK 509 2 (ndK 508 1 .nil .nil) .nil) (ndK 511 1 .nil .nil)))
    (ndK 517 4 (ndK 515 3 (ndK 514 2 (ndK 513 1 .nil .nil) .nil) (ndK 516 1 .nil .nil)) (ndK 519 2 (ndK 518 1
    .nil .nil) .nil))))) (ndK 575 7 (ndK 554 6 (ndK 541 5 (ndK 533 4 (ndK 528 3 (ndK 525 2 (ndK 523 1 .nil
    .nil) (ndK 527 1 .nil .nil)) (ndK 531 2 (ndK 530 1 .nil .nil) (ndK 532 1 .nil .nil))) (ndK 538 3 (ndK 536
    2 (ndK 535 1 .nil .nil) (ndK 537 1 .nil .nil)) (ndK 540 2 (ndK 539 1 .nil .nil) .nil))) (ndK 549 4 (ndK
    546 3 (ndK 544 2 (ndK 543 1 .nil .nil) (ndK 545 1 .nil .nil)) (ndK 548 2 (ndK 547 1 .nil .nil) .nil)) (ndK
    552 3 (ndK 551 2 (ndK 550 1 .nil .nil) .nil) (ndK 553 1 .nil .nil)))) (ndK 567 5 (ndK 562 4 (ndK 559 3
    (ndK 557 2 (ndK 556 1 .nil .nil) (ndK 558 1 .nil .nil)) (ndK 561 2 (ndK 560 1 .nil .nil) .nil)) (ndK 565 3
    (ndK 564 2 (ndK 563 1 .nil .nil) .nil) (ndK 566 1 .nil .nil))) (ndK 572 4 (ndK 570 3 (ndK 569 2 (ndK 568 1
    .nil .nil) .nil) (ndK 571 1 .nil .nil)) (ndK 574 2 (ndK 573 1 .nil .nil) .nil)))) (ndK 596 6 (ndK 588 5
    (ndK 583 4 (ndK 580 3 (ndK 578 2 (ndK 577 1 .nil .nil) (ndK 579 1 .nil .nil)) (ndK 582 2 (ndK 581 1 .nil
    .nil) .nil)) (ndK 586 3 (ndK 585 2 (ndK 584 1 .nil .nil) .nil) (ndK 587 1 .nil .nil))) (ndK 593 4 (ndK 591
    3 (ndK 590 2 (ndK 589 1 .nil .nil) .nil) (ndK 592 1 .nil .nil)) (ndK 595 2 (ndK 594 1 .nil .nil) .nil)))
    (ndK 604 5 (ndK 601 4 (ndK 599 3 (ndK 598 2 (ndK 597 1 .nil .nil) .nil) (ndK 600 1 .nil .nil)) (ndK 603 2
    (ndK 602 1 .nil .nil) .nil)) (ndK 607 3 (ndK 606 2 (ndK 605 1 .nil .nil) .nil) (ndK 608 1 .nil .nil)))))))

/-- The tree after the first 525 inserts of `ops609`. -/
def t609c35 : AVLNode :=
  (ndK 376 10 (ndK 232 9 (ndK 143 8 (ndK 88 7 (ndK 54 6 (ndK 33 5 (ndK 20 4 (ndK 12 3 (ndK 7 2 (ndK 4 1 .nil
    .nil) (ndK 10 1 .nil .nil)) (ndK 17 2 (ndK 15 1 .nil .nil) (ndK 19 1 .nil .nil))) (ndK 28 3 (ndK 25 2 (ndK
    23 1 .nil .nil) (ndK 27 1 .nil .nil)) (ndK 31 2 (ndK 30 1 .nil .nil) (ndK 32 1 .nil .nil)))) (ndK 46 4
    (ndK 41 3 (ndK 38 2 (ndK 36 1 .nil .nil) (ndK 40 1 .nil .nil)) (ndK 44 2 (ndK 43 1 .nil .nil) (ndK 45 1
    .nil .nil))) (ndK 51 3 (ndK 49 2 (ndK 48 1 .nil .nil) (ndK 50 1 .nil .nil)) (ndK 53 2 (ndK 52 1 .nil .nil)
    .nil)))) (ndK 75 5 (ndK 67 4 (ndK 62 3 (ndK 59 2 (ndK 57 1 .nil .nil) (ndK 61 1 .nil .nil)) (ndK 65 2 (ndK
    64 1 .nil .nil) (ndK 66 1 .nil .nil))) (ndK 72 3 (ndK 70 2 (ndK 69 1 .nil .nil) (ndK 71 1 .nil .nil)) (ndK
    74 2 (ndK 73 1 .nil .nil) .nil))) (ndK 83 4 (ndK 80 3 (ndK 78 2 (ndK 77 1 .nil .nil) (ndK 79 1 .nil .nil))
    (ndK 82 2 (ndK 81 1 .nil .nil) .nil)) (ndK 86 3 (ndK 85 2 (ndK 84 1 .nil .nil) .nil) (ndK 87 1 .nil
    .nil))))) (ndK 122 6 (ndK 109 5 (ndK 101 4 (ndK 96 3 (ndK 93 2 (ndK 91 1 .nil .nil) (ndK 95 1 .nil .nil))
    (ndK 99 2 (ndK 98 1 .nil .nil) (ndK 100 1 .nil .nil))) (ndK 106 3 (ndK 104 2 (ndK 103 1 .nil .nil) (ndK
    105 1 .nil .nil)) (ndK 108 2 (ndK 107 1 .nil .nil) .nil))) (ndK 117 4 (ndK 114 3 (ndK 112 2 (ndK 111 1
    .nil .nil) (ndK 113 1 .nil .nil)) (ndK 116 2 (ndK 115 1 .nil .nil) .nil)) (ndK 120 3 (ndK 119 2 (ndK 118 1
    .nil .nil) .nil) (ndK 121 1 .nil .nil)))) (ndK 135 5 (ndK 130 4 (ndK 127 3 (ndK 125 2 (ndK 124 1 .nil
    .nil) (ndK 126 1 .nil .nil)) (ndK 129 2 (ndK 128 1 .nil .nil) .nil)) (ndK 133 3 (ndK 132 2 (ndK 131 1 .nil
    .nil) .nil) (ndK 134 1 .nil .nil))) (ndK 140 4 (ndK 138 3 (ndK 137 2 (ndK 136 1 .nil .nil) .nil) (ndK 139
    1 .nil .nil)) (ndK 142 2 (ndK 141 1 .nil .nil) .nil))))) (ndK 198 7 (ndK 177 6 (ndK 164 5 (ndK 156 4 (ndK
    151 3 (ndK 148 2 (ndK 146 1 .nil .nil) (ndK 150 1 .nil .nil)) (ndK 154 2 (ndK 153 1 .nil .nil) (ndK 155 1
    .nil .nil))) (ndK 161 3 (ndK 159 2 (ndK 158 1 .nil .nil) (ndK 160 1 .nil .nil)) (ndK 163 2 (ndK 162 1 .nil
    .nil) .nil))) (ndK 172 4 (ndK 169 3 (ndK 167 2 (ndK 166 1 .nil .nil) (ndK 168 1 .nil .nil)) (ndK 171 2
    (ndK 170 1 .nil .nil) .nil)) (ndK 175 3 (ndK 174 2 (ndK 173 1 .nil .nil) .nil) (ndK 176 1 .nil .nil))))
    (ndK 190 5 (ndK 185 4 (ndK 182 3 (ndK 180 2 (ndK 179 1 .nil .nil) (ndK 181 1 .nil .nil)) (ndK 184 2 (ndK
    183 1 .nil .nil) .nil)) (ndK 188 3 (ndK 187 2 (ndK 186 1 .nil .nil) .nil) (ndK 189 1 .nil .nil))) (ndK 195
    4 (ndK 193 3 (ndK 192 2 (ndK 191 1 .nil .nil) .nil) (ndK 194 1 .nil .nil)) (ndK 197 2 (ndK 196 1 .nil
    .nil) .nil)))) (ndK 219 6 (ndK 211 5 (ndK 206 4 (ndK 203 3 (ndK 201 2 (ndK 200 1 .nil .nil) (ndK 202 1
    .nil .nil)) (ndK 205 2 (ndK 204 1 .nil .nil) .nil)) (ndK 209 3 (ndK 208 2 (ndK 207 1 .nil .nil) .nil) (ndK
    210 1 .nil .nil))) (ndK 216 4 (ndK 214 3 (ndK 213 2 (ndK 212 1 .nil .nil) .nil) (ndK 215 1 .nil .nil))
    (ndK 218 2 (ndK 217 1 .nil .nil) .nil))) (ndK 227 5 (ndK 224 4 (ndK 222 3 (ndK 221 2 (ndK 220 1 .nil .nil)
    .nil) (ndK 223 1 .nil .nil)) (ndK 226 2 (ndK 225 1 .nil .nil) .nil)) (ndK 230 3 (ndK 229 2 (ndK 228 1 .nil
    .nil) .nil) (ndK 231 1 .nil .nil)))))) (ndK 321 8 (ndK 287 7 (ndK 266 6 (ndK 253 5 (ndK 245 4 (ndK 240 3
    (ndK 237 2 (ndK 235 1 .nil .nil) (ndK 239 1 .nil .nil)) (ndK 243 2 (ndK 242 1 .nil .nil) (ndK 244 1 .nil
    .nil))) (ndK 250 3 (ndK 248 2 (ndK 247 1 .nil .nil) (ndK 249 1 .nil .nil)) (ndK 252 2 (ndK 251 1 .nil
    .nil) .nil))) (ndK 261 4 (ndK 258 3 (ndK 256 2 (ndK 255 1 .nil .nil) (ndK 257 1 .nil .nil)) (ndK 260 2
    (ndK 259 1 .nil .nil) .nil)) (ndK 264 3 (ndK 263 2 (ndK 262 1 .nil .nil) .nil) (ndK 265 1 .nil .nil))))
    (ndK 279 5 (ndK 274 4 (ndK 271 3 (ndK 269 2 (ndK 268 1 .nil .nil) (ndK 270 1 .nil .nil)) (ndK 273 2 (ndK
    272 1 .nil .nil) .nil)) (ndK 277 3 (ndK 276 2 (ndK 275 1 .nil .nil) .nil) (ndK 278 1 .nil .nil))) (ndK 284
    4 (ndK 282 3 (ndK 281 2 (ndK 280 1 .nil .nil) .nil) (ndK 283 1 .nil .nil)) (ndK 286 2 (ndK 285 1 .nil
    .nil) .nil)))) (ndK 308 6 (ndK 300 5 (ndK 295 4 (ndK 292 3 (ndK 290 2 (ndK 289 1 .nil .nil) (ndK 291 1
    .nil .nil)) (ndK 294 2 (ndK 293 1 .nil .nil) .nil)) (ndK 298 3 (ndK 297 2 (ndK 296 1 .nil .nil) .nil) (ndK
    299 1 .nil .nil))) (ndK 305 4 (ndK 303 3 (ndK 302 2 (ndK 301 1 .nil .nil) .nil) (ndK 304 1 .nil .nil))
    (ndK 307 2 (ndK 306 1 .nil .nil) .nil))) (ndK 316 5 (ndK 313 4 (ndK 311 3 (ndK 310 2 (ndK 309 1 .nil .nil)
    .nil) (ndK 312 1 .nil .nil)) (ndK 315 2 (ndK 314 1 .nil .nil) .nil)) (ndK 319 3 (ndK 318 2 (ndK 317 1 .nil
    .nil) .nil) (ndK 320 1 .nil .nil))))) (ndK 355 7 (ndK 342 6 (ndK 334 5 (ndK 329 4 (ndK 326 3 (ndK 324 2
    (ndK 323 1 .nil .nil) (ndK 325 1 .nil .nil)) (ndK 328 2 (ndK 327 1 .nil .nil) .nil)) (ndK 332 3 (ndK 331 2
    (ndK 330 1 .nil .nil) .nil) (ndK 333 1 .nil .nil))) (ndK 339 4 (ndK 337 3 (ndK 336 2 (ndK 335 1 .nil .nil)
    .nil) (ndK 338 1 .nil .nil)) (ndK 341 2 (ndK 340 1 .nil .nil) .nil))) (ndK 350 5 (ndK 347 4 (ndK 345 3
    (ndK 344 2 (ndK 343 1 .nil .nil) .nil) (ndK 346 1 .nil .nil)) (ndK 349 2 (ndK 348 1 .nil .nil) .nil)) (ndK
    353 3 (ndK 352 2 (ndK 351 1 .nil .nil) .nil) (ndK 354 1 .nil .nil)))) (ndK 368 6 (ndK 363 5 (ndK 360 4
    (ndK 358 3 (ndK 357 2 (ndK 356 1 .nil .nil) .nil) (ndK 359 1 .nil .nil)) (ndK 362 2 (ndK 361 1 .nil .nil)
    .nil)) (ndK 366 3 (ndK 365 2 (ndK 364 1 .nil .nil) .nil) (ndK 367 1 .nil .nil))) (ndK 373 4 (ndK 371 3
    (ndK 370 2 (ndK 369 1 .nil .nil) .nil) (ndK 372 1 .nil .nil)) (ndK 375 2 (ndK 374 1 .nil .nil) .nil))))))
    (ndK 520 9 (ndK 465 8 (ndK 431 7 (ndK 410 6 (ndK 397 5 (ndK 389 4 (ndK 384 3 (ndK 381 2 (ndK 379 1 .nil
    .nil) (ndK 383 1 .nil .nil)) (ndK 387 2 (ndK 386 1 .nil .nil) (ndK 388 1 .nil .nil))) (ndK 394 3 (ndK 392
    2 (ndK 391 1 .nil .nil) (ndK 393 1 .nil .nil)) (ndK 396 2 (ndK 395 1 .nil .nil) .nil))) (ndK 405 4 (ndK
    402 3 (ndK 400 2 (ndK 399 1 .nil .nil) (ndK 401 1 .nil .nil)) (ndK 404 2 (ndK 403 1 .nil .nil) .nil)) (ndK
    408 3 (ndK 407 2 (ndK 406 1 .nil .nil) .nil) (ndK 409 1 .nil .nil)))) (ndK 423 5 (ndK 418 4 (ndK 415 3
    (ndK 413 2 (ndK 412 1 .nil .nil) (ndK 414 1 .nil .nil)) (ndK 417 2 (ndK 416 1 .nil .nil) .nil)) (ndK 421 3
    (ndK 420 2 (ndK 419 1 .nil .nil) .nil) (ndK 422 1 .nil .nil))) (ndK 428 4 (ndK 426 3 (ndK 425 2 (ndK 424 1
    .nil .nil) .nil) (ndK 427 1 .nil .nil)) (ndK 430 2 (ndK 429 1 .nil .nil) .nil)))) (ndK 452 6 (ndK 444 5
    (ndK 439 4 (ndK 436 3 (ndK 434 2 (ndK 433 1 .nil .nil) (ndK 435 1 .nil .nil)) (ndK 438 2 (ndK 437 1 .nil
    .nil) .nil)) (ndK 442 3 (ndK 441 2 (ndK 440 1 .nil .nil) .nil) (ndK 443 1 .nil .nil))) (ndK 449 4 (ndK 447
    3 (ndK 446 2 (ndK 445 1 .nil .nil) .nil) (ndK 448 1 .nil .nil)) (ndK 451 2 (ndK 450 1 .nil .nil) .nil)))
    (ndK 460 5 (ndK 457 4 (ndK 455 3 (ndK 454 2 (ndK 453 1 .nil .nil) .nil) (ndK 456 1 .nil .nil)) (ndK 459 2
    (ndK 458 1 .nil .nil) .nil)) (ndK 463 3 (ndK 462 2 (ndK 461 1 .nil .nil) .nil) (ndK 464 1 .nil .nil)))))
    (ndK 499 6 (ndK 486 5 (ndK 478 4 (ndK 473 3 (ndK 470 2 (ndK 468 1 .nil .nil) (ndK 472 1 .nil .nil)) (ndK
    476 2 (ndK 475 1 .nil .nil) (ndK 477 1 .nil .nil))) (ndK 483 3 (ndK 481 2 (ndK 480 1 .nil .nil) (ndK 482 1
    .nil .nil)) (ndK 485 2 (ndK 484 1 .nil .nil) .nil))) (ndK 494 4 (ndK 491 3 (ndK 489 2 (ndK 488 1 .nil
    .nil) (ndK 490 1 .nil .nil)) (ndK 493 2 (ndK 492 1 .nil .nil) .nil)) (ndK 497 3 (ndK 496 2 (ndK 495 1 .nil
    .nil) .nil) (ndK 498 1 .nil .nil)))) (ndK 512 5 (ndK 507 4 (ndK 504 3 (ndK 502 2 (ndK 501 1 .nil .nil)
    (ndK 503 1 .nil .nil)) (ndK 506 2 (ndK 505 1 .nil .nil) .nil)) (ndK 510 3 (ndK 509 2 (ndK 508 1 .nil .nil)
    .nil) (ndK 511 1 .nil .nil))) (ndK 517 4 (ndK 515 3 (ndK 514 2 (ndK 513 1 .nil .nil) .nil) (ndK 516 1 .nil
    .nil)) (ndK 519 2 (ndK 518 1 .nil .nil) .nil))))) (ndK 575 7 (ndK 554 6 (ndK 541 5 (ndK 533 4 (ndK 528 3
    (ndK 525 2 (ndK 523 1 .nil .nil) (ndK 527 1 .nil .nil)) (ndK 531 2 (ndK 530 1 .nil .nil) (ndK 532 1 .nil
    .nil))) (ndK 538 3 (ndK 536 2 (ndK 535 1 .nil .nil) (ndK 537 1 .nil .nil)) (ndK 540 2 (ndK 539 1 .nil
    .nil) .nil))) (ndK 549 4 (ndK 546 3 (ndK 544 2 (ndK 543 1 .nil .nil) (ndK 545 1 .nil .nil)) (ndK 548 2
    (ndK 547 1 .nil .nil) .nil)) (ndK 552 3 (ndK 551 2 (ndK 550 1 .nil .nil) .nil) (ndK 553 1 .nil .nil))))
    (ndK 567 5 (ndK 562 4 (ndK 559 3 (ndK 557 2 (ndK 556 1 .nil .nil) (ndK 558 1 .nil .nil)) (ndK 561 2 (ndK
    560 1 .nil .nil) .nil)) (ndK 565 3 (ndK 564 2 (ndK 563 1 .nil .nil) .nil) (ndK 566 1 .nil .nil))) (ndK 572
    4 (ndK 570 3 (ndK 569 2 (ndK 568 1 .nil .nil) .nil) (ndK 571 1 .nil .nil)) (ndK 574 2 (ndK 573 1 .nil
    .nil) .nil)))) (ndK 596 6 (ndK 588 5 (ndK 583 4 (ndK 580 3 (ndK 578 2 (ndK 577 1 .nil .nil) (ndK 579 1
    .nil .nil)) (ndK 582 2 (ndK 581 1 .nil .nil) .nil)) (ndK 586 3 (ndK 585 2 (ndK 584 1 .nil .nil) .nil) (ndK
    587 1 .nil .nil))) (ndK 593 4 (ndK 591 3 (ndK 590 2 (ndK 589 1 .nil .nil) .nil) (ndK 592 1 .nil .nil))
    (ndK 595 2 (ndK 594 1 .nil .nil) .nil))) (ndK 604 5 (ndK 601 4 (ndK 599 3 (ndK 598 2 (ndK 597 1 .nil .nil)
    .nil) (ndK 600 1 .nil .nil)) (ndK 603 2 (ndK 602 1 .nil .nil) .nil)) (ndK 607 3 (ndK 606 2 (ndK 605 1 .nil
    .nil) .nil) (ndK 608 1 .nil .nil)))))))

/-- The tree after the first 540 inserts of `ops609`. -/
def t609c36 : AVLNode :=
  (ndK 376 10 (ndK 232 9 (ndK 143 8 (ndK 88 7 (ndK 54 6 (ndK 33 5 (ndK 20 4 (ndK 12 3 (ndK 7 2 (ndK 4 1 .nil
    .nil) (ndK 10 1 .nil .nil)) (ndK 17 2 (ndK 15 1 .nil .nil) (ndK 19 1 .nil .nil))) (ndK 28 3 (ndK 25 2 (ndK
    23 1 .nil .nil) (ndK 27 1 .nil .nil)) (ndK 31 2 (ndK 30 1 .nil .nil) (ndK 32 1 .nil .nil)))) (ndK 46 4
    (ndK 41 3 (ndK 38 2 (ndK 36 1 .nil .nil) (ndK 40 1 .nil .nil)) (ndK 44 2 (ndK 43 1 .nil .nil) (ndK 45 1
    .nil .nil))) (ndK 51 3 (ndK 49 2 (ndK 48 1 .nil .nil) (ndK 50 1 .nil .nil)) (ndK 53 2 (ndK 52 1 .nil .nil)
    .nil)))) (ndK 75 5 (ndK 67 4 (ndK 62 3 (ndK 59 2 (ndK 57 1 .nil .nil) (ndK 61 1 .nil .nil)) (ndK 65 2 (ndK
    64 1 .nil .nil) (ndK 66 1 .nil .nil))) (ndK 72 3 (ndK 70 2 (ndK 69 1 .nil .nil) (ndK 71 1 .nil .nil)) (ndK
    74 2 (ndK 73 1 .nil .nil) .nil))) (ndK 83 4 (ndK 80 3 (ndK 78 2 (ndK 77 1 .nil .nil) (ndK 79 1 .nil .nil))
    (ndK 82 2 (ndK 81 1 .nil .nil) .nil)) (ndK 86 3 (ndK 85 2 (ndK 84 1 .nil .nil) .nil) (ndK 87 1 .nil
    .nil))))) (ndK 122 6 (ndK 109 5 (ndK 101 4 (ndK 96 3 (ndK 93 2 (ndK 91 1 .nil .nil) (ndK 95 1 .nil .nil))
    (ndK 99 2 (ndK 98 1 .nil .nil) (ndK 100 1 .nil .nil))) (ndK 106 3 (ndK 104 2 (ndK 103 1 .nil .nil) (ndK
    105 1 .nil .nil)) (ndK 108 2 (ndK 107 1 .nil .nil) .nil))) (ndK 117 4 (ndK 114 3 (ndK 112 2 (ndK 111 1
    .nil .nil) (ndK 113 1 .nil .nil)) (ndK 116 2 (ndK 115 1 .nil .nil) .nil)) (ndK 120 3 (ndK 119 2 (ndK 118 1
    .nil .nil) .nil) (ndK 121 1 .nil .nil)))) (ndK 135 5 (ndK 130 4 (ndK 127 3 (ndK 125 2 (ndK 124 1 .nil
    .nil) (ndK 126 1 .nil .nil)) (ndK 129 2 (ndK 128 1 .nil .nil) .nil)) (ndK 133 3 (ndK 132 2 (ndK 131 1 .nil
    .nil) .nil) (ndK 134 1 .nil .nil))) (ndK 140 4 (ndK 138 3 (ndK 137 2 (ndK 136 1 .nil .nil) .nil) (ndK 139
    1 .nil .nil)) (ndK 142 2 (ndK 141 1 .nil .nil) .nil))))) (ndK 198 7 (ndK 177 6 (ndK 164 5 (ndK 156 4 (ndK
    151 3 (ndK 148 2 (ndK 146 1 .nil .nil) (ndK 150 1 .nil .nil)) (ndK 154 2 (ndK 153 1 .nil .nil) (ndK 155 1
    .nil .nil))) (ndK 161 3 (ndK 159 2 (ndK 158 1 .nil .nil) (ndK 160 1 .nil .nil)) (ndK 163 2 (ndK 162 1 .nil
    .nil) .nil))) (ndK 172 4 (ndK 169 3 (ndK 167 2 (ndK 166 1 .nil .nil) (ndK 168 1 .nil .nil)) (ndK 171 2
    (ndK 170 1 .nil .nil) .nil)) (ndK 175 3 (ndK 174 2 (ndK 173 1 .nil .nil) .nil) (ndK 176 1 .nil .nil))))
    (ndK 190 5 (ndK 185 4 (ndK 182 3 (ndK 180 2 (ndK 179 1 .nil .nil) (ndK 181 1 .nil .nil)) (ndK 184 2 (ndK
    183 1 .nil .nil) .nil)) (ndK 188 3 (ndK 187 2 (ndK 186 1 .nil .nil) .nil) (ndK 189 1 .nil .nil))) (ndK 195
    4 (ndK 193 3 (ndK 192 2 (ndK 191 1 .nil .nil) .nil) (ndK 194 1 .nil .nil)) (ndK 197 2 (ndK 196 1 .nil
    .nil) .nil)))) (ndK 219 6 (ndK 211 5 (ndK 206 4 (ndK 203 3 (ndK 201 2 (ndK 200 1 .nil .nil) (ndK 202 1
    .nil .nil)) (ndK 205 2 (ndK 204 1 .nil .nil) .nil)) (ndK 209 3 (ndK 208 2 (ndK 207 1 .nil .nil) .nil) (ndK
    210 1 .nil .nil))) (ndK 216 4 (ndK 214 3 (ndK 213 2 (ndK 212 1 .nil .nil) .nil) (ndK 215 1 .nil .nil))
    (ndK 218 2 (ndK 217 1 .nil .nil) .nil))) (ndK 227 5 (ndK 224 4 (ndK 222 3 (ndK 221 2 (ndK 220 1 .nil .nil)
    .nil) (ndK 223 1 .nil .nil)) (ndK 226 2 (ndK 225 1 .nil .nil) .nil)) (ndK 230 3 (ndK 229 2 (ndK 228 1 .nil
    .nil) .nil) (ndK 231 1 .nil .nil)))))) (ndK 321 8 (ndK 287 7 (ndK 266 6 (ndK 253 5 (ndK 245 4 (ndK 240 3
    (ndK 237 2 (ndK 235 1 .nil .nil) (ndK 239 1 .nil .nil)) (ndK 243 2 (ndK 242 1 .nil .nil) (ndK 244 1 .nil
    .nil))) (ndK 250 3 (ndK 248 2 (ndK 247 1 .nil .nil) (ndK 249 1 .nil .nil)) (ndK 252 2 (ndK 251 1 .nil
    .nil) .nil))) (ndK 261 4 (ndK 258 3 (ndK 256 2 (ndK 255 1 .nil .nil) (ndK 257 1 .nil .nil)) (ndK 260 2
    (ndK 259 1 .nil .nil) .nil)) (ndK 264 3 (ndK 263 2 (ndK 262 1 .nil .nil) .nil) (ndK 265 1 .nil .nil))))
    (ndK 279 5 (ndK 274 4 (ndK 271 3 (ndK 269 2 (ndK 268 1 .nil .nil) (ndK 270 1 .nil .nil)) (ndK 273 2 (ndK
    272 1 .nil .nil) .nil)) (ndK 277 3 (ndK 276 2 (ndK 275 1 .nil .nil) .nil) (ndK 278 1 .nil .nil))) (ndK 284
    4 (ndK 282 3 (ndK 281 2 (ndK 280 1 .nil .nil) .nil) (ndK 283 1 .nil .nil)) (ndK 286 2 (ndK 285 1 .nil
    .nil) .nil)))) (ndK 308 6 (ndK 300 5 (ndK 295 4 (ndK 292 3 (ndK 290 2 (ndK 289 1 .nil .nil) (ndK 291 1
    .nil .nil)) (ndK 294 2 (ndK 293 1 .nil .nil) .nil)) (ndK 298 3 (ndK 297 2 (ndK 296 1 .nil .nil) .nil) (ndK
    299 1 .nil .nil))) (ndK 305 4 (ndK 303 3 (ndK 302 2 (ndK 301 1 .nil .nil) .nil) (ndK 304 1 .nil .nil))
    (ndK 307 2 (ndK 306 1 .nil .nil) .nil))) (ndK 316 5 (ndK 313 4 (ndK 311 3 (ndK 310 2 (ndK 309 1 .nil .nil)
    .nil) (ndK 312 1 .nil .nil)) (ndK 315 2 (ndK 314 1 .nil .nil) .nil)) (ndK 319 3 (ndK 318 2 (ndK 317 1 .nil
    .nil) .nil) (ndK 320 1 .nil .nil))))) (ndK 355 7 (ndK 342 6 (ndK 334 5 (ndK 329 4 (ndK 326 3 (ndK 324 2
    (ndK 323 1 .nil .nil) (ndK 325 1 .nil .nil)) (ndK 328 2 (ndK 327 1 .nil .nil) .nil)) (ndK 332 3 (ndK 331 2
    (ndK 330 1 .nil .nil) .nil) (ndK 333 1 .nil .nil))) (ndK 339 4 (ndK 337 3 (ndK 336 2 (ndK 335 1 .nil .nil)
    .nil) (ndK 338 1 .nil .nil)) (ndK 341 2 (ndK 340 1 .nil .nil) .nil))) (ndK 350 5 (ndK 347 4 (ndK 345 3
    (ndK 344 2 (ndK 343 1 .nil .nil) .nil) (ndK 346 1 .nil .nil)) (ndK 349 2 (ndK 348 1 .nil .nil) .nil)) (ndK
    353 3 (ndK 352 2 (ndK 351 1 .nil .nil) .nil) (ndK 354 1 .nil .nil)))) (ndK 368 6 (ndK 363 5 (ndK 360 4
    (ndK 358 3 (ndK 357 2 (ndK 356 1 .nil .nil) .nil) (ndK 359 1 .nil .nil)) (ndK 362 2 (ndK 361 1 .nil .nil)
    .nil)) (ndK 366 3 (ndK 365 2 (ndK 364 1 .nil .nil) .nil) (ndK 367 1 .nil .nil))) (ndK 373 4 (ndK 371 3
    (ndK 370 2 (ndK 369 1 .nil .nil) .nil) (ndK 372 1 .nil .nil)) (ndK 375 2 (ndK 374 1 .nil .nil) .nil))))))
    (ndK 520 9 (ndK 465 8 (ndK 431 7 (ndK 410 6 (ndK 397 5 (ndK 389 4 (ndK 384 3 (ndK 381 2 (ndK 379 1 .nil
    .nil) (ndK 383 1 .nil .nil)) (ndK 387 2 (ndK 386 1 .nil .nil) (ndK 388 1 .nil .nil))) (ndK 394 3 (ndK 392
    2 (ndK 391 1 .nil .nil) (ndK 393 1 .nil .nil)) (ndK 396 2 (ndK 395 1 .nil .nil) .nil))) (ndK 405 4 (ndK
    402 3 (ndK 400 2 (ndK 399 1 .nil .nil) (ndK 401 1 .nil .nil)) (ndK 404 2 (ndK 403 1 .nil .nil) .nil)) (ndK
    408 3 (ndK 407 2 (ndK 406 1 .nil .nil) .nil) (ndK 409 1 .nil .nil)))) (ndK 423 5 (ndK 418 4 (ndK 415 3
    (ndK 413 2 (ndK 412 1 .nil .nil) (ndK 414 1 .nil .nil)) (ndK 417 2 (ndK 416 1 .nil .nil) .nil)) (ndK 421 3
    (ndK 420 2 (ndK 419 1 .nil .nil) .nil) (ndK 422 1 .nil .nil))) (ndK 428 4 (ndK 426 3 (ndK 425 2 (ndK 424 1
    .nil .nil) .nil) (ndK 427 1 .nil .nil)) (ndK 430 2 (ndK 429 1 .nil .nil) .nil)))) (ndK 452 6 (ndK 444 5
    (ndK 439 4 (ndK 436 3 (ndK 434 2 (ndK 433 1 .nil .nil) (ndK 435 1 .nil .nil)) (ndK 438 2 (ndK 437 1 .nil
    .nil) .nil)) (ndK 442 3 (ndK 441 2 (ndK 440 1 .nil .nil) .nil) (ndK 443 1 .nil .nil))) (ndK 449 4 (ndK 447
    3 (ndK 446 2 (ndK 445 1 .nil .nil) .nil) (ndK 448 1 .nil .nil)) (ndK 451 2 (ndK 450 1 .nil .nil) .nil)))
    (ndK 460 5 (ndK 457 4 (ndK 455 3 (ndK 454 2 (ndK 453 1 .nil .nil) .nil) (ndK 456 1 .nil .nil)) (ndK 459 2
    (ndK 458 1 .nil .nil) .nil)) (ndK 463 3 (ndK 462 2 (ndK 461 1 .nil .nil) .nil) (ndK 464 1 .nil .nil)))))
    (ndK 499 7 (ndK 486 6 (ndK 478 5 (ndK 473 4 (ndK 470 3 (ndK 468 2 (ndK 467 1 .nil .nil) (ndK 469 1 .nil
    .nil)) (ndK 472 2 (ndK 471 1 .nil .nil) .nil)) (ndK 476 3 (ndK 475 2 (ndK 474 1 .nil .nil) .nil) (ndK 477
    1 .nil .nil))) (ndK 483 4 (ndK 481 3 (ndK 480 2 (ndK 479 1 .nil .nil) .nil) (ndK 482 1 .nil .nil)) (ndK
    485 2 (ndK 484 1 .nil .nil) .nil))) (ndK 494 5 (ndK 491 4 (ndK 489 3 (ndK 488 2 (ndK 487 1 .nil .nil)
    .nil) (ndK 490 1 .nil .nil)) (ndK 493 2 (ndK 492 1 .nil .nil) .nil)) (ndK 497 3 (ndK 496 2 (ndK 495 1 .nil
    .nil) .nil) (ndK 498 1 .nil .nil)))) (ndK 512 6 (ndK 507 5 (ndK 504 4 (ndK 502 3 (ndK 501 2 (ndK 500 1
    .nil .nil) .nil) (ndK 503 1 .nil .nil)) (ndK 506 2 (ndK 505 1 .nil .nil) .nil)) (ndK 510 3 (ndK 509 2 (ndK
    508 1 .nil .nil) .nil) (ndK 511 1 .nil .nil))) (ndK 517 4 (ndK 515 3 (ndK 514 2 (ndK 513 1 .nil .nil)
    .nil) (ndK 516 1 .nil .nil)) (ndK 519 2 (ndK 518 1 .nil .nil) .nil))))) (ndK 575 8 (ndK 554 7 (ndK 541 6
    (ndK 533 5 (ndK 528 4 (ndK 525 3 (ndK 523 2 (ndK 522 1 .nil .nil) (ndK 524 1 .nil .nil)) (ndK 527 2 (ndK
    526 1 .nil .nil) .nil)) (ndK 531 3 (ndK 530 2 (ndK 529 1 .nil .nil) .nil) (ndK 532 1 .nil .nil))) (ndK 538
    4 (ndK 536 3 (ndK 535 2 (ndK 534 1 .nil .nil) .nil) (ndK 537 1 .nil .nil)) (ndK 540 2 (ndK 539 1 .nil
    .nil) .nil))) (ndK 549 5 (ndK 546 4 (ndK 544 3 (ndK 543 2 (ndK 542 1 .nil .nil) .nil) (ndK 545 1 .nil
    .nil)) (ndK 548 2 (ndK 547 1 .nil .nil) .nil)) (ndK 552 3 (ndK 551 2 (ndK 550 1 .nil .nil) .nil) (ndK 553
    1 .nil .nil)))) (ndK 567 6 (ndK 562 5 (ndK 559 4 (ndK 557 3 (ndK 556 2 (ndK 555 1 .nil .nil) .nil) (ndK
    558 1 .nil .nil)) (ndK 561 2 (ndK 560 1 .nil .nil) .nil)) (ndK 565 3 (ndK 564 2 (ndK 563 1 .nil .nil)
    .nil) (ndK 566 1 .nil .nil))) (ndK 572 4 (ndK 570 3 (ndK 569 2 (ndK 568 1 .nil .nil) .nil) (ndK 571 1 .nil
    .nil)) (ndK 574 2 (ndK 573 1 .nil .nil) .nil)))) (ndK 596 7 (ndK 588 6 (ndK 583 5 (ndK 580 4 (ndK 578 3
    (ndK 577 2 (ndK 576 1 .nil .nil) .nil) (ndK 579 1 .nil .nil)) (ndK 582 2 (ndK 581 1 .nil .nil) .nil)) (ndK
    586 3 (ndK 585 2 (ndK 584 1 .nil .nil) .nil) (ndK 587 1 .nil .nil))) (ndK 593 4 (ndK 591 3 (ndK 590 2 (ndK
    589 1 .nil .nil) .nil) (ndK 592 1 .nil .nil)) (ndK 595 2 (ndK 594 1 .nil .nil) .nil))) (ndK 604 5 (ndK 601
    4 (ndK 599 3 (ndK 598 2 (ndK 597 1 .nil .nil) .nil) (ndK 600 1 .nil .nil)) (ndK 603 2 (ndK 602 1 .nil
    .nil) .nil)) (ndK 607 3 (ndK 606 2 (ndK 605 1 .nil .nil) .nil) (ndK 608 1 .nil .nil)))))))

/-- The tree after the first 555 inserts of `ops609`. -/
def t609c37 : AVLNode :=
  (ndK 376 11 (ndK 232 10 (ndK 143 9 (ndK 88 8 (ndK 54 7 (ndK 33 6 (ndK 20 5 (ndK 12 4 (ndK 7 3 (ndK 4 2 (ndK
    2 1 .nil .nil) (ndK 6 1 .nil .nil)) (ndK 10 2 (ndK 9 1 .nil .nil) (ndK 11 1 .nil .nil))) (ndK 17 3 (ndK 15
    2 (ndK 14 1 .nil .nil) (ndK 16 1 .nil .nil)) (ndK 19 2 (ndK 18 1 .nil .nil) .nil))) (ndK 28 4 (ndK 25 3
    (ndK 23 2 (ndK 22 1 .nil .nil) (ndK 24 1 .nil .nil)) (ndK 27 2 (ndK 26 1 .nil .nil) .nil)) (ndK 31 3 (ndK
    30 2 (ndK 29 1 .nil .nil) .nil) (ndK 32 1 .nil .nil)))) (ndK 46 5 (ndK 41 4 (ndK 38 3 (ndK 36 2 (ndK 35 1
    .nil .nil) (ndK 37 1 .nil .nil)) (ndK 40 2 (ndK 39 1 .nil .nil) .nil)) (ndK 44 3 (ndK 43 2 (ndK 42 1 .nil
    .nil) .nil) (ndK 45 1 .nil .nil))) (ndK 51 3 (ndK 49 2 (ndK 48 1 .nil .nil) (ndK 50 1 .nil .nil)) (ndK 53
    2 (ndK 52 1 .nil .nil) .nil)))) (ndK 75 5 (ndK 67 4 (ndK 62 3 (ndK 59 2 (ndK 57 1 .nil .nil) (ndK 61 1
    .nil .nil)) (ndK 65 2 (ndK 64 1 .nil .nil) (ndK 66 1 .nil .nil))) (ndK 72 3 (ndK 70 2 (ndK 69 1 .nil .nil)
    (ndK 71 1 .nil .nil)) (ndK 74 2 (ndK 73 1 .nil .nil) .nil))) (ndK 83 4 (ndK 80 3 (ndK 78 2 (ndK 77 1 .nil
    .nil) (ndK 79 1 .nil .nil)) (ndK 82 2 (ndK 81 1 .nil .nil) .nil)) (ndK 86 3 (ndK 85 2 (ndK 84 1 .nil .nil)
    .nil) (ndK 87 1 .nil .nil))))) (ndK 122 6 (ndK 109 5 (ndK 101 4 (ndK 96 3 (ndK 93 2 (ndK 91 1 .nil .nil)
    (ndK 95 1 .nil .nil)) (ndK 99 2 (ndK 98 1 .nil .nil) (ndK 100 1 .nil .nil))) (ndK 106 3 (ndK 104 2 (ndK
    103 1 .nil .nil) (ndK 105 1 .nil .nil)) (ndK 108 2 (ndK 107 1 .nil .nil) .nil))) (ndK 117 4 (ndK 114 3
    (ndK 112 2 (ndK 111 1 .nil .nil) (ndK 113 1 .nil .nil)) (ndK 116 2 (ndK 115 1 .nil .nil) .nil)) (ndK 120 3
    (ndK 119 2 (ndK 118 1 .nil .nil) .nil) (ndK 121 1 .nil .nil)))) (ndK 135 5 (ndK 130 4 (ndK 127 3 (ndK 125
    2 (ndK 124 1 .nil .nil) (ndK 126 1 .nil .nil)) (ndK 129 2 (ndK 128 1 .nil .nil) .nil)) (ndK 133 3 (ndK 132
    2 (ndK 131 1 .nil .nil) .nil) (ndK 134 1 .nil .nil))) (ndK 140 4 (ndK 138 3 (ndK 137 2 (ndK 136 1 .nil
    .nil) .nil) (ndK 139 1 .nil .nil)) (ndK 142 2 (ndK 141 1 .nil .nil) .nil))))) (ndK 198 7 (ndK 177 6 (ndK
    164 5 (ndK 156 4 (ndK 151 3 (ndK 148 2 (ndK 146 1 .nil .nil) (ndK 150 1 .nil .nil)) (ndK 154 2 (ndK 153 1
    .nil .nil) (ndK 155 1 .nil .nil))) (ndK 161 3 (ndK 159 2 (ndK 158 1 .nil .nil) (ndK 160 1 .nil .nil)) (ndK
    163 2 (ndK 162 1 .nil .nil) .nil))) (ndK 172 4 (ndK 169 3 (ndK 167 2 (ndK 166 1 .nil .nil) (ndK 168 1 .nil
    .nil)) (ndK 171 2 (ndK 170 1 .nil .nil) .nil)) (ndK 175 3 (ndK 174 2 (ndK 173 1 .nil .nil) .nil) (ndK 176
    1 .nil .nil)))) (ndK 190 5 (ndK 185 4 (ndK 182 3 (ndK 180 2 (ndK 179 1 .nil .nil) (ndK 181 1 .nil .nil))
    (ndK 184 2 (ndK 183 1 .nil .nil) .nil)) (ndK 188 3 (ndK 187 2 (ndK 186 1 .nil .nil) .nil) (ndK 189 1 .nil
    .nil))) (ndK 195 4 (ndK 193 3 (ndK 192 2 (ndK 191 1 .nil .nil) .nil) (ndK 194 1 .nil .nil)) (ndK 197 2
    (ndK 196 1 .nil .nil) .nil)))) (ndK 219 6 (ndK 211 5 (ndK 206 4 (ndK 203 3 (ndK 201 2 (ndK 200 1 .nil
    .nil) (ndK 202 1 .nil .nil)) (ndK 205 2 (ndK 204 1 .nil .nil) .nil)) (ndK 209 3 (ndK 208 2 (ndK 207 1 .nil
    .nil) .nil) (ndK 210 1 .nil .nil))) (ndK 216 4 (ndK 214 3 (ndK 213 2 (ndK 212 1 .nil .nil) .nil) (ndK 215
    1 .nil .nil)) (ndK 218 2 (ndK 217 1 .nil .nil) .nil))) (ndK 227 5 (ndK 224 4 (ndK 222 3 (ndK 221 2 (ndK
    220 1 .nil .nil) .nil) (ndK 223 1 .nil .nil)) (ndK 226 2 (ndK 225 1 .nil .nil) .nil)) (ndK 230 3 (ndK 229
    2 (ndK 228 1 .nil .nil) .nil) (ndK 231 1 .nil .nil)))))) (ndK 321 8 (ndK 287 7 (ndK 266 6 (ndK 253 5 (ndK
    245 4 (ndK 240 3 (ndK 237 2 (ndK 235 1 .nil .nil) (ndK 239 1 .nil .nil)) (ndK 243 2 (ndK 242 1 .nil .nil)
    (ndK 244 1 .nil .nil))) (ndK 250 3 (ndK 248 2 (ndK 247 1 .nil .nil) (ndK 249 1 .nil .nil)) (ndK 252 2 (ndK
    251 1 .nil .nil) .nil))) (ndK 261 4 (ndK 258 3 (ndK 256 2 (ndK 255 1 .nil .nil) (ndK 257 1 .nil .nil))
    (ndK 260 2 (ndK 259 1 .nil .nil) .nil)) (ndK 264 3 (ndK 263 2 (ndK 262 1 .nil .nil) .nil) (ndK 265 1 .nil
    .nil)))) (ndK 279 5 (ndK 274 4 (ndK 271 3 (ndK 269 2 (ndK 268 1 .nil .nil) (ndK 270 1 .nil .nil)) (ndK 273
    2 (ndK 272 1 .nil .nil) .nil)) (ndK 277 3 (ndK 276 2 (ndK 275 1 .nil .nil) .nil) (ndK 278 1 .nil .nil)))
    (ndK 284 4 (ndK 282 3 (ndK 281 2 (ndK 280 1 .nil .nil) .nil) (ndK 283 1 .nil .nil)) (ndK 286 2 (ndK 285 1
    .nil .nil) .nil)))) (ndK 308 6 (ndK 300 5 (ndK 295 4 (ndK 292 3 (ndK 290 2 (ndK 289 1 .nil .nil) (ndK 291
    1 .nil .nil)) (ndK 294 2 (ndK 293 1 .nil .nil) .nil)) (ndK 298 3 (ndK 297 2 (ndK 296 1 .nil .nil) .nil)
    (ndK 299 1 .nil .nil))) (ndK 305 4 (ndK 303 3 (ndK 302 2 (ndK 301 1 .nil .nil) .nil) (ndK 304 1 .nil
    .nil)) (ndK 307 2 (ndK 306 1 .nil .nil) .nil))) (ndK 316 5 (ndK 313 4 (ndK 311 3 (ndK 310 2 (ndK 309 1
    .nil .nil) .nil) (ndK 312 1 .nil .nil)) (ndK 315 2 (ndK 314 1 .nil .nil) .nil)) (ndK 319 3 (ndK 318 2 (ndK
    317 1 .nil .nil) .nil) (ndK 320 1 .nil .nil))))) (ndK 355 7 (ndK 342 6 (ndK 334 5 (ndK 329 4 (ndK 326 3
    (ndK 324 2 (ndK 323 1 .nil .nil) (ndK 325 1 .nil .nil)) (ndK 328 2 (ndK 327 1 .nil .nil) .nil)) (ndK 332 3
    (ndK 331 2 (ndK 330 1 .nil .nil) .nil) (ndK 333 1 .nil .nil))) (ndK 339 4 (ndK 337 3 (ndK 336 2 (ndK 335 1
    .nil .nil) .nil) (ndK 338 1 .nil .nil)) (ndK 341 2 (ndK 340 1 .nil .nil) .nil))) (ndK 350 5 (ndK 347 4
    (ndK 345 3 (ndK 344 2 (ndK 343 1 .nil .nil) .nil) (ndK 346 1 .nil .nil)) (ndK 349 2 (ndK 348 1 .nil .nil)
    .nil)) (ndK 353 3 (ndK 352 2 (ndK 351 1 .nil .nil) .nil) (ndK 354 1 .nil .nil)))) (ndK 368 6 (ndK 363 5
    (ndK 360 4 (ndK 358 3 (ndK 357 2 (ndK 356 1 .nil .nil) .nil) (ndK 359 1 .nil .nil)) (ndK 362 2 (ndK 361 1
    .nil .nil) .nil)) (ndK 366 3 (ndK 365 2 (ndK 364 1 .nil .nil) .nil) (ndK 367 1 .nil .nil))) (ndK 373 4
    (ndK 371 3 (ndK 370 2 (ndK 369 1 .nil .nil) .nil) (ndK 372 1 .nil .nil)) (ndK 375 2 (ndK 374 1 .nil .nil)
    .nil)))))) (ndK 520 9 (ndK 465 8 (ndK 431 7 (ndK 410 6 (ndK 397 5 (ndK 389 4 (ndK 384 3 (ndK 381 2 (ndK
    379 1 .nil .nil) (ndK 383 1 .nil .nil)) (ndK 387 2 (ndK 386 1 .nil .nil) (ndK 388 1 .nil .nil))) (ndK 394
    3 (ndK 392 2 (ndK 391 1 .nil .nil) (ndK 393 1 .nil .nil)) (ndK 396 2 (ndK 395 1 .nil .nil) .nil))) (ndK
    405 4 (ndK 402 3 (ndK 400 2 (ndK 399 1 .nil .nil) (ndK 401 1 .nil .nil)) (ndK 404 2 (ndK 403 1 .nil .nil)
    .nil)) (ndK 408 3 (ndK 407 2 (ndK 406 1 .nil .nil) .nil) (ndK 409 1 .nil .nil)))) (ndK 423 5 (ndK 418 4
    (ndK 415 3 (ndK 413 2 (ndK 412 1 .nil .nil) (ndK 414 1 .nil .nil)) (ndK 417 2 (ndK 416 1 .nil .nil) .nil))
    (ndK 421 3 (ndK 420 2 (ndK 419 1 .nil .nil) .nil) (ndK 422 1 .nil .nil))) (ndK 428 4 (ndK 426 3 (ndK 425 2
    (ndK 424 1 .nil .nil) .nil) (ndK 427 1 .nil .nil)) (ndK 430 2 (ndK 429 1 .nil .nil) .nil)))) (ndK 452 6
    (ndK 444 5 (ndK 439 4 (ndK 436 3 (ndK 434 2 (ndK 433 1 .nil .nil) (ndK 435 1 .nil .nil)) (ndK 438 2 (ndK
    437 1 .nil .nil) .nil)) (ndK 442 3 (ndK 441 2 (ndK 440 1 .nil .nil) .nil) (ndK 443 1 .nil .nil))) (ndK 449
    4 (ndK 447 3 (ndK 446 2 (ndK 445 1 .nil .nil) .nil) (ndK 448 1 .nil .nil)) (ndK 451 2 (ndK 450 1 .nil
    .nil) .nil))) (ndK 460 5 (ndK 457 4 (ndK 455 3 (ndK 454 2 (ndK 453 1 .nil .nil) .nil) (ndK 456 1 .nil
    .nil)) (ndK 459 2 (ndK 458 1 .nil .nil) .nil)) (ndK 463 3 (ndK 462 2 (ndK 461 1 .nil .nil) .nil) (ndK 464
    1 .nil .nil))))) (ndK 499 7 (ndK 486 6 (ndK 478 5 (ndK 473 4 (ndK 470 3 (ndK 468 2 (ndK 467 1 .nil .nil)
    (ndK 469 1 .nil .nil)) (ndK 472 2 (ndK 471 1 .nil .nil) .nil)) (ndK 476 3 (ndK 475 2 (ndK 474 1 .nil .nil)
    .nil) (ndK 477 1 .nil .nil))) (ndK 483 4 (ndK 481 3 (ndK 480 2 (ndK 479 1 .nil .nil) .nil) (ndK 482 1 .nil
    .nil)) (ndK 485 2 (ndK 484 1 .nil .nil) .nil))) (ndK 494 5 (ndK 491 4 (ndK 489 3 (ndK 488 2 (ndK 487 1
    .nil .nil) .nil) (ndK 490 1 .nil .nil)) (ndK 493 2 (ndK 492 1 .nil .nil) .nil)) (ndK 497 3 (ndK 496 2 (ndK
    495 1 .nil .nil) .nil) (ndK 498 1 .nil .nil)))) (ndK 512 6 (ndK 507 5 (ndK 504 4 (ndK 502 3 (ndK 501 2
    (ndK 500 1 .nil .nil) .nil) (ndK 503 1 .nil .nil)) (ndK 506 2 (ndK 505 1 .nil .nil) .nil)) (ndK 510 3 (ndK
    509 2 (ndK 508 1 .nil .nil) .nil) (ndK 511 1 .nil .nil))) (ndK 517 4 (ndK 515 3 (ndK 514 2 (ndK 513 1 .nil
    .nil) .nil) (ndK 516 1 .nil .nil)) (ndK 519 2 (ndK 518 1 .nil .nil) .nil))))) (ndK 575 8 (ndK 554 7 (ndK
    541 6 (ndK 533 5 (ndK 528 4 (ndK 525 3 (ndK 523 2 (ndK 522 1 .nil .nil) (ndK 524 1 .nil .nil)) (ndK 527 2
    (ndK 526 1 .nil .nil) .nil)) (ndK 531 3 (ndK 530 2 (ndK 529 1 .nil .nil) .nil) (ndK 532 1 .nil .nil)))
    (ndK 538 4 (ndK 536 3 (ndK 535 2 (ndK 534 1 .nil .nil) .nil) (ndK 537 1 .nil .nil)) (ndK 540 2 (ndK 539 1
    .nil .nil) .nil))) (ndK 549 5 (ndK 546 4 (ndK 544 3 (ndK 543 2 (ndK 542 1 .nil .nil) .nil) (ndK 545 1 .nil
    .nil)) (ndK 548 2 (ndK 547 1 .nil .nil) .nil)) (ndK 552 3 (ndK 551 2 (ndK 550 1 .nil .nil) .nil) (ndK 553
    1 .nil .nil)))) (ndK 567 6 (ndK 562 5 (ndK 559 4 (ndK 557 3 (ndK 556 2 (ndK 555 1 .nil .nil) .nil) (ndK
    558 1 .nil .nil)) (ndK 561 2 (ndK 560 1 .nil .nil) .nil)) (ndK 565 3 (ndK 564 2 (ndK 563 1 .nil .nil)
    .nil) (ndK 566 1 .nil .nil))) (ndK 572 4 (ndK 570 3 (ndK 569 2 (ndK 568 1 .nil .nil) .nil) (ndK 571 1 .nil
    .nil)) (ndK 574 2 (ndK 573 1 .nil .nil) .nil)))) (ndK 596 7 (ndK 588 6 (ndK 583 5 (ndK 580 4 (ndK 578 3
    (ndK 577 2 (ndK 576 1 .nil .nil) .nil) (ndK 579 1 .nil .nil)) (ndK 582 2 (ndK 581 1 .nil .nil) .nil)) (ndK
    586 3 (ndK 585 2 (ndK 584 1 .nil .nil) .nil) (ndK 587 1 .nil .nil))) (ndK 593 4 (ndK 591 3 (ndK 590 2 (ndK
    589 1 .nil .nil) .nil) (ndK 592 1 .nil .nil)) (ndK 595 2 (ndK 594 1 .nil .nil) .nil))) (ndK 604 5 (ndK 601
    4 (ndK 599 3 (ndK 598 2 (ndK 597 1 .nil .nil) .nil) (ndK 600 1 .nil .nil)) (ndK 603 2 (ndK 602 1 .nil
    .nil) .nil)) (ndK 607 3 (ndK 606 2 (ndK 605 1 .nil .nil) .nil) (ndK 608 1 .nil .nil)))))))

/-- The tree after the first 570 inserts of `ops609`. -/
def t609c38 : AVLNode :=
  (ndK 376 11 (ndK 232 10 (ndK 143 9 (ndK 88 8 (ndK 54 7 (ndK 33 6 (ndK 20 5 (ndK 12 4 (ndK 7 3 (ndK 4 2 (ndK
    2 1 .nil .nil) (ndK 6 1 .nil .nil)) (ndK 10 2 (ndK 9 1 .nil .nil) (ndK 11 1 .nil .nil))) (ndK 17 3 (ndK 15
    2 (ndK 14 1 .nil .nil) (ndK 16 1 .nil .nil)) (ndK 19 2 (ndK 18 1 .nil .nil) .nil))) (ndK 28 4 (ndK 25 3
    (ndK 23 2 (ndK 22 1 .nil .nil) (ndK 24 1 .nil .nil)) (ndK 27 2 (ndK 26 1 .nil .nil) .nil)) (ndK 31 3 (ndK
    30 2 (ndK 29 1 .nil .nil) .nil) (ndK 32 1 .nil .nil)))) (ndK 46 5 (ndK 41 4 (ndK 38 3 (ndK 36 2 (ndK 35 1
    .nil .nil) (ndK 37 1 .nil .nil)) (ndK 40 2 (ndK 39 1 .nil .nil) .nil)) (ndK 44 3 (ndK 43 2 (ndK 42 1 .nil
    .nil) .nil) (ndK 45 1 .nil .nil))) (ndK 51 4 (ndK 49 3 (ndK 48 2 (ndK 47 1 .nil .nil) .nil) (ndK 50 1 .nil
    .nil)) (ndK 53 2 (ndK 52 1 .nil .nil) .nil)))) (ndK 75 6 (ndK 67 5 (ndK 62 4 (ndK 59 3 (ndK 57 2 (ndK 56 1
    .nil .nil) (ndK 58 1 .nil .nil)) (ndK 61 2 (ndK 60 1 .nil .nil) .nil)) (ndK 65 3 (ndK 64 2 (ndK 63 1 .nil
    .nil) .nil) (ndK 66 1 .nil .nil))) (ndK 72 4 (ndK 70 3 (ndK 69 2 (ndK 68 1 .nil .nil) .nil) (ndK 71 1 .nil
    .nil)) (ndK 74 2 (ndK 73 1 .nil .nil) .nil))) (ndK 83 5 (ndK 80 4 (ndK 78 3 (ndK 77 2 (ndK 76 1 .nil .nil)
    .nil) (ndK 79 1 .nil .nil)) (ndK 82 2 (ndK 81 1 .nil .nil) .nil)) (ndK 86 3 (ndK 85 2 (ndK 84 1 .nil .nil)
    .nil) (ndK 87 1 .nil .nil))))) (ndK 122 7 (ndK 109 6 (ndK 101 5 (ndK 96 4 (ndK 93 3 (ndK 91 2 (ndK 90 1
    .nil .nil) (ndK 92 1 .nil .nil)) (ndK 95 2 (ndK 94 1 .nil .nil) .nil)) (ndK 99 3 (ndK 98 2 (ndK 97 1 .nil
    .nil) .nil) (ndK 100 1 .nil .nil))) (ndK 106 4 (ndK 104 3 (ndK 103 2 (ndK 102 1 .nil .nil) .nil) (ndK 105
    1 .nil .nil)) (ndK 108 2 (ndK 107 1 .nil .nil) .nil))) (ndK 117 5 (ndK 114 4 (ndK 112 3 (ndK 111 2 (ndK
    110 1 .nil .nil) .nil) (ndK 113 1 .nil .nil)) (ndK 116 2 (ndK 115 1 .nil .nil) .nil)) (ndK 120 3 (ndK 119
    2 (ndK 118 1 .nil .nil) .nil) (ndK 121 1 .nil .nil)))) (ndK 135 6 (ndK 130 5 (ndK 127 4 (ndK 125 3 (ndK
    124 2 (ndK 123 1 .nil .nil) .nil) (ndK 126 1 .nil .nil)) (ndK 129 2 (ndK 128 1 .nil .nil) .nil)) (ndK 133
    3 (ndK 132 2 (ndK 131 1 .nil .nil) .nil) (ndK 134 1 .nil .nil))) (ndK 140 4 (ndK 138 3 (ndK 137 2 (ndK 136
    1 .nil .nil) .nil) (ndK 139 1 .nil .nil)) (ndK 142 2 (ndK 141 1 .nil .nil) .nil))))) (ndK 198 8 (ndK 177 7
    (ndK 164 6 (ndK 156 5 (ndK 151 4 (ndK 148 3 (ndK 146 2 (ndK 145 1 .nil .nil) .nil) (ndK 150 1 .nil .nil))
    (ndK 154 2 (ndK 153 1 .nil .nil) (ndK 155 1 .nil .nil))) (ndK 161 3 (ndK 159 2 (ndK 158 1 .nil .nil) (ndK
    160 1 .nil .nil)) (ndK 163 2 (ndK 162 1 .nil .nil) .nil))) (ndK 172 4 (ndK 169 3 (ndK 167 2 (ndK 166 1
    .nil .nil) (ndK 168 1 .nil .nil)) (ndK 171 2 (ndK 170 1 .nil .nil) .nil)) (ndK 175 3 (ndK 174 2 (ndK 173 1
    .nil .nil) .nil) (ndK 176 1 .nil .nil)))) (ndK 190 5 (ndK 185 4 (ndK 182 3 (ndK 180 2 (ndK 179 1 .nil
    .nil) (ndK 181 1 .nil .nil)) (ndK 184 2 (ndK 183 1 .nil .nil) .nil)) (ndK 188 3 (ndK 187 2 (ndK 186 1 .nil
    .nil) .nil) (ndK 189 1 .nil .nil))) (ndK 195 4 (ndK 193 3 (ndK 192 2 (ndK 191 1 .nil .nil) .nil) (ndK 194
    1 .nil .nil)) (ndK 197 2 (ndK 196 1 .nil .nil) .nil)))) (ndK 219 6 (ndK 211 5 (ndK 206 4 (ndK 203 3 (ndK
    201 2 (ndK 200 1 .nil .nil) (ndK 202 1 .nil .nil)) (ndK 205 2 (ndK 204 1 .nil .nil) .nil)) (ndK 209 3 (ndK
    208 2 (ndK 207 1 .nil .nil) .nil) (ndK 210 1 .nil .nil))) (ndK 216 4 (ndK 214 3 (ndK 213 2 (ndK 212 1 .nil
    .nil) .nil) (ndK 215 1 .nil .nil)) (ndK 218 2 (ndK 217 1 .nil .nil) .nil))) (ndK 227 5 (ndK 224 4 (ndK 222
    3 (ndK 221 2 (ndK 220 1 .nil .nil) .nil) (ndK 223 1 .nil .nil)) (ndK 226 2 (ndK 225 1 .nil .nil) .nil))
    (ndK 230 3 (ndK 229 2 (ndK 228 1 .nil .nil) .nil) (ndK 231 1 .nil .nil)))))) (ndK 321 8 (ndK 287 7 (ndK
    266 6 (ndK 253 5 (ndK 245 4 (ndK 240 3 (ndK 237 2 (ndK 235 1 .nil .nil) (ndK 239 1 .nil .nil)) (ndK 243 2
    (ndK 242 1 .nil .nil) (ndK 244 1 .nil .nil))) (ndK 250 3 (ndK 248 2 (ndK 247 1 .nil .nil) (ndK 249 1 .nil
    .nil)) (ndK 252 2 (ndK 251 1 .nil .nil) .nil))) (ndK 261 4 (ndK 258 3 (ndK 256 2 (ndK 255 1 .nil .nil)
    (ndK 257 1 .nil .nil)) (ndK 260 2 (ndK 259 1 .nil .nil) .nil)) (ndK 264 3 (ndK 263 2 (ndK 262 1 .nil .nil)
    .nil) (ndK 265 1 .nil .nil)))) (ndK 279 5 (ndK 274 4 (ndK 271 3 (ndK 269 2 (ndK 268 1 .nil .nil) (ndK 270
    1 .nil .nil)) (ndK 273 2 (ndK 272 1 .nil .nil) .nil)) (ndK 277 3 (ndK 276 2 (ndK 275 1 .nil .nil) .nil)
    (ndK 278 1 .nil .nil))) (ndK 284 4 (ndK 282 3 (ndK 281 2 (ndK 280 1 .nil .nil) .nil) (ndK 283 1 .nil
    .nil)) (ndK 286 2 (ndK 285 1 .nil .nil) .nil)))) (ndK 308 6 (ndK 300 5 (ndK 295 4 (ndK 292 3 (ndK 290 2
    (ndK 289 1 .nil .nil) (ndK 291 1 .nil .nil)) (ndK 294 2 (ndK 293 1 .nil .nil) .nil)) (ndK 298 3 (ndK 297 2
    (ndK 296 1 .nil .nil) .nil) (ndK 299 1 .nil .nil))) (ndK 305 4 (ndK 303 3 (ndK 302 2 (ndK 301 1 .nil .nil)
    .nil) (ndK 304 1 .nil .nil)) (ndK 307 2 (ndK 306 1 .nil .nil) .nil))) (ndK 316 5 (ndK 313 4 (ndK 311 3
    (ndK 310 2 (ndK 309 1 .nil .nil) .nil) (ndK 312 1 .nil .nil)) (ndK 315 2 (ndK 314 1 .nil .nil) .nil)) (ndK
    319 3 (ndK 318 2 (ndK 317 1 .nil .nil) .nil) (ndK 320 1 .nil .nil))))) (ndK 355 7 (ndK 342 6 (ndK 334 5
    (ndK 329 4 (ndK 326 3 (ndK 324 2 (ndK 323 1 .nil .nil) (ndK 325 1 .nil .nil)) (ndK 328 2 (ndK 327 1 .nil
    .nil) .nil)) (ndK 332 3 (ndK 331 2 (ndK 330 1 .nil .nil) .nil) (ndK 333 1 .nil .nil))) (ndK 339 4 (ndK 337
    3 (ndK 336 2 (ndK 335 1 .nil .nil) .nil) (ndK 338 1 .nil .nil)) (ndK 341 2 (ndK 340 1 .nil .nil) .nil)))
    (ndK 350 5 (ndK 347 4 (ndK 345 3 (ndK 344 2 (ndK 343 1 .nil .nil) .nil) (ndK 346 1 .nil .nil)) (ndK 349 2
    (ndK 348 1 .nil .nil) .nil)) (ndK 353 3 (ndK 352 2 (ndK 351 1 .nil .nil) .nil) (ndK 354 1 .nil .nil))))
    (ndK 368 6 (ndK 363 5 (ndK 360 4 (ndK 358 3 (ndK 357 2 (ndK 356 1 .nil .nil) .nil) (ndK 359 1 .nil .nil))
    (ndK 362 2 (ndK 361 1 .nil .nil) .nil)) (ndK 366 3 (ndK 365 2 (ndK 364 1 .nil .nil) .nil) (ndK 367 1 .nil
    .nil))) (ndK 373 4 (ndK 371 3 (ndK 370 2 (ndK 369 1 .nil .nil) .nil) (ndK 372 1 .nil .nil)) (ndK 375 2
    (ndK 374 1 .nil .nil) .nil)))))) (ndK 520 9 (ndK 465 8 (ndK 431 7 (ndK 410 6 (ndK 397 5 (ndK 389 4 (ndK
    384 3 (ndK 381 2 (ndK 379 1 .nil .nil) (ndK 383 1 .nil .nil)) (ndK 387 2 (ndK 386 1 .nil .nil) (ndK 388 1
    .nil .nil))) (ndK 394 3 (ndK 392 2 (ndK 391 1 .nil .nil) (ndK 393 1 .nil .nil)) (ndK 396 2 (ndK 395 1 .nil
    .nil) .nil))) (ndK 405 4 (ndK 402 3 (ndK 400 2 (ndK 399 1 .nil .nil) (ndK 401 1 .nil .nil)) (ndK 404 2
    (ndK 403 1 .nil .nil) .nil)) (ndK 408 3 (ndK 407 2 (ndK 406 1 .nil .nil) .nil) (ndK 409 1 .nil .nil))))
    (ndK 423 5 (ndK 418 4 (ndK 415 3 (ndK 413 2 (ndK 412 1 .nil .nil) (ndK 414 1 .nil .nil)) (ndK 417 2 (ndK
    416 1 .nil .nil) .nil)) (ndK 421 3 (ndK 420 2 (ndK 419 1 .nil .nil) .nil) (ndK 422 1 .nil .nil))) (ndK 428
    4 (ndK 426 3 (ndK 425 2 (ndK 424 1 .nil .nil) .nil) (ndK 427 1 .nil .nil)) (ndK 430 2 (ndK 429 1 .nil
    .nil) .nil)))) (ndK 452 6 (ndK 444 5 (ndK 439 4 (ndK 436 3 (ndK 434 2 (ndK 433 1 .nil .nil) (ndK 435 1
    .nil .nil)) (ndK 438 2 (ndK 437 1 .nil .nil) .nil)) (ndK 442 3 (ndK 441 2 (ndK 440 1 .nil .nil) .nil) (ndK
    443 1 .nil .nil))) (ndK 449 4 (ndK 447 3 (ndK 446 2 (ndK 445 1 .nil .nil) .nil) (ndK 448 1 .nil .nil))
    (ndK 451 2 (ndK 450 1 .nil .nil) .nil))) (ndK 460 5 (ndK 457 4 (ndK 455 3 (ndK 454 2 (ndK 453 1 .nil .nil)
    .nil) (ndK 456 1 .nil .nil)) (ndK 459 2 (ndK 458 1 .nil .nil) .nil)) (ndK 463 3 (ndK 462 2 (ndK 461 1 .nil
    .nil) .nil) (ndK 464 1 .nil .nil))))) (ndK 499 7 (ndK 486 6 (ndK 478 5 (ndK 473 4 (ndK 470 3 (ndK 468 2
    (ndK 467 1 .nil .nil) (ndK 469 1 .nil .nil)) (ndK 472 2 (ndK 471 1 .nil .nil) .nil)) (ndK 476 3 (ndK 475 2
    (ndK 474 1 .nil .nil) .nil) (ndK 477 1 .nil .nil))) (ndK 483 4 (ndK 481 3 (ndK 480 2 (ndK 479 1 .nil .nil)
    .nil) (ndK 482 1 .nil .nil)) (ndK 485 2 (ndK 484 1 .nil .nil) .nil))) (ndK 494 5 (ndK 491 4 (ndK 489 3
    (ndK 488 2 (ndK 487 1 .nil .nil) .nil) (ndK 490 1 .nil .nil)) (ndK 493 2 (ndK 492 1 .nil .nil) .nil)) (ndK
    497 3 (ndK 496 2 (ndK 495 1 .nil .nil) .nil) (ndK 498 1 .nil .nil)))) (ndK 512 6 (ndK 507 5 (ndK 504 4
    (ndK 502 3 (ndK 501 2 (ndK 500 1 .nil .nil) .nil) (ndK 503 1 .nil .nil)) (ndK 506 2 (ndK 505 1 .nil .nil)
    .nil)) (ndK 510 3 (ndK 509 2 (ndK 508 1 .nil .nil) .nil) (ndK 511 1 .nil .nil))) (ndK 517 4 (ndK 515 3
    (ndK 514 2 (ndK 513 1 .nil .nil) .nil) (ndK 516 1 .nil .nil)) (ndK 519 2 (ndK 518 1 .nil .nil) .nil)))))
    (ndK 575 8 (ndK 554 7 (ndK 541 6 (ndK 533 5 (ndK 528 4 (ndK 525 3 (ndK 523 2 (ndK 522 1 .nil .nil) (ndK
    524 1 .nil .nil)) (ndK 527 2 (ndK 526 1 .nil .nil) .nil)) (ndK 531 3 (ndK 530 2 (ndK 529 1 .nil .nil)
    .nil) (ndK 532 1 .nil .nil))) (ndK 538 4 (ndK 536 3 (ndK 535 2 (ndK 534 1 .nil .nil) .nil) (ndK 537 1 .nil
    .nil)) (ndK 540 2 (ndK 539 1 .nil .nil) .nil))) (ndK 549 5 (ndK 546 4 (ndK 544 3 (ndK 543 2 (ndK 542 1
    .nil .nil) .nil) (ndK 545 1 .nil .nil)) (ndK 548 2 (ndK 547 1 .nil .nil) .nil)) (ndK 552 3 (ndK 551 2 (ndK
    550 1 .nil .nil) .nil) (ndK 553 1 .nil .nil)))) (ndK 567 6 (ndK 562 5 (ndK 559 4 (ndK 557 3 (ndK 556 2
    (ndK 555 1 .nil .nil) .nil) (ndK 558 1 .nil .nil)) (ndK 561 2 (ndK 560 1 .nil .nil) .nil)) (ndK 565 3 (ndK
    564 2 (ndK 563 1 .nil .nil) .nil) (ndK 566 1 .nil .nil))) (ndK 572 4 (ndK 570 3 (ndK 569 2 (ndK 568 1 .nil
    .nil) .nil) (ndK 571 1 .nil .nil)) (ndK 574 2 (ndK 573 1 .nil .nil) .nil)))) (ndK 596 7 (ndK 588 6 (ndK
    583 5 (ndK 580 4 (ndK 578 3 (ndK 577 2 (ndK 576 1 .nil .nil) .nil) (ndK 579 1 .nil .nil)) (ndK 582 2 (ndK
    581 1 .nil .nil) .nil)) (ndK 586 3 (ndK 585 2 (ndK 584 1 .nil .nil) .nil) (ndK 587 1 .nil .nil))) (ndK 593
    4 (ndK 591 3 (ndK 590 2 (ndK 589 1 .nil .nil) .nil) (ndK 592 1 .nil .nil)) (ndK 595 2 (ndK 594 1 .nil
    .nil) .nil))) (ndK 604 5 (ndK 601 4 (ndK 599 3 (ndK 598 2 (ndK 597 1 .nil .nil) .nil) (ndK 600 1 .nil
    .nil)) (ndK 603 2 (ndK 602 1 .nil .nil) .nil)) (ndK 607 3 (ndK 606 2 (ndK 605 1 .nil .nil) .nil) (ndK 608
    1 .nil .nil)))))))

/-- The tree after the first 585 inserts of `ops609`. -/
def t609c39 : AVLNode :=
  (ndK 376 11 (ndK 232 10 (ndK 143 9 (ndK 88 8 (ndK 54 7 (ndK 33 6 (ndK 20 5 (ndK 12 4 (ndK 7 3 (ndK 4 2 (ndK
    2 1 .nil .nil) (ndK 6 1 .nil .nil)) (ndK 10 2 (ndK 9 1 .nil .nil) (ndK 11 1 .nil .nil))) (ndK 17 3 (ndK 15
    2 (ndK 14 1 .nil .nil) (ndK 16 1 .nil .nil)) (ndK 19 2 (ndK 18 1 .nil .nil) .nil))) (ndK 28 4 (ndK 25 3
    (ndK 23 2 (ndK 22 1 .nil .nil) (ndK 24 1 .nil .nil)) (ndK 27 2 (ndK 26 1 .nil .nil) .nil)) (ndK 31 3 (ndK
    30 2 (ndK 29 1 .nil .nil) .nil) (ndK 32 1 .nil .nil)))) (ndK 46 5 (ndK 41 4 (ndK 38 3 (ndK 36 2 (ndK 35 1
    .nil .nil) (ndK 37 1 .nil .nil)) (ndK 40 2 (ndK 39 1 .nil .nil) .nil)) (ndK 44 3 (ndK 43 2 (ndK 42 1 .nil
    .nil) .nil) (ndK 45 1 .nil .nil))) (ndK 51 4 (ndK 49 3 (ndK 48 2 (ndK 47 1 .nil .nil) .nil) (ndK 50 1 .nil
    .nil)) (ndK 53 2 (ndK 52 1 .nil .nil) .nil)))) (ndK 75 6 (ndK 67 5 (ndK 62 4 (ndK 59 3 (ndK 57 2 (ndK 56 1
    .nil .nil) (ndK 58 1 .nil .nil)) (ndK 61 2 (ndK 60 1 .nil .nil) .nil)) (ndK 65 3 (ndK 64 2 (ndK 63 1 .nil
    .nil) .nil) (ndK 66 1 .nil .nil))) (ndK 72 4 (ndK 70 3 (ndK 69 2 (ndK 68 1 .nil .nil) .nil) (ndK 71 1 .nil
    .nil)) (ndK 74 2 (ndK 73 1 .nil .nil) .nil))) (ndK 83 5 (ndK 80 4 (ndK 78 3 (ndK 77 2 (ndK 76 1 .nil .nil)
    .nil) (ndK 79 1 .nil .nil)) (ndK 82 2 (ndK 81 1 .nil .nil) .nil)) (ndK 86 3 (ndK 85 2 (ndK 84 1 .nil .nil)
    .nil) (ndK 87 1 .nil .nil))))) (ndK 122 7 (ndK 109 6 (ndK 101 5 (ndK 96 4 (ndK 93 3 (ndK 91 2 (ndK 90 1
    .nil .nil) (ndK 92 1 .nil .nil)) (ndK 95 2 (ndK 94 1 .nil .nil) .nil)) (ndK 99 3 (ndK 98 2 (ndK 97 1 .nil
    .nil) .nil) (ndK 100 1 .nil .nil))) (ndK 106 4 (ndK 104 3 (ndK 103 2 (ndK 102 1 .nil .nil) .nil) (ndK 105
    1 .nil .nil)) (ndK 108 2 (ndK 107 1 .nil .nil) .nil))) (ndK 117 5 (ndK 114 4 (ndK 112 3 (ndK 111 2 (ndK
    110 1 .nil .nil) .nil) (ndK 113 1 .nil .nil)) (ndK 116 2 (ndK 115 1 .nil .nil) .nil)) (ndK 120 3 (ndK 119
    2 (ndK 118 1 .nil .nil) .nil) (ndK 121 1 .nil .nil)))) (ndK 135 6 (ndK 130 5 (ndK 127 4 (ndK 125 3 (ndK
    124 2 (ndK 123 1 .nil .nil) .nil) (ndK 126 1 .nil .nil)) (ndK 129 2 (ndK 128 1 .nil .nil) .nil)) (ndK 133
    3 (ndK 132 2 (ndK 131 1 .nil .nil) .nil) (ndK 134 1 .nil .nil))) (ndK 140 4 (ndK 138 3 (ndK 137 2 (ndK 136
    1 .nil .nil) .nil) (ndK 139 1 .nil .nil)) (ndK 142 2 (ndK 141 1 .nil .nil) .nil))))) (ndK 198 8 (ndK 177 7
    (ndK 164 6 (ndK 156 5 (ndK 151 4 (ndK 148 3 (ndK 146 2 (ndK 145 1 .nil .nil) (ndK 147 1 .nil .nil)) (ndK
    150 2 (ndK 149 1 .nil .nil) .nil)) (ndK 154 3 (ndK 153 2 (ndK 152 1 .nil .nil) .nil) (ndK 155 1 .nil
    .nil))) (ndK 161 4 (ndK 159 3 (ndK 158 2 (ndK 157 1 .nil .nil) .nil) (ndK 160 1 .nil .nil)) (ndK 163 2
    (ndK 162 1 .nil .nil) .nil))) (ndK 172 5 (ndK 169 4 (ndK 167 3 (ndK 166 2 (ndK 165 1 .nil .nil) .nil) (ndK
    168 1 .nil .nil)) (ndK 171 2 (ndK 170 1 .nil .nil) .nil)) (ndK 175 3 (ndK 174 2 (ndK 173 1 .nil .nil)
    .nil) (ndK 176 1 .nil .nil)))) (ndK 190 6 (ndK 185 5 (ndK 182 4 (ndK 180 3 (ndK 179 2 (ndK 178 1 .nil
    .nil) .nil) (ndK 181 1 .nil .nil)) (ndK 184 2 (ndK 183 1 .nil .nil) .nil)) (ndK 188 3 (ndK 187 2 (ndK 186
    1 .nil .nil) .nil) (ndK 189 1 .nil .nil))) (ndK 195 4 (ndK 193 3 (ndK 192 2 (ndK 191 1 .nil .nil) .nil)
    (ndK 194 1 .nil .nil)) (ndK 197 2 (ndK 196 1 .nil .nil) .nil)))) (ndK 219 7 (ndK 211 6 (ndK 206 5 (ndK 203
    4 (ndK 201 3 (ndK 200 2 (ndK 199 1 .nil .nil) .nil) (ndK 202 1 .nil .nil)) (ndK 205 2 (ndK 204 1 .nil
    .nil) .nil)) (ndK 209 3 (ndK 208 2 (ndK 207 1 .nil .nil) .nil) (ndK 210 1 .nil .nil))) (ndK 216 4 (ndK 214
    3 (ndK 213 2 (ndK 212 1 .nil .nil) .nil) (ndK 215 1 .nil .nil)) (ndK 218 2 (ndK 217 1 .nil .nil) .nil)))
    (ndK 227 5 (ndK 224 4 (ndK 222 3 (ndK 221 2 (ndK 220 1 .nil .nil) .nil) (ndK 223 1 .nil .nil)) (ndK 226 2
    (ndK 225 1 .nil .nil) .nil)) (ndK 230 3 (ndK 229 2 (ndK 228 1 .nil .nil) .nil) (ndK 231 1 .nil .nil))))))
    (ndK 321 9 (ndK 287 8 (ndK 266 7 (ndK 253 6 (ndK 245 5 (ndK 240 4 (ndK 237 3 (ndK 235 2 (ndK 234 1 .nil
    .nil) (ndK 236 1 .nil .nil)) (ndK 239 2 (ndK 238 1 .nil .nil) .nil)) (ndK 243 3 (ndK 242 2 (ndK 241 1 .nil
    .nil) .nil) (ndK 244 1 .nil .nil))) (ndK 250 4 (ndK 248 3 (ndK 247 2 (ndK 246 1 .nil .nil) .nil) (ndK 249
    1 .nil .nil)) (ndK 252 2 (ndK 251 1 .nil .nil) .nil))) (ndK 261 5 (ndK 258 4 (ndK 256 3 (ndK 255 2 (ndK
    254 1 .nil .nil) .nil) (ndK 257 1 .nil .nil)) (ndK 260 2 (ndK 259 1 .nil .nil) .nil)) (ndK 264 3 (ndK 263
    2 (ndK 262 1 .nil .nil) .nil) (ndK 265 1 .nil .nil)))) (ndK 279 6 (ndK 274 5 (ndK 271 4 (ndK 269 3 (ndK
    268 2 (ndK 267 1 .nil .nil) .nil) (ndK 270 1 .nil .nil)) (ndK 273 2 (ndK 272 1 .nil .nil) .nil)) (ndK 277
    3 (ndK 276 2 (ndK 275 1 .nil .nil) .nil) (ndK 278 1 .nil .nil))) (ndK 284 4 (ndK 282 3 (ndK 281 2 (ndK 280
    1 .nil .nil) .nil) (ndK 283 1 .nil .nil)) (ndK 286 2 (ndK 285 1 .nil .nil) .nil)))) (ndK 308 7 (ndK 300 6
    (ndK 295 5 (ndK 292 4 (ndK 290 3 (ndK 289 2 (ndK 288 1 .nil .nil) .nil) (ndK 291 1 .nil .nil)) (ndK 294 2
    (ndK 293 1 .nil .nil) .nil)) (ndK 298 3 (ndK 297 2 (ndK 296 1 .nil .nil) .nil) (ndK 299 1 .nil .nil)))
    (ndK 305 4 (ndK 303 3 (ndK 302 2 (ndK 301 1 .nil .nil) .nil) (ndK 304 1 .nil .nil)) (ndK 307 2 (ndK 306 1
    .nil .nil) .nil))) (ndK 316 5 (ndK 313 4 (ndK 311 3 (ndK 310 2 (ndK 309 1 .nil .nil) .nil) (ndK 312 1 .nil
    .nil)) (ndK 315 2 (ndK 314 1 .nil .nil) .nil)) (ndK 319 3 (ndK 318 2 (ndK 317 1 .nil .nil) .nil) (ndK 320
    1 .nil .nil))))) (ndK 355 7 (ndK 342 6 (ndK 334 5 (ndK 329 4 (ndK 326 3 (ndK 324 2 (ndK 323 1 .nil .nil)
    (ndK 325 1 .nil .nil)) (ndK 328 2 (ndK 327 1 .nil .nil) .nil)) (ndK 332 3 (ndK 331 2 (ndK 330 1 .nil .nil)
    .nil) (ndK 333 1 .nil .nil))) (ndK 339 4 (ndK 337 3 (ndK 336 2 (ndK 335 1 .nil .nil) .nil) (ndK 338 1 .nil
    .nil)) (ndK 341 2 (ndK 340 1 .nil .nil) .nil))) (ndK 350 5 (ndK 347 4 (ndK 345 3 (ndK 344 2 (ndK 343 1
    .nil .nil) .nil) (ndK 346 1 .nil .nil)) (ndK 349 2 (ndK 348 1 .nil .nil) .nil)) (ndK 353 3 (ndK 352 2 (ndK
    351 1 .nil .nil) .nil) (ndK 354 1 .nil .nil)))) (ndK 368 6 (ndK 363 5 (ndK 360 4 (ndK 358 3 (ndK 357 2
    (ndK 356 1 .nil .nil) .nil) (ndK 359 1 .nil .nil)) (ndK 362 2 (ndK 361 1 .nil .nil) .nil)) (ndK 366 3 (ndK
    365 2 (ndK 364 1 .nil .nil) .nil) (ndK 367 1 .nil .nil))) (ndK 373 4 (ndK 371 3 (ndK 370 2 (ndK 369 1 .nil
    .nil) .nil) (ndK 372 1 .nil .nil)) (ndK 375 2 (ndK 374 1 .nil .nil) .nil)))))) (ndK 520 9 (ndK 465 8 (ndK
    431 7 (ndK 410 6 (ndK 397 5 (ndK 389 4 (ndK 384 3 (ndK 381 2 (ndK 379 1 .nil .nil) (ndK 383 1 .nil .nil))
    (ndK 387 2 (ndK 386 1 .nil .nil) (ndK 388 1 .nil .nil))) (ndK 394 3 (ndK 392 2 (ndK 391 1 .nil .nil) (ndK
    393 1 .nil .nil)) (ndK 396 2 (ndK 395 1 .nil .nil) .nil))) (ndK 405 4 (ndK 402 3 (ndK 400 2 (ndK 399 1
    .nil .nil) (ndK 401 1 .nil .nil)) (ndK 404 2 (ndK 403 1 .nil .nil) .nil)) (ndK 408 3 (ndK 407 2 (ndK 406 1
    .nil .nil) .nil) (ndK 409 1 .nil .nil)))) (ndK 423 5 (ndK 418 4 (ndK 415 3 (ndK 413 2 (ndK 412 1 .nil
    .nil) (ndK 414 1 .nil .nil)) (ndK 417 2 (ndK 416 1 .nil .nil) .nil)) (ndK 421 3 (ndK 420 2 (ndK 419 1 .nil
    .nil) .nil) (ndK 422 1 .nil .nil))) (ndK 428 4 (ndK 426 3 (ndK 425 2 (ndK 424 1 .nil .nil) .nil) (ndK 427
    1 .nil .nil)) (ndK 430 2 (ndK 429 1 .nil .nil) .nil)))) (ndK 452 6 (ndK 444 5 (ndK 439 4 (ndK 436 3 (ndK
    434 2 (ndK 433 1 .nil .nil) (ndK 435 1 .nil .nil)) (ndK 438 2 (ndK 437 1 .nil .nil) .nil)) (ndK 442 3 (ndK
    441 2 (ndK 440 1 .nil .nil) .nil) (ndK 443 1 .nil .nil))) (ndK 449 4 (ndK 447 3 (ndK 446 2 (ndK 445 1 .nil
    .nil) .nil) (ndK 448 1 .nil .nil)) (ndK 451 2 (ndK 450 1 .nil .nil) .nil))) (ndK 460 5 (ndK 457 4 (ndK 455
    3 (ndK 454 2 (ndK 453 1 .nil .nil) .nil) (ndK 456 1 .nil .nil)) (ndK 459 2 (ndK 458 1 .nil .nil) .nil))
    (ndK 463 3 (ndK 462 2 (ndK 461 1 .nil .nil) .nil) (ndK 464 1 .nil .nil))))) (ndK 499 7 (ndK 486 6 (ndK 478
    5 (ndK 473 4 (ndK 470 3 (ndK 468 2 (ndK 467 1 .nil .nil) (ndK 469 1 .nil .nil)) (ndK 472 2 (ndK 471 1 .nil
    .nil) .nil)) (ndK 476 3 (ndK 475 2 (ndK 474 1 .nil .nil) .nil) (ndK 477 1 .nil .nil))) (ndK 483 4 (ndK 481
    3 (ndK 480 2 (ndK 479 1 .nil .nil) .nil) (ndK 482 1 .nil .nil)) (ndK 485 2 (ndK 484 1 .nil .nil) .nil)))
    (ndK 494 5 (ndK 491 4 (ndK 489 3 (ndK 488 2 (ndK 487 1 .nil .nil) .nil) (ndK 490 1 .nil .nil)) (ndK 493 2
    (ndK 492 1 .nil .nil) .nil)) (ndK 497 3 (ndK 496 2 (ndK 495 1 .nil .nil) .nil) (ndK 498 1 .nil .nil))))
    (ndK 512 6 (ndK 507 5 (ndK 504 4 (ndK 502 3 (ndK 501 2 (ndK 500 1 .nil .nil) .nil) (ndK 503 1 .nil .nil))
    (ndK 506 2 (ndK 505 1 .nil .nil) .nil)) (ndK 510 3 (ndK 509 2 (ndK 508 1 .nil .nil) .nil) (ndK 511 1 .nil
    .nil))) (ndK 517 4 (ndK 515 3 (ndK 514 2 (ndK 513 1 .nil .nil) .nil) (ndK 516 1 .nil .nil)) (ndK 519 2
    (ndK 518 1 .nil .nil) .nil))))) (ndK 575 8 (ndK 554 7 (ndK 541 6 (ndK 533 5 (ndK 528 4 (ndK 525 3 (ndK 523
    2 (ndK 522 1 .nil .nil) (ndK 524 1 .nil .nil)) (ndK 527 2 (ndK 526 1 .nil .nil) .nil)) (ndK 531 3 (ndK 530
    2 (ndK 529 1 .nil .nil) .nil) (ndK 532 1 .nil .nil))) (ndK 538 4 (ndK 536 3 (ndK 535 2 (ndK 534 1 .nil
    .nil) .nil) (ndK 537 1 .nil .nil)) (ndK 540 2 (ndK 539 1 .nil .nil) .nil))) (ndK 549 5 (ndK 546 4 (ndK 544
    3 (ndK 543 2 (ndK 542 1 .nil .nil) .nil) (ndK 545 1 .nil .nil)) (ndK 548 2 (ndK 547 1 .nil .nil) .nil))
    (ndK 552 3 (ndK 551 2 (ndK 550 1 .nil .nil) .nil) (ndK 553 1 .nil .nil)))) (ndK 567 6 (ndK 562 5 (ndK 559
    4 (ndK 557 3 (ndK 556 2 (ndK 555 1 .nil .nil) .nil) (ndK 558 1 .nil .nil)) (ndK 561 2 (ndK 560 1 .nil
    .nil) .nil)) (ndK 565 3 (ndK 564 2 (ndK 563 1 .nil .nil) .nil) (ndK 566 1 .nil .nil))) (ndK 572 4 (ndK 570
    3 (ndK 569 2 (ndK 568 1 .nil .nil) .nil) (ndK 571 1 .nil .nil)) (ndK 574 2 (ndK 573 1 .nil .nil) .nil))))
    (ndK 596 7 (ndK 588 6 (ndK 583 5 (ndK 580 4 (ndK 578 3 (ndK 577 2 (ndK 576 1 .nil .nil) .nil) (ndK 579 1
    .nil .nil)) (ndK 582 2 (ndK 581 1 .nil .nil) .nil)) (ndK 586 3 (ndK 585 2 (ndK 584 1 .nil .nil) .nil) (ndK
    587 1 .nil .nil))) (ndK 593 4 (ndK 591 3 (ndK 590 2 (ndK 589 1 .nil .nil) .nil) (ndK 592 1 .nil .nil))
    (ndK 595 2 (ndK 594 1 .nil .nil) .nil))) (ndK 604 5 (ndK 601 4 (ndK 599 3 (ndK 598 2 (ndK 597 1 .nil .nil)
    .nil) (ndK 600 1 .nil .nil)) (ndK 603 2 (ndK 602 1 .nil .nil) .nil)) (ndK 607 3 (ndK 606 2 (ndK 605 1 .nil
    .nil) .nil) (ndK 608 1 .nil .nil)))))))

/-- The tree after the first 600 inserts of `ops609`. -/
def t609c40 : AVLNode :=
  (ndK 376 12 (ndK 232 11 (ndK 143 10 (ndK 88 9 (ndK 54 8 (ndK 33 7 (ndK 20 6 (ndK 12 5 (ndK 7 4 (ndK 4 3 (ndK
    2 2 (ndK 1 1 .nil .nil) (ndK 3 1 .nil .nil)) (ndK 6 2 (ndK 5 1 .nil .nil) .nil)) (ndK 10 3 (ndK 9 2 (ndK 8
    1 .nil .nil) .nil) (ndK 11 1 .nil .nil))) (ndK 17 3 (ndK 15 2 (ndK 14 1 .nil .nil) (ndK 16 1 .nil .nil))
    (ndK 19 2 (ndK 18 1 .nil .nil) .nil))) (ndK 28 4 (ndK 25 3 (ndK 23 2 (ndK 22 1 .nil .nil) (ndK 24 1 .nil
    .nil)) (ndK 27 2 (ndK 26 1 .nil .nil) .nil)) (ndK 31 3 (ndK 30 2 (ndK 29 1 .nil .nil) .nil) (ndK 32 1 .nil
    .nil)))) (ndK 46 5 (ndK 41 4 (ndK 38 3 (ndK 36 2 (ndK 35 1 .nil .nil) (ndK 37 1 .nil .nil)) (ndK 40 2 (ndK
    39 1 .nil .nil) .nil)) (ndK 44 3 (ndK 43 2 (ndK 42 1 .nil .nil) .nil) (ndK 45 1 .nil .nil))) (ndK 51 4
    (ndK 49 3 (ndK 48 2 (ndK 47 1 .nil .nil) .nil) (ndK 50 1 .nil .nil)) (ndK 53 2 (ndK 52 1 .nil .nil)
    .nil)))) (ndK 75 6 (ndK 67 5 (ndK 62 4 (ndK 59 3 (ndK 57 2 (ndK 56 1 .nil .nil) (ndK 58 1 .nil .nil)) (ndK
    61 2 (ndK 60 1 .nil .nil) .nil)) (ndK 65 3 (ndK 64 2 (ndK 63 1 .nil .nil) .nil) (ndK 66 1 .nil .nil)))
    (ndK 72 4 (ndK 70 3 (ndK 69 2 (ndK 68 1 .nil .nil) .nil) (ndK 71 1 .nil .nil)) (ndK 74 2 (ndK 73 1 .nil
    .nil) .nil))) (ndK 83 5 (ndK 80 4 (ndK 78 3 (ndK 77 2 (ndK 76 1 .nil .nil) .nil) (ndK 79 1 .nil .nil))
    (ndK 82 2 (ndK 81 1 .nil .nil) .nil)) (ndK 86 3 (ndK 85 2 (ndK 84 1 .nil .nil) .nil) (ndK 87 1 .nil
    .nil))))) (ndK 122 7 (ndK 109 6 (ndK 101 5 (ndK 96 4 (ndK 93 3 (ndK 91 2 (ndK 90 1 .nil .nil) (ndK 92 1
    .nil .nil)) (ndK 95 2 (ndK 94 1 .nil .nil) .nil)) (ndK 99 3 (ndK 98 2 (ndK 97 1 .nil .nil) .nil) (ndK 100
    1 .nil .nil))) (ndK 106 4 (ndK 104 3 (ndK 103 2 (ndK 102 1 .nil .nil) .nil) (ndK 105 1 .nil .nil)) (ndK
    108 2 (ndK 107 1 .nil .nil) .nil))) (ndK 117 5 (ndK 114 4 (ndK 112 3 (ndK 111 2 (ndK 110 1 .nil .nil)
    .nil) (ndK 113 1 .nil .nil)) (ndK 116 2 (ndK 115 1 .nil .nil) .nil)) (ndK 120 3 (ndK 119 2 (ndK 118 1 .nil
    .nil) .nil) (ndK 121 1 .nil .nil)))) (ndK 135 6 (ndK 130 5 (ndK 127 4 (ndK 125 3 (ndK 124 2 (ndK 123 1
    .nil .nil) .nil) (ndK 126 1 .nil .nil)) (ndK 129 2 (ndK 128 1 .nil .nil) .nil)) (ndK 133 3 (ndK 132 2 (ndK
    131 1 .nil .nil) .nil) (ndK 134 1 .nil .nil))) (ndK 140 4 (ndK 138 3 (ndK 137 2 (ndK 136 1 .nil .nil)
    .nil) (ndK 139 1 .nil .nil)) (ndK 142 2 (ndK 141 1 .nil .nil) .nil))))) (ndK 198 8 (ndK 177 7 (ndK 164 6
    (ndK 156 5 (ndK 151 4 (ndK 148 3 (ndK 146 2 (ndK 145 1 .nil .nil) (ndK 147 1 .nil .nil)) (ndK 150 2 (ndK
    149 1 .nil .nil) .nil)) (ndK 154 3 (ndK 153 2 (ndK 152 1 .nil .nil) .nil) (ndK 155 1 .nil .nil))) (ndK 161
    4 (ndK 159 3 (ndK 158 2 (ndK 157 1 .nil .nil) .nil) (ndK 160 1 .nil .nil)) (ndK 163 2 (ndK 162 1 .nil
    .nil) .nil))) (ndK 172 5 (ndK 169 4 (ndK 167 3 (ndK 166 2 (ndK 165 1 .nil .nil) .nil) (ndK 168 1 .nil
    .nil)) (ndK 171 2 (ndK 170 1 .nil .nil) .nil)) (ndK 175 3 (ndK 174 2 (ndK 173 1 .nil .nil) .nil) (ndK 176
    1 .nil .nil)))) (ndK 190 6 (ndK 185 5 (ndK 182 4 (ndK 180 3 (ndK 179 2 (ndK 178 1 .nil .nil) .nil) (ndK
    181 1 .nil .nil)) (ndK 184 2 (ndK 183 1 .nil .nil) .nil)) (ndK 188 3 (ndK 187 2 (ndK 186 1 .nil .nil)
    .nil) (ndK 189 1 .nil .nil))) (ndK 195 4 (ndK 193 3 (ndK 192 2 (ndK 191 1 .nil .nil) .nil) (ndK 194 1 .nil
    .nil)) (ndK 197 2 (ndK 196 1 .nil .nil) .nil)))) (ndK 219 7 (ndK 211 6 (ndK 206 5 (ndK 203 4 (ndK 201 3
    (ndK 200 2 (ndK 199 1 .nil .nil) .nil) (ndK 202 1 .nil .nil)) (ndK 205 2 (ndK 204 1 .nil .nil) .nil)) (ndK
    209 3 (ndK 208 2 (ndK 207 1 .nil .nil) .nil) (ndK 210 1 .nil .nil))) (ndK 216 4 (ndK 214 3 (ndK 213 2 (ndK
    212 1 .nil .nil) .nil) (ndK 215 1 .nil .nil)) (ndK 218 2 (ndK 217 1 .nil .nil) .nil))) (ndK 227 5 (ndK 224
    4 (ndK 222 3 (ndK 221 2 (ndK 220 1 .nil .nil) .nil) (ndK 223 1 .nil .nil)) (ndK 226 2 (ndK 225 1 .nil
    .nil) .nil)) (ndK 230 3 (ndK 229 2 (ndK 228 1 .nil .nil) .nil) (ndK 231 1 .nil .nil)))))) (ndK 321 9 (ndK
    287 8 (ndK 266 7 (ndK 253 6 (ndK 245 5 (ndK 240 4 (ndK 237 3 (ndK 235 2 (ndK 234 1 .nil .nil) (ndK 236 1
    .nil .nil)) (ndK 239 2 (ndK 238 1 .nil .nil) .nil)) (ndK 243 3 (ndK 242 2 (ndK 241 1 .nil .nil) .nil) (ndK
    244 1 .nil .nil))) (ndK 250 4 (ndK 248 3 (ndK 247 2 (ndK 246 1 .nil .nil) .nil) (ndK 249 1 .nil .nil))
    (ndK 252 2 (ndK 251 1 .nil .nil) .nil))) (ndK 261 5 (ndK 258 4 (ndK 256 3 (ndK 255 2 (ndK 254 1 .nil .nil)
    .nil) (ndK 257 1 .nil .nil)) (ndK 260 2 (ndK 259 1 .nil .nil) .nil)) (ndK 264 3 (ndK 263 2 (ndK 262 1 .nil
    .nil) .nil) (ndK 265 1 .nil .nil)))) (ndK 279 6 (ndK 274 5 (ndK 271 4 (ndK 269 3 (ndK 268 2 (ndK 267 1
    .nil .nil) .nil) (ndK 270 1 .nil .nil)) (ndK 273 2 (ndK 272 1 .nil .nil) .nil)) (ndK 277 3 (ndK 276 2 (ndK
    275 1 .nil .nil) .nil) (ndK 278 1 .nil .nil))) (ndK 284 4 (ndK 282 3 (ndK 281 2 (ndK 280 1 .nil .nil)
    .nil) (ndK 283 1 .nil .nil)) (ndK 286 2 (ndK 285 1 .nil .nil) .nil)))) (ndK 308 7 (ndK 300 6 (ndK 295 5
    (ndK 292 4 (ndK 290 3 (ndK 289 2 (ndK 288 1 .nil .nil) .nil) (ndK 291 1 .nil .nil)) (ndK 294 2 (ndK 293 1
    .nil .nil) .nil)) (ndK 298 3 (ndK 297 2 (ndK 296 1 .nil .nil) .nil) (ndK 299 1 .nil .nil))) (ndK 305 4
    (ndK 303 3 (ndK 302 2 (ndK 301 1 .nil .nil) .nil) (ndK 304 1 .nil .nil)) (ndK 307 2 (ndK 306 1 .nil .nil)
    .nil))) (ndK 316 5 (ndK 313 4 (ndK 311 3 (ndK 310 2 (ndK 309 1 .nil .nil) .nil) (ndK 312 1 .nil .nil))
    (ndK 315 2 (ndK 314 1 .nil .nil) .nil)) (ndK 319 3 (ndK 318 2 (ndK 317 1 .nil .nil) .nil) (ndK 320 1 .nil
    .nil))))) (ndK 355 8 (ndK 342 7 (ndK 334 6 (ndK 329 5 (ndK 326 4 (ndK 324 3 (ndK 323 2 (ndK 322 1 .nil
    .nil) .nil) (ndK 325 1 .nil .nil)) (ndK 328 2 (ndK 327 1 .nil .nil) .nil)) (ndK 332 3 (ndK 331 2 (ndK 330
    1 .nil .nil) .nil) (ndK 333 1 .nil .nil))) (ndK 339 4 (ndK 337 3 (ndK 336 2 (ndK 335 1 .nil .nil) .nil)
    (ndK 338 1 .nil .nil)) (ndK 341 2 (ndK 340 1 .nil .nil) .nil))) (ndK 350 5 (ndK 347 4 (ndK 345 3 (ndK 344
    2 (ndK 343 1 .nil .nil) .nil) (ndK 346 1 .nil .nil)) (ndK 349 2 (ndK 348 1 .nil .nil) .nil)) (ndK 353 3
    (ndK 352 2 (ndK 351 1 .nil .nil) .nil) (ndK 354 1 .nil .nil)))) (ndK 368 6 (ndK 363 5 (ndK 360 4 (ndK 358
    3 (ndK 357 2 (ndK 356 1 .nil .nil) .nil) (ndK 359 1 .nil .nil)) (ndK 362 2 (ndK 361 1 .nil .nil) .nil))
    (ndK 366 3 (ndK 365 2 (ndK 364 1 .nil .nil) .nil) (ndK 367 1 .nil .nil))) (ndK 373 4 (ndK 371 3 (ndK 370 2
    (ndK 369 1 .nil .nil) .nil) (ndK 372 1 .nil .nil)) (ndK 375 2 (ndK 374 1 .nil .nil) .nil)))))) (ndK 520 10
    (ndK 465 9 (ndK 431 8 (ndK 410 7 (ndK 397 6 (ndK 389 5 (ndK 384 4 (ndK 381 3 (ndK 379 2 (ndK 378 1 .nil
    .nil) (ndK 380 1 .nil .nil)) (ndK 383 2 (ndK 382 1 .nil .nil) .nil)) (ndK 387 3 (ndK 386 2 (ndK 385 1 .nil
    .nil) .nil) (ndK 388 1 .nil .nil))) (ndK 394 4 (ndK 392 3 (ndK 391 2 (ndK 390 1 .nil .nil) .nil) (ndK 393
    1 .nil .nil)) (ndK 396 2 (ndK 395 1 .nil .nil) .nil))) (ndK 405 5 (ndK 402 4 (ndK 400 3 (ndK 399 2 (ndK
    398 1 .nil .nil) .nil) (ndK 401 1 .nil .nil)) (ndK 404 2 (ndK 403 1 .nil .nil) .nil)) (ndK 408 3 (ndK 407
    2 (ndK 406 1 .nil .nil) .nil) (ndK 409 1 .nil .nil)))) (ndK 423 6 (ndK 418 5 (ndK 415 4 (ndK 413 3 (ndK
    412 2 (ndK 411 1 .nil .nil) .nil) (ndK 414 1 .nil .nil)) (ndK 417 2 (ndK 416 1 .nil .nil) .nil)) (ndK 421
    3 (ndK 420 2 (ndK 419 1 .nil .nil) .nil) (ndK 422 1 .nil .nil))) (ndK 428 4 (ndK 426 3 (ndK 425 2 (ndK 424
    1 .nil .nil) .nil) (ndK 427 1 .nil .nil)) (ndK 430 2 (ndK 429 1 .nil .nil) .nil)))) (ndK 452 7 (ndK 444 6
    (ndK 439 5 (ndK 436 4 (ndK 434 3 (ndK 433 2 (ndK 432 1 .nil .nil) .nil) (ndK 435 1 .nil .nil)) (ndK 438 2
    (ndK 437 1 .nil .nil) .nil)) (ndK 442 3 (ndK 441 2 (ndK 440 1 .nil .nil) .nil) (ndK 443 1 .nil .nil)))
    (ndK 449 4 (ndK 447 3 (ndK 446 2 (ndK 445 1 .nil .nil) .nil) (ndK 448 1 .nil .nil)) (ndK 451 2 (ndK 450 1
    .nil .nil) .nil))) (ndK 460 5 (ndK 457 4 (ndK 455 3 (ndK 454 2 (ndK 453 1 .nil .nil) .nil) (ndK 456 1 .nil
    .nil)) (ndK 459 2 (ndK 458 1 .nil .nil) .nil)) (ndK 463 3 (ndK 462 2 (ndK 461 1 .nil .nil) .nil) (ndK 464
    1 .nil .nil))))) (ndK 499 8 (ndK 486 7 (ndK 478 6 (ndK 473 5 (ndK 470 4 (ndK 468 3 (ndK 467 2 (ndK 466 1
    .nil .nil) .nil) (ndK 469 1 .nil .nil)) (ndK 472 2 (ndK 471 1 .nil .nil) .nil)) (ndK 476 3 (ndK 475 2 (ndK
    474 1 .nil .nil) .nil) (ndK 477 1 .nil .nil))) (ndK 483 4 (ndK 481 3 (ndK 480 2 (ndK 479 1 .nil .nil)
    .nil) (ndK 482 1 .nil .nil)) (ndK 485 2 (ndK 484 1 .nil .nil) .nil))) (ndK 494 5 (ndK 491 4 (ndK 489 3
    (ndK 488 2 (ndK 487 1 .nil .nil) .nil) (ndK 490 1 .nil .nil)) (ndK 493 2 (ndK 492 1 .nil .nil) .nil)) (ndK
    497 3 (ndK 496 2 (ndK 495 1 .nil .nil) .nil) (ndK 498 1 .nil .nil)))) (ndK 512 6 (ndK 507 5 (ndK 504 4
    (ndK 502 3 (ndK 501 2 (ndK 500 1 .nil .nil) .nil) (ndK 503 1 .nil .nil)) (ndK 506 2 (ndK 505 1 .nil .nil)
    .nil)) (ndK 510 3 (ndK 509 2 (ndK 508 1 .nil .nil) .nil) (ndK 511 1 .nil .nil))) (ndK 517 4 (ndK 515 3
    (ndK 514 2 (ndK 513 1 .nil .nil) .nil) (ndK 516 1 .nil .nil)) (ndK 519 2 (ndK 518 1 .nil .nil) .nil)))))
    (ndK 575 9 (ndK 554 8 (ndK 541 7 (ndK 533 6 (ndK 528 5 (ndK 525 4 (ndK 523 3 (ndK 522 2 (ndK 521 1 .nil
    .nil) .nil) (ndK 524 1 .nil .nil)) (ndK 527 2 (ndK 526 1 .nil .nil) .nil)) (ndK 531 3 (ndK 530 2 (ndK 529
    1 .nil .nil) .nil) (ndK 532 1 .nil .nil))) (ndK 538 4 (ndK 536 3 (ndK 535 2 (ndK 534 1 .nil .nil) .nil)
    (ndK 537 1 .nil .nil)) (ndK 540 2 (ndK 539 1 .nil .nil) .nil))) (ndK 549 5 (ndK 546 4 (ndK 544 3 (ndK 543
    2 (ndK 542 1 .nil .nil) .nil) (ndK 545 1 .nil .nil)) (ndK 548 2 (ndK 547 1 .nil .nil) .nil)) (ndK 552 3
    (ndK 551 2 (ndK 550 1 .nil .nil) .nil) (ndK 553 1 .nil .nil)))) (ndK 567 6 (ndK 562 5 (ndK 559 4 (ndK 557
    3 (ndK 556 2 (ndK 555 1 .nil .nil) .nil) (ndK 558 1 .nil .nil)) (ndK 561 2 (ndK 560 1 .nil .nil) .nil))
    (ndK 565 3 (ndK 564 2 (ndK 563 1 .nil .nil) .nil) (ndK 566 1 .nil .nil))) (ndK 572 4 (ndK 570 3 (ndK 569 2
    (ndK 568 1 .nil .nil) .nil) (ndK 571 1 .nil .nil)) (ndK 574 2 (ndK 573 1 .nil .nil) .nil)))) (ndK 596 7
    (ndK 588 6 (ndK 583 5 (ndK 580 4 (ndK 578 3 (ndK 577 2 (ndK 576 1 .nil .nil) .nil) (ndK 579 1 .nil .nil))
    (ndK 582 2 (ndK 581 1 .nil .nil) .nil)) (ndK 586 3 (ndK 585 2 (ndK 584 1 .nil .nil) .nil) (ndK 587 1 .nil
    .nil))) (ndK 593 4 (ndK 591 3 (ndK 590 2 (ndK 589 1 .nil .nil) .nil) (ndK 592 1 .nil .nil)) (ndK 595 2
    (ndK 594 1 .nil .nil) .nil))) (ndK 604 5 (ndK 601 4 (ndK 599 3 (ndK 598 2 (ndK 597 1 .nil .nil) .nil) (ndK
    600 1 .nil .nil)) (ndK 603 2 (ndK 602 1 .nil .nil) .nil)) (ndK 607 3 (ndK 606 2 (ndK 605 1 .nil .nil)
    .nil) (ndK 608 1 .nil .nil)))))))

/-- The tree after the first 609 inserts of `ops609`. -/
def t609 : AVLNode :=
  (ndK 376 13 (ndK 232 12 (ndK 143 11 (ndK 88 10 (ndK 54 9 (ndK 33 8 (ndK 20 7 (ndK 12 6 (ndK 7 5 (ndK 4 4
    (ndK 2 3 (ndK 1 2 (ndK 0 1 .nil .nil) .nil) (ndK 3 1 .nil .nil)) (ndK 6 2 (ndK 5 1 .nil .nil) .nil)) (ndK
    10 3 (ndK 9 2 (ndK 8 1 .nil .nil) .nil) (ndK 11 1 .nil .nil))) (ndK 17 4 (ndK 15 3 (ndK 14 2 (ndK 13 1
    .nil .nil) .nil) (ndK 16 1 .nil .nil)) (ndK 19 2 (ndK 18 1 .nil .nil) .nil))) (ndK 28 5 (ndK 25 4 (ndK 23
    3 (ndK 22 2 (ndK 21 1 .nil .nil) .nil) (ndK 24 1 .nil .nil)) (ndK 27 2 (ndK 26 1 .nil .nil) .nil)) (ndK 31
    3 (ndK 30 2 (ndK 29 1 .nil .nil) .nil) (ndK 32 1 .nil .nil)))) (ndK 46 6 (ndK 41 5 (ndK 38 4 (ndK 36 3
    (ndK 35 2 (ndK 34 1 .nil .nil) .nil) (ndK 37 1 .nil .nil)) (ndK 40 2 (ndK 39 1 .nil .nil) .nil)) (ndK 44 3
    (ndK 43 2 (ndK 42 1 .nil .nil) .nil) (ndK 45 1 .nil .nil))) (ndK 51 4 (ndK 49 3 (ndK 48 2 (ndK 47 1 .nil
    .nil) .nil) (ndK 50 1 .nil .nil)) (ndK 53 2 (ndK 52 1 .nil .nil) .nil)))) (ndK 75 7 (ndK 67 6 (ndK 62 5
    (ndK 59 4 (ndK 57 3 (ndK 56 2 (ndK 55 1 .nil .nil) .nil) (ndK 58 1 .nil .nil)) (ndK 61 2 (ndK 60 1 .nil
    .nil) .nil)) (ndK 65 3 (ndK 64 2 (ndK 63 1 .nil .nil) .nil) (ndK 66 1 .nil .nil))) (ndK 72 4 (ndK 70 3
    (ndK 69 2 (ndK 68 1 .nil .nil) .nil) (ndK 71 1 .nil .nil)) (ndK 74 2 (ndK 73 1 .nil .nil) .nil))) (ndK 83
    5 (ndK 80 4 (ndK 78 3 (ndK 77 2 (ndK 76 1 .nil .nil) .nil) (ndK 79 1 .nil .nil)) (ndK 82 2 (ndK 81 1 .nil
    .nil) .nil)) (ndK 86 3 (ndK 85 2 (ndK 84 1 .nil .nil) .nil) (ndK 87 1 .nil .nil))))) (ndK 122 8 (ndK 109 7
    (ndK 101 6 (ndK 96 5 (ndK 93 4 (ndK 91 3 (ndK 90 2 (ndK 89 1 .nil .nil) .nil) (ndK 92 1 .nil .nil)) (ndK
    95 2 (ndK 94 1 .nil .nil) .nil)) (ndK 99 3 (ndK 98 2 (ndK 97 1 .nil .nil) .nil) (ndK 100 1 .nil .nil)))
    (ndK 106 4 (ndK 104 3 (ndK 103 2 (ndK 102 1 .nil .nil) .nil) (ndK 105 1 .nil .nil)) (ndK 108 2 (ndK 107 1
    .nil .nil) .nil))) (ndK 117 5 (ndK 114 4 (ndK 112 3 (ndK 111 2 (ndK 110 1 .nil .nil) .nil) (ndK 113 1 .nil
    .nil)) (ndK 116 2 (ndK 115 1 .nil .nil) .nil)) (ndK 120 3 (ndK 119 2 (ndK 118 1 .nil .nil) .nil) (ndK 121
    1 .nil .nil)))) (ndK 135 6 (ndK 130 5 (ndK 127 4 (ndK 125 3 (ndK 124 2 (ndK 123 1 .nil .nil) .nil) (ndK
    126 1 .nil .nil)) (ndK 129 2 (ndK 128 1 .nil .nil) .nil)) (ndK 133 3 (ndK 132 2 (ndK 131 1 .nil .nil)
    .nil) (ndK 134 1 .nil .nil))) (ndK 140 4 (ndK 138 3 (ndK 137 2 (ndK 136 1 .nil .nil) .nil) (ndK 139 1 .nil
    .nil)) (ndK 142 2 (ndK 141 1 .nil .nil) .nil))))) (ndK 198 9 (ndK 177 8 (ndK 164 7 (ndK 156 6 (ndK 151 5
    (ndK 148 4 (ndK 146 3 (ndK 145 2 (ndK 144 1 .nil .nil) .nil) (ndK 147 1 .nil .nil)) (ndK 150 2 (ndK 149 1
    .nil .nil) .nil)) (ndK 154 3 (ndK 153 2 (ndK 152 1 .nil .nil) .nil) (ndK 155 1 .nil .nil))) (ndK 161 4
    (ndK 159 3 (ndK 158 2 (ndK 157 1 .nil .nil) .nil) (ndK 160 1 .nil .nil)) (ndK 163 2 (ndK 162 1 .nil .nil)
    .nil))) (ndK 172 5 (ndK 169 4 (ndK 167 3 (ndK 166 2 (ndK 165 1 .nil .nil) .nil) (ndK 168 1 .nil .nil))
    (ndK 171 2 (ndK 170 1 .nil .nil) .nil)) (ndK 175 3 (ndK 174 2 (ndK 173 1 .nil .nil) .nil) (ndK 176 1 .nil
    .nil)))) (ndK 190 6 (ndK 185 5 (ndK 182 4 (ndK 180 3 (ndK 179 2 (ndK 178 1 .nil .nil) .nil) (ndK 181 1
    .nil .nil)) (ndK 184 2 (ndK 183 1 .nil .nil) .nil)) (ndK 188 3 (ndK 187 2 (ndK 186 1 .nil .nil) .nil) (ndK
    189 1 .nil .nil))) (ndK 195 4 (ndK 193 3 (ndK 192 2 (ndK 191 1 .nil .nil) .nil) (ndK 194 1 .nil .nil))
    (ndK 197 2 (ndK 196 1 .nil .nil) .nil)))) (ndK 219 7 (ndK 211 6 (ndK 206 5 (ndK 203 4 (ndK 201 3 (ndK 200
    2 (ndK 199 1 .nil .nil) .nil) (ndK 202 1 .nil .nil)) (ndK 205 2 (ndK 204 1 .nil .nil) .nil)) (ndK 209 3
    (ndK 208 2 (ndK 207 1 .nil .nil) .nil) (ndK 210 1 .nil .nil))) (ndK 216 4 (ndK 214 3 (ndK 213 2 (ndK 212 1
    .nil .nil) .nil) (ndK 215 1 .nil .nil)) (ndK 218 2 (ndK 217 1 .nil .nil) .nil))) (ndK 227 5 (ndK 224 4
    (ndK 222 3 (ndK 221 2 (ndK 220 1 .nil .nil) .nil) (ndK 223 1 .nil .nil)) (ndK 226 2 (ndK 225 1 .nil .nil)
    .nil)) (ndK 230 3 (ndK 229 2 (ndK 228 1 .nil .nil) .nil) (ndK 231 1 .nil .nil)))))) (ndK 321 10 (ndK 287 9
    (ndK 266 8 (ndK 253 7 (ndK 245 6 (ndK 240 5 (ndK 237 4 (ndK 235 3 (ndK 234 2 (ndK 233 1 .nil .nil) .nil)
    (ndK 236 1 .nil .nil)) (ndK 239 2 (ndK 238 1 .nil .nil) .nil)) (ndK 243 3 (ndK 242 2 (ndK 241 1 .nil .nil)
    .nil) (ndK 244 1 .nil .nil))) (ndK 250 4 (ndK 248 3 (ndK 247 2 (ndK 246 1 .nil .nil) .nil) (ndK 249 1 .nil
    .nil)) (ndK 252 2 (ndK 251 1 .nil .nil) .nil))) (ndK 261 5 (ndK 258 4 (ndK 256 3 (ndK 255 2 (ndK 254 1
    .nil .nil) .nil) (ndK 257 1 .nil .nil)) (ndK 260 2 (ndK 259 1 .nil .nil) .nil)) (ndK 264 3 (ndK 263 2 (ndK
    262 1 .nil .nil) .nil) (ndK 265 1 .nil .nil)))) (ndK 279 6 (ndK 274 5 (ndK 271 4 (ndK 269 3 (ndK 268 2
    (ndK 267 1 .nil .nil) .nil) (ndK 270 1 .nil .nil)) (ndK 273 2 (ndK 272 1 .nil .nil) .nil)) (ndK 277 3 (ndK
    276 2 (ndK 275 1 .nil .nil) .nil) (ndK 278 1 .nil .nil))) (ndK 284 4 (ndK 282 3 (ndK 281 2 (ndK 280 1 .nil
    .nil) .nil) (ndK 283 1 .nil .nil)) (ndK 286 2 (ndK 285 1 .nil .nil) .nil)))) (ndK 308 7 (ndK 300 6 (ndK
    295 5 (ndK 292 4 (ndK 290 3 (ndK 289 2 (ndK 288 1 .nil .nil) .nil) (ndK 291 1 .nil .nil)) (ndK 294 2 (ndK
    293 1 .nil .nil) .nil)) (ndK 298 3 (ndK 297 2 (ndK 296 1 .nil .nil) .nil) (ndK 299 1 .nil .nil))) (ndK 305
    4 (ndK 303 3 (ndK 302 2 (ndK 301 1 .nil .nil) .nil) (ndK 304 1 .nil .nil)) (ndK 307 2 (ndK 306 1 .nil
    .nil) .nil))) (ndK 316 5 (ndK 313 4 (ndK 311 3 (ndK 310 2 (ndK 309 1 .nil .nil) .nil) (ndK 312 1 .nil
    .nil)) (ndK 315 2 (ndK 314 1 .nil .nil) .nil)) (ndK 319 3 (ndK 318 2 (ndK 317 1 .nil .nil) .nil) (ndK 320
    1 .nil .nil))))) (ndK 355 8 (ndK 342 7 (ndK 334 6 (ndK 329 5 (ndK 326 4 (ndK 324 3 (ndK 323 2 (ndK 322 1
    .nil .nil) .nil) (ndK 325 1 .nil .nil)) (ndK 328 2 (ndK 327 1 .nil .nil) .nil)) (ndK 332 3 (ndK 331 2 (ndK
    330 1 .nil .nil) .nil) (ndK 333 1 .nil .nil))) (ndK 339 4 (ndK 337 3 (ndK 336 2 (ndK 335 1 .nil .nil)
    .nil) (ndK 338 1 .nil .nil)) (ndK 341 2 (ndK 340 1 .nil .nil) .nil))) (ndK 350 5 (ndK 347 4 (ndK 345 3
    (ndK 344 2 (ndK 343 1 .nil .nil) .nil) (ndK 346 1 .nil .nil)) (ndK 349 2 (ndK 348 1 .nil .nil) .nil)) (ndK
    353 3 (ndK 352 2 (ndK 351 1 .nil .nil) .nil) (ndK 354 1 .nil .nil)))) (ndK 368 6 (ndK 363 5 (ndK 360 4
    (ndK 358 3 (ndK 357 2 (ndK 356 1 .nil .nil) .nil) (ndK 359 1 .nil .nil)) (ndK 362 2 (ndK 361 1 .nil .nil)
    .nil)) (ndK 366 3 (ndK 365 2 (ndK 364 1 .nil .nil) .nil) (ndK 367 1 .nil .nil))) (ndK 373 4 (ndK 371 3
    (ndK 370 2 (ndK 369 1 .nil .nil) .nil) (ndK 372 1 .nil .nil)) (ndK 375 2 (ndK 374 1 .nil .nil) .nil))))))
    (ndK 520 11 (ndK 465 10 (ndK 431 9 (ndK 410 8 (ndK 397 7 (ndK 389 6 (ndK 384 5 (ndK 381 4 (ndK 379 3 (ndK
    378 2 (ndK 377 1 .nil .nil) .nil) (ndK 380 1 .nil .nil)) (ndK 383 2 (ndK 382 1 .nil .nil) .nil)) (ndK 387
    3 (ndK 386 2 (ndK 385 1 .nil .nil) .nil) (ndK 388 1 .nil .nil))) (ndK 394 4 (ndK 392 3 (ndK 391 2 (ndK 390
    1 .nil .nil) .nil) (ndK 393 1 .nil .nil)) (ndK 396 2 (ndK 395 1 .nil .nil) .nil))) (ndK 405 5 (ndK 402 4
    (ndK 400 3 (ndK 399 2 (ndK 398 1 .nil .nil) .nil) (ndK 401 1 .nil .nil)) (ndK 404 2 (ndK 403 1 .nil .nil)
    .nil)) (ndK 408 3 (ndK 407 2 (ndK 406 1 .nil .nil) .nil) (ndK 409 1 .nil .nil)))) (ndK 423 6 (ndK 418 5
    (ndK 415 4 (ndK 413 3 (ndK 412 2 (ndK 411 1 .nil .nil) .nil) (ndK 414 1 .nil .nil)) (ndK 417 2 (ndK 416 1
    .nil .nil) .nil)) (ndK 421 3 (ndK 420 2 (ndK 419 1 .nil .nil) .nil) (ndK 422 1 .nil .nil))) (ndK 428 4
    (ndK 426 3 (ndK 425 2 (ndK 424 1 .nil .nil) .nil) (ndK 427 1 .nil .nil)) (ndK 430 2 (ndK 429 1 .nil .nil)
    .nil)))) (ndK 452 7 (ndK 444 6 (ndK 439 5 (ndK 436 4 (ndK 434 3 (ndK 433 2 (ndK 432 1 .nil .nil) .nil)
    (ndK 435 1 .nil .nil)) (ndK 438 2 (ndK 437 1 .nil .nil) .nil)) (ndK 442 3 (ndK 441 2 (ndK 440 1 .nil .nil)
    .nil) (ndK 443 1 .nil .nil))) (ndK 449 4 (ndK 447 3 (ndK 446 2 (ndK 445 1 .nil .nil) .nil) (ndK 448 1 .nil
    .nil)) (ndK 451 2 (ndK 450 1 .nil .nil) .nil))) (ndK 460 5 (ndK 457 4 (ndK 455 3 (ndK 454 2 (ndK 453 1
    .nil .nil) .nil) (ndK 456 1 .nil .nil)) (ndK 459 2 (ndK 458 1 .nil .nil) .nil)) (ndK 463 3 (ndK 462 2 (ndK
    461 1 .nil .nil) .nil) (ndK 464 1 .nil .nil))))) (ndK 499 8 (ndK 486 7 (ndK 478 6 (ndK 473 5 (ndK 470 4
    (ndK 468 3 (ndK 467 2 (ndK 466 1 .nil .nil) .nil) (ndK 469 1 .nil .nil)) (ndK 472 2 (ndK 471 1 .nil .nil)
    .nil)) (ndK 476 3 (ndK 475 2 (ndK 474 1 .nil .nil) .nil) (ndK 477 1 .nil .nil))) (ndK 483 4 (ndK 481 3
    (ndK 480 2 (ndK 479 1 .nil .nil) .nil) (ndK 482 1 .nil .nil)) (ndK 485 2 (ndK 484 1 .nil .nil) .nil)))
    (ndK 494 5 (ndK 491 4 (ndK 489 3 (ndK 488 2 (ndK 487 1 .nil .nil) .nil) (ndK 490 1 .nil .nil)) (ndK 493 2
    (ndK 492 1 .nil .nil) .nil)) (ndK 497 3 (ndK 496 2 (ndK 495 1 .nil .nil) .nil) (ndK 498 1 .nil .nil))))
    (ndK 512 6 (ndK 507 5 (ndK 504 4 (ndK 502 3 (ndK 501 2 (ndK 500 1 .nil .nil) .nil) (ndK 503 1 .nil .nil))
    (ndK 506 2 (ndK 505 1 .nil .nil) .nil)) (ndK 510 3 (ndK 509 2 (ndK 508 1 .nil .nil) .nil) (ndK 511 1 .nil
    .nil))) (ndK 517 4 (ndK 515 3 (ndK 514 2 (ndK 513 1 .nil .nil) .nil) (ndK 516 1 .nil .nil)) (ndK 519 2
    (ndK 518 1 .nil .nil) .nil))))) (ndK 575 9 (ndK 554 8 (ndK 541 7 (ndK 533 6 (ndK 528 5 (ndK 525 4 (ndK 523
    3 (ndK 522 2 (ndK 521 1 .nil .nil) .nil) (ndK 524 1 .nil .nil)) (ndK 527 2 (ndK 526 1 .nil .nil) .nil))
    (ndK 531 3 (ndK 530 2 (ndK 529 1 .nil .nil) .nil) (ndK 532 1 .nil .nil))) (ndK 538 4 (ndK 536 3 (ndK 535 2
    (ndK 534 1 .nil .nil) .nil) (ndK 537 1 .nil .nil)) (ndK 540 2 (ndK 539 1 .nil .nil) .nil))) (ndK 549 5
    (ndK 546 4 (ndK 544 3 (ndK 543 2 (ndK 542 1 .nil .nil) .nil) (ndK 545 1 .nil .nil)) (ndK 548 2 (ndK 547 1
    .nil .nil) .nil)) (ndK 552 3 (ndK 551 2 (ndK 550 1 .nil .nil) .nil) (ndK 553 1 .nil .nil)))) (ndK 567 6
    (ndK 562 5 (ndK 559 4 (ndK 557 3 (ndK 556 2 (ndK 555 1 .nil .nil) .nil) (ndK 558 1 .nil .nil)) (ndK 561 2
    (ndK 560 1 .nil .nil) .nil)) (ndK 565 3 (ndK 564 2 (ndK 563 1 .nil .nil) .nil) (ndK 566 1 .nil .nil)))
    (ndK 572 4 (ndK 570 3 (ndK 569 2 (ndK 568 1 .nil .nil) .nil) (ndK 571 1 .nil .nil)) (ndK 574 2 (ndK 573 1
    .nil .nil) .nil)))) (ndK 596 7 (ndK 588 6 (ndK 583 5 (ndK 580 4 (ndK 578 3 (ndK 577 2 (ndK 576 1 .nil
    .nil) .nil) (ndK 579 1 .nil .nil)) (ndK 582 2 (ndK 581 1 .nil .nil) .nil)) (ndK 586 3 (ndK 585 2 (ndK 584
    1 .nil .nil) .nil) (ndK 587 1 .nil .nil))) (ndK 593 4 (ndK 591 3 (ndK 590 2 (ndK 589 1 .nil .nil) .nil)
    (ndK 592 1 .nil .nil)) (ndK 595 2 (ndK 594 1 .nil .nil) .nil))) (ndK 604 5 (ndK 601 4 (ndK 599 3 (ndK 598
    2 (ndK 597 1 .nil .nil) .nil) (ndK 600 1 .nil .nil)) (ndK 603 2 (ndK 602 1 .nil .nil) .nil)) (ndK 607 3
    (ndK 606 2 (ndK 605 1 .nil .nil) .nil) (ndK 608 1 .nil .nil)))))))


/-- Inserting a concatenation is inserting the two parts in turn. -/
theorem insertAllFrom_append (l1 l2 : List (String × Course)) (t : AVLNode) :
    insertAllFrom t (l1 ++ l2) = (insertAllFrom t l1).bind fun u => insertAllFrom u l2 := by
  induction l1 generalizing t with
  | nil => simp [insertAllFrom]
  | cons p rest ih =>
    obtain ⟨k, v⟩ := p
    simp [insertAllFrom, Option.bind_assoc, ih]

/-- Advance an insertion run by an evaluated chunk of `n` operations. -/
theorem insertAllFrom_step (a n : Nat) (l : List (String × Course)) (t u : AVLNode)
    (h1 : insertAllFrom t ((l.drop a).take n) = some u) :
    insertAllFrom t (l.drop a) = insertAllFrom u (l.drop (a + n)) := by
  conv_lhs => rw [← List.take_append_drop n (l.drop a)]
  rw [insertAllFrom_append, h1, Option.some_bind, List.drop_drop]

set_option maxRecDepth 100000 in
/-- Kernel evaluation of inserts 1..15 of `ops609`. -/
theorem ops609_chunk1 : insertAllFrom AVLNode.nil ((ops609.drop 0).take 15) = some t609c1 :=
  rfl

set_option maxRecDepth 100000 in
/-- Kernel evaluation of inserts 16..30 of `ops609`. -/
theorem ops609_chunk2 : insertAllFrom t609c1 ((ops609.drop 15).take 15) = some t609c2 :=
  rfl

set_option maxRecDepth 100000 in
/-- Kernel evaluation of inserts 31..45 of `ops609`. -/
theorem ops609_chunk3 : insertAllFrom t609c2 ((ops609.drop 30).take 15) = some t609c3 :=
  rfl

set_option maxRecDepth 100000 in
/-- Kernel evaluation of inserts 46..60 of `ops609`. -/
theorem ops609_chunk4 : insertAllFrom t609c3 ((ops609.drop 45).take 15) = some t609c4 :=
  rfl

set_option maxRecDepth 100000 in
/-- Kernel evaluation of inserts 61..75 of `ops609`. -/
theorem ops609_chunk5 : insertAllFrom t609c4 ((ops609.drop 60).take 15) = some t609c5 :=
  rfl

set_option maxRecDepth 100000 in
/-- Kernel evaluation of inserts 76..90 of `ops609`. -/
theorem ops609_chunk6 : insertAllFrom t609c5 ((ops609.drop 75).take 15) = some t609c6 :=
  rfl

set_option maxRecDepth 100000 in
/-- Kernel evaluation of inserts 91..105 of `ops609`. -/
theorem ops609_chunk7 : insertAllFrom t609c6 ((ops609.drop 90).take 15) = some t609c7 :=
  rfl

set_option maxRecDepth 100000 in
/-- Kernel evaluation of inserts 106..120 of `ops609`. -/
theorem ops609_chunk8 : insertAllFrom t609c7 ((ops609.drop 105).take 15) = some t609c8 :=
  rfl

set_option maxRecDepth 100000 in
/-- Kernel evaluation of inserts 121..135 of `ops609`. -/
theorem ops609_chunk9 : insertAllFrom t609c8 ((ops609.drop 120).take 15) = some t609c9 :=
  rfl

set_option maxRecDepth 100000 in
/-- Kernel evaluation of inserts 136..150 of `ops609`. -/
theorem ops609_chunk10 : insertAllFrom t609c9 ((ops609.drop 135).take 15) = some t609c10 :=
  rfl

set_option maxRecDepth 100000 in
/-- Kernel evaluation of inserts 151..165 of `ops609`. -/
theorem ops609_chunk11 : insertAllFrom t609c10 ((ops609.drop 150).take 15) = some t609c11 :=
  rfl

set_option maxRecDepth 100000 in
/-- Kernel evaluation of inserts 166..180 of `ops609`. -/
theorem ops609_chunk12 : insertAllFrom t609c11 ((ops609.drop 165).take 15) = some t609c12 :=
  rfl

set_option maxRecDepth 100000 in
/-- Kernel evaluation of inserts 181..195 of `ops609`. -/
theorem ops609_chunk13 : insertAllFrom t609c12 ((ops609.drop 180).take 15) = some t609c13 :=
  rfl

set_option maxRecDepth 100000 in
/-- Kernel evaluation of inserts 196..210 of `ops609`. -/
theorem ops609_chunk14 : insertAllFrom t609c13 ((ops609.drop 195).take 15) = some t609c14 :=
  rfl

set_option maxRecDepth 100000 in
/-- Kernel evaluation of inserts 211..225 of `ops609`. -/
theorem ops609_chunk15 : insertAllFrom t609c14 ((ops609.drop 210).take 15) = some t609c15 :=
  rfl

set_option maxRecDepth 100000 in
/-- Kernel evaluation of inserts 226..240 of `ops609`. -/
theorem ops609_chunk16 : insertAllFrom t609c15 ((ops609.drop 225).take 15) = some t609c16 :=
  rfl

set_option maxRecDepth 100000 in
/-- Kernel evaluation of inserts 241..255 of `ops609`. -/
theorem ops609_chunk17 : insertAllFrom t609c16 ((ops609.drop 240).take 15) = some t609c17 :=
  rfl

set_option maxRecDepth 100000 in
/-- Kernel evaluation of inserts 256..270 of `ops609`. -/
theorem ops609_chunk18 : insertAllFrom t609c17 ((ops609.drop 255).take 15) = some t609c18 :=
  rfl

set_option maxRecDepth 100000 in
/-- Kernel evaluation of inserts 271..285 of `ops609`. -/
theorem ops609_chunk19 : insertAllFrom t609c18 ((ops609.drop 270).take 15) = some t609c19 :=
  rfl

set_option maxRecDepth 100000 in
/-- Kernel evaluation of inserts 286..300 of `ops609`. -/
theorem ops609_chunk20 : insertAllFrom t609c19 ((ops609.drop 285).take 15) = some t609c20 :=
  rfl

set_option maxRecDepth 100000 in
/-- Kernel evaluation of inserts 301..315 of `ops609`. -/
theorem ops609_chunk21 : insertAllFrom t609c20 ((ops609.drop 300).take 15) = some t609c21 :=
  rfl

set_option maxRecDepth 100000 in
/-- Kernel evaluation of inserts 316..330 of `ops609`. -/
theorem ops609_chunk22 : insertAllFrom t609c21 ((ops609.drop 315).take 15) = some t609c22 :=
  rfl

set_option maxRecDepth 100000 in
/-- Kernel evaluation of inserts 331..345 of `ops609`. -/
theorem ops609_chunk23 : insertAllFrom t609c22 ((ops609.drop 330).take 15) = some t609c23 :=
  rfl

set_option maxRecDepth 100000 in
/-- Kernel evaluation of inserts 346..360 of `ops609`. -/
theorem ops609_chunk24 : insertAllFrom t609c23 ((ops609.drop 345).take 15) = some t609c24 :=
  rfl

set_option maxRecDepth 100000 in
/-- Kernel evaluation of inserts 361..375 of `ops609`. -/
theorem ops609_chunk25 : insertAllFrom t609c24 ((ops609.drop 360).take 15) = some t609c25 :=
  rfl

set_option maxRecDepth 100000 in
/-- Kernel evaluation of inserts 376..390 of `ops609`. -/
theorem ops609_chunk26 : insertAllFrom t609c25 ((ops609.drop 375).take 15) = some t609c26 :=
  rfl

set_option maxRecDepth 100000 in
/-- Kernel evaluation of inserts 391..405 of `ops609`. -/
theorem ops609_chunk27 : insertAllFrom t609c26 ((ops609.drop 390).take 15) = some t609c27 :=
  rfl

set_option maxRecDepth 100000 in
/-- Kernel evaluation of inserts 406..420 of `ops609`. -/
theorem ops609_chunk28 : insertAllFrom t609c27 ((ops609.drop 405).take 15) = some t609c28 :=
  rfl

set_option maxRecDepth 100000 in
/-- Kernel evaluation of inserts 421..435 of `ops609`. -/
theorem ops609_chunk29 : insertAllFrom t609c28 ((ops609.drop 420).take 15) = some t609c29 :=
  rfl

set_option maxRecDepth 100000 in
/-- Kernel evaluation of inserts 436..450 of `ops609`. -/
theorem ops609_chunk30 : insertAllFrom t609c29 ((ops609.drop 435).take 15) = some t609c30 :=
  rfl

set_option maxRecDepth 100000 in
/-- Kernel evaluation of inserts 451..465 of `ops609`. -/
theorem ops609_chunk31 : insertAllFrom t609c30 ((ops609.drop 450).take 15) = some t609c31 :=
  rfl

set_option maxRecDepth 100000 in
/-- Kernel evaluation of inserts 466..480 of `ops609`. -/
theorem ops609_chunk32 : insertAllFrom t609c31 ((ops609.drop 465).take 15) = some t609c32 :=
  rfl

set_option maxRecDepth 100000 in
/-- Kernel evaluation of inserts 481..495 of `ops609`. -/
theorem ops609_chunk33 : insertAllFrom t609c32 ((ops609.drop 480).take 15) = some t609c33 :=
  rfl

set_option maxRecDepth 100000 in
/-- Kernel evaluation of inserts 496..510 of `ops609`. -/
theorem ops609_chunk34 : insertAllFrom t609c33 ((ops609.drop 495).take 15) = some t609c34 :=
  rfl

set_option maxRecDepth 100000 in
/-- Kernel evaluation of inserts 511..525 of `ops609`. -/
theorem ops609_chunk35 : insertAllFrom t609c34 ((ops609.drop 510).take 15) = some t609c35 :=
  rfl

set_option maxRecDepth 100000 in
/-- Kernel evaluation of inserts 526..540 of `ops609`. -/
theorem ops609_chunk36 : insertAllFrom t609c35 ((ops609.drop 525).take 15) = some t609c36 :=
  rfl

set_option maxRecDepth 100000 in
/-- Kernel evaluation of inserts 541..555 of `ops609`. -/
theorem ops609_chunk37 : insertAllFrom t609c36 ((ops609.drop 540).take 15) = some t609c37 :=
  rfl

set_option maxRecDepth 100000 in
/-- Kernel evaluation of inserts 556..570 of `ops609`. -/
theorem ops609_chunk38 : insertAllFrom t609c37 ((ops609.drop 555).take 15) = some t609c38 :=
  rfl

set_option maxRecDepth 100000 in
/-- Kernel evaluation of inserts 571..585 of `ops609`. -/
theorem ops609_chunk39 : insertAllFrom t609c38 ((ops609.drop 570).take 15) = some t609c39 :=
  rfl

set_option maxRecDepth 100000 in
/-- Kernel evaluation of inserts 586..600 of `ops609`. -/
theorem ops609_chunk40 : insertAllFrom t609c39 ((ops609.drop 585).take 15) = some t609c40 :=
  rfl

set_option maxRecDepth 100000 in
/-- Kernel evaluation of inserts 601..609 of `ops609`. -/
theorem ops609_chunk41 : insertAllFrom t609c40 (ops609.drop 600) = some t609 :=
  rfl

set_option maxRecDepth 100000 in
/-- Inserting the 609 keys of `ops609` produces a tree of size 609 and
height 13 (kernel-evaluated in 41 recorded chunks). -/
theorem insertAll_ops609_eval :
    (insertAll ops609).map (fun t => (size t, nodeHeight t)) = some (609, 13) := by
  have e1 := insertAllFrom_step 0 15 ops609 AVLNode.nil t609c1 ops609_chunk1
  have e2 := insertAllFrom_step 15 15 ops609 t609c1 t609c2 ops609_chunk2
  have e3 := insertAllFrom_step 30 15 ops609 t609c2 t609c3 ops609_chunk3
  have e4 := insertAllFrom_step 45 15 ops609 t609c3 t609c4 ops609_chunk4
  have e5 := insertAllFrom_step 60 15 ops609 t609c4 t609c5 ops609_chunk5
  have e6 := insertAllFrom_step 75 15 ops609 t609c5 t609c6 ops609_chunk6
  have e7 := insertAllFrom_step 90 15 ops609 t609c6 t609c7 ops609_chunk7
  have e8 := insertAllFrom_step 105 15 ops609 t609c7 t609c8 ops609_chunk8
  have e9 := insertAllFrom_step 120 15 ops609 t609c8 t609c9 ops609_chunk9
  have e10 := insertAllFrom_step 135 15 ops609 t609c9 t609c10 ops609_chunk10
  have e11 := insertAllFrom_step 150 15 ops609 t609c10 t609c11 ops609_chunk11
  have e12 := insertAllFrom_step 165 15 ops609 t609c11 t609c12 ops609_chunk12
  have e13 := insertAllFrom_step 180 15 ops609 t609c12 t609c13 ops609_chunk13
  have e14 := insertAllFrom_step 195 15 ops609 t609c13 t609c14 ops609_chunk14
  have e15 := insertAllFrom_step 210 15 ops609 t609c14 t609c15 ops609_chunk15
  have e16 := insertAllFrom_step 225 15 ops609 t609c15 t609c16 ops609_chunk16
  have e17 := insertAllFrom_step 240 15 ops609 t609c16 t609c17 ops609_chunk17
  have e18 := insertAllFrom_step 255 15 ops609 t609c17 t609c18 ops609_chunk18
  have e19 := insertAllFrom_step 270 15 ops609 t609c18 t609c19 ops609_chunk19
  have e20 := insertAllFrom_step 285 15 ops609 t609c19 t609c20 ops609_chunk20
  have e21 := insertAllFrom_step 300 15 ops609 t609c20 t609c21 ops609_chunk21
  have e22 := insertAllFrom_step 315 15 ops609 t609c21 t609c22 ops609_chunk22
  have e23 := insertAllFrom_step 330 15 ops609 t609c22 t609c23 ops609_chunk23
  have e24 := insertAllFrom_step 345 15 ops609 t609c23 t609c24 ops609_chunk24
  have e25 := insertAllFrom_step 360 15 ops609 t609c24 t609c25 ops609_chunk25
  have e26 := insertAllFrom_step 375 15 ops609 t609c25 t609c26 ops609_chunk26
  have e27 := insertAllFrom_step 390 15 ops609 t609c26 t609c27 ops609_chunk27
  have e28 := insertAllFrom_step 405 15 ops609 t609c27 t609c28 ops609_chunk28
  have e29 := insertAllFrom_step 420 15 ops609 t609c28 t609c29 ops609_chunk29
  have e30 := insertAllFrom_step 435 15 ops609 t609c29 t609c30 ops609_chunk30
  have e31 := insertAllFrom_step 450 15 ops609 t609c30 t609c31 ops609_chunk31
  have e32 := insertAllFrom_step 465 15 ops609 t609c31 t609c32 ops609_chunk32
  have e33 := insertAllFrom_step 480 15 ops609 t609c32 t609c33 ops609_chunk33
  have e34 := insertAllFrom_step 495 15 ops609 t609c33 t609c34 ops609_chunk34
  have e35 := insertAllFrom_step 510 15 ops609 t609c34 t609c35 ops609_chunk35
  have e36 := insertAllFrom_step 525 15 ops609 t609c35 t609c36 ops609_chunk36
  have e37 := insertAllFrom_step 540 15 ops609 t609c36 t609c37 ops609_chunk37
  have e38 := insertAllFrom_step 555 15 ops609 t609c37 t609c38 ops609_chunk38
  have e39 := insertAllFrom_step 570 15 ops609 t609c38 t609c39 ops609_chunk39
  have e40 := insertAllFrom_step 585 15 ops609 t609c39 t609c40 ops609_chunk40
  have e0 : insertAll ops609 = insertAllFrom AVLNode.nil (ops609.drop 0) := rfl
  norm_num at e0 e1 e2 e3 e4 e5 e6 e7 e8 e9 e10 e11 e12 e13 e14 e15 e16 e17 e18 e19 e20 e21 e22 e23 e24 e25 e26 e27 e28 e29 e30 e31 e32 e33 e34 e35 e36 e37 e38 e39 e40
  rw [e0, e1, e2, e3, e4, e5, e6, e7, e8, e9, e10, e11, e12, e13, e14, e15, e16, e17, e18, e19, e20, e21, e22, e23, e24, e25, e26, e27, e28, e29, e30, e31, e32, e33, e34, e35, e36, e37, e38, e39, e40, ops609_chunk41]
  decide

set_option maxRecDepth 100000 in
/-- C6 counterexample: the claimed bound `1.44 * log2 (N+2) - 0.328`
rounds the theoretical coefficient `1.44042...` down; at `N = 609` the
Fibonacci tree of height 13 is reachable by inserting 609 distinct keys in
breadth-first order, and `1.44 * log2 611 - 0.328 = 12.99924... < 13`
(certified by `611 ^ 90 < 2 ^ 833`).  So the claim, as stated, is false. -/
theorem c6_height_bound_counterexample :
    (ops609.map Prod.fst).Nodup ∧ ops609.length = 609 ∧
      ∃ t, insertAll ops609 = some t ∧ size t = 609 ∧ nodeHeight t = 13 ∧
        ¬ ((nodeHeight t : ℝ) ≤ 1.44 * Real.logb 2 ((ops609.length : ℝ) + 2) - 0.328) := by
  have hcomp := insertAll_ops609_eval
  have hlenops : ops609.length = 609 := by decide
  obtain ⟨t, hall, ⟨hb, hOk, hBal⟩, hent⟩ := insertAll_inv ops609
  rw [hall] at hcomp
  simp only [Option.map_some', Option.some.injEq, Prod.mk.injEq] at hcomp
  obtain ⟨hsize, hheight⟩ := hcomp
  have hkeysnodup : (keyList t).Nodup :=
    List.Pairwise.imp ne_of_lt ((bst_iff_pairwise t).mp hb)
  have hsub : keyList t ⊆ ops609.map Prod.fst := by
    intro x hx
    have hx2 : x ∈ (entryList t).map Prod.fst := hx
    rw [hent, mem_keys_insertEntries] at hx2
    simpa using hx2
  have hlenkeys : (keyList t).length = 609 := by
    rw [keyList, List.length_map, entryList_length, hsize]
  have hperm : List.Perm (keyList t) (ops609.map Prod.fst) :=
    (List.subperm_of_subset hkeysnodup hsub).perm_of_length_le
      (by rw [List.length_map, hlenops, hlenkeys])
  have hnodup : (ops609.map Prod.fst).Nodup := hperm.nodup_iff.mp hkeysnodup
  refine ⟨hnodup, hlenops, t, hall, hsize, hheight, ?_⟩
  rw [hheight, hlenops]
  intro hle
  have h611 : ((609 : ℕ) : ℝ) + 2 = 611 := by norm_num
  rw [h611] at hle
  have hnat : (611 : ℕ) ^ 90 < 2 ^ 833 := by decide
  have hreal : ((611 : ℝ)) ^ 90 < 2 ^ 833 := by exact_mod_cast hnat
  have hlog := Real.log_lt_log (by positivity) hreal
  rw [Real.log_pow, Real.log_pow] at hlog
  push_cast at hlog
  have hlog2 : 0 < Real.log 2 := Real.log_pos (by norm_num)
  rw [show Real.logb 2 (611 : ℝ) = Real.log 611 / Real.log 2 from rfl] at hle
  have h13 : ((13 : ℕ) : ℝ) = 13 := by norm_num
  rw [h13] at hle
  have hle2 : (13.328 : ℝ) * Real.log 2 ≤ 1.44 * Real.log 611 := by
    rw [show (1.44 : ℝ) * (Real.log 611 / Real.log 2)
        = (1.44 * Real.log 611) / Real.log 2 from by ring] at hle
    have := (le_div_iff hlog2).mp (by linarith : (13.328 : ℝ) ≤ (1.44 * Real.log 611) / Real.log 2)
    linarith
  linarith

/-- C6 (amended): the claimed constants `1.44` and `-0.328` are corrected
to `1.4405` and `-0.327` (enclosing the theoretical AVL bound
`1.44042 * log2 (N+2) - 0.3277`): inserting any sequence of distinct keys
yields a tree whose height is at most `1.4405 * log2 (N+2) - 0.327`, hence
`O(log N)`. -/
theorem c6_height_bound_amended (ops : List (String × Course))
    (hnodup : (ops.map Prod.fst).Nodup) (t : AVLNode)
    (hall : insertAll ops = some t) :
    (nodeHeight t : ℝ) ≤ 1.4405 * Real.logb 2 ((ops.length : ℝ) + 2) - 0.327 := by
  obtain ⟨t0, hall0, ⟨hb, hOk, hBal⟩, hent⟩ := insertAll_inv ops
  rw [hall0] at hall
  injection hall with hall
  rw [← hall]
  have hkeysnodup : (keyList t0).Nodup :=
    List.Pairwise.imp ne_of_lt ((bst_iff_pairwise t0).mp hb)
  have hmemiff : ∀ x, x ∈ keyList t0 ↔ x ∈ ops.map Prod.fst := by
    intro x
    show x ∈ (entryList t0).map Prod.fst ↔ _
    rw [hent, mem_keys_insertEntries]
    simp
  have hperm : List.Perm (keyList t0) (ops.map Prod.fst) :=
    (List.perm_ext_iff_of_nodup hkeysnodup hnodup).mpr hmemiff
  have hlen : size t0 = ops.length := by
    have h1 := hperm.length_eq
    rw [List.length_map] at h1
    rw [← entryList_length t0, ← List.length_map (entryList t0) Prod.fst]
    exact h1
  have hfib := fib_height_le_size t0 hOk hBal
  rw [hlen] at hfib
  exact fib_height_bound_real hfib

theorem c6_height_bound_amended_witness :
    ((([("A", courseA)] : List (String × Course)).map Prod.fst).Nodup) ∧
      insertAll [("A", courseA)] = some (.node "A" courseA 1 .nil .nil) ∧
      ((nodeHeight (AVLNode.node "A" courseA 1 .nil .nil) : ℝ)
        ≤ 1.4405 * Real.logb 2 ((([("A", courseA)] : List (String × Course)).length : ℝ) + 2)
          - 0.327) :=
  ⟨by decide, by decide,
    c6_height_bound_amended [("A", courseA)] (by decide)
      (.node "A" courseA 1 .nil .nil) (by decide)⟩

end Advising
